import Mathlib

set_option maxRecDepth 10000
set_option maxHeartbeats 1000000
set_option linter.unreachableTactic false
set_option linter.unusedTactic false
set_option linter.unusedVariables false

/-!
Shallow embedding of the Racoon HTML parser (tokenizer + tree builder) and of
the XPath axis-step evaluator, together with proofs settling the frozen claims
C1-C10 about the natural-language specification of the repository.

The embedding mirrors the Rust sources under `src/`:
  - `src/html/grammar/mod.rs` (tree-builder state and helper algorithms),
  - `src/html/grammar/insertion_mode_impls/mod.rs` and
    `src/html/grammar/insertion_mode_impls/in_body_insertion_mode.rs`
    (the insertion modes),
  - `src/html/grammar/tokenizer/mod.rs` and
    `src/html/grammar/tokenizer/state_impls.rs` (the tokenizer),
  - `src/xpath/grammar/expressions/path_expressions/steps/axis_step.rs`
    (the XPath axis step).

Rust `Result<_, HtmlParseError>` becomes `Except Halt _`; a `todo!()` in the
source becomes the `Halt.panicked` outcome; loops whose termination is not
structural take an explicit fuel argument and exhausting it yields
`Halt.noFuel`.  Tokenizer states that exist in the source but are outside the
fragment exercised by the claims map to `Halt.notModelled` (no theorem below
depends on them).  A few auxiliary modules of the repository are not included
under `src/` (`vecpointer.rs`, `tokenizer/named_character_references.rs`,
`chars.rs`, the xpath `data_model.rs`); the corresponding definitions are
modelled from the specification and carry a `Modelled from the spec:` note.
-/

namespace Racoon

/-- Insertion modes, from `InsertionMode` in `src/html/grammar/mod.rs`. -/
inductive InsertionMode
  | Initial
  | BeforeHtml
  | BeforeHead
  | InHead
  | InHeadNoscript
  | AfterHead
  | InBody
  | Text
  | InTable
  | InTableText
  | InCaption
  | InColumnGroup
  | InTableBody
  | InRow
  | InCell
  | InSelect
  | InSelectInTable
  | InTemplate
  | AfterBody
  | InFrameset
  | AfterFrameset
  | AfterAfterBody
  | AfterAfterFrameset
  deriving Repr, DecidableEq

/-- Tree-builder parse-error categories, from `HtmlParseErrorType` in
`src/html/grammar/mod.rs`. -/
inductive HtmlParseErrorType
  | AbruptClosingOfEmptyComment
  | AbruptDoctypePublicIdentifier
  | AbruptDoctypeSystemIdentifier
  | AbsenceOfDigitsInNumericCharacterReference
  | CdataInHtmlContent
  | CharacterReferenceOutsideUnicodeRange
  | ControlCharacterInInputStream
  | ControlCharacterReference
  | DuplicateAttribute
  | EndTagWithAttributes
  | EndTagWithTrailingSolidus
  | EofBeforeTagName
  | EofInCdata
  | EofInComment
  | EofInDoctype
  | EofInScriptHtmlCommentLikeText
  | EofInTag
  | IncorrectlyClosedComment
  | IncorrectlyOpenedComment
  | InvalidCharacterSequenceAfterDoctypeName
  | InvalidFirstCharacterOfTagName
  | MissingAttributeValue
  | MissingDoctypeName
  | MissingDoctypePublicIdentifier
  | MissingDoctypeSystemIdentifier
  | MissingEndTagName
  | MissingQuoteBeforeDoctypePublicIdentifier
  | MissingQuoteBeforeDoctypeSystemIdentifier
  | MissingSemicolonAfterCharacterReference
  | MissingWhitespaceAfterDoctypePublicKeyword
  | MissingWhitespaceAfterDoctypeSystemKeyword
  | MissingWhitespaceBeforeDoctypeName
  | MissingWhitespaceBetweenAttributes
  | MissingWhitespaceBetweenDoctypePublicAndSystemIdentifiers
  | NestedComment
  | NoncharacterCharacterReference
  | NoncharacterInInputStream
  | NonVoidHtmlElementStartTagWithTrailingSolidus
  | NullCharacterReference
  | SurrogateCharacterReference
  | SurrogateInInputStream
  | UnexpectedCharacterAfterDoctypeSystemIdentifier
  | UnexpectedCharacterInAttributeName
  | UnexpectedCharacterInUnquotedAttributeValue
  | UnexpectedEqualsSignBeforeAttributeName
  | UnexpectedNullCharacter
  | UnexpectedQuestionMarkInsteadOfTagName
  | UnexpectedSolidusInTag
  | UnknownNamedCharacterReference
  deriving Repr, DecidableEq

/-- Tokenizer parse-error categories, from `TokenizerError` in
`src/html/grammar/tokenizer/mod.rs`. -/
inductive TokenizerError
  | UnexpectedNullCharacter
  | UnexpectedQuestionMarkInsteadOfTagName
  | InvalidFirstCharacterOfTagName
  | EofBeforeTagName
  | EofInTag
  | MissingEndTagName
  | MissingSemicolonAfterCharacterReference
  | UnknownNamedCharacterReference
  | AbsenceOfDigitsInNumericCharacterReference
  | NullCharacterReference
  | CharacterReferenceOutsideUnicodeRange
  | SurrogateCharacterReference
  | NoncharacterCharacterReference
  | ControlCharacterReference
  | UnexpectedEqualsSignBeforeAttributeName
  | UnexpectedCharacterInAttributeName
  | MissingAttributeValue
  | UnexpectedCharacterInUnquotedAttributeValue
  | MissingWhitespaceBetweenAttributes
  | UnexpectedSolidusInTag
  | CdataInHtmlContent
  | IncorrectlyOpenedComment
  | EofInDoctype
  | MissingWhitespaceBeforeDoctypeName
  | MissingDoctypeName
  | InvalidCharacterSequenceAfterDoctypeName
  | AbruptClosingOfEmptyComment
  | EofInComment
  | NestedComment
  | IncorrectlyClosedComment
  | EofInScriptHtmlCommentLikeText
  deriving Repr, DecidableEq

/-- How a run of the embedded parser can halt without producing a value:
a fatal `HtmlParseError` (carrying the tokenizer or tree-builder error
category when one exists, or a plain message), a Rust `todo!()` panic,
a state outside the modelled tokenizer fragment, or fuel exhaustion
(standing for non-termination of a source loop). -/
inductive Halt
  | fatalTok (e : TokenizerError)
  | fatalTree (e : HtmlParseErrorType)
  | fatalMsg (s : String)
  | panicked
  | notModelled
  | noFuel
  deriving Repr, DecidableEq

/-- Result monad of the embedding, mirroring `Result<_, HtmlParseError>`
plus the panic/fuel outcomes. -/
abbrev PR (α : Type) : Type := Except Halt α

/-- `HtmlParserError` from `src/html/grammar/mod.rs`: minor (recoverable)
or fatal tree-builder errors. -/
inductive HtmlParserError
  | MinorError (s : String)
  | FatalError (s : String)
  deriving Repr, DecidableEq

/-- A tag attribute, from `Attribute` in `src/html/grammar/tokenizer/mod.rs`. -/
structure Attribute where
  name : String
  value : String
  deriving Repr, DecidableEq

/-- A start- or end-tag token, from `TagToken` in
`src/html/grammar/tokenizer/mod.rs`. -/
structure TagToken where
  tag_name : String
  self_closing : Bool := false
  attributes : List Attribute := []
  deriving Repr, DecidableEq

/-- `TagToken::new`: named tag with no attributes, not self-closing. -/
def TagToken.new (n : String) : TagToken := { tag_name := n }

/-- `TagTokenType` from the tokenizer module. -/
inductive TagTokenType
  | StartTag (t : TagToken)
  | EndTag (t : TagToken)
  deriving Repr, DecidableEq

def TagTokenType.tag_name : TagTokenType → String
  | .StartTag t => t.tag_name
  | .EndTag t => t.tag_name

def TagTokenType.self_closing : TagTokenType → Bool
  | .StartTag t => t.self_closing
  | .EndTag t => t.self_closing

/-- `DoctypeToken` (name and force-quirks flag). -/
structure DoctypeToken where
  name : String
  force_quirks : Bool := false
  deriving Repr, DecidableEq

/-- `HtmlToken` from the tokenizer module. -/
inductive HtmlToken
  | DocType (d : DoctypeToken)
  | TagTok (t : TagTokenType)
  | Comment (data : String)
  | Character (c : Char)
  | EndOfFile
  deriving Repr, DecidableEq

/-- Node payloads of the document arena.  `Modelled from the spec:` the
`data_model.rs` module defining `ElementNode`, `TextNode`, `AttributeNode`,
`CommentNode` and `XpathDocumentNode` is not under `src/`; the node kinds and
their essential attributes follow the data-model table of spec section 3
(the element id stored by `set_id` is implicit: a node is identified by its
arena index). -/
inductive NodeData
  | document
  | element (name : String) (ns : Option String)
  | attributeNode (name value : String)
  | text (content : String)
  | comment (data : String)
  deriving Repr, DecidableEq

def NodeData.isText : NodeData → Bool
  | .text _ => true
  | _ => false

def NodeData.elementName? : NodeData → Option String
  | .element n _ => some n
  | _ => none

/-- One slot of the arena: the node payload and its ordered child list.
Parent/child links are stored out-of-band as in the `indextree` arena used by
the source; `append` attaches a node as the last child. -/
structure ArenaNode where
  data : NodeData
  children : List Nat
  deriving Repr, DecidableEq

/-- The document arena.  A `NodeId` is the index of a slot; slots are only
ever appended, so ids are stable and never reused. -/
structure Arena where
  nodes : List ArenaNode
  deriving Repr, DecidableEq

def Arena.empty : Arena := ⟨[]⟩

def Arena.get? (a : Arena) (id : Nat) : Option ArenaNode := a.nodes.get? id

def Arena.dataOf? (a : Arena) (id : Nat) : Option NodeData :=
  (a.get? id).map (·.data)

/-- `Arena::new_node`: allocate a fresh node with no children; its id is the
previous arena size. -/
def Arena.new_node (a : Arena) (d : NodeData) : Arena × Nat :=
  (⟨a.nodes ++ [⟨d, []⟩]⟩, a.nodes.length)

/-- `NodeId::append(child, arena)`: attach `child` as the last child of
`parent`. -/
def Arena.append_child (a : Arena) (parent child : Nat) : Arena :=
  match a.nodes.get? parent with
  | some n => ⟨a.nodes.set parent { n with children := n.children ++ [child] }⟩
  | none => a

/-- `Node::last_child`. -/
def Arena.last_child (a : Arena) (id : Nat) : Option Nat :=
  (a.get? id).bind (fun n => n.children.getLast?)

/-- `text.content.extend(data)`: append characters to a text node's buffer
(no-op on non-text nodes, mirroring the guarded call site). -/
def Arena.extend_text (a : Arena) (id : Nat) (data : List Char) : Arena :=
  match a.nodes.get? id with
  | some n =>
    match n.data with
    | .text s => ⟨a.nodes.set id { n with data := .text (s ++ String.mk data) }⟩
    | _ => a
  | none => a

/-- `isText` of the node at an id (false when the id is unallocated). -/
def Arena.isTextId (a : Arena) (id : Nat) : Bool :=
  match a.dataOf? id with
  | some d => d.isText
  | none => false

/-- Attribute-node children of a node in order, as in
`ElementNode::attributes_arena`. -/
def Arena.attributesOf (a : Arena) (id : Nat) : List (String × String) :=
  match a.get? id with
  | some n =>
    n.children.filterMap (fun c =>
      match a.dataOf? c with
      | some (.attributeNode nm v) => some (nm, v)
      | _ => none)
  | none => []

/-- `ELEMENT_IN_SCOPE_TYPES` from `src/html/grammar/mod.rs`. -/
def ELEMENT_IN_SCOPE_TYPES : List String :=
  ["applet", "caption", "html", "table", "td", "th", "marquee", "object", "template"]

/-- `GENERATE_IMPLIED_END_TAG_TYPES` from `src/html/grammar/mod.rs`. -/
def GENERATE_IMPLIED_END_TAG_TYPES : List String :=
  ["dd", "dt", "li", "optgroup", "option", "p", "rb", "rp", "rt", "rtc"]

/-- `SPECIAL_ELEMENTS` from `src/html/grammar/mod.rs` (83 entries). -/
def SPECIAL_ELEMENTS : List String :=
  ["address", "applet", "area", "article", "aside", "base", "basefont", "bgsound",
   "blockquote", "body", "br", "button", "caption", "center", "col", "colgroup",
   "dd", "details", "dir", "div", "dl", "dt", "embed", "fieldset", "figcaption",
   "figure", "footer", "form", "frame", "frameset", "h1", "h2", "h3", "h4", "h5",
   "h6", "head", "header", "hgroup", "hr", "html", "iframe", "img", "input",
   "keygen", "li", "link", "listing", "main", "marquee", "menu", "meta", "nav",
   "noembed", "noframes", "noscript", "object", "ol", "p", "param", "plaintext",
   "pre", "script", "search", "section", "select", "source", "style", "summary",
   "table", "tbody", "td", "template", "textarea", "tfoot", "th", "thead",
   "title", "tr", "track", "ul", "wbr", "xmp"]

/-- `HTML_NAMESPACE`. -/
def HTML_NAMESPACE : String := "http://www.w3.org/1999/xhtml"

/-- `SVG_NAMESPACE`. -/
def SVG_NAMESPACE : String := "http://www.w3.org/2000/svg"

/-- `Modelled from the spec:` the `chars.rs` module is not under `src/`;
ASCII whitespace per spec section 6 is tab, LF, FF, CR, SP and the
replacement character is U+FFFD. -/
def chars.NULL : Char := '\u0000'
def chars.CHARACTER_TABULATION : Char := '\u0009'
def chars.LINE_FEED : Char := '\u000A'
def chars.FORM_FEED : Char := '\u000C'
def chars.CARRIAGE_RETURN : Char := '\u000D'
def chars.SPACE : Char := ' '
def chars.FEED_REPLACEMENT_CHARACTER : Char := '�'

/-- The five-character whitespace guard used verbatim by the insertion modes. -/
def isTreeWhitespace (c : Char) : Bool :=
  c = chars.CHARACTER_TABULATION ∨ c = chars.LINE_FEED ∨ c = chars.FORM_FEED ∨
    c = chars.CARRIAGE_RETURN ∨ c = chars.SPACE

/-- An entry of the list of active formatting elements, from `NodeOrMarker`
in `src/html/grammar/mod.rs`. -/
inductive NodeOrMarker
  | Node (node_id : Nat) (token : TagToken)
  | Marker
  deriving Repr, DecidableEq

/-- The tree-builder state, from `HtmlParser` in `src/html/grammar/mod.rs`.
The pluggable handlers are fixed to the defaults exactly as `HtmlParser::new`
and `HtmlParser::parse` fix them.  `minorLog` records the messages of minor
(recoverable) errors, which the source only prints with `dbg!`. -/
structure ParserState where
  insertion_mode : InsertionMode
  template_insertion_modes : List InsertionMode
  original_insertion_mode : Option InsertionMode
  open_elements : List Nat
  context_element : Option Nat
  arena : Arena
  root_node : Option Nat
  foster_parenting : Bool
  frameset_ok : Bool
  active_formatting_elements : List NodeOrMarker
  head_element_pointer : Option Nat
  form_element_pointer : Option Nat
  minorLog : List String
  deriving Repr, DecidableEq

instance : Inhabited ParserState :=
  ⟨{ insertion_mode := .Initial, template_insertion_modes := [],
     original_insertion_mode := none, open_elements := [], context_element := none,
     arena := Arena.empty, root_node := none, foster_parenting := false,
     frameset_ok := true, active_formatting_elements := [],
     head_element_pointer := none, form_element_pointer := none, minorLog := [] }⟩

/-- `HtmlParser::new` followed by the document-node allocation at the start of
`HtmlParser::parse`. -/
def ParserState.initial : ParserState :=
  let (arena, docId) := Arena.empty.new_node .document
  { insertion_mode := .Initial, template_insertion_modes := [],
    original_insertion_mode := none, open_elements := [], context_element := none,
    arena := arena, root_node := some docId, foster_parenting := false,
    frameset_ok := true, active_formatting_elements := [],
    head_element_pointer := none, form_element_pointer := none, minorLog := [] }

/-- `HtmlParser::handle_error`: minor errors are recoverable (the source only
prints them; the embedding logs them), fatal errors abort. -/
def ParserState.handle_error (s : ParserState) (e : HtmlParserError) : PR ParserState :=
  match e with
  | .MinorError m => .ok { s with minorLog := s.minorLog ++ [m] }
  | .FatalError m => .error (.fatalMsg m)

/-- `HtmlParser::current_node_id`. -/
def ParserState.current_node_id? (s : ParserState) : Option Nat :=
  s.open_elements.getLast?

/-- `HtmlParser::current_node` (the payload of the top of the stack of open
elements). -/
def ParserState.current_node? (s : ParserState) : Option NodeData :=
  s.current_node_id?.bind (fun id => s.arena.dataOf? id)

/-- `HtmlParser::current_node_id_result`. -/
def ParserState.current_node_id_result (s : ParserState) : PR Nat :=
  match s.current_node_id? with
  | some id => .ok id
  | none => .error (.fatalMsg "no current node")

/-- `HtmlParser::current_node_as_element`, keeping the node id so that the
identity comparisons of the source (node handles compare by identity) can be
expressed. -/
def ParserState.current_element? (s : ParserState) : Option (Nat × String) :=
  match s.current_node_id? with
  | some id =>
    match s.arena.dataOf? id with
    | some (.element n _) => some (id, n)
    | _ => none
  | none => none

/-- `HtmlParser::current_node_as_element_result`. -/
def ParserState.current_element_result (s : ParserState) : PR (Nat × String) :=
  match s.current_element? with
  | some e => .ok e
  | none => .error (.fatalMsg "current node is not an element")

/-- `HtmlParser::current_template_insertion_mode`. -/
def ParserState.current_template_insertion_mode (s : ParserState) : Option InsertionMode :=
  s.template_insertion_modes.getLast?

/-- `HtmlParser::top_node` (bottom of the stack of open elements). -/
def ParserState.top_node_id? (s : ParserState) : Option Nat :=
  s.open_elements.head?

/-- `HtmlParser::new_node` (the `set_id` of the source is implicit: a node is
identified by its arena index). -/
def ParserState.new_node (s : ParserState) (d : NodeData) : ParserState × Nat :=
  let (a, id) := s.arena.new_node d
  ({ s with arena := a }, id)

/-- `HtmlParser::open_elements_has_element`. -/
def ParserState.open_elements_has_element (s : ParserState) (tag_name : String) : Bool :=
  s.open_elements.any (fun id =>
    match s.arena.dataOf? id with
    | some (.element n _) => n = tag_name
    | _ => false)

/-- `HtmlParser::add_attribute_to_element`. -/
def ParserState.add_attribute_to_element (s : ParserState) (element_id : Nat)
    (name value : String) : ParserState :=
  let (a, item_id) := s.arena.new_node (.attributeNode name value)
  { s with arena := a.append_child element_id item_id }

/-- `HtmlParser::appropriate_place_for_inserting_a_node`.  The foster-parenting
branch of the source ends in `todo!()`. -/
def ParserState.appropriate_place_for_inserting_a_node (s : ParserState)
    (override_target : Option Nat) : PR Nat := do
  let target ←
    match override_target with
    | some t => pure t
    | none =>
      match s.open_elements.getLast? with
      | some t => pure t
      | none => Except.error (.fatalMsg "no current node to insert a node into")
  if s.foster_parenting then
    Except.error .panicked
  else
    pure target

/-- `HtmlParser::create_element` (the namespace parameter is unused in the
source: `ElementNode::new(local_name)` with a `TODO: namespace?`). -/
def create_element (local_name : String) (_ns : String) : NodeData :=
  .element local_name none

/-- `HtmlParser::create_an_element_for_the_token`: the element payload and
the token's attributes in order. -/
def create_an_element_for_the_token (token : TagToken) (ns : String) :
    NodeData × List Attribute :=
  (create_element token.tag_name ns, token.attributes)

/-- `HtmlParser::insert_create_an_element_for_the_token_result`: allocate the
element, attach its attribute nodes, and push it onto the stack of open
elements. -/
def ParserState.insert_create_an_element_for_the_token_result (s : ParserState)
    (d : NodeData) (attrs : List Attribute) : ParserState × Nat :=
  let (s₁, element_id) := s.new_node d
  let s₂ := attrs.foldl (fun acc at_ =>
    acc.add_attribute_to_element element_id at_.name at_.value) s₁
  ({ s₂ with open_elements := s₂.open_elements ++ [element_id] }, element_id)

/-- `HtmlParser::insert_foreign_element`. -/
def ParserState.insert_foreign_element (s : ParserState) (token : TagToken)
    (ns : String) (only_add_to_element_stack : Bool) : PR (ParserState × Nat) := do
  let adjusted_insertion_location ←
    if only_add_to_element_stack then
      pure none
    else do
      let l ← s.appropriate_place_for_inserting_a_node none
      pure (some l)
  let (d, attrs) := create_an_element_for_the_token token ns
  let (s₁, element_id) := s.insert_create_an_element_for_the_token_result d attrs
  match adjusted_insertion_location with
  | some l => pure ({ s₁ with arena := s₁.arena.append_child l element_id }, element_id)
  | none => pure (s₁, element_id)

/-- `HtmlParser::insert_an_html_element`. -/
def ParserState.insert_an_html_element (s : ParserState) (token : TagToken) :
    PR (ParserState × Nat) :=
  s.insert_foreign_element token HTML_NAMESPACE false

/-- `HtmlParser::insert_a_comment`. -/
def ParserState.insert_a_comment (s : ParserState) (data : String)
    (parent_override : Option Nat) : PR ParserState := do
  let (a, comment_id) := s.arena.new_node (.comment data)
  let s₁ := { s with arena := a }
  let adjusted_insertion_location ←
    match parent_override with
    | some p => pure p
    | none => s₁.appropriate_place_for_inserting_a_node none
  pure { s₁ with arena := s₁.arena.append_child adjusted_insertion_location comment_id }

/-- `HtmlParser::insert_character`: merge into a trailing text node, drop
characters aimed at the document node, otherwise append a fresh text node. -/
def ParserState.insert_character (s : ParserState) (data : List Char) :
    PR ParserState := do
  let loc ← s.appropriate_place_for_inserting_a_node none
  match s.arena.dataOf? loc with
  | none => Except.error .panicked
  | some .document => pure s
  | some _ =>
    match s.arena.last_child loc with
    | some prev =>
      if s.arena.isTextId prev then
        pure { s with arena := s.arena.extend_text prev data }
      else
        let (a, text_id) := s.arena.new_node (.text (String.mk data))
        pure { s with arena := a.append_child loc text_id }
    | none =>
      let (a, text_id) := s.arena.new_node (.text (String.mk data))
      pure { s with arena := a.append_child loc text_id }

/-- Top-down walk of `has_an_element_in_the_specific_scope` (the stack is
walked from the current node downwards).  Ids that `unwrap` would reject and
non-element nodes are skipped exactly as in the source. -/
def scopeWalk (a : Arena) (tag_names element_types : List String) :
    List Nat → Bool
  | [] => false
  | id :: rest =>
    match a.dataOf? id with
    | some (.element n _) =>
      if n ∈ tag_names then true
      else if n ∈ element_types then false
      else scopeWalk a tag_names element_types rest
    | _ => scopeWalk a tag_names element_types rest

/-- `HtmlParser::has_an_element_in_the_specific_scope`. -/
def ParserState.has_an_element_in_the_specific_scope (s : ParserState)
    (tag_names element_types : List String) : Bool :=
  scopeWalk s.arena tag_names element_types s.open_elements.reverse

/-- `HtmlParser::has_an_element_in_scope`. -/
def ParserState.has_an_element_in_scope (s : ParserState) (tag_name : String) : Bool :=
  s.has_an_element_in_the_specific_scope [tag_name] ELEMENT_IN_SCOPE_TYPES

/-- `HtmlParser::has_an_element_in_scope_by_tag_names`. -/
def ParserState.has_an_element_in_scope_by_tag_names (s : ParserState)
    (tag_names : List String) : Bool :=
  s.has_an_element_in_the_specific_scope tag_names ELEMENT_IN_SCOPE_TYPES

/-- `HtmlParser::has_an_element_in_button_scope`. -/
def ParserState.has_an_element_in_button_scope (s : ParserState) (tag_name : String) : Bool :=
  s.has_an_element_in_the_specific_scope [tag_name] (ELEMENT_IN_SCOPE_TYPES ++ ["button"])

/-- `HtmlParser::has_an_element_in_list_item_scope`. -/
def ParserState.has_an_element_in_list_item_scope (s : ParserState) (tag_name : String) : Bool :=
  s.has_an_element_in_the_specific_scope [tag_name] (ELEMENT_IN_SCOPE_TYPES ++ ["ol", "ul"])

/-- Pop loop of `pop_until_tag_name_one_of`, on the reversed stack (current
node first): pop until an element with one of the names has been popped. -/
def popUntilWalk (a : Arena) (tag_names : List String) : List Nat → List Nat
  | [] => []
  | id :: rest =>
    match a.dataOf? id with
    | some (.element n _) =>
      if n ∈ tag_names then rest else popUntilWalk a tag_names rest
    | _ => popUntilWalk a tag_names rest

/-- `HtmlParser::pop_until_tag_name_one_of`. -/
def ParserState.pop_until_tag_name_one_of (s : ParserState) (tag_names : List String) :
    ParserState :=
  { s with open_elements := (popUntilWalk s.arena tag_names s.open_elements.reverse).reverse }

/-- `HtmlParser::pop_until_tag_name`. -/
def ParserState.pop_until_tag_name (s : ParserState) (tag_name : String) : ParserState :=
  s.pop_until_tag_name_one_of [tag_name]

/-- Pop loop of `generate_implied_end_tags`, on the reversed stack:
stop on the excluded element or on an element outside the implied-end-tag
set; non-element entries are popped unconditionally as in the source. -/
def impliedWalk (a : Arena) (exclude : Option String) : List Nat → List Nat
  | [] => []
  | id :: rest =>
    match a.dataOf? id with
    | some (.element n _) =>
      if exclude = some n then id :: rest
      else if n ∉ GENERATE_IMPLIED_END_TAG_TYPES then id :: rest
      else impliedWalk a exclude rest
    | _ => impliedWalk a exclude rest

/-- `HtmlParser::generate_implied_end_tags`. -/
def ParserState.generate_implied_end_tags (s : ParserState) (exclude : Option String) :
    ParserState :=
  { s with open_elements := (impliedWalk s.arena exclude s.open_elements.reverse).reverse }

/-- Pop loop of `generate_all_implied_end_tags_thoroughly`. -/
def thoroughWalk (a : Arena) : List Nat → List Nat
  | [] => []
  | id :: rest =>
    match a.dataOf? id with
    | some (.element n _) =>
      if n ∉ ["caption", "colgroup", "dd", "dt", "li", "optgroup", "option", "p",
              "rb", "rp", "rt", "rtc", "tbody", "td", "tfoot", "th", "thead", "tr"] then
        id :: rest
      else thoroughWalk a rest
    | _ => thoroughWalk a rest

/-- `HtmlParser::generate_all_implied_end_tags_thoroughly`. -/
def ParserState.generate_all_implied_end_tags_thoroughly (s : ParserState) : ParserState :=
  { s with open_elements := (thoroughWalk s.arena s.open_elements.reverse).reverse }

/-- `HtmlParser::close_a_p_element`: generate implied end tags excluding `p`;
if the current node is then an element that is not a `p`, report a minor
error and return at once; otherwise pop until a `p` has been popped. -/
def ParserState.close_a_p_element (s : ParserState) : PR ParserState :=
  let s₁ := s.generate_implied_end_tags (some "p")
  match s₁.current_node? with
  | some (.element n _) =>
    if n ≠ "p" then
      s₁.handle_error (.MinorError "closing a p element that is not the current node")
    else
      .ok (s₁.pop_until_tag_name "p")
  | _ => .ok (s₁.pop_until_tag_name "p")

/-- `HtmlParser::active_formatting_elements_until_marker`: walk the list from
its end, yielding element entries, stopping at the first marker or
non-element entry. -/
def afeUntilMarkerWalk (a : Arena) : List NodeOrMarker → List (Nat × String)
  | [] => []
  | .Marker :: _ => []
  | .Node id _ :: rest =>
    match a.dataOf? id with
    | some (.element n _) => (id, n) :: afeUntilMarkerWalk a rest
    | _ => []

def ParserState.active_formatting_elements_until_marker (s : ParserState) :
    List (Nat × String) :=
  afeUntilMarkerWalk s.arena s.active_formatting_elements.reverse

/-- `HtmlParser::remove_from_active_formatting_elements`. -/
def ParserState.remove_from_active_formatting_elements (s : ParserState) (element_id : Nat) :
    ParserState :=
  { s with active_formatting_elements := s.active_formatting_elements.filter (fun e =>
      match e with
      | .Node id _ => id ≠ element_id
      | .Marker => true) }

/-- `HtmlParser::clear_the_list_of_active_formatting_elements_up_to_the_last_marker`
(as written in the source: the index counted from the end by
`rev().position(..)` is used to truncate from the front). -/
def ParserState.clear_the_list_of_active_formatting_elements_up_to_the_last_marker
    (s : ParserState) : ParserState :=
  let last_marker_index :=
    match s.active_formatting_elements.reverse.findIdx? (fun e =>
      match e with | .Marker => true | _ => false) with
    | some i => i
    | none => s.active_formatting_elements.length
  { s with active_formatting_elements := s.active_formatting_elements.take last_marker_index }

/-- Prefix of the active-formatting list visible to
`push_onto_the_list_of_active_formatting_elements`: the source iterates from
the start with `map_while`, stopping at the first marker or non-element. -/
def afeFromStartWalk (a : Arena) : List NodeOrMarker → List (Nat × String × Option String)
  | [] => []
  | .Marker :: _ => []
  | .Node id _ :: rest =>
    match a.dataOf? id with
    | some (.element n ns) => (id, n, ns) :: afeFromStartWalk a rest
    | _ => []

/-- `HtmlParser::push_onto_the_list_of_active_formatting_elements`. -/
def ParserState.push_onto_the_list_of_active_formatting_elements (s : ParserState)
    (element_id : Nat) (token : TagToken) : PR ParserState := do
  let (name, ns) ←
    match s.arena.dataOf? element_id with
    | some (.element n nsp) => pure (n, nsp)
    | _ => Except.error (.fatalMsg "node is not an element node")
  let elements_since_marker := afeFromStartWalk s.arena s.active_formatting_elements
  let element_attributes := s.arena.attributesOf element_id
  let matching_elements := elements_since_marker.filter (fun e =>
    e.2.1 = name ∧ e.2.2 = ns ∧ s.arena.attributesOf e.1 = element_attributes)
  let s₁ :=
    if matching_elements.length ≥ 3 then
      match matching_elements.head? with
      | some earliest => s.remove_from_active_formatting_elements earliest.1
      | none => s
    else s
  pure { s₁ with active_formatting_elements :=
          s₁.active_formatting_elements ++ [.Node element_id token] }

/-- `HtmlParser::adjusted_current_node_id`. -/
def ParserState.adjusted_current_node_id (s : ParserState) : PR Nat :=
  match s.context_element with
  | some ce => if s.open_elements.length = 1 then .ok ce else s.current_node_id_result
  | none => s.current_node_id_result

/-- `HtmlParser::stop_parsing` (a no-op in the source). -/
def ParserState.stop_parsing (s : ParserState) : PR ParserState := .ok s

/-- Tokenizer states, from `TokenizerState` in
`src/html/grammar/tokenizer/mod.rs` (all eighty variants). -/
inductive TokenizerState
  | Data
  | RCDATA
  | RAWTEXT
  | ScriptData
  | PLAINTEXT
  | TagOpen
  | EndTagOpen
  | TagName
  | RCDATALessThanSign
  | RCDATAEndTagOpen
  | RCDATAEndTagName
  | RAWTEXTLessThanSign
  | RAWTEXTEndTagOpen
  | RAWTEXTEndTagName
  | ScriptDataLessThanSign
  | ScriptDataEndTagOpen
  | ScriptDataEndTagName
  | ScriptDataEscapeStart
  | ScriptDataEscapeStartDash
  | ScriptDataEscaped
  | ScriptDataEscapedDash
  | ScriptDataEscapedDashDash
  | ScriptDataEscapedLessThanSign
  | ScriptDataEscapedEndTagOpen
  | ScriptDataEscapedEndTagName
  | ScriptDataDoubleEscapeStart
  | ScriptDataDoubleEscaped
  | ScriptDataDoubleEscapedDash
  | ScriptDataDoubleEscapedDashDash
  | ScriptDataDoubleEscapedLessThanSign
  | ScriptDataDoubleEscapeEnd
  | BeforeAttributeName
  | AttributeName
  | AfterAttributeName
  | BeforeAttributeValue
  | AttributeValueDoubleQuoted
  | AttributeValueSingleQuoted
  | AttributeValueUnquoted
  | AfterAttributeValueQuoted
  | SelfClosingStartTag
  | BogusComment
  | MarkupDeclarationOpen
  | CommentStart
  | CommentStartDash
  | Comment
  | CommentLessThanSign
  | CommentLessThanSignBang
  | CommentLessThanSignBangDash
  | CommentLessThanSignBangDashDash
  | CommentEndDash
  | CommentEnd
  | CommentEndBang
  | DOCTYPE
  | BeforeDOCTYPEName
  | DOCTYPEName
  | AfterDOCTYPEName
  | AfterDOCTYPEPublicKeyword
  | BeforeDOCTYPEPublicIdentifier
  | DOCTYPEPublicIdentifierDoubleQuoted
  | DOCTYPEPublicIdentifierSingleQuoted
  | AfterDOCTYPEPublicIdentifier
  | BetweenDOCTYPEPublicAndSystemIdentifiers
  | AfterDOCTYPESystemKeyword
  | BeforeDOCTYPESystemIdentifier
  | DOCTYPESystemIdentifierDoubleQuoted
  | DOCTYPESystemIdentifierSingleQuoted
  | AfterDOCTYPESystemIdentifier
  | BogusDOCTYPE
  | CDATASection
  | CDATASectionBracket
  | CDATASectionEnd
  | CharacterReference
  | NamedCharacterReference
  | AmbiguousAmpersand
  | NumericCharacterReference
  | HexadecimalCharacterReferenceStart
  | DecimalCharacterReferenceStart
  | HexadecimalCharacterReference
  | DecimalCharacterReference
  | NumericCharacterReferenceEnd
  deriving Repr, DecidableEq

/-- `Acknowledgement` from `src/html/grammar/mod.rs`: whether the tree builder
consumed a self-closing flag, and an optional tokenizer-state override. -/
structure Acknowledgement where
  self_closed : Bool
  tokenizer_state : Option TokenizerState
  deriving Repr, DecidableEq

def Acknowledgement.no : Acknowledgement := ⟨false, none⟩

def Acknowledgement.yes : Acknowledgement := ⟨true, none⟩

/-- `DefaultParseErrorHandler::error_emitted` from `src/html/grammar/mod.rs`:
every tree-builder error category is promoted to a fatal `HtmlParseError`
(the source formats the category with `{:?}` as the message; the embedding
carries the category itself). -/
def DefaultParseErrorHandler.error_emitted (e : HtmlParseErrorType) :
    Except HtmlParseErrorType Unit :=
  .error e

/-- `DefaultTokenizerErrorHandler::error_emitted` from
`src/html/grammar/tokenizer/mod.rs`: `UnexpectedNullCharacter` is silently
recovered, every other tokenizer error category is promoted to a fatal
`HtmlParseError`. -/
def DefaultTokenizerErrorHandler.error_emitted (e : TokenizerError) :
    Except TokenizerError Unit :=
  match e with
  | .UnexpectedNullCharacter => .ok ()
  | _ => .error e

mutual

/-- Step 4 (rewind) of `reconstruct_the_active_formatting_elements`. -/
def reconstruct_step_4_rewind (fuel : Nat) (s : ParserState)
    (entry : Nat × TagToken) (entry_index : Nat) : PR ParserState :=
  match fuel with
  | 0 => .error .noFuel
  | fuel + 1 =>
    let new_entry_index :=
      match s.active_formatting_elements.findIdx? (fun e =>
        match e with
        | .Node id _ => id = entry.1
        | .Marker => false) with
      | some i => if i = 0 then none else some (i - 1)
      | none => none
    match new_entry_index with
    | none => reconstruct_step_8_create fuel s entry entry_index
    | some nei =>
      match s.active_formatting_elements.get? nei with
      | none => .error .panicked
      | some new_entry =>
        match new_entry with
        | .Node id tok =>
          if ¬ (id ∈ s.open_elements) then
            reconstruct_step_4_rewind fuel s (id, tok) nei
          else
            reconstruct_step_7_advance fuel s nei
        | .Marker => reconstruct_step_7_advance fuel s nei

/-- Step 7 (advance) of `reconstruct_the_active_formatting_elements`; the
source `expect`s that a later node entry exists. -/
def reconstruct_step_7_advance (fuel : Nat) (s : ParserState) (entry_index : Nat) :
    PR ParserState :=
  match fuel with
  | 0 => .error .noFuel
  | fuel + 1 =>
    let found := (s.active_formatting_elements.enum.drop (entry_index + 1)).findSome?
      (fun e =>
        match e.2 with
        | .Node id tok => some (e.1, id, tok)
        | .Marker => none)
    match found with
    | none => .error .panicked
    | some (i, id, tok) => reconstruct_step_8_create fuel s (id, tok) i

/-- Step 8 (create) of `reconstruct_the_active_formatting_elements`. -/
def reconstruct_step_8_create (fuel : Nat) (s : ParserState)
    (entry : Nat × TagToken) (index : Nat) : PR ParserState :=
  match fuel with
  | 0 => .error .noFuel
  | fuel + 1 => do
    let (s₁, element) ← s.insert_an_html_element entry.2
    let s₂ := { s₁ with active_formatting_elements :=
        s₁.active_formatting_elements.set index (.Node element entry.2) }
    if index ≠ s₂.active_formatting_elements.length - 1 then
      reconstruct_step_7_advance fuel s₂ index
    else
      pure s₂

end

/-- `HtmlParser::reconstruct_the_active_formatting_elements`. -/
def ParserState.reconstruct_the_active_formatting_elements (fuel : Nat)
    (s : ParserState) : PR ParserState :=
  if s.active_formatting_elements.isEmpty then .ok s
  else
    match s.active_formatting_elements.getLast? with
    | some (.Node id tok) =>
      if id ∈ s.open_elements then .ok s
      else reconstruct_step_4_rewind fuel s (id, tok)
        (s.active_formatting_elements.length - 1)
    | _ => .ok s

mutual

/-- Step 4.3 loop of `reset_the_insertion_mode_appropriately`. -/
def reset_step_4_3_loop (fuel : Nat) (s : ParserState) (ancestor_id : Nat) :
    PR ParserState :=
  match fuel with
  | 0 => .error .noFuel
  | fuel + 1 =>
    match s.open_elements.head? with
    | none => .error .panicked
    | some first =>
      if ancestor_id = first then
        .ok { s with insertion_mode := .InSelect }
      else do
        let ancestor_position ←
          match s.open_elements.findIdx? (· = ancestor_id) with
          | some i => pure i
          | none => Except.error (.fatalMsg "ancestor id not found in open elements")
        let ancestor_id' ←
          match s.open_elements.get? (ancestor_position - 1) with
          | some i => pure i
          | none => Except.error (.fatalMsg "ancestor id not found in open elements")
        let ancestor_name ←
          match s.arena.dataOf? ancestor_id' with
          | some (.element n _) => pure n
          | _ => Except.error (.fatalMsg "ancestor is not an element node")
        if ancestor_name = "template" then
          pure { s with insertion_mode := .InSelect }
        else if ancestor_name = "table" then
          pure { s with insertion_mode := .InSelectInTable }
        else
          reset_step_4_3_loop fuel s ancestor_id'

/-- Step 4 of `reset_the_insertion_mode_appropriately`. -/
def reset_step_4 (fuel : Nat) (s : ParserState) (node_id : Nat) (last : Bool) :
    PR ParserState :=
  match fuel with
  | 0 => .error .noFuel
  | fuel + 1 => do
    let node_name ←
      match s.arena.dataOf? node_id with
      | some (.element n _) => pure n
      | _ => Except.error (.fatalMsg "node is not an element node")
    if node_name = "select" then
      reset_step_4_3_loop fuel s node_id
    else if (node_name = "td" ∨ node_name = "th") ∧ ¬ last then
      pure { s with insertion_mode := .InCell }
    else if node_name = "tr" then
      pure { s with insertion_mode := .InRow }
    else if node_name = "tbody" ∨ node_name = "thead" ∨ node_name = "tfoot" then
      pure { s with insertion_mode := .InTableBody }
    else if node_name = "caption" then
      pure { s with insertion_mode := .InCaption }
    else if node_name = "colgroup" then
      pure { s with insertion_mode := .InColumnGroup }
    else if node_name = "table" then
      pure { s with insertion_mode := .InTable }
    else if node_name = "template" then
      match s.current_template_insertion_mode with
      | some m => pure { s with insertion_mode := m }
      | none => Except.error (.fatalMsg "no current template insertion mode")
    else if node_name = "head" then
      pure { s with insertion_mode := .InHead }
    else if node_name = "body" then
      pure { s with insertion_mode := .InBody }
    else if node_name = "frameset" then
      pure { s with insertion_mode := .InFrameset }
    else if node_name = "html" then
      if s.head_element_pointer.isNone then
        pure { s with insertion_mode := .BeforeHead }
      else
        pure { s with insertion_mode := .AfterHead }
    else if last then
      pure { s with insertion_mode := .InBody }
    else do
      let node_position ←
        match s.open_elements.findIdx? (· = node_id) with
        | some i => pure i
        | none => Except.error (.fatalMsg "ancestor id not found in open elements")
      let node_id' ←
        match s.open_elements.get? (node_position - 1) with
        | some i => pure i
        | none => Except.error (.fatalMsg "ancestor id not found in open elements")
      reset_step_3_loop fuel s node_id' last

/-- Step 3 loop of `reset_the_insertion_mode_appropriately`; indexing
`open_elements[0]` panics on an empty stack as in the source. -/
def reset_step_3_loop (fuel : Nat) (s : ParserState) (node_id : Nat) (last : Bool) :
    PR ParserState :=
  match fuel with
  | 0 => .error .noFuel
  | fuel + 1 =>
    match s.open_elements.head? with
    | none => .error .panicked
    | some first =>
      reset_step_4 fuel s node_id (if node_id = first then true else last)

end

/-- `HtmlParser::reset_the_insertion_mode_appropriately`. -/
def ParserState.reset_the_insertion_mode_appropriately (fuel : Nat) (s : ParserState) :
    PR ParserState := do
  let node_id ← s.current_node_id_result
  reset_step_3_loop fuel s node_id false

/-- `generic_rcdata_element_parsing_algorithm`. -/
def ParserState.generic_rcdata_element_parsing_algorithm (s : ParserState)
    (token : TagToken) : PR (ParserState × Acknowledgement) := do
  let (s₁, _) ← s.insert_an_html_element token
  pure ({ s₁ with original_insertion_mode := some s₁.insertion_mode,
                  insertion_mode := .Text },
        ⟨false, some .RCDATA⟩)

/-- `generic_raw_text_element_parsing_algorithm`. -/
def ParserState.generic_raw_text_element_parsing_algorithm (s : ParserState)
    (token : TagToken) : PR (ParserState × Acknowledgement) := do
  let (s₁, _) ← s.insert_an_html_element token
  pure ({ s₁ with original_insertion_mode := some s₁.insertion_mode,
                  insertion_mode := .Text },
        ⟨false, some .RAWTEXT⟩)

/-- `open_elements.pop().expect(..)`: popping an empty stack panics. -/
def ParserState.popExpect (s : ParserState) : PR ParserState :=
  match s.open_elements.getLast? with
  | some _ => .ok { s with open_elements := s.open_elements.dropLast }
  | none => .error .panicked

/-- `ensure_open_elements_has_valid_element` (local to
`in_body_insertion_mode`). -/
def ensure_open_elements_has_valid_element (s : ParserState) : PR ParserState :=
  let valid := ["dd", "dt", "li", "optgroup", "option", "p", "rb", "rp", "rt", "rtc",
                "tbody", "td", "tfoot", "th", "thead", "tr", "body", "html"]
  if ¬ s.open_elements.any (fun id =>
      match s.arena.dataOf? id with
      | some (.element n _) => n ∈ valid
      | _ => false) then
    s.handle_error (.MinorError "open elements has no valid element")
  else
    .ok s

/-- Node ids of the active-formatting list from its end up to the first
marker (the `rev().map_while(..)` walk of the `<a>` start-tag branch, which
does not stop at non-element entries).  The input is the reversed list. -/
def afeNodesUntilMarker : List NodeOrMarker → List Nat
  | [] => []
  | .Marker :: _ => []
  | .Node id _ :: rest => id :: afeNodesUntilMarker rest

/-- The `while current_node_id != formatting_element.id()` pop loop of the
adoption agency algorithm.  `current_node_id` is the value captured before
the loop, so the condition never changes; each iteration pops (a pop of an
empty vector is a no-op). -/
def aaPopWhile (fuel : Nat) (cur fid : Nat) (stack : List Nat) : PR (List Nat) :=
  if cur = fid then .ok stack
  else
    match fuel with
    | 0 => .error .noFuel
    | fuel + 1 => aaPopWhile fuel cur fid stack.dropLast

/-- The `while node != self.current_node_as_element_result()?` pop loop of
the any-other-end-tag procedure, on the reversed stack: pop until the walked
node is the current node; an empty or non-element current node makes
`current_node_as_element_result` fail. -/
def otherEndPopWalk (a : Arena) (nodeId : Nat) : List Nat → PR (List Nat)
  | [] => .error (.fatalMsg "current node is not an element")
  | id :: rest =>
    match a.dataOf? id with
    | some (.element _ _) =>
      if id = nodeId then .ok (id :: rest) else otherEndPopWalk a nodeId rest
    | _ => .error (.fatalMsg "current node is not an element")

/-- Tag-name sets used by the `InBody` decision table, verbatim from the
source. -/
def IN_HEAD_DELEGATED : List String :=
  ["base", "basefont", "bgsound", "link", "meta", "noframes", "script", "style",
   "template", "title"]

def IN_BODY_BLOCK_START_TAGS : List String :=
  ["address", "article", "aside", "blockquote", "center", "details", "dialog",
   "dir", "div", "dl", "fieldset", "figcaption", "figure", "footer", "header",
   "hgroup", "main", "menu", "nav", "ol", "p", "search", "section", "summary", "ul"]

def IN_BODY_BLOCK_END_TAGS : List String :=
  ["address", "article", "aside", "blockquote", "button", "center", "details",
   "dialog", "dir", "div", "dl", "fieldset", "figcaption", "figure", "footer",
   "header", "hgroup", "listing", "main", "menu", "nav", "ol", "pre", "section",
   "summary", "ul"]

def HEADING_TAGS : List String := ["h1", "h2", "h3", "h4", "h5", "h6"]

def FORMATTING_START_TAGS : List String :=
  ["a", "b", "big", "code", "em", "font", "i", "s", "small", "strike", "strong",
   "tt", "u"]

def FORMATTING_END_TAGS : List String :=
  ["a", "b", "big", "code", "em", "font", "i", "nobr", "s", "small", "strike",
   "strong", "tt", "u"]

mutual

/-- `Parser::token_emitted` for `HtmlParser`
(`src/html/grammar/mod.rs`): dispatch on the insertion mode, then raise
`NonVoidHtmlElementStartTagWithTrailingSolidus` through the error handler
when a self-closing start tag was not acknowledged.  Modes whose handlers are
`todo!()` in the source panic. -/
def token_emitted (fuel : Nat) (s : ParserState) (token : HtmlToken) :
    PR (ParserState × Acknowledgement) :=
  match fuel with
  | 0 => .error .noFuel
  | fuel + 1 => do
    let self_closing :=
      match token with
      | .TagTok t => t.self_closing
      | _ => false
    let (s', ack) ←
      match s.insertion_mode with
      | .Initial => initial_insertion_mode fuel s token
      | .BeforeHtml => before_html_insertion_mode fuel s token
      | .BeforeHead => before_head_insertion_mode fuel s token
      | .InHead => in_head_insertion_mode fuel s token
      | .InHeadNoscript => Except.error .panicked
      | .AfterHead => after_head_insertion_mode fuel s token
      | .InBody => in_body_insertion_mode fuel s token
      | .Text => text_insertion_mode fuel s token
      | .InTable => Except.error .panicked
      | .InTableText => Except.error .panicked
      | .InCaption => Except.error .panicked
      | .InColumnGroup => Except.error .panicked
      | .InTableBody => Except.error .panicked
      | .InRow => Except.error .panicked
      | .InCell => Except.error .panicked
      | .InSelect => Except.error .panicked
      | .InSelectInTable => Except.error .panicked
      | .InTemplate => in_template_insertion_mode fuel s token
      | .AfterBody => after_body_insertion_mode fuel s token
      | .InFrameset => Except.error .panicked
      | .AfterFrameset => Except.error .panicked
      | .AfterAfterBody => after_after_body_insertion_mode fuel s token
      | .AfterAfterFrameset => Except.error .panicked
    if self_closing && ! ack.self_closed then
      match DefaultParseErrorHandler.error_emitted
          .NonVoidHtmlElementStartTagWithTrailingSolidus with
      | .error e => Except.error (.fatalTree e)
      | .ok _ => pure (s', ack)
    else
      pure (s', ack)

/-- `HtmlParser::using_the_rules_for`. -/
def using_the_rules_for (fuel : Nat) (s : ParserState) (token : HtmlToken)
    (mode : InsertionMode) : PR ParserState :=
  match fuel with
  | 0 => .error .noFuel
  | fuel + 1 => do
    let before := s.insertion_mode
    let (s₁, _) ← token_emitted fuel { s with insertion_mode := mode } token
    if s₁.insertion_mode = mode then
      pure { s₁ with insertion_mode := before }
    else
      pure s₁

/-- `initial_insertion_mode`. -/
def initial_insertion_mode (fuel : Nat) (s : ParserState) (token : HtmlToken) :
    PR (ParserState × Acknowledgement) :=
  match fuel with
  | 0 => .error .noFuel
  | fuel + 1 =>
    match token with
    | .Character c =>
      if isTreeWhitespace c then .ok (s, .no)
      else do
        let (s₁, _) ← token_emitted fuel { s with insertion_mode := .BeforeHtml } token
        pure (s₁, .no)
    | .Comment _ => .error .panicked
    | .DocType _ => .ok ({ s with insertion_mode := .BeforeHtml }, .no)
    | _ => do
      let (s₁, _) ← token_emitted fuel { s with insertion_mode := .BeforeHtml } token
      pure (s₁, .no)

/-- The `anything_else` closure of `before_html_insertion_mode`. -/
def before_html_anything_else (fuel : Nat) (s : ParserState) (token : HtmlToken) :
    PR ParserState :=
  match fuel with
  | 0 => .error .noFuel
  | fuel + 1 => do
    let d := create_element "html" HTML_NAMESPACE
    let (s₁, node_id) := s.new_node d
    match s₁.root_node with
    | none => Except.error .panicked
    | some root => do
      let s₂ := { s₁ with arena := s₁.arena.append_child root node_id,
                          open_elements := s₁.open_elements ++ [node_id],
                          insertion_mode := .BeforeHead }
      let (s₃, _) ← token_emitted fuel s₂ token
      pure s₃

/-- `before_html_insertion_mode`. -/
def before_html_insertion_mode (fuel : Nat) (s : ParserState) (token : HtmlToken) :
    PR (ParserState × Acknowledgement) :=
  match fuel with
  | 0 => .error .noFuel
  | fuel + 1 =>
    match token with
    | .DocType _ => .error .panicked
    | .Comment data => do
      let parent ←
        match s.root_node with
        | some p => pure p
        | none => Except.error (.fatalMsg "root node is None")
      let s₁ ← s.insert_a_comment data (some parent)
      pure (s₁, .no)
    | .Character c =>
      if isTreeWhitespace c then .ok (s, .no)
      else do
        let s₁ ← before_html_anything_else fuel s token
        pure (s₁, .no)
    | .TagTok (.StartTag t) =>
      if t.tag_name = "html" then do
        let (d, attrs) := create_an_element_for_the_token t HTML_NAMESPACE
        let (s₁, node_id) := s.insert_create_an_element_for_the_token_result d attrs
        match s₁.root_node with
        | none => Except.error .panicked
        | some root =>
          pure ({ s₁ with arena := s₁.arena.append_child root node_id,
                          insertion_mode := .BeforeHead }, .no)
      else do
        let s₁ ← before_html_anything_else fuel s token
        pure (s₁, .no)
    | .TagTok (.EndTag t) =>
      if t.tag_name ∈ ["head", "body", "html", "br"] then do
        let s₁ ← before_html_anything_else fuel s
          (.TagTok (.EndTag (TagToken.new t.tag_name)))
        pure (s₁, .no)
      else
        .error .panicked
    | _ => do
      let s₁ ← before_html_anything_else fuel s token
      pure (s₁, .no)

/-- The `anything_else` closure of `before_head_insertion_mode`. -/
def before_head_anything_else (fuel : Nat) (s : ParserState) (token : HtmlToken) :
    PR ParserState :=
  match fuel with
  | 0 => .error .noFuel
  | fuel + 1 => do
    let (s₁, node_id) ← s.insert_an_html_element (TagToken.new "head")
    let s₂ := { s₁ with head_element_pointer := some node_id,
                        insertion_mode := .InHead }
    let (s₃, _) ← token_emitted fuel s₂ token
    pure s₃

/-- `before_head_insertion_mode`. -/
def before_head_insertion_mode (fuel : Nat) (s : ParserState) (token : HtmlToken) :
    PR (ParserState × Acknowledgement) :=
  match fuel with
  | 0 => .error .noFuel
  | fuel + 1 =>
    match token with
    | .Character c =>
      if isTreeWhitespace c then .ok (s, .no)
      else do
        let s₁ ← before_head_anything_else fuel s token
        pure (s₁, .no)
    | .Comment _ => .error .panicked
    | .DocType _ => .error .panicked
    | .TagTok (.StartTag t) =>
      if t.tag_name = "html" then .error .panicked
      else if t.tag_name = "head" then do
        let (s₁, node_id) ← s.insert_an_html_element t
        pure ({ s₁ with head_element_pointer := some node_id,
                        insertion_mode := .InHead }, .no)
      else do
        let s₁ ← before_head_anything_else fuel s token
        pure (s₁, .no)
    | .TagTok (.EndTag t) =>
      if t.tag_name ∈ ["head", "body", "html", "br"] then do
        let s₁ ← before_head_anything_else fuel s (.TagTok (.EndTag t))
        pure (s₁, .no)
      else
        .error .panicked
    | _ => do
      let s₁ ← before_head_anything_else fuel s token
      pure (s₁, .no)

/-- The `anything_else` closure of `in_head_insertion_mode`. -/
def in_head_anything_else (fuel : Nat) (s : ParserState) (token : HtmlToken) :
    PR ParserState :=
  match fuel with
  | 0 => .error .noFuel
  | fuel + 1 => do
    let s₁ ← s.popExpect
    let s₂ := { s₁ with insertion_mode := .AfterHead }
    let (s₃, _) ← token_emitted fuel s₂ token
    pure s₃

/-- `in_head_insertion_mode`. -/
def in_head_insertion_mode (fuel : Nat) (s : ParserState) (token : HtmlToken) :
    PR (ParserState × Acknowledgement) :=
  match fuel with
  | 0 => .error .noFuel
  | fuel + 1 =>
    match token with
    | .Character c =>
      if isTreeWhitespace c then do
        let s₁ ← s.insert_character [c]
        pure (s₁, .no)
      else do
        let s₁ ← in_head_anything_else fuel s token
        pure (s₁, .no)
    | .Comment data => do
      let s₁ ← s.insert_a_comment data none
      pure (s₁, .no)
    | .DocType _ => .error .panicked
    | .TagTok (.StartTag t) =>
      if t.tag_name = "html" then .error .panicked
      else if t.tag_name ∈ ["base", "basefont", "bgsound", "link"] then do
        let (s₁, _) ← s.insert_an_html_element t
        let s₂ ← s₁.popExpect
        pure (s₂, .yes)
      else if t.tag_name = "meta" then do
        let (s₁, _) ← s.insert_an_html_element t
        let s₂ ← s₁.popExpect
        pure (s₂, .yes)
      else if t.tag_name = "title" then
        s.generic_rcdata_element_parsing_algorithm t
      else if t.tag_name ∈ ["noframes", "style"] then
        s.generic_raw_text_element_parsing_algorithm t
      else if t.tag_name = "noscript" then .error .panicked
      else if t.tag_name = "script" then do
        let (s₁, node) ← s.insert_an_html_element t
        let s₂ := { s₁ with open_elements := s₁.open_elements ++ [node],
                            original_insertion_mode := some s₁.insertion_mode,
                            insertion_mode := .Text }
        pure (s₂, ⟨false, some .ScriptData⟩)
      else if t.tag_name = "template" then do
        let s₁ := { s with
          active_formatting_elements :=
            s.active_formatting_elements ++ [NodeOrMarker.Marker],
          frameset_ok := false,
          insertion_mode := .InTemplate,
          template_insertion_modes :=
            s.template_insertion_modes ++ [InsertionMode.InTemplate] }
        let adj : Option Nat :=
          match s₁.adjusted_current_node_id with
          | .ok v => some v
          | .error _ => none
        if adj = s₁.open_elements.getLast? then do
          let (s₂, _) ← s₁.insert_an_html_element t
          pure (s₂, .no)
        else
          Except.error .panicked
      else if t.tag_name = "head" then .error .panicked
      else do
        let s₁ ← in_head_anything_else fuel s token
        pure (s₁, .no)
    | .TagTok (.EndTag t) =>
      if t.tag_name = "head" then do
        let s₁ ← s.popExpect
        pure ({ s₁ with insertion_mode := .AfterHead }, .no)
      else if t.tag_name ∈ ["body", "html", "br"] then do
        let s₁ ← in_head_anything_else fuel s (.TagTok (.EndTag t))
        pure (s₁, .no)
      else if t.tag_name = "template" then do
        if ¬ s.open_elements_has_element "template" then do
          let s₁ ← s.handle_error (.MinorError "unexpected template end tag")
          pure (s₁, .no)
        else do
          let s₁ := s.generate_all_implied_end_tags_thoroughly
          let (_, current_name) ← s₁.current_element_result
          let s₂ ←
            if current_name ≠ "template" then
              s₁.handle_error (.MinorError "template end tag not found")
            else
              pure s₁
          let s₃ := s₂.pop_until_tag_name "template"
          let s₄ := s₃.clear_the_list_of_active_formatting_elements_up_to_the_last_marker
          let s₅ := { s₄ with template_insertion_modes :=
            s₄.template_insertion_modes.dropLast }
          let s₆ ← s₅.reset_the_insertion_mode_appropriately fuel
          pure (s₆, .no)
      else
        .error .panicked
    | _ => do
      let s₁ ← in_head_anything_else fuel s token
      pure (s₁, .no)

/-- The `anything_else` closure of `after_head_insertion_mode`. -/
def after_head_anything_else (fuel : Nat) (s : ParserState) (token : HtmlToken) :
    PR ParserState :=
  match fuel with
  | 0 => .error .noFuel
  | fuel + 1 => do
    let (s₁, _) ← s.insert_an_html_element (TagToken.new "body")
    let s₂ := { s₁ with insertion_mode := .InBody }
    let (s₃, _) ← token_emitted fuel s₂ token
    pure s₃

/-- `after_head_insertion_mode`. -/
def after_head_insertion_mode (fuel : Nat) (s : ParserState) (token : HtmlToken) :
    PR (ParserState × Acknowledgement) :=
  match fuel with
  | 0 => .error .noFuel
  | fuel + 1 =>
    match token with
    | .Character c =>
      if isTreeWhitespace c then do
        let s₁ ← s.insert_character [c]
        pure (s₁, .no)
      else do
        let s₁ ← after_head_anything_else fuel s token
        pure (s₁, .no)
    | .Comment _ => .error .panicked
    | .DocType _ => .error .panicked
    | .TagTok (.StartTag t) =>
      if t.tag_name = "html" then .error .panicked
      else if t.tag_name = "body" then do
        let (s₁, _) ← s.insert_an_html_element t
        pure ({ s₁ with frameset_ok := false, insertion_mode := .InBody }, .no)
      else if t.tag_name = "frameset" then .error .panicked
      else if t.tag_name ∈ IN_HEAD_DELEGATED then .error .panicked
      else if t.tag_name = "head" then .error .panicked
      else do
        let s₁ ← after_head_anything_else fuel s token
        pure (s₁, .no)
    | .TagTok (.EndTag t) =>
      if t.tag_name = "template" then .error .panicked
      else if t.tag_name ∈ ["body", "html", "br"] then do
        let s₁ ← after_head_anything_else fuel s (.TagTok (.EndTag t))
        pure (s₁, .no)
      else
        .error .panicked
    | _ => do
      let s₁ ← after_head_anything_else fuel s token
      pure (s₁, .no)

/-- `text_insertion_mode`. -/
def text_insertion_mode (fuel : Nat) (s : ParserState) (token : HtmlToken) :
    PR (ParserState × Acknowledgement) :=
  match fuel with
  | 0 => .error .noFuel
  | _ + 1 =>
    match token with
    | .Character c => do
      let s₁ ← s.insert_character [c]
      pure (s₁, .no)
    | .EndOfFile => .error .panicked
    | .TagTok (.EndTag t) =>
      if t.tag_name = "script" then do
        let _ ← s.current_element_result
        let s₁ ← s.popExpect
        match s₁.original_insertion_mode with
        | some m => pure ({ s₁ with insertion_mode := m }, .no)
        | none => Except.error .panicked
      else do
        let s₁ ← s.popExpect
        match s₁.original_insertion_mode with
        | some m => pure ({ s₁ with insertion_mode := m }, .no)
        | none => Except.error .panicked
    | _ => .ok (s, .no)

/-- `in_template_insertion_mode`. -/
def in_template_insertion_mode (fuel : Nat) (s : ParserState) (token : HtmlToken) :
    PR (ParserState × Acknowledgement) :=
  match fuel with
  | 0 => .error .noFuel
  | fuel + 1 =>
    match token with
    | .Character _ => do
      let s₁ ← using_the_rules_for fuel s token .InBody
      pure (s₁, .no)
    | .Comment _ => do
      let s₁ ← using_the_rules_for fuel s token .InBody
      pure (s₁, .no)
    | .DocType _ => do
      let s₁ ← using_the_rules_for fuel s token .InBody
      pure (s₁, .no)
    | .TagTok (.StartTag t) =>
      if t.tag_name ∈ IN_HEAD_DELEGATED then do
        let s₁ ← using_the_rules_for fuel s (.TagTok (.StartTag t)) .InHead
        pure (s₁, .no)
      else if t.tag_name ∈ ["caption", "colgroup", "tbody", "tfoot", "thead"] then do
        let s₁ := { s with
          template_insertion_modes := s.template_insertion_modes.dropLast ++ [.InTable],
          insertion_mode := .InTable }
        let (s₂, _) ← token_emitted fuel s₁ (.TagTok (.StartTag t))
        pure (s₂, .no)
      else if t.tag_name = "col" then do
        let s₁ := { s with
          template_insertion_modes :=
            s.template_insertion_modes.dropLast ++ [.InColumnGroup],
          insertion_mode := .InColumnGroup }
        let (s₂, _) ← token_emitted fuel s₁ (.TagTok (.StartTag t))
        pure (s₂, .no)
      else if t.tag_name = "tr" then do
        let s₁ := { s with
          template_insertion_modes :=
            s.template_insertion_modes.dropLast ++ [.InTableBody],
          insertion_mode := .InTableBody }
        let (s₂, _) ← token_emitted fuel s₁ (.TagTok (.StartTag t))
        pure (s₂, .no)
      else if t.tag_name ∈ ["td", "th"] then do
        let s₁ := { s with
          template_insertion_modes := s.template_insertion_modes.dropLast ++ [.InRow],
          insertion_mode := .InRow }
        let (s₂, _) ← token_emitted fuel s₁ (.TagTok (.StartTag t))
        pure (s₂, .no)
      else do
        let s₁ := { s with
          template_insertion_modes := s.template_insertion_modes.dropLast ++ [.InBody],
          insertion_mode := .InBody }
        let (s₂, _) ← token_emitted fuel s₁ (.TagTok (.StartTag t))
        pure (s₂, .no)
    | .TagTok (.EndTag t) =>
      if t.tag_name = "template" then do
        let s₁ ← using_the_rules_for fuel s (.TagTok (.EndTag t)) .InHead
        pure (s₁, .no)
      else do
        let s₁ ← s.handle_error (.MinorError "unexpected end tag")
        pure (s₁, .no)
    | .EndOfFile =>
      if s.open_elements_has_element "template" then do
        let s₁ ← s.stop_parsing
        pure (s₁, .no)
      else do
        let s₁ ← s.handle_error (.MinorError "unexpected end of file")
        let s₂ := s₁.pop_until_tag_name "template"
        let s₃ := s₂.clear_the_list_of_active_formatting_elements_up_to_the_last_marker
        let s₄ := { s₃ with template_insertion_modes :=
          s₃.template_insertion_modes.dropLast }
        let s₅ ← s₄.reset_the_insertion_mode_appropriately fuel
        let (s₆, _) ← token_emitted fuel s₅ token
        pure (s₆, .no)

/-- `after_body_insertion_mode`. -/
def after_body_insertion_mode (fuel : Nat) (s : ParserState) (token : HtmlToken) :
    PR (ParserState × Acknowledgement) :=
  match fuel with
  | 0 => .error .noFuel
  | fuel + 1 =>
    match token with
    | .Character c =>
      if isTreeWhitespace c then do
        let s₁ ← using_the_rules_for fuel s token .InBody
        pure (s₁, .no)
      else do
        let s₁ ← s.handle_error (.MinorError "unexpected token after body")
        let (s₂, _) ← token_emitted fuel { s₁ with insertion_mode := .InBody } token
        pure (s₂, .no)
    | .Comment _ => .error .panicked
    | .DocType _ => .error .panicked
    | .TagTok (.StartTag t) =>
      if t.tag_name = "html" then do
        let s₁ ← using_the_rules_for fuel s (.TagTok (.StartTag t)) .InBody
        pure (s₁, .no)
      else do
        let s₁ ← s.handle_error (.MinorError "unexpected token after body")
        let (s₂, _) ← token_emitted fuel { s₁ with insertion_mode := .InBody }
          (.TagTok (.StartTag t))
        pure (s₂, .no)
    | .TagTok (.EndTag t) =>
      if t.tag_name = "html" then
        .ok ({ s with insertion_mode := .AfterAfterBody }, .no)
      else do
        let s₁ ← s.handle_error (.MinorError "unexpected token after body")
        let (s₂, _) ← token_emitted fuel { s₁ with insertion_mode := .InBody }
          (.TagTok (.EndTag t))
        pure (s₂, .no)
    | .EndOfFile => do
      let s₁ ← s.stop_parsing
      pure (s₁, .no)

/-- `after_after_body_insertion_mode`. -/
def after_after_body_insertion_mode (fuel : Nat) (s : ParserState) (token : HtmlToken) :
    PR (ParserState × Acknowledgement) :=
  match fuel with
  | 0 => .error .noFuel
  | fuel + 1 =>
    match token with
    | .Comment _ => .error .panicked
    | .DocType _ => do
      let s₁ ← using_the_rules_for fuel s token .InBody
      pure (s₁, .no)
    | .Character c =>
      if isTreeWhitespace c then do
        let s₁ ← using_the_rules_for fuel s token .InBody
        pure (s₁, .no)
      else do
        let s₁ ← s.handle_error (.MinorError "unexpected token after after body")
        let (s₂, _) ← token_emitted fuel { s₁ with insertion_mode := .InBody } token
        pure (s₂, .no)
    | .TagTok (.StartTag t) =>
      if t.tag_name = "html" then do
        let s₁ ← using_the_rules_for fuel s (.TagTok (.StartTag t)) .InBody
        pure (s₁, .no)
      else do
        let s₁ ← s.handle_error (.MinorError "unexpected token after after body")
        let (s₂, _) ← token_emitted fuel { s₁ with insertion_mode := .InBody }
          (.TagTok (.StartTag t))
        pure (s₂, .no)
    | .EndOfFile => do
      let s₁ ← s.stop_parsing
      pure (s₁, .no)
    | _ => do
      let s₁ ← s.handle_error (.MinorError "unexpected token after after body")
      let (s₂, _) ← token_emitted fuel { s₁ with insertion_mode := .InBody } token
      pure (s₂, .no)

/-- `in_body_insertion_mode` (`in_body_insertion_mode.rs`), token dispatch. -/
def in_body_insertion_mode (fuel : Nat) (s : ParserState) (token : HtmlToken) :
    PR (ParserState × Acknowledgement) :=
  match fuel with
  | 0 => .error .noFuel
  | fuel + 1 =>
    match token with
    | .Character c =>
      if c = chars.NULL then .error .panicked
      else if isTreeWhitespace c then do
        let s₁ ← s.reconstruct_the_active_formatting_elements fuel
        let s₂ ← s₁.insert_character [c]
        pure (s₂, .no)
      else do
        let s₁ ← s.reconstruct_the_active_formatting_elements fuel
        let s₂ ← s₁.insert_character [c]
        pure ({ s₂ with frameset_ok := false }, .no)
    | .Comment data => do
      let s₁ ← s.insert_a_comment data none
      pure (s₁, .no)
    | .DocType _ => .error .panicked
    | .EndOfFile =>
      if s.template_insertion_modes ≠ [] then do
        let s₁ ← using_the_rules_for fuel s token .InTemplate
        pure (s₁, .no)
      else do
        let s₁ ← ensure_open_elements_has_valid_element s
        let s₂ ← s₁.stop_parsing
        pure (s₂, .no)
    | .TagTok (.StartTag t) => in_body_start_tag fuel s t
    | .TagTok (.EndTag t) => in_body_end_tag fuel s t

/-- Start-tag arm of the `InBody` decision table, in source order. -/
def in_body_start_tag (fuel : Nat) (s : ParserState) (t : TagToken) :
    PR (ParserState × Acknowledgement) :=
  match fuel with
  | 0 => .error .noFuel
  | fuel + 1 =>
    let n := t.tag_name
    if n = "html" then do
      let s₁ ← s.handle_error (.MinorError "html start tag inside body")
      if s₁.open_elements.any (fun id =>
          match s₁.arena.dataOf? id with
          | some (.element en _) => en = "template"
          | _ => false) then
        pure (s₁, .no)
      else
        match s₁.top_node_id? with
        | none => Except.error .panicked
        | some topId =>
          match s₁.arena.dataOf? topId with
          | some (.element _ _) =>
            let top_attrs := (s₁.arena.attributesOf topId).map (·.1)
            let s₂ := t.attributes.foldl (fun acc attr =>
              if attr.name ∈ top_attrs then acc
              else acc.add_attribute_to_element topId attr.name attr.value) s₁
            pure (s₂, .no)
          | _ => do
            let s₂ ← s₁.handle_error (.MinorError "top element is not an element node")
            pure (s₂, .no)
    else if n ∈ IN_HEAD_DELEGATED then do
      let s₁ ← using_the_rules_for fuel s (.TagTok (.StartTag t)) .InHead
      pure (s₁, .no)
    else if n = "body" then do
      let s₁ ←
        if ¬ s.has_an_element_in_scope "body" then
          s.handle_error (.MinorError "open elements has no body element in scope")
        else
          ensure_open_elements_has_valid_element s
      pure ({ s₁ with insertion_mode := .AfterBody }, .no)
    else if n = "frameset" then .error .panicked
    else if n ∈ IN_BODY_BLOCK_START_TAGS then do
      let s₁ ←
        if s.has_an_element_in_button_scope "p" then s.close_a_p_element else pure s
      let (s₂, _) ← s₁.insert_an_html_element t
      pure (s₂, .no)
    else if n ∈ HEADING_TAGS then do
      let s₁ ←
        if s.has_an_element_in_button_scope "p" then s.close_a_p_element else pure s
      let s₂ ←
        match s₁.current_element? with
        | some (_, cn) =>
          if cn ∈ HEADING_TAGS then do
            let sE ← s₁.handle_error
              (.MinorError "current node is h1, h2, h3, h4, h5, or h6")
            pure { sE with open_elements := sE.open_elements.dropLast }
          else
            pure s₁
        | none => pure s₁
      let (s₃, _) ← s₂.insert_an_html_element t
      pure (s₃, .no)
    else if n ∈ ["pre", "listing"] then .error .panicked
    else if n = "form" then
      if s.form_element_pointer.isSome ∧ ¬ s.open_elements_has_element "template" then do
        let s₁ ← s.handle_error
          (.MinorError "form element pointer is not none and there is no template element")
        pure (s₁, .no)
      else do
        let s₁ ←
          if s.has_an_element_in_button_scope "p" then s.close_a_p_element else pure s
        let (s₂, element_id) ← s₁.insert_an_html_element t
        let s₃ :=
          if ¬ s₂.open_elements_has_element "template" then
            { s₂ with form_element_pointer := some element_id }
          else s₂
        pure (s₃, .no)
    else if n = "li" then do
      let s₀ := { s with frameset_ok := false }
      let node ← s₀.current_element_result
      let s₁ ← li_step_3_loop fuel s₀ node t
      pure (s₁, .no)
    else if n ∈ ["dd", "dt"] then .error .panicked
    else if n = "plaintext" then .error .panicked
    else if n = "button" then do
      let s₁ ←
        if s.has_an_element_in_scope "button" then do
          let sE ← s.handle_error
            (.MinorError "open elements has button element in scope")
          let sG := sE.generate_implied_end_tags none
          pure (sG.pop_until_tag_name "button")
        else
          pure s
      let s₂ ← s₁.reconstruct_the_active_formatting_elements fuel
      let (s₃, _) ← s₂.insert_an_html_element t
      pure ({ s₃ with frameset_ok := false }, .no)
    else if n = "a" then do
      let afeIds := afeNodesUntilMarker s.active_formatting_elements.reverse
      let hasA := afeIds.any (fun id =>
        match s.arena.dataOf? id with
        | some (.element en _) => en = "a"
        | _ => false)
      let s₁ ←
        if hasA then do
          let sE ← s.handle_error
            (.MinorError "active formatting elements contains an a element")
          adoption_agency_algorithm fuel sE t
        else
          pure s
      let s₂ ← s₁.reconstruct_the_active_formatting_elements fuel
      let (s₃, element_id) ← s₂.insert_an_html_element t
      let s₄ ← s₃.push_onto_the_list_of_active_formatting_elements element_id t
      pure (s₄, .no)
    else if n ∈ FORMATTING_START_TAGS then do
      let s₁ ← adoption_agency_algorithm fuel s t
      pure (s₁, .no)
    else if n = "nobr" then .error .panicked
    else if n ∈ ["applet", "marquee", "object"] then .error .panicked
    else if n = "table" then .error .panicked
    else if n ∈ ["area", "br", "embed", "img", "keygen", "wbr"] then do
      let s₁ ← s.reconstruct_the_active_formatting_elements fuel
      let (s₂, _) ← s₁.insert_an_html_element t
      let s₃ := { s₂ with open_elements := s₂.open_elements.dropLast,
                          frameset_ok := false }
      if t.self_closing then pure (s₃, .yes) else pure (s₃, .no)
    else if n = "input" then do
      let s₁ ← s.reconstruct_the_active_formatting_elements fuel
      let (s₂, _) ← s₁.insert_an_html_element t
      let s₃ := { s₂ with open_elements := s₂.open_elements.dropLast,
                          frameset_ok := false }
      if t.self_closing then pure (s₃, .yes) else pure (s₃, .no)
    else if n ∈ ["param", "source", "track"] then .error .panicked
    else if n = "hr" then .error .panicked
    else if n = "image" then .error .panicked
    else if n = "textarea" then do
      let (s₁, _) ← s.insert_an_html_element t
      pure ({ s₁ with original_insertion_mode := some s₁.insertion_mode,
                      insertion_mode := .Text, frameset_ok := false },
            ⟨false, some .RCDATA⟩)
    else if n = "xmp" then .error .panicked
    else if n = "iframe" then .error .panicked
    else if n ∈ ["noembed", "noscript"] then .error .panicked
    else if n = "select" then .error .panicked
    else if n ∈ ["optgroup", "option"] then .error .panicked
    else if n ∈ ["rb", "rtc"] then .error .panicked
    else if n ∈ ["rp", "rt"] then .error .panicked
    else if n = "math" then .error .panicked
    else if n = "svg" then do
      let s₁ ← s.reconstruct_the_active_formatting_elements fuel
      let (s₂, _) ← s₁.insert_foreign_element t SVG_NAMESPACE false
      if t.self_closing then
        pure ({ s₂ with open_elements := s₂.open_elements.dropLast }, .yes)
      else
        pure (s₂, .no)
    else if n ∈ ["caption", "col", "colgroup", "frame", "head", "tbody", "td",
                 "tfoot", "th", "thead", "tr"] then
      .error .panicked
    else do
      let s₁ ← s.reconstruct_the_active_formatting_elements fuel
      let (s₂, _) ← s₁.insert_an_html_element t
      pure (s₂, .no)

/-- End-tag arm of the `InBody` decision table, in source order. -/
def in_body_end_tag (fuel : Nat) (s : ParserState) (t : TagToken) :
    PR (ParserState × Acknowledgement) :=
  match fuel with
  | 0 => .error .noFuel
  | fuel + 1 =>
    let n := t.tag_name
    if n = "template" then do
      let s₁ ← using_the_rules_for fuel s (.TagTok (.EndTag t)) .InHead
      pure (s₁, .no)
    else if n = "body" then do
      let s₁ ←
        if ¬ s.has_an_element_in_scope "body" then
          s.handle_error (.MinorError "open elements has body element in scope")
        else
          ensure_open_elements_has_valid_element s
      pure ({ s₁ with insertion_mode := .AfterBody }, .no)
    else if n = "html" then do
      let s₁ ←
        if ¬ s.has_an_element_in_scope "body" then
          s.handle_error (.MinorError "open elements has body element in scope")
        else
          ensure_open_elements_has_valid_element s
      let s₂ := { s₁ with insertion_mode := .AfterBody }
      let (s₃, _) ← token_emitted fuel s₂ (.TagTok (.EndTag t))
      pure (s₃, .no)
    else if n ∈ IN_BODY_BLOCK_END_TAGS then
      if ¬ s.has_an_element_in_scope n then do
        let s₁ ← s.handle_error
          (.MinorError ("open elements has " ++ n ++ " element in scope"))
        pure (s₁, .no)
      else do
        let s₁ := s.generate_implied_end_tags none
        let s₂ ←
          match s₁.current_element? with
          | none => Except.error .panicked
          | some (_, cn) =>
            if cn ≠ n then
              s₁.handle_error
                (.MinorError "current node is not the same as the token tag name")
            else
              pure s₁
        pure (s₂.pop_until_tag_name n, .no)
    else if n = "form" then
      if ¬ s.open_elements_has_element "template" then do
        let node? := s.form_element_pointer
        let s₀ := { s with form_element_pointer := none }
        match node? with
        | some node =>
          match s₀.arena.dataOf? node with
          | some (.element ename _) =>
            if ¬ s₀.has_an_element_in_scope ename then do
              let s₁ ← s₀.handle_error
                (.MinorError "open elements has no form element in scope")
              pure (s₁, .no)
            else do
              let s₁ := s₀.generate_implied_end_tags none
              let cur ← s₁.current_node_id_result
              let s₂ ←
                if cur ≠ node then
                  s₁.handle_error
                    (.MinorError "current node is not the same as the form element")
                else
                  pure s₁
              pure ({ s₂ with open_elements := s₂.open_elements.filter (· ≠ node) },
                    .no)
          | _ => Except.error .panicked
        | none => do
          let s₁ ← s₀.handle_error (.MinorError "form element pointer is none")
          pure (s₁, .no)
      else
        if ¬ s.has_an_element_in_scope "form" then do
          let s₁ ← s.handle_error
            (.MinorError "open elements has no form element in scope")
          pure (s₁, .no)
        else do
          let s₁ := s.generate_implied_end_tags none
          let (_, cn) ← s₁.current_element_result
          let s₂ ←
            if cn ≠ "form" then
              s₁.handle_error (.MinorError "current node is not form")
            else
              pure s₁
          pure (s₂.pop_until_tag_name "form", .no)
    else if n = "p" then do
      let s₁ ←
        if ¬ s.has_an_element_in_button_scope "p" then do
          let sE ← s.handle_error
            (.MinorError "open elements has no p element in button scope")
          let (sI, _) ← sE.insert_an_html_element (TagToken.new "p")
          pure sI
        else
          pure s
      let s₂ ← s₁.close_a_p_element
      pure (s₂, .no)
    else if n = "li" then
      if ¬ s.has_an_element_in_list_item_scope "li" then do
        let s₁ ← s.handle_error
          (.MinorError "open elements has no li element in list item scope")
        pure (s₁, .no)
      else do
        let s₁ := s.generate_implied_end_tags (some "li")
        let s₂ ←
          match s₁.current_element? with
          | none => Except.error .panicked
          | some (_, cn) =>
            if cn ≠ "li" then
              s₁.handle_error (.MinorError "current node is not li")
            else
              pure s₁
        pure (s₂.pop_until_tag_name "li", .no)
    else if n ∈ ["dd", "dt"] then .error .panicked
    else if n ∈ HEADING_TAGS then
      if ¬ s.has_an_element_in_scope_by_tag_names HEADING_TAGS then do
        let s₁ ← s.handle_error
          (.MinorError "open elements has no h1, h2, h3, h4, h5, or h6 element in scope")
        pure (s₁, .no)
      else do
        let s₁ := s.generate_implied_end_tags none
        let (_, cn) ← s₁.current_element_result
        let s₂ ←
          if cn ≠ n then
            s₁.handle_error
              (.MinorError "current node is not the same as the token tag name")
          else
            pure s₁
        pure (s₂.pop_until_tag_name_one_of HEADING_TAGS, .no)
    else if n = "sarcasm" then .error .panicked
    else if n ∈ FORMATTING_END_TAGS then do
      let s₁ ← adoption_agency_algorithm fuel s t
      pure (s₁, .no)
    else if n ∈ ["applet", "marquee", "object"] then .error .panicked
    else if n = "br" then do
      let s₁ ← s.handle_error (.MinorError "br end tag in body")
      let tok : TagToken :=
        { tag_name := "br", attributes := [], self_closing := t.self_closing }
      let s₂ ← s₁.reconstruct_the_active_formatting_elements fuel
      let (s₃, _) ← s₂.insert_an_html_element tok
      let s₄ := { s₃ with open_elements := s₃.open_elements.dropLast,
                          frameset_ok := false }
      if t.self_closing then pure (s₄, .yes) else pure (s₄, .no)
    else do
      let s₁ ← other_end_tag fuel s t
      pure (s₁, .no)

/-- Step 3 loop of the `<li>` start-tag branch of `InBody`. -/
def li_step_3_loop (fuel : Nat) (s : ParserState) (element : Nat × String)
    (t : TagToken) : PR ParserState :=
  match fuel with
  | 0 => .error .noFuel
  | fuel + 1 => do
    let s₁ ←
      if element.2 = "li" then do
        let sA := s.generate_implied_end_tags (some "li")
        let (_, cn) ← sA.current_element_result
        let sB ←
          if cn ≠ "li" then
            sA.handle_error (.MinorError "current node is not li")
          else
            pure sA
        pure (sB.pop_until_tag_name "li")
      else
        pure s
    if element.2 ∈ SPECIAL_ELEMENTS ∧ element.2 ∉ ["address", "div", "p"] then
      li_step_6_done fuel s₁ t
    else do
      let idx ←
        match s₁.open_elements.findIdx? (· = element.1) with
        | some i => pure i
        | none => Except.error .panicked
      let prev_id ←
        if idx = 0 then Except.error .panicked
        else
          match s₁.open_elements.get? (idx - 1) with
          | some i => pure i
          | none => Except.error .panicked
      match s₁.arena.dataOf? prev_id with
      | some (.element pn _) => li_step_3_loop fuel s₁ (prev_id, pn) t
      | _ => s₁.handle_error (.MinorError "previous element is not an element node")

/-- Step 6 (done) of the `<li>` start-tag branch of `InBody`. -/
def li_step_6_done (fuel : Nat) (s : ParserState) (t : TagToken) : PR ParserState :=
  match fuel with
  | 0 => .error .noFuel
  | _ + 1 => do
    let s₁ ←
      if s.has_an_element_in_button_scope "p" then s.close_a_p_element else pure s
    let (s₂, _) ← s₁.insert_an_html_element t
    pure s₂

/-- `other_end_tag` (the any-other-end-tag procedure of `InBody`). -/
def other_end_tag (fuel : Nat) (s : ParserState) (t : TagToken) : PR ParserState :=
  match fuel with
  | 0 => .error .noFuel
  | fuel + 1 => do
    let node ← s.current_element_result
    in_body_other_end_tag_loop fuel s 0 node t

/-- `in_body_other_end_tag_loop`. -/
def in_body_other_end_tag_loop (fuel : Nat) (s : ParserState) (node_index : Nat)
    (node : Nat × String) (t : TagToken) : PR ParserState :=
  match fuel with
  | 0 => .error .noFuel
  | fuel + 1 =>
    if node.2 = t.tag_name then do
      let s₁ := s.generate_implied_end_tags (some t.tag_name)
      let s₂ ←
        match s₁.current_element? with
        | none => Except.error .panicked
        | some cur =>
          if node.1 ≠ cur.1 then
            s₁.handle_error (.MinorError "node is not the same as the current node")
          else
            pure s₁
      let rev' ← otherEndPopWalk s₂.arena node.1 s₂.open_elements.reverse
      pure { s₂ with open_elements := (rev'.drop 1).reverse }
    else if node.2 ∈ SPECIAL_ELEMENTS then
      s.handle_error (.MinorError "node is in special category")
    else do
      let node' ←
        match s.open_elements.reverse.get? node_index with
        | none => Except.error .panicked
        | some id =>
          match s.arena.dataOf? id with
          | some (.element en _) => pure (id, en)
          | _ => Except.error .panicked
      in_body_other_end_tag_loop fuel s (node_index + 1) node' t

/-- `adoption_agency_algorithm`
(`in_body_insertion_mode.rs`, lines 817-928): the quick pop when the current
node's name matches the subject, then the outer loop. -/
def adoption_agency_algorithm (fuel : Nat) (s : ParserState) (t : TagToken) :
    PR ParserState :=
  match fuel with
  | 0 => .error .noFuel
  | fuel + 1 =>
    let subject := t.tag_name
    match s.current_node? with
    | some (.element en _) =>
      if en = subject then
        .ok { s with open_elements := s.open_elements.dropLast }
      else
        aa_outer_loop fuel s t 0
    | _ => aa_outer_loop fuel s t 0

/-- One entry into the `loop` of `adoption_agency_algorithm`.  Every arm of
the loop body returns (or panics at the `todo!()` after a furthest block is
found), so the counter can only ever reach 1; the bound is kept faithfully.
In the no-furthest-block case the source pops while a captured
`current_node_id` differs from the formatting element. -/
def aa_outer_loop (fuel : Nat) (s : ParserState) (t : TagToken) (counter : Nat) :
    PR ParserState :=
  match fuel with
  | 0 => .error .noFuel
  | fuel + 1 =>
    if counter ≥ 8 then .ok s
    else
      let subject := t.tag_name
      let afe := s.active_formatting_elements_until_marker
      match afe.find? (fun e => e.2 = subject) with
      | none => other_end_tag fuel s t
      | some (fid, fname) =>
        if ¬ (fid ∈ s.open_elements) then
          (s.remove_from_active_formatting_elements fid).handle_error
            (.MinorError "formatting element is not in open elements")
        else if ¬ s.has_an_element_in_scope fname then
          s.handle_error (.MinorError "formatting element is not in scope")
        else do
          let cur ← s.current_node_id_result
          let s₁ ←
            if fid ≠ cur then
              s.handle_error (.MinorError "formatting element is not the current node")
            else
              pure s
          let fidx ←
            match s₁.open_elements.findIdx? (· = fid) with
            | some i => pure i
            | none => Except.error .panicked
          let lower := s₁.open_elements.drop (fidx + 1)
          let furthest := lower.find? (fun id =>
            match s₁.arena.dataOf? id with
            | some (.element en _) => en ∈ SPECIAL_ELEMENTS
            | _ => false)
          let cur₂ ← s₁.current_node_id_result
          match furthest with
          | none => do
            let stack ← aaPopWhile fuel cur₂ fid s₁.open_elements
            let s₂ := { s₁ with open_elements := stack.dropLast }
            pure (s₂.remove_from_active_formatting_elements fid)
          | some _ => Except.error .panicked

end

/-! ## Tokenizer -/

/-- The tokenizer state record, from `Tokenizer` in
`src/html/grammar/tokenizer/mod.rs`.  The input stream is the pair of the
(fixed) character list passed alongside and the cursor position `pos`; the
`parser` field is the tree-builder state reached so far.  The error handler
is fixed to `DefaultTokenizerErrorHandler` exactly as `HtmlParser::parse`
fixes it. -/
structure TokState where
  state : TokenizerState
  return_state : Option TokenizerState
  temporary_buffer : List Char
  pos : Nat
  parser : ParserState
  comment_token : Option String
  doctype_token : Option DoctypeToken
  tag_token : Option TagTokenType
  attribute_name : Option String
  character_reference_code : Nat
  last_emitted_start_tag : Option TagToken
  deriving Repr, DecidableEq

/-- `Tokenizer::new` on a fresh `HtmlParser` (as built by `parse`). -/
def TokState.initial : TokState :=
  { state := .Data, return_state := none, temporary_buffer := [], pos := 0,
    parser := ParserState.initial, comment_token := none, doctype_token := none,
    tag_token := none, attribute_name := none, character_reference_code := 0,
    last_emitted_start_tag := none }

/-- `Modelled from the spec:` the input cursor (`vecpointer.rs`,
`VecPointerRef`) is not under `src/`.  Spec section 4.1 describes a cursor
with `current()`, lookahead, forward consume and one-step unread over a
finite sequence; consuming past the end yields the end-of-stream sentinel
without advancing.  `cursorNext` consumes and returns the next input
character. -/
def cursorNext (input : List Char) (pos : Nat) : Option Char × Nat :=
  match input.get? pos with
  | some c => (some c, pos + 1)
  | none => (none, pos)

/-- `current()`: the next input character, not consumed. -/
def cursorCurrent (input : List Char) (pos : Nat) : Option Char :=
  input.get? pos

/-- `Modelled from the spec:` `peek()` of the absent cursor module.  Spec
section 4.2 applies the attribute legacy rule when "the next character is
`=` or alphanumeric", so peeking yields the next unconsumed code point. -/
def cursorPeek (input : List Char) (pos : Nat) : Option Char :=
  input.get? pos

/-- `peek_multiple(n)`: the `n` characters after the current one. -/
def cursorPeekMultiple (input : List Char) (pos n : Nat) : List Char :=
  ((input.drop (pos + 1)).take n)

/-- `next_add(i)`: consume `i` characters. -/
def cursorNextAdd (pos i : Nat) : Nat := pos + i

/-- `prev()` (the one-step unread behind `reconsume`). -/
def cursorPrev (pos : Nat) : Nat := pos - 1

/-- `Modelled from the spec:` the named-character-reference table
(`tokenizer/named_character_references.rs`) is not under `src/`.  Spec
sections 4.2 and 9 describe a static table from reference name (including
the ampersand, with and without the trailing semicolon for the HTML legacy
names) to replacement string, searched by longest prefix; only the entries
exercised by the claims are included. -/
def NAMED_CHARACTER_REFS : List (String × String) :=
  [("&amp;", "&"), ("&amp", "&"),
   ("&quot;", "\""), ("&quot", "\""),
   ("&lt;", "<"), ("&lt", "<"),
   ("&gt;", ">"), ("&gt", ">")]

/-- `Modelled from the spec:` the maximal key length of the
named-reference table (known at build time per spec section 4.2). -/
def NAMED_CHARACTER_REFS_MAX_LENGTH : Nat := 32

/-- The longest-prefix match of `named_character_reference_state`:
the table key of maximal length that `key` starts with. -/
def longestMatchingRef (key : String) : Option String :=
  NAMED_CHARACTER_REFS.foldl (fun acc e =>
    if List.isPrefixOf e.1.data key.data then
      match acc with
      | none => some e.1
      | some b => if e.1.length > b.length then some e.1 else acc
    else acc) none

/-- Replacement string of a table key. -/
def namedRefReplacement (k : String) : Option String :=
  (NAMED_CHARACTER_REFS.find? (fun e => e.1 = k)).map (·.2)

/-- `is_surrogate` (`state_impls.rs`). -/
def is_surrogate (code_point : Nat) : Bool :=
  (0xD800 ≤ code_point ∧ code_point ≤ 0xDBFF) ∨
    (0xDC00 ≤ code_point ∧ code_point ≤ 0xDFFF)

/-- `is_noncharacter` (`state_impls.rs`). -/
def is_noncharacter (code_point : Nat) : Bool :=
  (0xFDD0 ≤ code_point ∧ code_point ≤ 0xFDEF) ∨
    code_point ∈ [0xFFFE, 0xFFFF, 0x1FFFE, 0x1FFFF, 0x2FFFE, 0x2FFFF, 0x3FFFE,
      0x3FFFF, 0x4FFFE, 0x4FFFF, 0x5FFFE, 0x5FFFF, 0x6FFFE, 0x6FFFF, 0x7FFFE,
      0x7FFFF, 0x8FFFE, 0x8FFFF, 0x9FFFE, 0x9FFFF, 0xAFFFE, 0xAFFFF, 0xBFFFE,
      0xBFFFF, 0xCFFFE, 0xCFFFF, 0xDFFFE, 0xDFFFF, 0xEFFFE, 0xEFFFF, 0xFFFFE,
      0xFFFFF, 0x10FFFE, 0x10FFFF]

/-- `is_control` (`state_impls.rs`): C0 controls or 0x7F-0x9F. -/
def is_control (code_point : Nat) : Bool :=
  code_point ≤ 0x001F ∨ (0x007F ≤ code_point ∧ code_point ≤ 0x009F)

/-- `is_ascii_whitespace` (`state_impls.rs`). -/
def is_ascii_whitespace_code (code_point : Nat) : Bool :=
  code_point = 0x0009 ∨ code_point = 0x000A ∨ code_point = 0x000C ∨
    code_point = 0x000D ∨ code_point = 0x0020

/-- `NUMERIC_CHARACTER_REF_END_TABLE` (`state_impls.rs`): the 27-entry
WHATWG C1-override table. -/
def NUMERIC_CHARACTER_REF_END_TABLE : List (Nat × Nat) :=
  [(0x80, 0x20AC), (0x82, 0x201A), (0x83, 0x0192), (0x84, 0x201E),
   (0x85, 0x2026), (0x86, 0x2020), (0x87, 0x2021), (0x88, 0x02C6),
   (0x89, 0x2030), (0x8A, 0x0160), (0x8B, 0x2039), (0x8C, 0x0152),
   (0x8E, 0x017D), (0x91, 0x2018), (0x92, 0x2019), (0x93, 0x201C),
   (0x94, 0x201D), (0x95, 0x2022), (0x96, 0x2013), (0x97, 0x2014),
   (0x98, 0x02DC), (0x99, 0x2122), (0x9A, 0x0161), (0x9B, 0x203A),
   (0x9C, 0x0153), (0x9E, 0x017E), (0x9F, 0x0178)]

/-- Lookup in the C1-override table. -/
def numericRefEndLookup (code : Nat) : Option Nat :=
  (NUMERIC_CHARACTER_REF_END_TABLE.find? (fun e => e.1 = code)).map (·.2)

/-- `Tokenizer::handle_error` with the default handler installed by `parse`:
`UnexpectedNullCharacter` is recovered, everything else aborts. -/
def TokState.handle_error (ts : TokState) (e : TokenizerError) : PR TokState :=
  match DefaultTokenizerErrorHandler.error_emitted e with
  | .ok _ => .ok ts
  | .error e' => .error (.fatalTok e')

/-- `Tokenizer::charref_in_attribute`. -/
def TokState.charref_in_attribute (ts : TokState) : Bool :=
  match ts.return_state with
  | some .AttributeValueDoubleQuoted => true
  | some .AttributeValueSingleQuoted => true
  | some .AttributeValueUnquoted => true
  | _ => false

/-- `Tokenizer::current_return_state`. -/
def TokState.current_return_state (ts : TokState) : PR TokenizerState :=
  match ts.return_state with
  | some st => .ok st
  | none => .error (.fatalMsg "no return state found")

/-- Mutate the token held in `tag_token` (`current_tag_token_mut`); fails
with "no current tag found" when absent. -/
def TokState.with_tag_token (ts : TokState) (f : TagTokenType → TagTokenType) :
    PR TokState :=
  match ts.tag_token with
  | some tt => .ok { ts with tag_token := some (f tt) }
  | none => .error (.fatalMsg "no current tag found")

/-- Append a character to the current tag's name. -/
def TokState.push_char_to_tag_name (ts : TokState) (c : Char) : PR TokState :=
  ts.with_tag_token (fun tt =>
    match tt with
    | .StartTag t => .StartTag { t with tag_name := t.tag_name.push c }
    | .EndTag t => .EndTag { t with tag_name := t.tag_name.push c })

/-- Set the current tag's self-closing flag. -/
def TokState.set_self_closing (ts : TokState) : PR TokState :=
  ts.with_tag_token (fun tt =>
    match tt with
    | .StartTag t => .StartTag { t with self_closing := true }
    | .EndTag t => .EndTag { t with self_closing := true })

/-- `Tokenizer::create_new_attribute`: remember its name as the current
attribute name and push it onto the current tag's attributes. -/
def TokState.create_new_attribute (ts : TokState) (a : Attribute) : PR TokState := do
  let ts₁ := { ts with attribute_name := some a.name }
  ts₁.with_tag_token (fun tt =>
    match tt with
    | .StartTag t => .StartTag { t with attributes := t.attributes ++ [a] }
    | .EndTag t => .EndTag { t with attributes := t.attributes ++ [a] })

/-- Apply `f` to the first attribute whose name is the current attribute
name (`current_attribute_mut`), with the source's error messages. -/
def TokState.with_current_attribute (ts : TokState) (f : Attribute → Attribute) :
    PR TokState := do
  let _ ←
    match ts.tag_token with
    | some _ => pure ()
    | none => Except.error (.fatalMsg "no current tag found")
  let current_name ←
    match ts.attribute_name with
    | some n => pure n
    | none => Except.error (.fatalMsg "no current attribute name found")
  let update (attrs : List Attribute) : Option (List Attribute) :=
    match attrs.findIdx? (fun a => a.name = current_name) with
    | some i =>
      match attrs.get? i with
      | some a => some (attrs.set i (f a))
      | none => none
    | none => none
  match ts.tag_token with
  | some (.StartTag t) =>
    match update t.attributes with
    | some attrs' =>
      pure { ts with tag_token := some (.StartTag { t with attributes := attrs' }) }
    | none =>
      Except.error (.fatalMsg ("could not find attribute " ++ current_name ++
        " on current tag"))
  | some (.EndTag t) =>
    match update t.attributes with
    | some attrs' =>
      pure { ts with tag_token := some (.EndTag { t with attributes := attrs' }) }
    | none =>
      Except.error (.fatalMsg ("could not find attribute " ++ current_name ++
        " on current tag"))
  | none => Except.error (.fatalMsg "no current tag found")

/-- `Tokenizer::push_char_to_attribute_value`. -/
def TokState.push_char_to_attribute_value (ts : TokState) (c : Char) : PR TokState :=
  ts.with_current_attribute (fun a => { a with value := a.value.push c })

/-- `Tokenizer::push_char_to_attribute_name`: push onto the attribute's name
and onto the tracked current attribute name. -/
def TokState.push_char_to_attribute_name (ts : TokState) (c : Char) : PR TokState := do
  let ts₁ ← ts.with_current_attribute (fun a => { a with name := a.name.push c })
  match ts₁.attribute_name with
  | some n => pure { ts₁ with attribute_name := some (n.push c) }
  | none => Except.error (.fatalMsg "no current attribute name found")

mutual

/-- `Tokenizer::emit`: record the last emitted start tag, hand the token to
the tree builder, and apply a tokenizer-state override from the
acknowledgement. -/
def emit (fuel : Nat) (input : List Char) (ts : TokState) (token : HtmlToken) :
    PR TokState :=
  match fuel with
  | 0 => .error .noFuel
  | fuel + 1 => do
    let ts₁ :=
      match token with
      | .TagTok (.StartTag t) => { ts with last_emitted_start_tag := some t }
      | _ => ts
    let (p', ack) ← token_emitted fuel ts₁.parser token
    let ts₂ := { ts₁ with parser := p' }
    match ack.tokenizer_state with
    | some st => pure { ts₂ with state := st }
    | none => pure ts₂

/-- `Tokenizer::flush_code_points_consumed_as_character_reference`. -/
def flush_code_points (fuel : Nat) (input : List Char) (ts : TokState) :
    PR TokState :=
  match fuel with
  | 0 => .error .noFuel
  | fuel + 1 =>
    flush_chars fuel input { ts with temporary_buffer := [] } ts.temporary_buffer

/-- The per-character loop of
`flush_code_points_consumed_as_character_reference`. -/
def flush_chars (fuel : Nat) (input : List Char) (ts : TokState)
    (cs : List Char) : PR TokState :=
  match fuel with
  | 0 => .error .noFuel
  | fuel + 1 =>
    match cs with
    | [] => .ok ts
    | c :: rest => do
      let ts₁ ←
        if ts.charref_in_attribute then
          ts.push_char_to_attribute_value c
        else
          emit fuel input ts (.Character c)
      flush_chars fuel input ts₁ rest

/-- `Tokenizer::reconsume_in_state`: unread one character, switch state, and
step once. -/
def reconsume_in_state (fuel : Nat) (input : List Char) (ts : TokState)
    (st : TokenizerState) : PR TokState :=
  match fuel with
  | 0 => .error .noFuel
  | fuel + 1 =>
    step fuel input { ts with pos := cursorPrev ts.pos, state := st }

/-- `Tokenizer::emit_current_tag_token`. -/
def emit_current_tag_token (fuel : Nat) (input : List Char) (ts : TokState) :
    PR TokState :=
  match fuel with
  | 0 => .error .noFuel
  | fuel + 1 =>
    match ts.tag_token with
    | some tt => emit fuel input { ts with tag_token := none } (.TagTok tt)
    | none => .ok ts

/-- `Tokenizer::step`: dispatch on the tokenizer state.  States that are
`todo!()` in the source panic; implemented states outside the fragment the
claims exercise yield `notModelled` (no run below reaches them). -/
def step (fuel : Nat) (input : List Char) (ts : TokState) : PR TokState :=
  match fuel with
  | 0 => .error .noFuel
  | fuel + 1 =>
    match ts.state with
    | .Data => data_state fuel input ts
    | .RCDATA => .error .notModelled
    | .RAWTEXT => .error .notModelled
    | .ScriptData => .error .notModelled
    | .PLAINTEXT => .error .panicked
    | .TagOpen => tag_open_state fuel input ts
    | .EndTagOpen => end_tag_open_state fuel input ts
    | .TagName => tag_name_state fuel input ts
    | .RCDATALessThanSign => .error .notModelled
    | .RCDATAEndTagOpen => .error .notModelled
    | .RCDATAEndTagName => .error .notModelled
    | .RAWTEXTLessThanSign => .error .panicked
    | .RAWTEXTEndTagOpen => .error .panicked
    | .RAWTEXTEndTagName => .error .panicked
    | .ScriptDataLessThanSign => .error .notModelled
    | .ScriptDataEndTagOpen => .error .notModelled
    | .ScriptDataEndTagName => .error .notModelled
    | .ScriptDataEscapeStart => .error .notModelled
    | .ScriptDataEscapeStartDash => .error .notModelled
    | .ScriptDataEscaped => .error .notModelled
    | .ScriptDataEscapedDash => .error .notModelled
    | .ScriptDataEscapedDashDash => .error .notModelled
    | .ScriptDataEscapedLessThanSign => .error .notModelled
    | .ScriptDataEscapedEndTagOpen => .error .notModelled
    | .ScriptDataEscapedEndTagName => .error .notModelled
    | .ScriptDataDoubleEscapeStart => .error .notModelled
    | .ScriptDataDoubleEscaped => .error .notModelled
    | .ScriptDataDoubleEscapedDash => .error .notModelled
    | .ScriptDataDoubleEscapedDashDash => .error .notModelled
    | .ScriptDataDoubleEscapedLessThanSign => .error .notModelled
    | .ScriptDataDoubleEscapeEnd => .error .notModelled
    | .BeforeAttributeName => before_attribute_name_state fuel input ts
    | .AttributeName => attribute_name_state fuel input ts
    | .AfterAttributeName => after_attribute_name_state fuel input ts
    | .BeforeAttributeValue => before_attribute_value_state fuel input ts
    | .AttributeValueDoubleQuoted => attribute_value_double_quoted_state fuel input ts
    | .AttributeValueSingleQuoted => attribute_value_single_quoted_state fuel input ts
    | .AttributeValueUnquoted => attribute_value_unquoted_state fuel input ts
    | .AfterAttributeValueQuoted => after_attribute_value_quoted_state fuel input ts
    | .SelfClosingStartTag => self_closing_start_tag_state fuel input ts
    | .BogusComment => .error .notModelled
    | .MarkupDeclarationOpen => .error .notModelled
    | .CommentStart => .error .notModelled
    | .CommentStartDash => .error .notModelled
    | .Comment => .error .notModelled
    | .CommentLessThanSign => .error .notModelled
    | .CommentLessThanSignBang => .error .notModelled
    | .CommentLessThanSignBangDash => .error .notModelled
    | .CommentLessThanSignBangDashDash => .error .notModelled
    | .CommentEndDash => .error .notModelled
    | .CommentEnd => .error .notModelled
    | .CommentEndBang => .error .notModelled
    | .DOCTYPE => .error .notModelled
    | .BeforeDOCTYPEName => .error .notModelled
    | .DOCTYPEName => .error .notModelled
    | .AfterDOCTYPEName => .error .notModelled
    | .AfterDOCTYPEPublicKeyword => .error .panicked
    | .BeforeDOCTYPEPublicIdentifier => .error .panicked
    | .DOCTYPEPublicIdentifierDoubleQuoted => .error .panicked
    | .DOCTYPEPublicIdentifierSingleQuoted => .error .panicked
    | .AfterDOCTYPEPublicIdentifier => .error .panicked
    | .BetweenDOCTYPEPublicAndSystemIdentifiers => .error .panicked
    | .AfterDOCTYPESystemKeyword => .error .panicked
    | .BeforeDOCTYPESystemIdentifier => .error .panicked
    | .DOCTYPESystemIdentifierDoubleQuoted => .error .panicked
    | .DOCTYPESystemIdentifierSingleQuoted => .error .panicked
    | .AfterDOCTYPESystemIdentifier => .error .panicked
    | .BogusDOCTYPE => .error .panicked
    | .CDATASection => .error .panicked
    | .CDATASectionBracket => .error .panicked
    | .CDATASectionEnd => .error .panicked
    | .CharacterReference => character_reference_state fuel input ts
    | .NamedCharacterReference => named_character_reference_state fuel input ts
    | .AmbiguousAmpersand => ambiguous_ampersand_state fuel input ts
    | .NumericCharacterReference => numeric_character_reference_state fuel input ts
    | .HexadecimalCharacterReferenceStart => .error .panicked
    | .DecimalCharacterReferenceStart =>
      decimal_character_reference_start_state fuel input ts
    | .HexadecimalCharacterReference => .error .panicked
    | .DecimalCharacterReference => decimal_character_reference_state fuel input ts
    | .NumericCharacterReferenceEnd =>
      numeric_character_reference_end_state fuel input ts

/-- `data_state`. -/
def data_state (fuel : Nat) (input : List Char) (ts : TokState) : PR TokState :=
  match fuel with
  | 0 => .error .noFuel
  | fuel + 1 =>
    let (c?, pos') := cursorNext input ts.pos
    let ts := { ts with pos := pos' }
    match c? with
    | some c =>
      if c = '&' then
        .ok { ts with return_state := some .Data, state := .CharacterReference }
      else if c = '<' then
        .ok { ts with state := .TagOpen }
      else if c = chars.NULL then do
        let ts₁ ← ts.handle_error .UnexpectedNullCharacter
        emit fuel input ts₁ (.Character c)
      else
        emit fuel input ts (.Character c)
    | none => emit fuel input ts .EndOfFile

/-- `tag_open_state`. -/
def tag_open_state (fuel : Nat) (input : List Char) (ts : TokState) : PR TokState :=
  match fuel with
  | 0 => .error .noFuel
  | fuel + 1 =>
    let (c?, pos') := cursorNext input ts.pos
    let ts := { ts with pos := pos' }
    match c? with
    | some c =>
      if c = '!' then
        .ok { ts with state := .MarkupDeclarationOpen }
      else if c = '/' then
        .ok { ts with state := .EndTagOpen }
      else if c = '?' then do
        let ts₁ ← ts.handle_error .UnexpectedQuestionMarkInsteadOfTagName
        pure { ts₁ with comment_token := some "" }
      else if c.isAlpha then
        reconsume_in_state fuel input
          { ts with tag_token := some (.StartTag (TagToken.new "")) } .TagName
      else do
        let ts₁ ← ts.handle_error .InvalidFirstCharacterOfTagName
        let ts₂ ← emit fuel input ts₁ (.Character '<')
        emit fuel input ts₂ .EndOfFile
    | none => do
      let ts₁ ← ts.handle_error .EofBeforeTagName
      let ts₂ ← emit fuel input ts₁ (.Character '<')
      reconsume_in_state fuel input ts₂ .Data

/-- `end_tag_open_state`. -/
def end_tag_open_state (fuel : Nat) (input : List Char) (ts : TokState) :
    PR TokState :=
  match fuel with
  | 0 => .error .noFuel
  | fuel + 1 =>
    let (c?, pos') := cursorNext input ts.pos
    let ts := { ts with pos := pos' }
    match c? with
    | some c =>
      if c.isAlpha then
        reconsume_in_state fuel input
          { ts with tag_token := some (.EndTag (TagToken.new "")) } .TagName
      else if c = '>' then do
        let ts₁ ← ts.handle_error .MissingEndTagName
        pure { ts₁ with state := .Data }
      else do
        let ts₁ ← ts.handle_error .InvalidFirstCharacterOfTagName
        reconsume_in_state fuel input { ts₁ with comment_token := some "" }
          .BogusComment
    | none => do
      let ts₁ ← ts.handle_error .EofBeforeTagName
      let ts₂ ← emit fuel input ts₁ (.Character '<')
      let ts₃ ← emit fuel input ts₂ (.Character '/')
      reconsume_in_state fuel input ts₃ .Data

/-- `tag_name_state` (the whitespace set here has no carriage return, as in
the source). -/
def tag_name_state (fuel : Nat) (input : List Char) (ts : TokState) : PR TokState :=
  match fuel with
  | 0 => .error .noFuel
  | fuel + 1 =>
    let (c?, pos') := cursorNext input ts.pos
    let ts := { ts with pos := pos' }
    match c? with
    | some c =>
      if c = chars.CHARACTER_TABULATION ∨ c = chars.LINE_FEED ∨
          c = chars.FORM_FEED ∨ c = chars.SPACE then
        .ok { ts with state := .BeforeAttributeName }
      else if c = '/' then
        .ok { ts with state := .SelfClosingStartTag }
      else if c = '>' then
        emit_current_tag_token fuel input { ts with state := .Data }
      else if c = chars.NULL then do
        let ts₁ ← ts.handle_error .UnexpectedNullCharacter
        ts₁.push_char_to_tag_name chars.FEED_REPLACEMENT_CHARACTER
      else if c.isUpper then
        ts.push_char_to_tag_name c.toLower
      else
        ts.push_char_to_tag_name c
    | none => do
      let ts₁ ← ts.handle_error .EofInTag
      emit fuel input ts₁ .EndOfFile

/-- `before_attribute_name_state`. -/
def before_attribute_name_state (fuel : Nat) (input : List Char) (ts : TokState) :
    PR TokState :=
  match fuel with
  | 0 => .error .noFuel
  | fuel + 1 =>
    let (c?, pos') := cursorNext input ts.pos
    let ts := { ts with pos := pos' }
    match c? with
    | some c =>
      if c = chars.CHARACTER_TABULATION ∨ c = chars.LINE_FEED ∨
          c = chars.FORM_FEED ∨ c = chars.SPACE then
        .ok ts
      else if c = '/' ∨ c = '>' then
        reconsume_in_state fuel input ts .AfterAttributeName
      else if c = '=' then do
        let ts₁ ← ts.handle_error .UnexpectedEqualsSignBeforeAttributeName
        let ts₂ ← ts₁.create_new_attribute ⟨"=", ""⟩
        pure { ts₂ with state := .AttributeName }
      else do
        let ts₁ ← ts.create_new_attribute ⟨"", ""⟩
        reconsume_in_state fuel input ts₁ .AttributeName
    | none => reconsume_in_state fuel input ts .AfterAttributeName

/-- `attribute_name_state`. -/
def attribute_name_state (fuel : Nat) (input : List Char) (ts : TokState) :
    PR TokState :=
  match fuel with
  | 0 => .error .noFuel
  | fuel + 1 =>
    let (c?, pos') := cursorNext input ts.pos
    let ts := { ts with pos := pos' }
    match c? with
    | some c =>
      if c = chars.CHARACTER_TABULATION ∨ c = chars.LINE_FEED ∨
          c = chars.FORM_FEED ∨ c = chars.SPACE ∨ c = '/' ∨ c = '>' then
        reconsume_in_state fuel input ts .AfterAttributeName
      else if c = '=' then
        .ok { ts with state := .BeforeAttributeValue }
      else if c.isUpper then
        ts.push_char_to_attribute_name c.toLower
      else if c = chars.NULL then do
        let ts₁ ← ts.handle_error .UnexpectedNullCharacter
        ts₁.push_char_to_attribute_name chars.FEED_REPLACEMENT_CHARACTER
      else if c = '"' ∨ c = '\'' ∨ c = '<' then do
        let ts₁ ← ts.handle_error .UnexpectedCharacterInAttributeName
        ts₁.push_char_to_attribute_name c
      else
        ts.push_char_to_attribute_name c
    | none => reconsume_in_state fuel input ts .AfterAttributeName

/-- `after_attribute_name_state`. -/
def after_attribute_name_state (fuel : Nat) (input : List Char) (ts : TokState) :
    PR TokState :=
  match fuel with
  | 0 => .error .noFuel
  | fuel + 1 =>
    let (c?, pos') := cursorNext input ts.pos
    let ts := { ts with pos := pos' }
    match c? with
    | some c =>
      if c = chars.CHARACTER_TABULATION ∨ c = chars.LINE_FEED ∨
          c = chars.FORM_FEED ∨ c = chars.SPACE then
        .ok ts
      else if c = '/' then
        .ok { ts with state := .SelfClosingStartTag }
      else if c = '=' then
        .ok { ts with state := .BeforeAttributeValue }
      else if c = '>' then
        emit_current_tag_token fuel input { ts with state := .Data }
      else do
        let ts₁ ← ts.create_new_attribute ⟨"", ""⟩
        reconsume_in_state fuel input ts₁ .AttributeName
    | none => do
      let ts₁ ← ts.handle_error .EofInTag
      emit fuel input ts₁ .EndOfFile

/-- `before_attribute_value_state`. -/
def before_attribute_value_state (fuel : Nat) (input : List Char) (ts : TokState) :
    PR TokState :=
  match fuel with
  | 0 => .error .noFuel
  | fuel + 1 =>
    let (c?, pos') := cursorNext input ts.pos
    let ts := { ts with pos := pos' }
    match c? with
    | some c =>
      if c = chars.CHARACTER_TABULATION ∨ c = chars.LINE_FEED ∨
          c = chars.FORM_FEED ∨ c = chars.SPACE then
        .ok ts
      else if c = '"' then
        .ok { ts with state := .AttributeValueDoubleQuoted }
      else if c = '\'' then
        .ok { ts with state := .AttributeValueSingleQuoted }
      else if c = '>' then do
        let ts₁ ← ts.handle_error .MissingAttributeValue
        emit_current_tag_token fuel input { ts₁ with state := .Data }
      else
        reconsume_in_state fuel input ts .AttributeValueUnquoted
    | none => reconsume_in_state fuel input ts .AttributeValueUnquoted

/-- `attribute_value_double_quoted_state`. -/
def attribute_value_double_quoted_state (fuel : Nat) (input : List Char)
    (ts : TokState) : PR TokState :=
  match fuel with
  | 0 => .error .noFuel
  | fuel + 1 =>
    let (c?, pos') := cursorNext input ts.pos
    let ts := { ts with pos := pos' }
    match c? with
    | some c =>
      if c = '"' then
        .ok { ts with state := .AfterAttributeValueQuoted }
      else if c = '&' then
        .ok { ts with return_state := some .AttributeValueDoubleQuoted,
                      state := .CharacterReference }
      else if c = chars.NULL then do
        let ts₁ ← ts.handle_error .UnexpectedNullCharacter
        ts₁.push_char_to_attribute_value chars.FEED_REPLACEMENT_CHARACTER
      else
        ts.push_char_to_attribute_value c
    | none => do
      let ts₁ ← ts.handle_error .EofInTag
      emit fuel input ts₁ .EndOfFile

/-- `attribute_value_single_quoted_state`. -/
def attribute_value_single_quoted_state (fuel : Nat) (input : List Char)
    (ts : TokState) : PR TokState :=
  match fuel with
  | 0 => .error .noFuel
  | fuel + 1 =>
    let (c?, pos') := cursorNext input ts.pos
    let ts := { ts with pos := pos' }
    match c? with
    | some c =>
      if c = '\'' then
        .ok { ts with state := .AfterAttributeValueQuoted }
      else if c = '&' then
        .ok { ts with return_state := some .AttributeValueSingleQuoted,
                      state := .CharacterReference }
      else if c = chars.NULL then do
        let ts₁ ← ts.handle_error .UnexpectedNullCharacter
        ts₁.push_char_to_attribute_value chars.FEED_REPLACEMENT_CHARACTER
      else
        ts.push_char_to_attribute_value c
    | none => do
      let ts₁ ← ts.handle_error .EofInTag
      emit fuel input ts₁ .EndOfFile

/-- `attribute_value_unquoted_state`. -/
def attribute_value_unquoted_state (fuel : Nat) (input : List Char)
    (ts : TokState) : PR TokState :=
  match fuel with
  | 0 => .error .noFuel
  | fuel + 1 =>
    let (c?, pos') := cursorNext input ts.pos
    let ts := { ts with pos := pos' }
    match c? with
    | some c =>
      if c = chars.CHARACTER_TABULATION ∨ c = chars.LINE_FEED ∨
          c = chars.FORM_FEED ∨ c = chars.SPACE then
        .ok { ts with state := .BeforeAttributeName }
      else if c = '&' then
        .ok { ts with return_state := some .AttributeValueUnquoted,
                      state := .CharacterReference }
      else if c = '>' then
        emit_current_tag_token fuel input { ts with state := .Data }
      else if c = chars.NULL then do
        let ts₁ ← ts.handle_error .UnexpectedNullCharacter
        ts₁.push_char_to_attribute_value chars.FEED_REPLACEMENT_CHARACTER
      else if c = '"' ∨ c = '\'' ∨ c = '<' ∨ c = '=' ∨ c = '`' then do
        let ts₁ ← ts.handle_error .UnexpectedCharacterInUnquotedAttributeValue
        ts₁.push_char_to_attribute_value c
      else
        ts.push_char_to_attribute_value c
    | none => do
      let ts₁ ← ts.handle_error .EofInTag
      emit fuel input ts₁ .EndOfFile

/-- `after_attribute_value_quoted_state`. -/
def after_attribute_value_quoted_state (fuel : Nat) (input : List Char)
    (ts : TokState) : PR TokState :=
  match fuel with
  | 0 => .error .noFuel
  | fuel + 1 =>
    let (c?, pos') := cursorNext input ts.pos
    let ts := { ts with pos := pos' }
    match c? with
    | some c =>
      if c = chars.CHARACTER_TABULATION ∨ c = chars.LINE_FEED ∨
          c = chars.FORM_FEED ∨ c = chars.SPACE then
        .ok { ts with state := .BeforeAttributeName }
      else if c = '/' then
        .ok { ts with state := .SelfClosingStartTag }
      else if c = '>' then
        emit_current_tag_token fuel input { ts with state := .Data }
      else do
        let ts₁ ← ts.handle_error .MissingWhitespaceBetweenAttributes
        reconsume_in_state fuel input ts₁ .BeforeAttributeName
    | none => do
      let ts₁ ← ts.handle_error .EofInTag
      emit fuel input ts₁ .EndOfFile

/-- `self_closing_start_tag_state`. -/
def self_closing_start_tag_state (fuel : Nat) (input : List Char) (ts : TokState) :
    PR TokState :=
  match fuel with
  | 0 => .error .noFuel
  | fuel + 1 =>
    let (c?, pos') := cursorNext input ts.pos
    let ts := { ts with pos := pos' }
    match c? with
    | some c =>
      if c = '>' then do
        let ts₁ ← ts.set_self_closing
        emit_current_tag_token fuel input { ts₁ with state := .Data }
      else do
        let ts₁ ← ts.handle_error .UnexpectedSolidusInTag
        reconsume_in_state fuel input ts₁ .BeforeAttributeName
    | none => do
      let ts₁ ← ts.handle_error .EofInTag
      emit fuel input ts₁ .EndOfFile

/-- `character_reference_state`. -/
def character_reference_state (fuel : Nat) (input : List Char) (ts : TokState) :
    PR TokState :=
  match fuel with
  | 0 => .error .noFuel
  | fuel + 1 =>
    let ts := { ts with temporary_buffer := ['&'] }
    let (c?, pos') := cursorNext input ts.pos
    let ts := { ts with pos := pos' }
    match c? with
    | some c =>
      if c.isAlphanum then
        reconsume_in_state fuel input ts .NamedCharacterReference
      else if c = '#' then
        .ok { ts with temporary_buffer := ts.temporary_buffer ++ ['#'],
                      state := .NumericCharacterReference }
      else do
        let ts₁ ← flush_code_points fuel input ts
        let rs ← ts₁.current_return_state
        reconsume_in_state fuel input ts₁ rs
    | none => do
      let ts₁ ← flush_code_points fuel input ts
      let rs ← ts₁.current_return_state
      reconsume_in_state fuel input ts₁ rs

/-- `named_character_reference_state`: longest-prefix match against the
named-reference table, the attribute legacy (historical) suppression rule,
and expansion. -/
def named_character_reference_state (fuel : Nat) (input : List Char)
    (ts : TokState) : PR TokState :=
  match fuel with
  | 0 => .error .noFuel
  | fuel + 1 =>
    let key_chars := ['&'] ++
      (match cursorCurrent input ts.pos with
       | some c => [c]
       | none => []) ++
      cursorPeekMultiple input ts.pos NAMED_CHARACTER_REFS_MAX_LENGTH
    let key := String.mk key_chars
    match longestMatchingRef key with
    | some char_ref => do
      let ts := { ts with pos := cursorNextAdd ts.pos (char_ref.length - 1) }
      let ts := { ts with temporary_buffer := ts.temporary_buffer ++ char_ref.data }
      let nextLegacyTrigger : Bool :=
        match cursorPeek input ts.pos with
        | some '=' => true
        | some c => c.isAlphanum
        | none => false
      if ts.charref_in_attribute && (char_ref.data.getLast? != some ';') &&
          nextLegacyTrigger then do
        let ts₁ ← flush_code_points fuel input ts
        let rs ← ts₁.current_return_state
        pure { ts₁ with state := rs }
      else do
        let ts₁ ←
          if char_ref.data.getLast? ≠ some ';' then
            ts.handle_error .MissingSemicolonAfterCharacterReference
          else
            pure ts
        let replacement ←
          match namedRefReplacement char_ref with
          | some r => pure r
          | none => Except.error .panicked
        let ts₂ := { ts₁ with temporary_buffer := replacement.data }
        let ts₃ ← flush_code_points fuel input ts₂
        let rs ← ts₃.current_return_state
        pure { ts₃ with state := rs }
    | none => do
      let ts₁ ← flush_code_points fuel input ts
      pure { ts₁ with state := .AmbiguousAmpersand }

/-- `ambiguous_ampersand_state` (the source tests Unicode alphanumerics
here; the embedding's inputs are ASCII). -/
def ambiguous_ampersand_state (fuel : Nat) (input : List Char) (ts : TokState) :
    PR TokState :=
  match fuel with
  | 0 => .error .noFuel
  | fuel + 1 =>
    let (c?, pos') := cursorNext input ts.pos
    let ts := { ts with pos := pos' }
    match c? with
    | some c =>
      if c.isAlphanum then
        if ts.charref_in_attribute then
          ts.push_char_to_attribute_value c
        else
          emit fuel input ts (.Character c)
      else if c = ';' then do
        let ts₁ ← ts.handle_error .UnknownNamedCharacterReference
        let rs ← ts₁.current_return_state
        reconsume_in_state fuel input ts₁ rs
      else do
        let rs ← ts.current_return_state
        reconsume_in_state fuel input ts rs
    | none => do
      let rs ← ts.current_return_state
      reconsume_in_state fuel input ts rs

/-- `numeric_character_reference_state`. -/
def numeric_character_reference_state (fuel : Nat) (input : List Char)
    (ts : TokState) : PR TokState :=
  match fuel with
  | 0 => .error .noFuel
  | fuel + 1 =>
    let ts := { ts with character_reference_code := 0 }
    let (c?, pos') := cursorNext input ts.pos
    let ts := { ts with pos := pos' }
    match c? with
    | some c =>
      if c = 'x' ∨ c = 'X' then
        .ok { ts with temporary_buffer := ts.temporary_buffer ++ [c],
                      state := .HexadecimalCharacterReferenceStart }
      else
        reconsume_in_state fuel input ts .DecimalCharacterReferenceStart
    | none => reconsume_in_state fuel input ts .DecimalCharacterReferenceStart

/-- `decimal_character_reference_start_state`. -/
def decimal_character_reference_start_state (fuel : Nat) (input : List Char)
    (ts : TokState) : PR TokState :=
  match fuel with
  | 0 => .error .noFuel
  | fuel + 1 =>
    let (c?, pos') := cursorNext input ts.pos
    let ts := { ts with pos := pos' }
    match c? with
    | some c =>
      if c.isDigit then
        reconsume_in_state fuel input ts .DecimalCharacterReference
      else do
        let ts₁ ← ts.handle_error .AbsenceOfDigitsInNumericCharacterReference
        let ts₂ ← flush_code_points fuel input ts₁
        let rs ← ts₂.current_return_state
        reconsume_in_state fuel input ts₂ rs
    | none => do
      let ts₁ ← ts.handle_error .AbsenceOfDigitsInNumericCharacterReference
      let ts₂ ← flush_code_points fuel input ts₁
      let rs ← ts₂.current_return_state
      reconsume_in_state fuel input ts₂ rs

/-- `decimal_character_reference_state` (the accumulator is a `u32` in the
source; the claims stay far below its range). -/
def decimal_character_reference_state (fuel : Nat) (input : List Char)
    (ts : TokState) : PR TokState :=
  match fuel with
  | 0 => .error .noFuel
  | fuel + 1 =>
    let (c?, pos') := cursorNext input ts.pos
    let ts := { ts with pos := pos' }
    match c? with
    | some c =>
      if c.isDigit then
        .ok { ts with character_reference_code :=
          ts.character_reference_code * 10 + (c.toNat - '0'.toNat) }
      else if c = ';' then
        .ok { ts with state := .NumericCharacterReferenceEnd }
      else do
        let ts₁ ← ts.handle_error .MissingSemicolonAfterCharacterReference
        reconsume_in_state fuel input ts₁ .NumericCharacterReferenceEnd
    | none => do
      let ts₁ ← ts.handle_error .MissingSemicolonAfterCharacterReference
      reconsume_in_state fuel input ts₁ .NumericCharacterReferenceEnd

/-- `numeric_character_reference_end_state`: null, out-of-range and
surrogate code points become U+FFFD, noncharacters and controls are
reported, the C1 controls are remapped through the override table, and the
resulting code point is flushed. -/
def numeric_character_reference_end_state (fuel : Nat) (input : List Char)
    (ts : TokState) : PR TokState :=
  match fuel with
  | 0 => .error .noFuel
  | fuel + 1 => do
    let code := ts.character_reference_code
    let (ts₁, code) ←
      if code = 0x00 then do
        let t ← ts.handle_error .NullCharacterReference
        pure (t, 0xFFFD)
      else if code > 0x10FFFF then do
        let t ← ts.handle_error .CharacterReferenceOutsideUnicodeRange
        pure (t, 0xFFFD)
      else if is_surrogate code then do
        let t ← ts.handle_error .SurrogateCharacterReference
        pure (t, 0xFFFD)
      else if is_noncharacter code then do
        let t ← ts.handle_error .NoncharacterCharacterReference
        pure (t, code)
      else if code = 0x0D ∨ (is_control code ∧ ¬ is_ascii_whitespace_code code) then do
        let t ← ts.handle_error .ControlCharacterReference
        match numericRefEndLookup code with
        | some num => pure (t, num)
        | none => pure (t, code)
      else
        pure (ts, code)
    let ts₂ := { ts₁ with character_reference_code := code }
    let ts₂ := { ts₂ with temporary_buffer := [Char.ofNat code] }
    let ts₃ ← flush_code_points fuel input ts₂
    let rs ← ts₃.current_return_state
    pure { ts₃ with state := rs }

end

/-- The driver loop of `HtmlParser::parse`:
`while !tokenizer.is_terminated() { tokenizer.step()?; }` with
`is_terminated` being exhaustion of the input stream. -/
def tokenizer_run (fuel : Nat) (input : List Char) (ts : TokState) : PR TokState :=
  match fuel with
  | 0 => .error .noFuel
  | fuel + 1 =>
    if ts.pos < input.length then do
      let ts₁ ← step fuel input ts
      tokenizer_run fuel input ts₁
    else
      .ok ts

/-- `parse(text)`: tokenize and tree-build the whole input with the default
handlers, returning the final tokenizer/tree-builder state. -/
def parse (fuel : Nat) (text : String) : PR TokState :=
  tokenizer_run fuel text.data TokState.initial

/-- A readable rendering of a document subtree (attribute nodes are children
in this arena and are rendered in place). -/
inductive DomShape
  | doc (children : List DomShape)
  | el (name : String) (children : List DomShape)
  | attr (name value : String)
  | txt (s : String)
  | com (s : String)
  deriving Repr

/-- Render the node at `id` (fuel-bounded recursion over the child lists). -/
def renderNode (a : Arena) : Nat → Nat → Option DomShape
  | 0, _ => none
  | fuel + 1, id => do
    let n ← a.get? id
    let children ← n.children.mapM (renderNode a fuel)
    match n.data with
    | .document => some (.doc children)
    | .element name _ => some (.el name children)
    | .attributeNode name value => some (.attr name value)
    | .text s => some (.txt s)
    | .comment s => some (.com s)

/-- Render the whole document of a parser state. -/
def renderDocument (p : ParserState) : Option DomShape :=
  p.root_node.bind (renderNode p.arena 100)

/-! ## XPath axis step

From `src/xpath/grammar/expressions/path_expressions/steps/axis_step.rs`.
Candidate items are abstracted to node ids (the `XpathItemSet` produced by
the step type is ordered and duplicate-free); a predicate is abstracted to
its `is_match` truth value given the `XPathExpressionContext` built by
`AxisStep::eval`, which carries the item list and the one-based position. -/

/-- The information a predicate receives from the context
`XPathExpressionContext::new(tree, items, i + 1)`: the item list it was
built over and the one-based position. -/
abbrev XPred : Type := List Nat → Nat → Bool

/-- The predicate phase of `AxisStep::eval`: with no predicates the step
result is returned as is; otherwise every candidate is kept iff all
predicates match under a context built once from the unfiltered candidate
list and the candidate's position in it (the `is_match` flag loop of the
source). -/
def axis_step_eval_predicates (predicates : List XPred) (items : List Nat) :
    List Nat :=
  if predicates.isEmpty then items
  else
    items.enum.foldl (fun filtered_items e =>
      let is_match := predicates.foldl (fun acc p =>
        if ¬ p items (e.1 + 1) then false else acc) true
      if is_match then filtered_items ++ [e.2] else filtered_items) []

/-- `Modelled from the spec:` the predicate application the specification
describes (section 4.5): "applies each predicate in order — each predicate
evaluated once per candidate with context position and context size
reflecting the filtered set before that predicate."  Kept separate from the
definition read off the source, for comparison. -/
def spec_sequential_predicate_filter (predicates : List XPred)
    (items : List Nat) : List Nat :=
  predicates.foldl (fun current p =>
    (current.enum.filter (fun e => p current (e.1 + 1))).map (·.2)) items

/-- `Modelled from the spec:` an integer literal used as a predicate is a
position test (spec section 4.5). -/
def positionEq (n : Nat) : XPred := fun _ pos => pos == n

/-! ## Theorems -/

/-- Unrolling the driver loop once: a successful `step` advances the loop
to the stepped state. -/
theorem tokenizer_run_step_ok {input : List Char} {ts ts' : TokState}
    (fuel : Nat) (h : ts.pos < input.length)
    (hs : step fuel input ts = .ok ts') :
    tokenizer_run (fuel + 1) input ts = tokenizer_run fuel input ts' := by
  have hb : tokenizer_run (fuel + 1) input ts =
      if ts.pos < input.length then
        Except.bind (step fuel input ts) (fun ts₁ => tokenizer_run fuel input ts₁)
      else .ok ts := rfl
  rw [hb, if_pos h, hs]
  rfl

/-- Unrolling the driver loop once: a failing `step` aborts the parse. -/
theorem tokenizer_run_step_err {input : List Char} {ts : TokState} {e : Halt}
    (fuel : Nat) (h : ts.pos < input.length)
    (hs : step fuel input ts = .error e) :
    tokenizer_run (fuel + 1) input ts = .error e := by
  have hb : tokenizer_run (fuel + 1) input ts =
      if ts.pos < input.length then
        Except.bind (step fuel input ts) (fun ts₁ => tokenizer_run fuel input ts₁)
      else .ok ts := rfl
  rw [hb, if_pos h, hs]
  rfl

/-- The driver loop terminates as soon as the input is exhausted. -/
theorem tokenizer_run_done {input : List Char} {ts : TokState}
    (fuel : Nat) (h : ¬ ts.pos < input.length) :
    tokenizer_run (fuel + 1) input ts = .ok ts := by
  have hb : tokenizer_run (fuel + 1) input ts =
      if ts.pos < input.length then
        Except.bind (step fuel input ts) (fun ts₁ => tokenizer_run fuel input ts₁)
      else .ok ts := rfl
  rw [hb, if_neg h]

/-- The `is_match` flag loop over the predicates equals the conjunction of
the predicates. -/
theorem predicate_flag_foldl (preds : List XPred) (items : List Nat) (pos : Nat) :
    ∀ acc : Bool,
      preds.foldl (fun acc p => if ¬ p items pos then false else acc) acc =
        (acc && preds.all (fun p => p items pos)) := by
  induction preds with
  | nil => intro acc; simp
  | cons p rest ih =>
    intro acc
    simp only [List.foldl_cons, List.all_cons]
    rw [ih]
    by_cases h : p items pos = true <;> simp [h, Bool.and_comm, Bool.and_assoc,
      Bool.and_left_comm]

/-- The accumulating insert loop of `AxisStep::eval` is a filter. -/
theorem insert_loop_foldl (q : Nat × Nat → Bool) :
    ∀ (l : List (Nat × Nat)) (acc : List Nat),
      l.foldl (fun fs e => if q e then fs ++ [e.2] else fs) acc =
        acc ++ (l.filter q).map (·.2) := by
  intro l
  induction l with
  | nil => intro acc; simp
  | cons e rest ih =>
    intro acc
    by_cases h : q e = true <;> simp [h, ih, List.filter_cons]

/-- C3, corrected.  Characterization of the predicate phase of
`AxisStep::eval`: a candidate is selected iff every predicate matches under
the context built from the unfiltered node-test result and the candidate's
position in that unfiltered list; positions are never recomputed from the
partially filtered list. -/
theorem c3_axis_step_predicates_use_unfiltered_positions
    (predicates : List XPred) (items : List Nat) :
    axis_step_eval_predicates predicates items =
      (items.enum.filter (fun e =>
        predicates.all (fun p => p items (e.1 + 1)))).map (·.2) := by
  unfold axis_step_eval_predicates
  by_cases h : predicates.isEmpty
  · have hnil : predicates = [] := List.isEmpty_iff.mp h
    subst hnil
    simp [List.enum_map_snd]
  · simp only [h, if_false]
    simp only [predicate_flag_foldl, Bool.true_and]
    rw [insert_loop_foldl (fun e => predicates.all (fun p => p items (e.1 + 1)))
      items.enum []]
    simp

/-- C3, counterexample: with the two integer-literal predicates `[2][1]`
over three candidates, the source's scheme (all predicates over the
unfiltered positions) selects nothing, while the specification's sequential
filtering (positions recomputed from the filtered set before each
predicate) selects the second candidate. -/
theorem c3_counterexample_positions_not_refiltered :
    axis_step_eval_predicates [positionEq 2, positionEq 1] [10, 20, 30] ≠
      spec_sequential_predicate_filter [positionEq 2, positionEq 1] [10, 20, 30] := by
  decide

/-- C5, confirmed.  The default tokenizer error handler recovers exactly
`UnexpectedNullCharacter` and promotes every other tokenizer error category
to a fatal error; the default tree-builder parse error handler promotes
every category to a fatal error. -/
theorem c5_default_handlers_fatal_except_unexpected_null :
    (∀ e : TokenizerError,
      DefaultTokenizerErrorHandler.error_emitted e = .ok () ↔
        e = .UnexpectedNullCharacter) ∧
    (∀ t : HtmlParseErrorType,
      DefaultParseErrorHandler.error_emitted t = .error t) := by
  constructor
  · intro e
    cases e <;> simp [DefaultTokenizerErrorHandler.error_emitted]
  · intro t
    rfl


/-! ### Staged evaluation lemmas: run `c4` -/

theorem c4_hop5 : token_emitted 277 { insertion_mode := Racoon.InsertionMode.InBody, template_insertion_modes := [], original_insertion_mode := none, open_elements := [1, 3], context_element := none, arena := { nodes := [{ data := Racoon.NodeData.document, children := [1] }, { data := Racoon.NodeData.element "html" none, children := [2, 3] }, { data := Racoon.NodeData.element "head" none, children := [] }, { data := Racoon.NodeData.element "body" none, children := [] }] }, root_node := some 0, foster_parenting := false, frameset_ok := true, active_formatting_elements := [], head_element_pointer := some 2, form_element_pointer := none, minorLog := [] } (Racoon.HtmlToken.TagTok (Racoon.TagTokenType.StartTag { tag_name := "br", self_closing := true, attributes := [] })) =
    Except.ok ({ insertion_mode := Racoon.InsertionMode.InBody, template_insertion_modes := [], original_insertion_mode := none, open_elements := [1, 3], context_element := none, arena := { nodes := [{ data := Racoon.NodeData.document, children := [1] }, { data := Racoon.NodeData.element "html" none, children := [2, 3] }, { data := Racoon.NodeData.element "head" none, children := [] }, { data := Racoon.NodeData.element "body" none, children := [4] }, { data := Racoon.NodeData.element "br" none, children := [] }] }, root_node := some 0, foster_parenting := false, frameset_ok := false, active_formatting_elements := [], head_element_pointer := some 2, form_element_pointer := none, minorLog := [] }, { self_closed := true, tokenizer_state := none }) := by rfl

theorem c4_hop4 : token_emitted 280 { insertion_mode := Racoon.InsertionMode.AfterHead, template_insertion_modes := [], original_insertion_mode := none, open_elements := [1], context_element := none, arena := { nodes := [{ data := Racoon.NodeData.document, children := [1] }, { data := Racoon.NodeData.element "html" none, children := [2] }, { data := Racoon.NodeData.element "head" none, children := [] }] }, root_node := some 0, foster_parenting := false, frameset_ok := true, active_formatting_elements := [], head_element_pointer := some 2, form_element_pointer := none, minorLog := [] } (Racoon.HtmlToken.TagTok (Racoon.TagTokenType.StartTag { tag_name := "br", self_closing := true, attributes := [] })) =
    Except.error (Racoon.Halt.fatalTree (Racoon.HtmlParseErrorType.NonVoidHtmlElementStartTagWithTrailingSolidus)) := by
  rw [token_emitted.eq_def]
  simp [c4_hop5, initial_insertion_mode, before_html_insertion_mode, before_html_anything_else, before_head_insertion_mode, before_head_anything_else, in_head_insertion_mode, in_head_anything_else, after_head_insertion_mode, after_head_anything_else, ParserState.insert_an_html_element, ParserState.insert_foreign_element, ParserState.insert_create_an_element_for_the_token_result, create_an_element_for_the_token, create_element, ParserState.new_node, Arena.new_node, Arena.append_child, Arena.get?, Arena.dataOf?, Arena.last_child, Arena.isTextId, Arena.extend_text, ParserState.insert_character, ParserState.appropriate_place_for_inserting_a_node, ParserState.popExpect, ParserState.current_node_id?, ParserState.current_node?, ParserState.current_element?, ParserState.add_attribute_to_element, ParserState.insert_a_comment, ParserState.reconstruct_the_active_formatting_elements, isTreeWhitespace, chars.CHARACTER_TABULATION, chars.LINE_FEED, chars.FORM_FEED, chars.CARRIAGE_RETURN, chars.SPACE, chars.NULL, TagToken.new, HTML_NAMESPACE, IN_HEAD_DELEGATED, Acknowledgement.no, Acknowledgement.yes, TagTokenType.self_closing, TagTokenType.tag_name, DefaultParseErrorHandler.error_emitted, ParserState.handle_error, Bind.bind, Except.bind, Pure.pure, Except.pure, Except.map]
  all_goals decide

theorem c4_hop3 : token_emitted 283 { insertion_mode := Racoon.InsertionMode.InHead, template_insertion_modes := [], original_insertion_mode := none, open_elements := [1, 2], context_element := none, arena := { nodes := [{ data := Racoon.NodeData.document, children := [1] }, { data := Racoon.NodeData.element "html" none, children := [2] }, { data := Racoon.NodeData.element "head" none, children := [] }] }, root_node := some 0, foster_parenting := false, frameset_ok := true, active_formatting_elements := [], head_element_pointer := some 2, form_element_pointer := none, minorLog := [] } (Racoon.HtmlToken.TagTok (Racoon.TagTokenType.StartTag { tag_name := "br", self_closing := true, attributes := [] })) =
    Except.error (Racoon.Halt.fatalTree (Racoon.HtmlParseErrorType.NonVoidHtmlElementStartTagWithTrailingSolidus)) := by
  rw [token_emitted.eq_def]
  simp [c4_hop4, initial_insertion_mode, before_html_insertion_mode, before_html_anything_else, before_head_insertion_mode, before_head_anything_else, in_head_insertion_mode, in_head_anything_else, after_head_insertion_mode, after_head_anything_else, ParserState.insert_an_html_element, ParserState.insert_foreign_element, ParserState.insert_create_an_element_for_the_token_result, create_an_element_for_the_token, create_element, ParserState.new_node, Arena.new_node, Arena.append_child, Arena.get?, Arena.dataOf?, Arena.last_child, Arena.isTextId, Arena.extend_text, ParserState.insert_character, ParserState.appropriate_place_for_inserting_a_node, ParserState.popExpect, ParserState.current_node_id?, ParserState.current_node?, ParserState.current_element?, ParserState.add_attribute_to_element, ParserState.insert_a_comment, ParserState.reconstruct_the_active_formatting_elements, isTreeWhitespace, chars.CHARACTER_TABULATION, chars.LINE_FEED, chars.FORM_FEED, chars.CARRIAGE_RETURN, chars.SPACE, chars.NULL, TagToken.new, HTML_NAMESPACE, IN_HEAD_DELEGATED, Acknowledgement.no, Acknowledgement.yes, TagTokenType.self_closing, TagTokenType.tag_name, DefaultParseErrorHandler.error_emitted, ParserState.handle_error, Bind.bind, Except.bind, Pure.pure, Except.pure, Except.map]
  all_goals decide

theorem c4_hop2 : token_emitted 286 { insertion_mode := Racoon.InsertionMode.BeforeHead, template_insertion_modes := [], original_insertion_mode := none, open_elements := [1], context_element := none, arena := { nodes := [{ data := Racoon.NodeData.document, children := [1] }, { data := Racoon.NodeData.element "html" none, children := [] }] }, root_node := some 0, foster_parenting := false, frameset_ok := true, active_formatting_elements := [], head_element_pointer := none, form_element_pointer := none, minorLog := [] } (Racoon.HtmlToken.TagTok (Racoon.TagTokenType.StartTag { tag_name := "br", self_closing := true, attributes := [] })) =
    Except.error (Racoon.Halt.fatalTree (Racoon.HtmlParseErrorType.NonVoidHtmlElementStartTagWithTrailingSolidus)) := by
  rw [token_emitted.eq_def]
  simp [c4_hop3, initial_insertion_mode, before_html_insertion_mode, before_html_anything_else, before_head_insertion_mode, before_head_anything_else, in_head_insertion_mode, in_head_anything_else, after_head_insertion_mode, after_head_anything_else, ParserState.insert_an_html_element, ParserState.insert_foreign_element, ParserState.insert_create_an_element_for_the_token_result, create_an_element_for_the_token, create_element, ParserState.new_node, Arena.new_node, Arena.append_child, Arena.get?, Arena.dataOf?, Arena.last_child, Arena.isTextId, Arena.extend_text, ParserState.insert_character, ParserState.appropriate_place_for_inserting_a_node, ParserState.popExpect, ParserState.current_node_id?, ParserState.current_node?, ParserState.current_element?, ParserState.add_attribute_to_element, ParserState.insert_a_comment, ParserState.reconstruct_the_active_formatting_elements, isTreeWhitespace, chars.CHARACTER_TABULATION, chars.LINE_FEED, chars.FORM_FEED, chars.CARRIAGE_RETURN, chars.SPACE, chars.NULL, TagToken.new, HTML_NAMESPACE, IN_HEAD_DELEGATED, Acknowledgement.no, Acknowledgement.yes, TagTokenType.self_closing, TagTokenType.tag_name, DefaultParseErrorHandler.error_emitted, ParserState.handle_error, Bind.bind, Except.bind, Pure.pure, Except.pure, Except.map]
  all_goals decide

theorem c4_hop1 : token_emitted 289 { insertion_mode := Racoon.InsertionMode.BeforeHtml, template_insertion_modes := [], original_insertion_mode := none, open_elements := [], context_element := none, arena := { nodes := [{ data := Racoon.NodeData.document, children := [] }] }, root_node := some 0, foster_parenting := false, frameset_ok := true, active_formatting_elements := [], head_element_pointer := none, form_element_pointer := none, minorLog := [] } (Racoon.HtmlToken.TagTok (Racoon.TagTokenType.StartTag { tag_name := "br", self_closing := true, attributes := [] })) =
    Except.error (Racoon.Halt.fatalTree (Racoon.HtmlParseErrorType.NonVoidHtmlElementStartTagWithTrailingSolidus)) := by
  rw [token_emitted.eq_def]
  simp [c4_hop2, initial_insertion_mode, before_html_insertion_mode, before_html_anything_else, before_head_insertion_mode, before_head_anything_else, in_head_insertion_mode, in_head_anything_else, after_head_insertion_mode, after_head_anything_else, ParserState.insert_an_html_element, ParserState.insert_foreign_element, ParserState.insert_create_an_element_for_the_token_result, create_an_element_for_the_token, create_element, ParserState.new_node, Arena.new_node, Arena.append_child, Arena.get?, Arena.dataOf?, Arena.last_child, Arena.isTextId, Arena.extend_text, ParserState.insert_character, ParserState.appropriate_place_for_inserting_a_node, ParserState.popExpect, ParserState.current_node_id?, ParserState.current_node?, ParserState.current_element?, ParserState.add_attribute_to_element, ParserState.insert_a_comment, ParserState.reconstruct_the_active_formatting_elements, isTreeWhitespace, chars.CHARACTER_TABULATION, chars.LINE_FEED, chars.FORM_FEED, chars.CARRIAGE_RETURN, chars.SPACE, chars.NULL, TagToken.new, HTML_NAMESPACE, IN_HEAD_DELEGATED, Acknowledgement.no, Acknowledgement.yes, TagTokenType.self_closing, TagTokenType.tag_name, DefaultParseErrorHandler.error_emitted, ParserState.handle_error, Bind.bind, Except.bind, Pure.pure, Except.pure, Except.map]
  all_goals decide

theorem c4_hop0 : token_emitted 291 { insertion_mode := Racoon.InsertionMode.Initial, template_insertion_modes := [], original_insertion_mode := none, open_elements := [], context_element := none, arena := { nodes := [{ data := Racoon.NodeData.document, children := [] }] }, root_node := some 0, foster_parenting := false, frameset_ok := true, active_formatting_elements := [], head_element_pointer := none, form_element_pointer := none, minorLog := [] } (Racoon.HtmlToken.TagTok (Racoon.TagTokenType.StartTag { tag_name := "br", self_closing := true, attributes := [] })) =
    Except.error (Racoon.Halt.fatalTree (Racoon.HtmlParseErrorType.NonVoidHtmlElementStartTagWithTrailingSolidus)) := by
  rw [token_emitted.eq_def]
  simp [c4_hop1, initial_insertion_mode, before_html_insertion_mode, before_html_anything_else, before_head_insertion_mode, before_head_anything_else, in_head_insertion_mode, in_head_anything_else, after_head_insertion_mode, after_head_anything_else, ParserState.insert_an_html_element, ParserState.insert_foreign_element, ParserState.insert_create_an_element_for_the_token_result, create_an_element_for_the_token, create_element, ParserState.new_node, Arena.new_node, Arena.append_child, Arena.get?, Arena.dataOf?, Arena.last_child, Arena.isTextId, Arena.extend_text, ParserState.insert_character, ParserState.appropriate_place_for_inserting_a_node, ParserState.popExpect, ParserState.current_node_id?, ParserState.current_node?, ParserState.current_element?, ParserState.add_attribute_to_element, ParserState.insert_a_comment, ParserState.reconstruct_the_active_formatting_elements, isTreeWhitespace, chars.CHARACTER_TABULATION, chars.LINE_FEED, chars.FORM_FEED, chars.CARRIAGE_RETURN, chars.SPACE, chars.NULL, TagToken.new, HTML_NAMESPACE, IN_HEAD_DELEGATED, Acknowledgement.no, Acknowledgement.yes, TagTokenType.self_closing, TagTokenType.tag_name, DefaultParseErrorHandler.error_emitted, ParserState.handle_error, Bind.bind, Except.bind, Pure.pure, Except.pure, Except.map]
  all_goals decide

theorem c4_step0 : step 299 ['<', 'b', 'r', '/', '>'] TokState.initial =
    Except.ok { state := Racoon.TokenizerState.TagOpen, return_state := none, temporary_buffer := [], pos := 1, parser := { insertion_mode := Racoon.InsertionMode.Initial, template_insertion_modes := [], original_insertion_mode := none, open_elements := [], context_element := none, arena := { nodes := [{ data := Racoon.NodeData.document, children := [] }] }, root_node := some 0, foster_parenting := false, frameset_ok := true, active_formatting_elements := [], head_element_pointer := none, form_element_pointer := none, minorLog := [] }, comment_token := none, doctype_token := none, tag_token := none, attribute_name := none, character_reference_code := 0, last_emitted_start_tag := none } := by rfl

theorem c4_step1 : step 298 ['<', 'b', 'r', '/', '>'] { state := Racoon.TokenizerState.TagOpen, return_state := none, temporary_buffer := [], pos := 1, parser := { insertion_mode := Racoon.InsertionMode.Initial, template_insertion_modes := [], original_insertion_mode := none, open_elements := [], context_element := none, arena := { nodes := [{ data := Racoon.NodeData.document, children := [] }] }, root_node := some 0, foster_parenting := false, frameset_ok := true, active_formatting_elements := [], head_element_pointer := none, form_element_pointer := none, minorLog := [] }, comment_token := none, doctype_token := none, tag_token := none, attribute_name := none, character_reference_code := 0, last_emitted_start_tag := none } =
    Except.ok { state := Racoon.TokenizerState.TagName, return_state := none, temporary_buffer := [], pos := 2, parser := { insertion_mode := Racoon.InsertionMode.Initial, template_insertion_modes := [], original_insertion_mode := none, open_elements := [], context_element := none, arena := { nodes := [{ data := Racoon.NodeData.document, children := [] }] }, root_node := some 0, foster_parenting := false, frameset_ok := true, active_formatting_elements := [], head_element_pointer := none, form_element_pointer := none, minorLog := [] }, comment_token := none, doctype_token := none, tag_token := some (Racoon.TagTokenType.StartTag { tag_name := "b", self_closing := false, attributes := [] }), attribute_name := none, character_reference_code := 0, last_emitted_start_tag := none } := by rfl

theorem c4_step2 : step 297 ['<', 'b', 'r', '/', '>'] { state := Racoon.TokenizerState.TagName, return_state := none, temporary_buffer := [], pos := 2, parser := { insertion_mode := Racoon.InsertionMode.Initial, template_insertion_modes := [], original_insertion_mode := none, open_elements := [], context_element := none, arena := { nodes := [{ data := Racoon.NodeData.document, children := [] }] }, root_node := some 0, foster_parenting := false, frameset_ok := true, active_formatting_elements := [], head_element_pointer := none, form_element_pointer := none, minorLog := [] }, comment_token := none, doctype_token := none, tag_token := some (Racoon.TagTokenType.StartTag { tag_name := "b", self_closing := false, attributes := [] }), attribute_name := none, character_reference_code := 0, last_emitted_start_tag := none } =
    Except.ok { state := Racoon.TokenizerState.TagName, return_state := none, temporary_buffer := [], pos := 3, parser := { insertion_mode := Racoon.InsertionMode.Initial, template_insertion_modes := [], original_insertion_mode := none, open_elements := [], context_element := none, arena := { nodes := [{ data := Racoon.NodeData.document, children := [] }] }, root_node := some 0, foster_parenting := false, frameset_ok := true, active_formatting_elements := [], head_element_pointer := none, form_element_pointer := none, minorLog := [] }, comment_token := none, doctype_token := none, tag_token := some (Racoon.TagTokenType.StartTag { tag_name := "br", self_closing := false, attributes := [] }), attribute_name := none, character_reference_code := 0, last_emitted_start_tag := none } := by rfl

theorem c4_step3 : step 296 ['<', 'b', 'r', '/', '>'] { state := Racoon.TokenizerState.TagName, return_state := none, temporary_buffer := [], pos := 3, parser := { insertion_mode := Racoon.InsertionMode.Initial, template_insertion_modes := [], original_insertion_mode := none, open_elements := [], context_element := none, arena := { nodes := [{ data := Racoon.NodeData.document, children := [] }] }, root_node := some 0, foster_parenting := false, frameset_ok := true, active_formatting_elements := [], head_element_pointer := none, form_element_pointer := none, minorLog := [] }, comment_token := none, doctype_token := none, tag_token := some (Racoon.TagTokenType.StartTag { tag_name := "br", self_closing := false, attributes := [] }), attribute_name := none, character_reference_code := 0, last_emitted_start_tag := none } =
    Except.ok { state := Racoon.TokenizerState.SelfClosingStartTag, return_state := none, temporary_buffer := [], pos := 4, parser := { insertion_mode := Racoon.InsertionMode.Initial, template_insertion_modes := [], original_insertion_mode := none, open_elements := [], context_element := none, arena := { nodes := [{ data := Racoon.NodeData.document, children := [] }] }, root_node := some 0, foster_parenting := false, frameset_ok := true, active_formatting_elements := [], head_element_pointer := none, form_element_pointer := none, minorLog := [] }, comment_token := none, doctype_token := none, tag_token := some (Racoon.TagTokenType.StartTag { tag_name := "br", self_closing := false, attributes := [] }), attribute_name := none, character_reference_code := 0, last_emitted_start_tag := none } := by rfl

theorem c4_step4 : step 295 ['<', 'b', 'r', '/', '>'] { state := Racoon.TokenizerState.SelfClosingStartTag, return_state := none, temporary_buffer := [], pos := 4, parser := { insertion_mode := Racoon.InsertionMode.Initial, template_insertion_modes := [], original_insertion_mode := none, open_elements := [], context_element := none, arena := { nodes := [{ data := Racoon.NodeData.document, children := [] }] }, root_node := some 0, foster_parenting := false, frameset_ok := true, active_formatting_elements := [], head_element_pointer := none, form_element_pointer := none, minorLog := [] }, comment_token := none, doctype_token := none, tag_token := some (Racoon.TagTokenType.StartTag { tag_name := "br", self_closing := false, attributes := [] }), attribute_name := none, character_reference_code := 0, last_emitted_start_tag := none } =
    Except.error (Racoon.Halt.fatalTree (Racoon.HtmlParseErrorType.NonVoidHtmlElementStartTagWithTrailingSolidus)) := by
  rw [step.eq_def]
  simp [c4_hop0, data_state, tag_open_state, end_tag_open_state, tag_name_state, before_attribute_name_state, attribute_name_state, after_attribute_name_state, before_attribute_value_state, attribute_value_double_quoted_state, attribute_value_single_quoted_state, attribute_value_unquoted_state, after_attribute_value_quoted_state, self_closing_start_tag_state, emit, emit_current_tag_token, TokState.with_tag_token, TokState.set_self_closing, TokState.push_char_to_tag_name, TokState.handle_error, TokState.charref_in_attribute, cursorNext, cursorCurrent, cursorPeek, cursorPrev, cursorNextAdd, chars.NULL, DefaultTokenizerErrorHandler.error_emitted, Bind.bind, Except.bind, Pure.pure, Except.pure, Except.map]
  all_goals decide

theorem c4_run : tokenizer_run 300 ['<', 'b', 'r', '/', '>'] TokState.initial =
    Except.error (Racoon.Halt.fatalTree (Racoon.HtmlParseErrorType.NonVoidHtmlElementStartTagWithTrailingSolidus)) := by
  rw [tokenizer_run_step_ok 299 (by decide) c4_step0]
  rw [tokenizer_run_step_ok 298 (by decide) c4_step1]
  rw [tokenizer_run_step_ok 297 (by decide) c4_step2]
  rw [tokenizer_run_step_ok 296 (by decide) c4_step3]
  rw [tokenizer_run_step_err 295 (by decide) c4_step4]


/-! ### Staged evaluation lemmas: run `c4tbl` -/

theorem c4tbl_hop5 : token_emitted 274 { insertion_mode := Racoon.InsertionMode.InBody, template_insertion_modes := [], original_insertion_mode := none, open_elements := [1, 3], context_element := none, arena := { nodes := [{ data := Racoon.NodeData.document, children := [1] }, { data := Racoon.NodeData.element "html" none, children := [2, 3] }, { data := Racoon.NodeData.element "head" none, children := [] }, { data := Racoon.NodeData.element "body" none, children := [] }] }, root_node := some 0, foster_parenting := false, frameset_ok := true, active_formatting_elements := [], head_element_pointer := some 2, form_element_pointer := none, minorLog := [] } (Racoon.HtmlToken.TagTok (Racoon.TagTokenType.StartTag { tag_name := "table", self_closing := true, attributes := [] })) =
    Except.error (Racoon.Halt.panicked) := by rfl

theorem c4tbl_hop4 : token_emitted 277 { insertion_mode := Racoon.InsertionMode.AfterHead, template_insertion_modes := [], original_insertion_mode := none, open_elements := [1], context_element := none, arena := { nodes := [{ data := Racoon.NodeData.document, children := [1] }, { data := Racoon.NodeData.element "html" none, children := [2] }, { data := Racoon.NodeData.element "head" none, children := [] }] }, root_node := some 0, foster_parenting := false, frameset_ok := true, active_formatting_elements := [], head_element_pointer := some 2, form_element_pointer := none, minorLog := [] } (Racoon.HtmlToken.TagTok (Racoon.TagTokenType.StartTag { tag_name := "table", self_closing := true, attributes := [] })) =
    Except.error (Racoon.Halt.panicked) := by
  rw [token_emitted.eq_def]
  simp [c4tbl_hop5, initial_insertion_mode, before_html_insertion_mode, before_html_anything_else, before_head_insertion_mode, before_head_anything_else, in_head_insertion_mode, in_head_anything_else, after_head_insertion_mode, after_head_anything_else, ParserState.insert_an_html_element, ParserState.insert_foreign_element, ParserState.insert_create_an_element_for_the_token_result, create_an_element_for_the_token, create_element, ParserState.new_node, Arena.new_node, Arena.append_child, Arena.get?, Arena.dataOf?, Arena.last_child, Arena.isTextId, Arena.extend_text, ParserState.insert_character, ParserState.appropriate_place_for_inserting_a_node, ParserState.popExpect, ParserState.current_node_id?, ParserState.current_node?, ParserState.current_element?, ParserState.add_attribute_to_element, ParserState.insert_a_comment, ParserState.reconstruct_the_active_formatting_elements, isTreeWhitespace, chars.CHARACTER_TABULATION, chars.LINE_FEED, chars.FORM_FEED, chars.CARRIAGE_RETURN, chars.SPACE, chars.NULL, TagToken.new, HTML_NAMESPACE, IN_HEAD_DELEGATED, Acknowledgement.no, Acknowledgement.yes, TagTokenType.self_closing, TagTokenType.tag_name, DefaultParseErrorHandler.error_emitted, ParserState.handle_error, Bind.bind, Except.bind, Pure.pure, Except.pure, Except.map]
  all_goals decide

theorem c4tbl_hop3 : token_emitted 280 { insertion_mode := Racoon.InsertionMode.InHead, template_insertion_modes := [], original_insertion_mode := none, open_elements := [1, 2], context_element := none, arena := { nodes := [{ data := Racoon.NodeData.document, children := [1] }, { data := Racoon.NodeData.element "html" none, children := [2] }, { data := Racoon.NodeData.element "head" none, children := [] }] }, root_node := some 0, foster_parenting := false, frameset_ok := true, active_formatting_elements := [], head_element_pointer := some 2, form_element_pointer := none, minorLog := [] } (Racoon.HtmlToken.TagTok (Racoon.TagTokenType.StartTag { tag_name := "table", self_closing := true, attributes := [] })) =
    Except.error (Racoon.Halt.panicked) := by
  rw [token_emitted.eq_def]
  simp [c4tbl_hop4, initial_insertion_mode, before_html_insertion_mode, before_html_anything_else, before_head_insertion_mode, before_head_anything_else, in_head_insertion_mode, in_head_anything_else, after_head_insertion_mode, after_head_anything_else, ParserState.insert_an_html_element, ParserState.insert_foreign_element, ParserState.insert_create_an_element_for_the_token_result, create_an_element_for_the_token, create_element, ParserState.new_node, Arena.new_node, Arena.append_child, Arena.get?, Arena.dataOf?, Arena.last_child, Arena.isTextId, Arena.extend_text, ParserState.insert_character, ParserState.appropriate_place_for_inserting_a_node, ParserState.popExpect, ParserState.current_node_id?, ParserState.current_node?, ParserState.current_element?, ParserState.add_attribute_to_element, ParserState.insert_a_comment, ParserState.reconstruct_the_active_formatting_elements, isTreeWhitespace, chars.CHARACTER_TABULATION, chars.LINE_FEED, chars.FORM_FEED, chars.CARRIAGE_RETURN, chars.SPACE, chars.NULL, TagToken.new, HTML_NAMESPACE, IN_HEAD_DELEGATED, Acknowledgement.no, Acknowledgement.yes, TagTokenType.self_closing, TagTokenType.tag_name, DefaultParseErrorHandler.error_emitted, ParserState.handle_error, Bind.bind, Except.bind, Pure.pure, Except.pure, Except.map]
  all_goals decide

theorem c4tbl_hop2 : token_emitted 283 { insertion_mode := Racoon.InsertionMode.BeforeHead, template_insertion_modes := [], original_insertion_mode := none, open_elements := [1], context_element := none, arena := { nodes := [{ data := Racoon.NodeData.document, children := [1] }, { data := Racoon.NodeData.element "html" none, children := [] }] }, root_node := some 0, foster_parenting := false, frameset_ok := true, active_formatting_elements := [], head_element_pointer := none, form_element_pointer := none, minorLog := [] } (Racoon.HtmlToken.TagTok (Racoon.TagTokenType.StartTag { tag_name := "table", self_closing := true, attributes := [] })) =
    Except.error (Racoon.Halt.panicked) := by
  rw [token_emitted.eq_def]
  simp [c4tbl_hop3, initial_insertion_mode, before_html_insertion_mode, before_html_anything_else, before_head_insertion_mode, before_head_anything_else, in_head_insertion_mode, in_head_anything_else, after_head_insertion_mode, after_head_anything_else, ParserState.insert_an_html_element, ParserState.insert_foreign_element, ParserState.insert_create_an_element_for_the_token_result, create_an_element_for_the_token, create_element, ParserState.new_node, Arena.new_node, Arena.append_child, Arena.get?, Arena.dataOf?, Arena.last_child, Arena.isTextId, Arena.extend_text, ParserState.insert_character, ParserState.appropriate_place_for_inserting_a_node, ParserState.popExpect, ParserState.current_node_id?, ParserState.current_node?, ParserState.current_element?, ParserState.add_attribute_to_element, ParserState.insert_a_comment, ParserState.reconstruct_the_active_formatting_elements, isTreeWhitespace, chars.CHARACTER_TABULATION, chars.LINE_FEED, chars.FORM_FEED, chars.CARRIAGE_RETURN, chars.SPACE, chars.NULL, TagToken.new, HTML_NAMESPACE, IN_HEAD_DELEGATED, Acknowledgement.no, Acknowledgement.yes, TagTokenType.self_closing, TagTokenType.tag_name, DefaultParseErrorHandler.error_emitted, ParserState.handle_error, Bind.bind, Except.bind, Pure.pure, Except.pure, Except.map]
  all_goals decide

theorem c4tbl_hop1 : token_emitted 286 { insertion_mode := Racoon.InsertionMode.BeforeHtml, template_insertion_modes := [], original_insertion_mode := none, open_elements := [], context_element := none, arena := { nodes := [{ data := Racoon.NodeData.document, children := [] }] }, root_node := some 0, foster_parenting := false, frameset_ok := true, active_formatting_elements := [], head_element_pointer := none, form_element_pointer := none, minorLog := [] } (Racoon.HtmlToken.TagTok (Racoon.TagTokenType.StartTag { tag_name := "table", self_closing := true, attributes := [] })) =
    Except.error (Racoon.Halt.panicked) := by
  rw [token_emitted.eq_def]
  simp [c4tbl_hop2, initial_insertion_mode, before_html_insertion_mode, before_html_anything_else, before_head_insertion_mode, before_head_anything_else, in_head_insertion_mode, in_head_anything_else, after_head_insertion_mode, after_head_anything_else, ParserState.insert_an_html_element, ParserState.insert_foreign_element, ParserState.insert_create_an_element_for_the_token_result, create_an_element_for_the_token, create_element, ParserState.new_node, Arena.new_node, Arena.append_child, Arena.get?, Arena.dataOf?, Arena.last_child, Arena.isTextId, Arena.extend_text, ParserState.insert_character, ParserState.appropriate_place_for_inserting_a_node, ParserState.popExpect, ParserState.current_node_id?, ParserState.current_node?, ParserState.current_element?, ParserState.add_attribute_to_element, ParserState.insert_a_comment, ParserState.reconstruct_the_active_formatting_elements, isTreeWhitespace, chars.CHARACTER_TABULATION, chars.LINE_FEED, chars.FORM_FEED, chars.CARRIAGE_RETURN, chars.SPACE, chars.NULL, TagToken.new, HTML_NAMESPACE, IN_HEAD_DELEGATED, Acknowledgement.no, Acknowledgement.yes, TagTokenType.self_closing, TagTokenType.tag_name, DefaultParseErrorHandler.error_emitted, ParserState.handle_error, Bind.bind, Except.bind, Pure.pure, Except.pure, Except.map]
  all_goals decide

theorem c4tbl_hop0 : token_emitted 288 { insertion_mode := Racoon.InsertionMode.Initial, template_insertion_modes := [], original_insertion_mode := none, open_elements := [], context_element := none, arena := { nodes := [{ data := Racoon.NodeData.document, children := [] }] }, root_node := some 0, foster_parenting := false, frameset_ok := true, active_formatting_elements := [], head_element_pointer := none, form_element_pointer := none, minorLog := [] } (Racoon.HtmlToken.TagTok (Racoon.TagTokenType.StartTag { tag_name := "table", self_closing := true, attributes := [] })) =
    Except.error (Racoon.Halt.panicked) := by
  rw [token_emitted.eq_def]
  simp [c4tbl_hop1, initial_insertion_mode, before_html_insertion_mode, before_html_anything_else, before_head_insertion_mode, before_head_anything_else, in_head_insertion_mode, in_head_anything_else, after_head_insertion_mode, after_head_anything_else, ParserState.insert_an_html_element, ParserState.insert_foreign_element, ParserState.insert_create_an_element_for_the_token_result, create_an_element_for_the_token, create_element, ParserState.new_node, Arena.new_node, Arena.append_child, Arena.get?, Arena.dataOf?, Arena.last_child, Arena.isTextId, Arena.extend_text, ParserState.insert_character, ParserState.appropriate_place_for_inserting_a_node, ParserState.popExpect, ParserState.current_node_id?, ParserState.current_node?, ParserState.current_element?, ParserState.add_attribute_to_element, ParserState.insert_a_comment, ParserState.reconstruct_the_active_formatting_elements, isTreeWhitespace, chars.CHARACTER_TABULATION, chars.LINE_FEED, chars.FORM_FEED, chars.CARRIAGE_RETURN, chars.SPACE, chars.NULL, TagToken.new, HTML_NAMESPACE, IN_HEAD_DELEGATED, Acknowledgement.no, Acknowledgement.yes, TagTokenType.self_closing, TagTokenType.tag_name, DefaultParseErrorHandler.error_emitted, ParserState.handle_error, Bind.bind, Except.bind, Pure.pure, Except.pure, Except.map]
  all_goals decide

theorem c4tbl_step0 : step 299 ['<', 't', 'a', 'b', 'l', 'e', '/', '>'] TokState.initial =
    Except.ok { state := Racoon.TokenizerState.TagOpen, return_state := none, temporary_buffer := [], pos := 1, parser := { insertion_mode := Racoon.InsertionMode.Initial, template_insertion_modes := [], original_insertion_mode := none, open_elements := [], context_element := none, arena := { nodes := [{ data := Racoon.NodeData.document, children := [] }] }, root_node := some 0, foster_parenting := false, frameset_ok := true, active_formatting_elements := [], head_element_pointer := none, form_element_pointer := none, minorLog := [] }, comment_token := none, doctype_token := none, tag_token := none, attribute_name := none, character_reference_code := 0, last_emitted_start_tag := none } := by rfl

theorem c4tbl_step1 : step 298 ['<', 't', 'a', 'b', 'l', 'e', '/', '>'] { state := Racoon.TokenizerState.TagOpen, return_state := none, temporary_buffer := [], pos := 1, parser := { insertion_mode := Racoon.InsertionMode.Initial, template_insertion_modes := [], original_insertion_mode := none, open_elements := [], context_element := none, arena := { nodes := [{ data := Racoon.NodeData.document, children := [] }] }, root_node := some 0, foster_parenting := false, frameset_ok := true, active_formatting_elements := [], head_element_pointer := none, form_element_pointer := none, minorLog := [] }, comment_token := none, doctype_token := none, tag_token := none, attribute_name := none, character_reference_code := 0, last_emitted_start_tag := none } =
    Except.ok { state := Racoon.TokenizerState.TagName, return_state := none, temporary_buffer := [], pos := 2, parser := { insertion_mode := Racoon.InsertionMode.Initial, template_insertion_modes := [], original_insertion_mode := none, open_elements := [], context_element := none, arena := { nodes := [{ data := Racoon.NodeData.document, children := [] }] }, root_node := some 0, foster_parenting := false, frameset_ok := true, active_formatting_elements := [], head_element_pointer := none, form_element_pointer := none, minorLog := [] }, comment_token := none, doctype_token := none, tag_token := some (Racoon.TagTokenType.StartTag { tag_name := "t", self_closing := false, attributes := [] }), attribute_name := none, character_reference_code := 0, last_emitted_start_tag := none } := by rfl

theorem c4tbl_step2 : step 297 ['<', 't', 'a', 'b', 'l', 'e', '/', '>'] { state := Racoon.TokenizerState.TagName, return_state := none, temporary_buffer := [], pos := 2, parser := { insertion_mode := Racoon.InsertionMode.Initial, template_insertion_modes := [], original_insertion_mode := none, open_elements := [], context_element := none, arena := { nodes := [{ data := Racoon.NodeData.document, children := [] }] }, root_node := some 0, foster_parenting := false, frameset_ok := true, active_formatting_elements := [], head_element_pointer := none, form_element_pointer := none, minorLog := [] }, comment_token := none, doctype_token := none, tag_token := some (Racoon.TagTokenType.StartTag { tag_name := "t", self_closing := false, attributes := [] }), attribute_name := none, character_reference_code := 0, last_emitted_start_tag := none } =
    Except.ok { state := Racoon.TokenizerState.TagName, return_state := none, temporary_buffer := [], pos := 3, parser := { insertion_mode := Racoon.InsertionMode.Initial, template_insertion_modes := [], original_insertion_mode := none, open_elements := [], context_element := none, arena := { nodes := [{ data := Racoon.NodeData.document, children := [] }] }, root_node := some 0, foster_parenting := false, frameset_ok := true, active_formatting_elements := [], head_element_pointer := none, form_element_pointer := none, minorLog := [] }, comment_token := none, doctype_token := none, tag_token := some (Racoon.TagTokenType.StartTag { tag_name := "ta", self_closing := false, attributes := [] }), attribute_name := none, character_reference_code := 0, last_emitted_start_tag := none } := by rfl

theorem c4tbl_step3 : step 296 ['<', 't', 'a', 'b', 'l', 'e', '/', '>'] { state := Racoon.TokenizerState.TagName, return_state := none, temporary_buffer := [], pos := 3, parser := { insertion_mode := Racoon.InsertionMode.Initial, template_insertion_modes := [], original_insertion_mode := none, open_elements := [], context_element := none, arena := { nodes := [{ data := Racoon.NodeData.document, children := [] }] }, root_node := some 0, foster_parenting := false, frameset_ok := true, active_formatting_elements := [], head_element_pointer := none, form_element_pointer := none, minorLog := [] }, comment_token := none, doctype_token := none, tag_token := some (Racoon.TagTokenType.StartTag { tag_name := "ta", self_closing := false, attributes := [] }), attribute_name := none, character_reference_code := 0, last_emitted_start_tag := none } =
    Except.ok { state := Racoon.TokenizerState.TagName, return_state := none, temporary_buffer := [], pos := 4, parser := { insertion_mode := Racoon.InsertionMode.Initial, template_insertion_modes := [], original_insertion_mode := none, open_elements := [], context_element := none, arena := { nodes := [{ data := Racoon.NodeData.document, children := [] }] }, root_node := some 0, foster_parenting := false, frameset_ok := true, active_formatting_elements := [], head_element_pointer := none, form_element_pointer := none, minorLog := [] }, comment_token := none, doctype_token := none, tag_token := some (Racoon.TagTokenType.StartTag { tag_name := "tab", self_closing := false, attributes := [] }), attribute_name := none, character_reference_code := 0, last_emitted_start_tag := none } := by rfl

theorem c4tbl_step4 : step 295 ['<', 't', 'a', 'b', 'l', 'e', '/', '>'] { state := Racoon.TokenizerState.TagName, return_state := none, temporary_buffer := [], pos := 4, parser := { insertion_mode := Racoon.InsertionMode.Initial, template_insertion_modes := [], original_insertion_mode := none, open_elements := [], context_element := none, arena := { nodes := [{ data := Racoon.NodeData.document, children := [] }] }, root_node := some 0, foster_parenting := false, frameset_ok := true, active_formatting_elements := [], head_element_pointer := none, form_element_pointer := none, minorLog := [] }, comment_token := none, doctype_token := none, tag_token := some (Racoon.TagTokenType.StartTag { tag_name := "tab", self_closing := false, attributes := [] }), attribute_name := none, character_reference_code := 0, last_emitted_start_tag := none } =
    Except.ok { state := Racoon.TokenizerState.TagName, return_state := none, temporary_buffer := [], pos := 5, parser := { insertion_mode := Racoon.InsertionMode.Initial, template_insertion_modes := [], original_insertion_mode := none, open_elements := [], context_element := none, arena := { nodes := [{ data := Racoon.NodeData.document, children := [] }] }, root_node := some 0, foster_parenting := false, frameset_ok := true, active_formatting_elements := [], head_element_pointer := none, form_element_pointer := none, minorLog := [] }, comment_token := none, doctype_token := none, tag_token := some (Racoon.TagTokenType.StartTag { tag_name := "tabl", self_closing := false, attributes := [] }), attribute_name := none, character_reference_code := 0, last_emitted_start_tag := none } := by rfl

theorem c4tbl_step5 : step 294 ['<', 't', 'a', 'b', 'l', 'e', '/', '>'] { state := Racoon.TokenizerState.TagName, return_state := none, temporary_buffer := [], pos := 5, parser := { insertion_mode := Racoon.InsertionMode.Initial, template_insertion_modes := [], original_insertion_mode := none, open_elements := [], context_element := none, arena := { nodes := [{ data := Racoon.NodeData.document, children := [] }] }, root_node := some 0, foster_parenting := false, frameset_ok := true, active_formatting_elements := [], head_element_pointer := none, form_element_pointer := none, minorLog := [] }, comment_token := none, doctype_token := none, tag_token := some (Racoon.TagTokenType.StartTag { tag_name := "tabl", self_closing := false, attributes := [] }), attribute_name := none, character_reference_code := 0, last_emitted_start_tag := none } =
    Except.ok { state := Racoon.TokenizerState.TagName, return_state := none, temporary_buffer := [], pos := 6, parser := { insertion_mode := Racoon.InsertionMode.Initial, template_insertion_modes := [], original_insertion_mode := none, open_elements := [], context_element := none, arena := { nodes := [{ data := Racoon.NodeData.document, children := [] }] }, root_node := some 0, foster_parenting := false, frameset_ok := true, active_formatting_elements := [], head_element_pointer := none, form_element_pointer := none, minorLog := [] }, comment_token := none, doctype_token := none, tag_token := some (Racoon.TagTokenType.StartTag { tag_name := "table", self_closing := false, attributes := [] }), attribute_name := none, character_reference_code := 0, last_emitted_start_tag := none } := by rfl

theorem c4tbl_step6 : step 293 ['<', 't', 'a', 'b', 'l', 'e', '/', '>'] { state := Racoon.TokenizerState.TagName, return_state := none, temporary_buffer := [], pos := 6, parser := { insertion_mode := Racoon.InsertionMode.Initial, template_insertion_modes := [], original_insertion_mode := none, open_elements := [], context_element := none, arena := { nodes := [{ data := Racoon.NodeData.document, children := [] }] }, root_node := some 0, foster_parenting := false, frameset_ok := true, active_formatting_elements := [], head_element_pointer := none, form_element_pointer := none, minorLog := [] }, comment_token := none, doctype_token := none, tag_token := some (Racoon.TagTokenType.StartTag { tag_name := "table", self_closing := false, attributes := [] }), attribute_name := none, character_reference_code := 0, last_emitted_start_tag := none } =
    Except.ok { state := Racoon.TokenizerState.SelfClosingStartTag, return_state := none, temporary_buffer := [], pos := 7, parser := { insertion_mode := Racoon.InsertionMode.Initial, template_insertion_modes := [], original_insertion_mode := none, open_elements := [], context_element := none, arena := { nodes := [{ data := Racoon.NodeData.document, children := [] }] }, root_node := some 0, foster_parenting := false, frameset_ok := true, active_formatting_elements := [], head_element_pointer := none, form_element_pointer := none, minorLog := [] }, comment_token := none, doctype_token := none, tag_token := some (Racoon.TagTokenType.StartTag { tag_name := "table", self_closing := false, attributes := [] }), attribute_name := none, character_reference_code := 0, last_emitted_start_tag := none } := by rfl

theorem c4tbl_step7 : step 292 ['<', 't', 'a', 'b', 'l', 'e', '/', '>'] { state := Racoon.TokenizerState.SelfClosingStartTag, return_state := none, temporary_buffer := [], pos := 7, parser := { insertion_mode := Racoon.InsertionMode.Initial, template_insertion_modes := [], original_insertion_mode := none, open_elements := [], context_element := none, arena := { nodes := [{ data := Racoon.NodeData.document, children := [] }] }, root_node := some 0, foster_parenting := false, frameset_ok := true, active_formatting_elements := [], head_element_pointer := none, form_element_pointer := none, minorLog := [] }, comment_token := none, doctype_token := none, tag_token := some (Racoon.TagTokenType.StartTag { tag_name := "table", self_closing := false, attributes := [] }), attribute_name := none, character_reference_code := 0, last_emitted_start_tag := none } =
    Except.error (Racoon.Halt.panicked) := by
  rw [step.eq_def]
  simp [c4tbl_hop0, data_state, tag_open_state, end_tag_open_state, tag_name_state, before_attribute_name_state, attribute_name_state, after_attribute_name_state, before_attribute_value_state, attribute_value_double_quoted_state, attribute_value_single_quoted_state, attribute_value_unquoted_state, after_attribute_value_quoted_state, self_closing_start_tag_state, emit, emit_current_tag_token, TokState.with_tag_token, TokState.set_self_closing, TokState.push_char_to_tag_name, TokState.handle_error, TokState.charref_in_attribute, cursorNext, cursorCurrent, cursorPeek, cursorPrev, cursorNextAdd, chars.NULL, DefaultTokenizerErrorHandler.error_emitted, Bind.bind, Except.bind, Pure.pure, Except.pure, Except.map]
  all_goals decide

theorem c4tbl_run : tokenizer_run 300 ['<', 't', 'a', 'b', 'l', 'e', '/', '>'] TokState.initial =
    Except.error (Racoon.Halt.panicked) := by
  rw [tokenizer_run_step_ok 299 (by decide) c4tbl_step0]
  rw [tokenizer_run_step_ok 298 (by decide) c4tbl_step1]
  rw [tokenizer_run_step_ok 297 (by decide) c4tbl_step2]
  rw [tokenizer_run_step_ok 296 (by decide) c4tbl_step3]
  rw [tokenizer_run_step_ok 295 (by decide) c4tbl_step4]
  rw [tokenizer_run_step_ok 294 (by decide) c4tbl_step5]
  rw [tokenizer_run_step_ok 293 (by decide) c4tbl_step6]
  rw [tokenizer_run_step_err 292 (by decide) c4tbl_step7]


/-! ### Staged evaluation lemmas: run `c2` -/

theorem c2_hop5 : token_emitted 279 { insertion_mode := Racoon.InsertionMode.InBody, template_insertion_modes := [], original_insertion_mode := none, open_elements := [1, 3], context_element := none, arena := { nodes := [{ data := Racoon.NodeData.document, children := [1] }, { data := Racoon.NodeData.element "html" none, children := [2, 3] }, { data := Racoon.NodeData.element "head" none, children := [] }, { data := Racoon.NodeData.element "body" none, children := [] }] }, root_node := some 0, foster_parenting := false, frameset_ok := true, active_formatting_elements := [], head_element_pointer := some 2, form_element_pointer := none, minorLog := [] } (Racoon.HtmlToken.TagTok (Racoon.TagTokenType.StartTag { tag_name := "a", self_closing := false, attributes := [] })) =
    Except.ok ({ insertion_mode := Racoon.InsertionMode.InBody, template_insertion_modes := [], original_insertion_mode := none, open_elements := [1, 3, 4], context_element := none, arena := { nodes := [{ data := Racoon.NodeData.document, children := [1] }, { data := Racoon.NodeData.element "html" none, children := [2, 3] }, { data := Racoon.NodeData.element "head" none, children := [] }, { data := Racoon.NodeData.element "body" none, children := [4] }, { data := Racoon.NodeData.element "a" none, children := [] }] }, root_node := some 0, foster_parenting := false, frameset_ok := true, active_formatting_elements := [Racoon.NodeOrMarker.Node 4 { tag_name := "a", self_closing := false, attributes := [] }], head_element_pointer := some 2, form_element_pointer := none, minorLog := [] }, { self_closed := false, tokenizer_state := none }) := by rfl

theorem c2_hop4 : token_emitted 282 { insertion_mode := Racoon.InsertionMode.AfterHead, template_insertion_modes := [], original_insertion_mode := none, open_elements := [1], context_element := none, arena := { nodes := [{ data := Racoon.NodeData.document, children := [1] }, { data := Racoon.NodeData.element "html" none, children := [2] }, { data := Racoon.NodeData.element "head" none, children := [] }] }, root_node := some 0, foster_parenting := false, frameset_ok := true, active_formatting_elements := [], head_element_pointer := some 2, form_element_pointer := none, minorLog := [] } (Racoon.HtmlToken.TagTok (Racoon.TagTokenType.StartTag { tag_name := "a", self_closing := false, attributes := [] })) =
    Except.ok ({ insertion_mode := Racoon.InsertionMode.InBody, template_insertion_modes := [], original_insertion_mode := none, open_elements := [1, 3, 4], context_element := none, arena := { nodes := [{ data := Racoon.NodeData.document, children := [1] }, { data := Racoon.NodeData.element "html" none, children := [2, 3] }, { data := Racoon.NodeData.element "head" none, children := [] }, { data := Racoon.NodeData.element "body" none, children := [4] }, { data := Racoon.NodeData.element "a" none, children := [] }] }, root_node := some 0, foster_parenting := false, frameset_ok := true, active_formatting_elements := [Racoon.NodeOrMarker.Node 4 { tag_name := "a", self_closing := false, attributes := [] }], head_element_pointer := some 2, form_element_pointer := none, minorLog := [] }, { self_closed := false, tokenizer_state := none }) := by
  rw [token_emitted.eq_def]
  simp [c2_hop5, initial_insertion_mode, before_html_insertion_mode, before_html_anything_else, before_head_insertion_mode, before_head_anything_else, in_head_insertion_mode, in_head_anything_else, after_head_insertion_mode, after_head_anything_else, ParserState.insert_an_html_element, ParserState.insert_foreign_element, ParserState.insert_create_an_element_for_the_token_result, create_an_element_for_the_token, create_element, ParserState.new_node, Arena.new_node, Arena.append_child, Arena.get?, Arena.dataOf?, Arena.last_child, Arena.isTextId, Arena.extend_text, ParserState.insert_character, ParserState.appropriate_place_for_inserting_a_node, ParserState.popExpect, ParserState.current_node_id?, ParserState.current_node?, ParserState.current_element?, ParserState.add_attribute_to_element, ParserState.insert_a_comment, ParserState.reconstruct_the_active_formatting_elements, isTreeWhitespace, chars.CHARACTER_TABULATION, chars.LINE_FEED, chars.FORM_FEED, chars.CARRIAGE_RETURN, chars.SPACE, chars.NULL, TagToken.new, HTML_NAMESPACE, IN_HEAD_DELEGATED, Acknowledgement.no, Acknowledgement.yes, TagTokenType.self_closing, TagTokenType.tag_name, DefaultParseErrorHandler.error_emitted, ParserState.handle_error, Bind.bind, Except.bind, Pure.pure, Except.pure, Except.map]
  all_goals decide

theorem c2_hop3 : token_emitted 285 { insertion_mode := Racoon.InsertionMode.InHead, template_insertion_modes := [], original_insertion_mode := none, open_elements := [1, 2], context_element := none, arena := { nodes := [{ data := Racoon.NodeData.document, children := [1] }, { data := Racoon.NodeData.element "html" none, children := [2] }, { data := Racoon.NodeData.element "head" none, children := [] }] }, root_node := some 0, foster_parenting := false, frameset_ok := true, active_formatting_elements := [], head_element_pointer := some 2, form_element_pointer := none, minorLog := [] } (Racoon.HtmlToken.TagTok (Racoon.TagTokenType.StartTag { tag_name := "a", self_closing := false, attributes := [] })) =
    Except.ok ({ insertion_mode := Racoon.InsertionMode.InBody, template_insertion_modes := [], original_insertion_mode := none, open_elements := [1, 3, 4], context_element := none, arena := { nodes := [{ data := Racoon.NodeData.document, children := [1] }, { data := Racoon.NodeData.element "html" none, children := [2, 3] }, { data := Racoon.NodeData.element "head" none, children := [] }, { data := Racoon.NodeData.element "body" none, children := [4] }, { data := Racoon.NodeData.element "a" none, children := [] }] }, root_node := some 0, foster_parenting := false, frameset_ok := true, active_formatting_elements := [Racoon.NodeOrMarker.Node 4 { tag_name := "a", self_closing := false, attributes := [] }], head_element_pointer := some 2, form_element_pointer := none, minorLog := [] }, { self_closed := false, tokenizer_state := none }) := by
  rw [token_emitted.eq_def]
  simp [c2_hop4, initial_insertion_mode, before_html_insertion_mode, before_html_anything_else, before_head_insertion_mode, before_head_anything_else, in_head_insertion_mode, in_head_anything_else, after_head_insertion_mode, after_head_anything_else, ParserState.insert_an_html_element, ParserState.insert_foreign_element, ParserState.insert_create_an_element_for_the_token_result, create_an_element_for_the_token, create_element, ParserState.new_node, Arena.new_node, Arena.append_child, Arena.get?, Arena.dataOf?, Arena.last_child, Arena.isTextId, Arena.extend_text, ParserState.insert_character, ParserState.appropriate_place_for_inserting_a_node, ParserState.popExpect, ParserState.current_node_id?, ParserState.current_node?, ParserState.current_element?, ParserState.add_attribute_to_element, ParserState.insert_a_comment, ParserState.reconstruct_the_active_formatting_elements, isTreeWhitespace, chars.CHARACTER_TABULATION, chars.LINE_FEED, chars.FORM_FEED, chars.CARRIAGE_RETURN, chars.SPACE, chars.NULL, TagToken.new, HTML_NAMESPACE, IN_HEAD_DELEGATED, Acknowledgement.no, Acknowledgement.yes, TagTokenType.self_closing, TagTokenType.tag_name, DefaultParseErrorHandler.error_emitted, ParserState.handle_error, Bind.bind, Except.bind, Pure.pure, Except.pure, Except.map]
  all_goals decide

theorem c2_hop2 : token_emitted 288 { insertion_mode := Racoon.InsertionMode.BeforeHead, template_insertion_modes := [], original_insertion_mode := none, open_elements := [1], context_element := none, arena := { nodes := [{ data := Racoon.NodeData.document, children := [1] }, { data := Racoon.NodeData.element "html" none, children := [] }] }, root_node := some 0, foster_parenting := false, frameset_ok := true, active_formatting_elements := [], head_element_pointer := none, form_element_pointer := none, minorLog := [] } (Racoon.HtmlToken.TagTok (Racoon.TagTokenType.StartTag { tag_name := "a", self_closing := false, attributes := [] })) =
    Except.ok ({ insertion_mode := Racoon.InsertionMode.InBody, template_insertion_modes := [], original_insertion_mode := none, open_elements := [1, 3, 4], context_element := none, arena := { nodes := [{ data := Racoon.NodeData.document, children := [1] }, { data := Racoon.NodeData.element "html" none, children := [2, 3] }, { data := Racoon.NodeData.element "head" none, children := [] }, { data := Racoon.NodeData.element "body" none, children := [4] }, { data := Racoon.NodeData.element "a" none, children := [] }] }, root_node := some 0, foster_parenting := false, frameset_ok := true, active_formatting_elements := [Racoon.NodeOrMarker.Node 4 { tag_name := "a", self_closing := false, attributes := [] }], head_element_pointer := some 2, form_element_pointer := none, minorLog := [] }, { self_closed := false, tokenizer_state := none }) := by
  rw [token_emitted.eq_def]
  simp [c2_hop3, initial_insertion_mode, before_html_insertion_mode, before_html_anything_else, before_head_insertion_mode, before_head_anything_else, in_head_insertion_mode, in_head_anything_else, after_head_insertion_mode, after_head_anything_else, ParserState.insert_an_html_element, ParserState.insert_foreign_element, ParserState.insert_create_an_element_for_the_token_result, create_an_element_for_the_token, create_element, ParserState.new_node, Arena.new_node, Arena.append_child, Arena.get?, Arena.dataOf?, Arena.last_child, Arena.isTextId, Arena.extend_text, ParserState.insert_character, ParserState.appropriate_place_for_inserting_a_node, ParserState.popExpect, ParserState.current_node_id?, ParserState.current_node?, ParserState.current_element?, ParserState.add_attribute_to_element, ParserState.insert_a_comment, ParserState.reconstruct_the_active_formatting_elements, isTreeWhitespace, chars.CHARACTER_TABULATION, chars.LINE_FEED, chars.FORM_FEED, chars.CARRIAGE_RETURN, chars.SPACE, chars.NULL, TagToken.new, HTML_NAMESPACE, IN_HEAD_DELEGATED, Acknowledgement.no, Acknowledgement.yes, TagTokenType.self_closing, TagTokenType.tag_name, DefaultParseErrorHandler.error_emitted, ParserState.handle_error, Bind.bind, Except.bind, Pure.pure, Except.pure, Except.map]
  all_goals decide

theorem c2_hop1 : token_emitted 291 { insertion_mode := Racoon.InsertionMode.BeforeHtml, template_insertion_modes := [], original_insertion_mode := none, open_elements := [], context_element := none, arena := { nodes := [{ data := Racoon.NodeData.document, children := [] }] }, root_node := some 0, foster_parenting := false, frameset_ok := true, active_formatting_elements := [], head_element_pointer := none, form_element_pointer := none, minorLog := [] } (Racoon.HtmlToken.TagTok (Racoon.TagTokenType.StartTag { tag_name := "a", self_closing := false, attributes := [] })) =
    Except.ok ({ insertion_mode := Racoon.InsertionMode.InBody, template_insertion_modes := [], original_insertion_mode := none, open_elements := [1, 3, 4], context_element := none, arena := { nodes := [{ data := Racoon.NodeData.document, children := [1] }, { data := Racoon.NodeData.element "html" none, children := [2, 3] }, { data := Racoon.NodeData.element "head" none, children := [] }, { data := Racoon.NodeData.element "body" none, children := [4] }, { data := Racoon.NodeData.element "a" none, children := [] }] }, root_node := some 0, foster_parenting := false, frameset_ok := true, active_formatting_elements := [Racoon.NodeOrMarker.Node 4 { tag_name := "a", self_closing := false, attributes := [] }], head_element_pointer := some 2, form_element_pointer := none, minorLog := [] }, { self_closed := false, tokenizer_state := none }) := by
  rw [token_emitted.eq_def]
  simp [c2_hop2, initial_insertion_mode, before_html_insertion_mode, before_html_anything_else, before_head_insertion_mode, before_head_anything_else, in_head_insertion_mode, in_head_anything_else, after_head_insertion_mode, after_head_anything_else, ParserState.insert_an_html_element, ParserState.insert_foreign_element, ParserState.insert_create_an_element_for_the_token_result, create_an_element_for_the_token, create_element, ParserState.new_node, Arena.new_node, Arena.append_child, Arena.get?, Arena.dataOf?, Arena.last_child, Arena.isTextId, Arena.extend_text, ParserState.insert_character, ParserState.appropriate_place_for_inserting_a_node, ParserState.popExpect, ParserState.current_node_id?, ParserState.current_node?, ParserState.current_element?, ParserState.add_attribute_to_element, ParserState.insert_a_comment, ParserState.reconstruct_the_active_formatting_elements, isTreeWhitespace, chars.CHARACTER_TABULATION, chars.LINE_FEED, chars.FORM_FEED, chars.CARRIAGE_RETURN, chars.SPACE, chars.NULL, TagToken.new, HTML_NAMESPACE, IN_HEAD_DELEGATED, Acknowledgement.no, Acknowledgement.yes, TagTokenType.self_closing, TagTokenType.tag_name, DefaultParseErrorHandler.error_emitted, ParserState.handle_error, Bind.bind, Except.bind, Pure.pure, Except.pure, Except.map]
  all_goals decide

theorem c2_hop0 : token_emitted 293 { insertion_mode := Racoon.InsertionMode.Initial, template_insertion_modes := [], original_insertion_mode := none, open_elements := [], context_element := none, arena := { nodes := [{ data := Racoon.NodeData.document, children := [] }] }, root_node := some 0, foster_parenting := false, frameset_ok := true, active_formatting_elements := [], head_element_pointer := none, form_element_pointer := none, minorLog := [] } (Racoon.HtmlToken.TagTok (Racoon.TagTokenType.StartTag { tag_name := "a", self_closing := false, attributes := [] })) =
    Except.ok ({ insertion_mode := Racoon.InsertionMode.InBody, template_insertion_modes := [], original_insertion_mode := none, open_elements := [1, 3, 4], context_element := none, arena := { nodes := [{ data := Racoon.NodeData.document, children := [1] }, { data := Racoon.NodeData.element "html" none, children := [2, 3] }, { data := Racoon.NodeData.element "head" none, children := [] }, { data := Racoon.NodeData.element "body" none, children := [4] }, { data := Racoon.NodeData.element "a" none, children := [] }] }, root_node := some 0, foster_parenting := false, frameset_ok := true, active_formatting_elements := [Racoon.NodeOrMarker.Node 4 { tag_name := "a", self_closing := false, attributes := [] }], head_element_pointer := some 2, form_element_pointer := none, minorLog := [] }, { self_closed := false, tokenizer_state := none }) := by
  rw [token_emitted.eq_def]
  simp [c2_hop1, initial_insertion_mode, before_html_insertion_mode, before_html_anything_else, before_head_insertion_mode, before_head_anything_else, in_head_insertion_mode, in_head_anything_else, after_head_insertion_mode, after_head_anything_else, ParserState.insert_an_html_element, ParserState.insert_foreign_element, ParserState.insert_create_an_element_for_the_token_result, create_an_element_for_the_token, create_element, ParserState.new_node, Arena.new_node, Arena.append_child, Arena.get?, Arena.dataOf?, Arena.last_child, Arena.isTextId, Arena.extend_text, ParserState.insert_character, ParserState.appropriate_place_for_inserting_a_node, ParserState.popExpect, ParserState.current_node_id?, ParserState.current_node?, ParserState.current_element?, ParserState.add_attribute_to_element, ParserState.insert_a_comment, ParserState.reconstruct_the_active_formatting_elements, isTreeWhitespace, chars.CHARACTER_TABULATION, chars.LINE_FEED, chars.FORM_FEED, chars.CARRIAGE_RETURN, chars.SPACE, chars.NULL, TagToken.new, HTML_NAMESPACE, IN_HEAD_DELEGATED, Acknowledgement.no, Acknowledgement.yes, TagTokenType.self_closing, TagTokenType.tag_name, DefaultParseErrorHandler.error_emitted, ParserState.handle_error, Bind.bind, Except.bind, Pure.pure, Except.pure, Except.map]
  all_goals decide

theorem c2_step0 : step 299 ['<', 'a', '>', '<', 's', 'p', 'a', 'n', '>'] TokState.initial =
    Except.ok { state := Racoon.TokenizerState.TagOpen, return_state := none, temporary_buffer := [], pos := 1, parser := { insertion_mode := Racoon.InsertionMode.Initial, template_insertion_modes := [], original_insertion_mode := none, open_elements := [], context_element := none, arena := { nodes := [{ data := Racoon.NodeData.document, children := [] }] }, root_node := some 0, foster_parenting := false, frameset_ok := true, active_formatting_elements := [], head_element_pointer := none, form_element_pointer := none, minorLog := [] }, comment_token := none, doctype_token := none, tag_token := none, attribute_name := none, character_reference_code := 0, last_emitted_start_tag := none } := by rfl

theorem c2_step1 : step 298 ['<', 'a', '>', '<', 's', 'p', 'a', 'n', '>'] { state := Racoon.TokenizerState.TagOpen, return_state := none, temporary_buffer := [], pos := 1, parser := { insertion_mode := Racoon.InsertionMode.Initial, template_insertion_modes := [], original_insertion_mode := none, open_elements := [], context_element := none, arena := { nodes := [{ data := Racoon.NodeData.document, children := [] }] }, root_node := some 0, foster_parenting := false, frameset_ok := true, active_formatting_elements := [], head_element_pointer := none, form_element_pointer := none, minorLog := [] }, comment_token := none, doctype_token := none, tag_token := none, attribute_name := none, character_reference_code := 0, last_emitted_start_tag := none } =
    Except.ok { state := Racoon.TokenizerState.TagName, return_state := none, temporary_buffer := [], pos := 2, parser := { insertion_mode := Racoon.InsertionMode.Initial, template_insertion_modes := [], original_insertion_mode := none, open_elements := [], context_element := none, arena := { nodes := [{ data := Racoon.NodeData.document, children := [] }] }, root_node := some 0, foster_parenting := false, frameset_ok := true, active_formatting_elements := [], head_element_pointer := none, form_element_pointer := none, minorLog := [] }, comment_token := none, doctype_token := none, tag_token := some (Racoon.TagTokenType.StartTag { tag_name := "a", self_closing := false, attributes := [] }), attribute_name := none, character_reference_code := 0, last_emitted_start_tag := none } := by rfl

theorem c2_step2 : step 297 ['<', 'a', '>', '<', 's', 'p', 'a', 'n', '>'] { state := Racoon.TokenizerState.TagName, return_state := none, temporary_buffer := [], pos := 2, parser := { insertion_mode := Racoon.InsertionMode.Initial, template_insertion_modes := [], original_insertion_mode := none, open_elements := [], context_element := none, arena := { nodes := [{ data := Racoon.NodeData.document, children := [] }] }, root_node := some 0, foster_parenting := false, frameset_ok := true, active_formatting_elements := [], head_element_pointer := none, form_element_pointer := none, minorLog := [] }, comment_token := none, doctype_token := none, tag_token := some (Racoon.TagTokenType.StartTag { tag_name := "a", self_closing := false, attributes := [] }), attribute_name := none, character_reference_code := 0, last_emitted_start_tag := none } =
    Except.ok { state := Racoon.TokenizerState.Data, return_state := none, temporary_buffer := [], pos := 3, parser := { insertion_mode := Racoon.InsertionMode.InBody, template_insertion_modes := [], original_insertion_mode := none, open_elements := [1, 3, 4], context_element := none, arena := { nodes := [{ data := Racoon.NodeData.document, children := [1] }, { data := Racoon.NodeData.element "html" none, children := [2, 3] }, { data := Racoon.NodeData.element "head" none, children := [] }, { data := Racoon.NodeData.element "body" none, children := [4] }, { data := Racoon.NodeData.element "a" none, children := [] }] }, root_node := some 0, foster_parenting := false, frameset_ok := true, active_formatting_elements := [Racoon.NodeOrMarker.Node 4 { tag_name := "a", self_closing := false, attributes := [] }], head_element_pointer := some 2, form_element_pointer := none, minorLog := [] }, comment_token := none, doctype_token := none, tag_token := none, attribute_name := none, character_reference_code := 0, last_emitted_start_tag := some { tag_name := "a", self_closing := false, attributes := [] } } := by
  rw [step.eq_def]
  simp [c2_hop0, data_state, tag_open_state, end_tag_open_state, tag_name_state, before_attribute_name_state, attribute_name_state, after_attribute_name_state, before_attribute_value_state, attribute_value_double_quoted_state, attribute_value_single_quoted_state, attribute_value_unquoted_state, after_attribute_value_quoted_state, self_closing_start_tag_state, emit, emit_current_tag_token, TokState.with_tag_token, TokState.set_self_closing, TokState.push_char_to_tag_name, TokState.handle_error, TokState.charref_in_attribute, cursorNext, cursorCurrent, cursorPeek, cursorPrev, cursorNextAdd, chars.NULL, DefaultTokenizerErrorHandler.error_emitted, Bind.bind, Except.bind, Pure.pure, Except.pure, Except.map]
  all_goals decide

theorem c2_step3 : step 296 ['<', 'a', '>', '<', 's', 'p', 'a', 'n', '>'] { state := Racoon.TokenizerState.Data, return_state := none, temporary_buffer := [], pos := 3, parser := { insertion_mode := Racoon.InsertionMode.InBody, template_insertion_modes := [], original_insertion_mode := none, open_elements := [1, 3, 4], context_element := none, arena := { nodes := [{ data := Racoon.NodeData.document, children := [1] }, { data := Racoon.NodeData.element "html" none, children := [2, 3] }, { data := Racoon.NodeData.element "head" none, children := [] }, { data := Racoon.NodeData.element "body" none, children := [4] }, { data := Racoon.NodeData.element "a" none, children := [] }] }, root_node := some 0, foster_parenting := false, frameset_ok := true, active_formatting_elements := [Racoon.NodeOrMarker.Node 4 { tag_name := "a", self_closing := false, attributes := [] }], head_element_pointer := some 2, form_element_pointer := none, minorLog := [] }, comment_token := none, doctype_token := none, tag_token := none, attribute_name := none, character_reference_code := 0, last_emitted_start_tag := some { tag_name := "a", self_closing := false, attributes := [] } } =
    Except.ok { state := Racoon.TokenizerState.TagOpen, return_state := none, temporary_buffer := [], pos := 4, parser := { insertion_mode := Racoon.InsertionMode.InBody, template_insertion_modes := [], original_insertion_mode := none, open_elements := [1, 3, 4], context_element := none, arena := { nodes := [{ data := Racoon.NodeData.document, children := [1] }, { data := Racoon.NodeData.element "html" none, children := [2, 3] }, { data := Racoon.NodeData.element "head" none, children := [] }, { data := Racoon.NodeData.element "body" none, children := [4] }, { data := Racoon.NodeData.element "a" none, children := [] }] }, root_node := some 0, foster_parenting := false, frameset_ok := true, active_formatting_elements := [Racoon.NodeOrMarker.Node 4 { tag_name := "a", self_closing := false, attributes := [] }], head_element_pointer := some 2, form_element_pointer := none, minorLog := [] }, comment_token := none, doctype_token := none, tag_token := none, attribute_name := none, character_reference_code := 0, last_emitted_start_tag := some { tag_name := "a", self_closing := false, attributes := [] } } := by rfl

theorem c2_step4 : step 295 ['<', 'a', '>', '<', 's', 'p', 'a', 'n', '>'] { state := Racoon.TokenizerState.TagOpen, return_state := none, temporary_buffer := [], pos := 4, parser := { insertion_mode := Racoon.InsertionMode.InBody, template_insertion_modes := [], original_insertion_mode := none, open_elements := [1, 3, 4], context_element := none, arena := { nodes := [{ data := Racoon.NodeData.document, children := [1] }, { data := Racoon.NodeData.element "html" none, children := [2, 3] }, { data := Racoon.NodeData.element "head" none, children := [] }, { data := Racoon.NodeData.element "body" none, children := [4] }, { data := Racoon.NodeData.element "a" none, children := [] }] }, root_node := some 0, foster_parenting := false, frameset_ok := true, active_formatting_elements := [Racoon.NodeOrMarker.Node 4 { tag_name := "a", self_closing := false, attributes := [] }], head_element_pointer := some 2, form_element_pointer := none, minorLog := [] }, comment_token := none, doctype_token := none, tag_token := none, attribute_name := none, character_reference_code := 0, last_emitted_start_tag := some { tag_name := "a", self_closing := false, attributes := [] } } =
    Except.ok { state := Racoon.TokenizerState.TagName, return_state := none, temporary_buffer := [], pos := 5, parser := { insertion_mode := Racoon.InsertionMode.InBody, template_insertion_modes := [], original_insertion_mode := none, open_elements := [1, 3, 4], context_element := none, arena := { nodes := [{ data := Racoon.NodeData.document, children := [1] }, { data := Racoon.NodeData.element "html" none, children := [2, 3] }, { data := Racoon.NodeData.element "head" none, children := [] }, { data := Racoon.NodeData.element "body" none, children := [4] }, { data := Racoon.NodeData.element "a" none, children := [] }] }, root_node := some 0, foster_parenting := false, frameset_ok := true, active_formatting_elements := [Racoon.NodeOrMarker.Node 4 { tag_name := "a", self_closing := false, attributes := [] }], head_element_pointer := some 2, form_element_pointer := none, minorLog := [] }, comment_token := none, doctype_token := none, tag_token := some (Racoon.TagTokenType.StartTag { tag_name := "s", self_closing := false, attributes := [] }), attribute_name := none, character_reference_code := 0, last_emitted_start_tag := some { tag_name := "a", self_closing := false, attributes := [] } } := by rfl

theorem c2_step5 : step 294 ['<', 'a', '>', '<', 's', 'p', 'a', 'n', '>'] { state := Racoon.TokenizerState.TagName, return_state := none, temporary_buffer := [], pos := 5, parser := { insertion_mode := Racoon.InsertionMode.InBody, template_insertion_modes := [], original_insertion_mode := none, open_elements := [1, 3, 4], context_element := none, arena := { nodes := [{ data := Racoon.NodeData.document, children := [1] }, { data := Racoon.NodeData.element "html" none, children := [2, 3] }, { data := Racoon.NodeData.element "head" none, children := [] }, { data := Racoon.NodeData.element "body" none, children := [4] }, { data := Racoon.NodeData.element "a" none, children := [] }] }, root_node := some 0, foster_parenting := false, frameset_ok := true, active_formatting_elements := [Racoon.NodeOrMarker.Node 4 { tag_name := "a", self_closing := false, attributes := [] }], head_element_pointer := some 2, form_element_pointer := none, minorLog := [] }, comment_token := none, doctype_token := none, tag_token := some (Racoon.TagTokenType.StartTag { tag_name := "s", self_closing := false, attributes := [] }), attribute_name := none, character_reference_code := 0, last_emitted_start_tag := some { tag_name := "a", self_closing := false, attributes := [] } } =
    Except.ok { state := Racoon.TokenizerState.TagName, return_state := none, temporary_buffer := [], pos := 6, parser := { insertion_mode := Racoon.InsertionMode.InBody, template_insertion_modes := [], original_insertion_mode := none, open_elements := [1, 3, 4], context_element := none, arena := { nodes := [{ data := Racoon.NodeData.document, children := [1] }, { data := Racoon.NodeData.element "html" none, children := [2, 3] }, { data := Racoon.NodeData.element "head" none, children := [] }, { data := Racoon.NodeData.element "body" none, children := [4] }, { data := Racoon.NodeData.element "a" none, children := [] }] }, root_node := some 0, foster_parenting := false, frameset_ok := true, active_formatting_elements := [Racoon.NodeOrMarker.Node 4 { tag_name := "a", self_closing := false, attributes := [] }], head_element_pointer := some 2, form_element_pointer := none, minorLog := [] }, comment_token := none, doctype_token := none, tag_token := some (Racoon.TagTokenType.StartTag { tag_name := "sp", self_closing := false, attributes := [] }), attribute_name := none, character_reference_code := 0, last_emitted_start_tag := some { tag_name := "a", self_closing := false, attributes := [] } } := by rfl

theorem c2_step6 : step 293 ['<', 'a', '>', '<', 's', 'p', 'a', 'n', '>'] { state := Racoon.TokenizerState.TagName, return_state := none, temporary_buffer := [], pos := 6, parser := { insertion_mode := Racoon.InsertionMode.InBody, template_insertion_modes := [], original_insertion_mode := none, open_elements := [1, 3, 4], context_element := none, arena := { nodes := [{ data := Racoon.NodeData.document, children := [1] }, { data := Racoon.NodeData.element "html" none, children := [2, 3] }, { data := Racoon.NodeData.element "head" none, children := [] }, { data := Racoon.NodeData.element "body" none, children := [4] }, { data := Racoon.NodeData.element "a" none, children := [] }] }, root_node := some 0, foster_parenting := false, frameset_ok := true, active_formatting_elements := [Racoon.NodeOrMarker.Node 4 { tag_name := "a", self_closing := false, attributes := [] }], head_element_pointer := some 2, form_element_pointer := none, minorLog := [] }, comment_token := none, doctype_token := none, tag_token := some (Racoon.TagTokenType.StartTag { tag_name := "sp", self_closing := false, attributes := [] }), attribute_name := none, character_reference_code := 0, last_emitted_start_tag := some { tag_name := "a", self_closing := false, attributes := [] } } =
    Except.ok { state := Racoon.TokenizerState.TagName, return_state := none, temporary_buffer := [], pos := 7, parser := { insertion_mode := Racoon.InsertionMode.InBody, template_insertion_modes := [], original_insertion_mode := none, open_elements := [1, 3, 4], context_element := none, arena := { nodes := [{ data := Racoon.NodeData.document, children := [1] }, { data := Racoon.NodeData.element "html" none, children := [2, 3] }, { data := Racoon.NodeData.element "head" none, children := [] }, { data := Racoon.NodeData.element "body" none, children := [4] }, { data := Racoon.NodeData.element "a" none, children := [] }] }, root_node := some 0, foster_parenting := false, frameset_ok := true, active_formatting_elements := [Racoon.NodeOrMarker.Node 4 { tag_name := "a", self_closing := false, attributes := [] }], head_element_pointer := some 2, form_element_pointer := none, minorLog := [] }, comment_token := none, doctype_token := none, tag_token := some (Racoon.TagTokenType.StartTag { tag_name := "spa", self_closing := false, attributes := [] }), attribute_name := none, character_reference_code := 0, last_emitted_start_tag := some { tag_name := "a", self_closing := false, attributes := [] } } := by rfl

theorem c2_step7 : step 292 ['<', 'a', '>', '<', 's', 'p', 'a', 'n', '>'] { state := Racoon.TokenizerState.TagName, return_state := none, temporary_buffer := [], pos := 7, parser := { insertion_mode := Racoon.InsertionMode.InBody, template_insertion_modes := [], original_insertion_mode := none, open_elements := [1, 3, 4], context_element := none, arena := { nodes := [{ data := Racoon.NodeData.document, children := [1] }, { data := Racoon.NodeData.element "html" none, children := [2, 3] }, { data := Racoon.NodeData.element "head" none, children := [] }, { data := Racoon.NodeData.element "body" none, children := [4] }, { data := Racoon.NodeData.element "a" none, children := [] }] }, root_node := some 0, foster_parenting := false, frameset_ok := true, active_formatting_elements := [Racoon.NodeOrMarker.Node 4 { tag_name := "a", self_closing := false, attributes := [] }], head_element_pointer := some 2, form_element_pointer := none, minorLog := [] }, comment_token := none, doctype_token := none, tag_token := some (Racoon.TagTokenType.StartTag { tag_name := "spa", self_closing := false, attributes := [] }), attribute_name := none, character_reference_code := 0, last_emitted_start_tag := some { tag_name := "a", self_closing := false, attributes := [] } } =
    Except.ok { state := Racoon.TokenizerState.TagName, return_state := none, temporary_buffer := [], pos := 8, parser := { insertion_mode := Racoon.InsertionMode.InBody, template_insertion_modes := [], original_insertion_mode := none, open_elements := [1, 3, 4], context_element := none, arena := { nodes := [{ data := Racoon.NodeData.document, children := [1] }, { data := Racoon.NodeData.element "html" none, children := [2, 3] }, { data := Racoon.NodeData.element "head" none, children := [] }, { data := Racoon.NodeData.element "body" none, children := [4] }, { data := Racoon.NodeData.element "a" none, children := [] }] }, root_node := some 0, foster_parenting := false, frameset_ok := true, active_formatting_elements := [Racoon.NodeOrMarker.Node 4 { tag_name := "a", self_closing := false, attributes := [] }], head_element_pointer := some 2, form_element_pointer := none, minorLog := [] }, comment_token := none, doctype_token := none, tag_token := some (Racoon.TagTokenType.StartTag { tag_name := "span", self_closing := false, attributes := [] }), attribute_name := none, character_reference_code := 0, last_emitted_start_tag := some { tag_name := "a", self_closing := false, attributes := [] } } := by rfl

theorem c2_step8 : step 291 ['<', 'a', '>', '<', 's', 'p', 'a', 'n', '>'] { state := Racoon.TokenizerState.TagName, return_state := none, temporary_buffer := [], pos := 8, parser := { insertion_mode := Racoon.InsertionMode.InBody, template_insertion_modes := [], original_insertion_mode := none, open_elements := [1, 3, 4], context_element := none, arena := { nodes := [{ data := Racoon.NodeData.document, children := [1] }, { data := Racoon.NodeData.element "html" none, children := [2, 3] }, { data := Racoon.NodeData.element "head" none, children := [] }, { data := Racoon.NodeData.element "body" none, children := [4] }, { data := Racoon.NodeData.element "a" none, children := [] }] }, root_node := some 0, foster_parenting := false, frameset_ok := true, active_formatting_elements := [Racoon.NodeOrMarker.Node 4 { tag_name := "a", self_closing := false, attributes := [] }], head_element_pointer := some 2, form_element_pointer := none, minorLog := [] }, comment_token := none, doctype_token := none, tag_token := some (Racoon.TagTokenType.StartTag { tag_name := "span", self_closing := false, attributes := [] }), attribute_name := none, character_reference_code := 0, last_emitted_start_tag := some { tag_name := "a", self_closing := false, attributes := [] } } =
    Except.ok { state := Racoon.TokenizerState.Data, return_state := none, temporary_buffer := [], pos := 9, parser := { insertion_mode := Racoon.InsertionMode.InBody, template_insertion_modes := [], original_insertion_mode := none, open_elements := [1, 3, 4, 5], context_element := none, arena := { nodes := [{ data := Racoon.NodeData.document, children := [1] }, { data := Racoon.NodeData.element "html" none, children := [2, 3] }, { data := Racoon.NodeData.element "head" none, children := [] }, { data := Racoon.NodeData.element "body" none, children := [4] }, { data := Racoon.NodeData.element "a" none, children := [5] }, { data := Racoon.NodeData.element "span" none, children := [] }] }, root_node := some 0, foster_parenting := false, frameset_ok := true, active_formatting_elements := [Racoon.NodeOrMarker.Node 4 { tag_name := "a", self_closing := false, attributes := [] }], head_element_pointer := some 2, form_element_pointer := none, minorLog := [] }, comment_token := none, doctype_token := none, tag_token := none, attribute_name := none, character_reference_code := 0, last_emitted_start_tag := some { tag_name := "span", self_closing := false, attributes := [] } } := by rfl

theorem c2_run : tokenizer_run 300 ['<', 'a', '>', '<', 's', 'p', 'a', 'n', '>'] TokState.initial =
    Except.ok { state := Racoon.TokenizerState.Data, return_state := none, temporary_buffer := [], pos := 9, parser := { insertion_mode := Racoon.InsertionMode.InBody, template_insertion_modes := [], original_insertion_mode := none, open_elements := [1, 3, 4, 5], context_element := none, arena := { nodes := [{ data := Racoon.NodeData.document, children := [1] }, { data := Racoon.NodeData.element "html" none, children := [2, 3] }, { data := Racoon.NodeData.element "head" none, children := [] }, { data := Racoon.NodeData.element "body" none, children := [4] }, { data := Racoon.NodeData.element "a" none, children := [5] }, { data := Racoon.NodeData.element "span" none, children := [] }] }, root_node := some 0, foster_parenting := false, frameset_ok := true, active_formatting_elements := [Racoon.NodeOrMarker.Node 4 { tag_name := "a", self_closing := false, attributes := [] }], head_element_pointer := some 2, form_element_pointer := none, minorLog := [] }, comment_token := none, doctype_token := none, tag_token := none, attribute_name := none, character_reference_code := 0, last_emitted_start_tag := some { tag_name := "span", self_closing := false, attributes := [] } } := by
  rw [tokenizer_run_step_ok 299 (by decide) c2_step0]
  rw [tokenizer_run_step_ok 298 (by decide) c2_step1]
  rw [tokenizer_run_step_ok 297 (by decide) c2_step2]
  rw [tokenizer_run_step_ok 296 (by decide) c2_step3]
  rw [tokenizer_run_step_ok 295 (by decide) c2_step4]
  rw [tokenizer_run_step_ok 294 (by decide) c2_step5]
  rw [tokenizer_run_step_ok 293 (by decide) c2_step6]
  rw [tokenizer_run_step_ok 292 (by decide) c2_step7]
  rw [tokenizer_run_step_ok 291 (by decide) c2_step8]
  rw [tokenizer_run_done 290 (by decide)]


/-! ### Staged evaluation lemmas: run `c1` -/

theorem c1_hop5 : token_emitted 279 { insertion_mode := Racoon.InsertionMode.InBody, template_insertion_modes := [], original_insertion_mode := none, open_elements := [1, 3], context_element := none, arena := { nodes := [{ data := Racoon.NodeData.document, children := [1] }, { data := Racoon.NodeData.element "html" none, children := [2, 3] }, { data := Racoon.NodeData.element "head" none, children := [] }, { data := Racoon.NodeData.element "body" none, children := [] }] }, root_node := some 0, foster_parenting := false, frameset_ok := true, active_formatting_elements := [], head_element_pointer := some 2, form_element_pointer := none, minorLog := [] } (Racoon.HtmlToken.TagTok (Racoon.TagTokenType.StartTag { tag_name := "p", self_closing := false, attributes := [] })) =
    Except.ok ({ insertion_mode := Racoon.InsertionMode.InBody, template_insertion_modes := [], original_insertion_mode := none, open_elements := [1, 3, 4], context_element := none, arena := { nodes := [{ data := Racoon.NodeData.document, children := [1] }, { data := Racoon.NodeData.element "html" none, children := [2, 3] }, { data := Racoon.NodeData.element "head" none, children := [] }, { data := Racoon.NodeData.element "body" none, children := [4] }, { data := Racoon.NodeData.element "p" none, children := [] }] }, root_node := some 0, foster_parenting := false, frameset_ok := true, active_formatting_elements := [], head_element_pointer := some 2, form_element_pointer := none, minorLog := [] }, { self_closed := false, tokenizer_state := none }) := by rfl

theorem c1_hop4 : token_emitted 282 { insertion_mode := Racoon.InsertionMode.AfterHead, template_insertion_modes := [], original_insertion_mode := none, open_elements := [1], context_element := none, arena := { nodes := [{ data := Racoon.NodeData.document, children := [1] }, { data := Racoon.NodeData.element "html" none, children := [2] }, { data := Racoon.NodeData.element "head" none, children := [] }] }, root_node := some 0, foster_parenting := false, frameset_ok := true, active_formatting_elements := [], head_element_pointer := some 2, form_element_pointer := none, minorLog := [] } (Racoon.HtmlToken.TagTok (Racoon.TagTokenType.StartTag { tag_name := "p", self_closing := false, attributes := [] })) =
    Except.ok ({ insertion_mode := Racoon.InsertionMode.InBody, template_insertion_modes := [], original_insertion_mode := none, open_elements := [1, 3, 4], context_element := none, arena := { nodes := [{ data := Racoon.NodeData.document, children := [1] }, { data := Racoon.NodeData.element "html" none, children := [2, 3] }, { data := Racoon.NodeData.element "head" none, children := [] }, { data := Racoon.NodeData.element "body" none, children := [4] }, { data := Racoon.NodeData.element "p" none, children := [] }] }, root_node := some 0, foster_parenting := false, frameset_ok := true, active_formatting_elements := [], head_element_pointer := some 2, form_element_pointer := none, minorLog := [] }, { self_closed := false, tokenizer_state := none }) := by
  rw [token_emitted.eq_def]
  simp [c1_hop5, initial_insertion_mode, before_html_insertion_mode, before_html_anything_else, before_head_insertion_mode, before_head_anything_else, in_head_insertion_mode, in_head_anything_else, after_head_insertion_mode, after_head_anything_else, ParserState.insert_an_html_element, ParserState.insert_foreign_element, ParserState.insert_create_an_element_for_the_token_result, create_an_element_for_the_token, create_element, ParserState.new_node, Arena.new_node, Arena.append_child, Arena.get?, Arena.dataOf?, Arena.last_child, Arena.isTextId, Arena.extend_text, ParserState.insert_character, ParserState.appropriate_place_for_inserting_a_node, ParserState.popExpect, ParserState.current_node_id?, ParserState.current_node?, ParserState.current_element?, ParserState.add_attribute_to_element, ParserState.insert_a_comment, ParserState.reconstruct_the_active_formatting_elements, isTreeWhitespace, chars.CHARACTER_TABULATION, chars.LINE_FEED, chars.FORM_FEED, chars.CARRIAGE_RETURN, chars.SPACE, chars.NULL, TagToken.new, HTML_NAMESPACE, IN_HEAD_DELEGATED, Acknowledgement.no, Acknowledgement.yes, TagTokenType.self_closing, TagTokenType.tag_name, DefaultParseErrorHandler.error_emitted, ParserState.handle_error, Bind.bind, Except.bind, Pure.pure, Except.pure, Except.map]
  all_goals decide

theorem c1_hop3 : token_emitted 285 { insertion_mode := Racoon.InsertionMode.InHead, template_insertion_modes := [], original_insertion_mode := none, open_elements := [1, 2], context_element := none, arena := { nodes := [{ data := Racoon.NodeData.document, children := [1] }, { data := Racoon.NodeData.element "html" none, children := [2] }, { data := Racoon.NodeData.element "head" none, children := [] }] }, root_node := some 0, foster_parenting := false, frameset_ok := true, active_formatting_elements := [], head_element_pointer := some 2, form_element_pointer := none, minorLog := [] } (Racoon.HtmlToken.TagTok (Racoon.TagTokenType.StartTag { tag_name := "p", self_closing := false, attributes := [] })) =
    Except.ok ({ insertion_mode := Racoon.InsertionMode.InBody, template_insertion_modes := [], original_insertion_mode := none, open_elements := [1, 3, 4], context_element := none, arena := { nodes := [{ data := Racoon.NodeData.document, children := [1] }, { data := Racoon.NodeData.element "html" none, children := [2, 3] }, { data := Racoon.NodeData.element "head" none, children := [] }, { data := Racoon.NodeData.element "body" none, children := [4] }, { data := Racoon.NodeData.element "p" none, children := [] }] }, root_node := some 0, foster_parenting := false, frameset_ok := true, active_formatting_elements := [], head_element_pointer := some 2, form_element_pointer := none, minorLog := [] }, { self_closed := false, tokenizer_state := none }) := by
  rw [token_emitted.eq_def]
  simp [c1_hop4, initial_insertion_mode, before_html_insertion_mode, before_html_anything_else, before_head_insertion_mode, before_head_anything_else, in_head_insertion_mode, in_head_anything_else, after_head_insertion_mode, after_head_anything_else, ParserState.insert_an_html_element, ParserState.insert_foreign_element, ParserState.insert_create_an_element_for_the_token_result, create_an_element_for_the_token, create_element, ParserState.new_node, Arena.new_node, Arena.append_child, Arena.get?, Arena.dataOf?, Arena.last_child, Arena.isTextId, Arena.extend_text, ParserState.insert_character, ParserState.appropriate_place_for_inserting_a_node, ParserState.popExpect, ParserState.current_node_id?, ParserState.current_node?, ParserState.current_element?, ParserState.add_attribute_to_element, ParserState.insert_a_comment, ParserState.reconstruct_the_active_formatting_elements, isTreeWhitespace, chars.CHARACTER_TABULATION, chars.LINE_FEED, chars.FORM_FEED, chars.CARRIAGE_RETURN, chars.SPACE, chars.NULL, TagToken.new, HTML_NAMESPACE, IN_HEAD_DELEGATED, Acknowledgement.no, Acknowledgement.yes, TagTokenType.self_closing, TagTokenType.tag_name, DefaultParseErrorHandler.error_emitted, ParserState.handle_error, Bind.bind, Except.bind, Pure.pure, Except.pure, Except.map]
  all_goals decide

theorem c1_hop2 : token_emitted 288 { insertion_mode := Racoon.InsertionMode.BeforeHead, template_insertion_modes := [], original_insertion_mode := none, open_elements := [1], context_element := none, arena := { nodes := [{ data := Racoon.NodeData.document, children := [1] }, { data := Racoon.NodeData.element "html" none, children := [] }] }, root_node := some 0, foster_parenting := false, frameset_ok := true, active_formatting_elements := [], head_element_pointer := none, form_element_pointer := none, minorLog := [] } (Racoon.HtmlToken.TagTok (Racoon.TagTokenType.StartTag { tag_name := "p", self_closing := false, attributes := [] })) =
    Except.ok ({ insertion_mode := Racoon.InsertionMode.InBody, template_insertion_modes := [], original_insertion_mode := none, open_elements := [1, 3, 4], context_element := none, arena := { nodes := [{ data := Racoon.NodeData.document, children := [1] }, { data := Racoon.NodeData.element "html" none, children := [2, 3] }, { data := Racoon.NodeData.element "head" none, children := [] }, { data := Racoon.NodeData.element "body" none, children := [4] }, { data := Racoon.NodeData.element "p" none, children := [] }] }, root_node := some 0, foster_parenting := false, frameset_ok := true, active_formatting_elements := [], head_element_pointer := some 2, form_element_pointer := none, minorLog := [] }, { self_closed := false, tokenizer_state := none }) := by
  rw [token_emitted.eq_def]
  simp [c1_hop3, initial_insertion_mode, before_html_insertion_mode, before_html_anything_else, before_head_insertion_mode, before_head_anything_else, in_head_insertion_mode, in_head_anything_else, after_head_insertion_mode, after_head_anything_else, ParserState.insert_an_html_element, ParserState.insert_foreign_element, ParserState.insert_create_an_element_for_the_token_result, create_an_element_for_the_token, create_element, ParserState.new_node, Arena.new_node, Arena.append_child, Arena.get?, Arena.dataOf?, Arena.last_child, Arena.isTextId, Arena.extend_text, ParserState.insert_character, ParserState.appropriate_place_for_inserting_a_node, ParserState.popExpect, ParserState.current_node_id?, ParserState.current_node?, ParserState.current_element?, ParserState.add_attribute_to_element, ParserState.insert_a_comment, ParserState.reconstruct_the_active_formatting_elements, isTreeWhitespace, chars.CHARACTER_TABULATION, chars.LINE_FEED, chars.FORM_FEED, chars.CARRIAGE_RETURN, chars.SPACE, chars.NULL, TagToken.new, HTML_NAMESPACE, IN_HEAD_DELEGATED, Acknowledgement.no, Acknowledgement.yes, TagTokenType.self_closing, TagTokenType.tag_name, DefaultParseErrorHandler.error_emitted, ParserState.handle_error, Bind.bind, Except.bind, Pure.pure, Except.pure, Except.map]
  all_goals decide

theorem c1_hop1 : token_emitted 291 { insertion_mode := Racoon.InsertionMode.BeforeHtml, template_insertion_modes := [], original_insertion_mode := none, open_elements := [], context_element := none, arena := { nodes := [{ data := Racoon.NodeData.document, children := [] }] }, root_node := some 0, foster_parenting := false, frameset_ok := true, active_formatting_elements := [], head_element_pointer := none, form_element_pointer := none, minorLog := [] } (Racoon.HtmlToken.TagTok (Racoon.TagTokenType.StartTag { tag_name := "p", self_closing := false, attributes := [] })) =
    Except.ok ({ insertion_mode := Racoon.InsertionMode.InBody, template_insertion_modes := [], original_insertion_mode := none, open_elements := [1, 3, 4], context_element := none, arena := { nodes := [{ data := Racoon.NodeData.document, children := [1] }, { data := Racoon.NodeData.element "html" none, children := [2, 3] }, { data := Racoon.NodeData.element "head" none, children := [] }, { data := Racoon.NodeData.element "body" none, children := [4] }, { data := Racoon.NodeData.element "p" none, children := [] }] }, root_node := some 0, foster_parenting := false, frameset_ok := true, active_formatting_elements := [], head_element_pointer := some 2, form_element_pointer := none, minorLog := [] }, { self_closed := false, tokenizer_state := none }) := by
  rw [token_emitted.eq_def]
  simp [c1_hop2, initial_insertion_mode, before_html_insertion_mode, before_html_anything_else, before_head_insertion_mode, before_head_anything_else, in_head_insertion_mode, in_head_anything_else, after_head_insertion_mode, after_head_anything_else, ParserState.insert_an_html_element, ParserState.insert_foreign_element, ParserState.insert_create_an_element_for_the_token_result, create_an_element_for_the_token, create_element, ParserState.new_node, Arena.new_node, Arena.append_child, Arena.get?, Arena.dataOf?, Arena.last_child, Arena.isTextId, Arena.extend_text, ParserState.insert_character, ParserState.appropriate_place_for_inserting_a_node, ParserState.popExpect, ParserState.current_node_id?, ParserState.current_node?, ParserState.current_element?, ParserState.add_attribute_to_element, ParserState.insert_a_comment, ParserState.reconstruct_the_active_formatting_elements, isTreeWhitespace, chars.CHARACTER_TABULATION, chars.LINE_FEED, chars.FORM_FEED, chars.CARRIAGE_RETURN, chars.SPACE, chars.NULL, TagToken.new, HTML_NAMESPACE, IN_HEAD_DELEGATED, Acknowledgement.no, Acknowledgement.yes, TagTokenType.self_closing, TagTokenType.tag_name, DefaultParseErrorHandler.error_emitted, ParserState.handle_error, Bind.bind, Except.bind, Pure.pure, Except.pure, Except.map]
  all_goals decide

theorem c1_hop0 : token_emitted 293 { insertion_mode := Racoon.InsertionMode.Initial, template_insertion_modes := [], original_insertion_mode := none, open_elements := [], context_element := none, arena := { nodes := [{ data := Racoon.NodeData.document, children := [] }] }, root_node := some 0, foster_parenting := false, frameset_ok := true, active_formatting_elements := [], head_element_pointer := none, form_element_pointer := none, minorLog := [] } (Racoon.HtmlToken.TagTok (Racoon.TagTokenType.StartTag { tag_name := "p", self_closing := false, attributes := [] })) =
    Except.ok ({ insertion_mode := Racoon.InsertionMode.InBody, template_insertion_modes := [], original_insertion_mode := none, open_elements := [1, 3, 4], context_element := none, arena := { nodes := [{ data := Racoon.NodeData.document, children := [1] }, { data := Racoon.NodeData.element "html" none, children := [2, 3] }, { data := Racoon.NodeData.element "head" none, children := [] }, { data := Racoon.NodeData.element "body" none, children := [4] }, { data := Racoon.NodeData.element "p" none, children := [] }] }, root_node := some 0, foster_parenting := false, frameset_ok := true, active_formatting_elements := [], head_element_pointer := some 2, form_element_pointer := none, minorLog := [] }, { self_closed := false, tokenizer_state := none }) := by
  rw [token_emitted.eq_def]
  simp [c1_hop1, initial_insertion_mode, before_html_insertion_mode, before_html_anything_else, before_head_insertion_mode, before_head_anything_else, in_head_insertion_mode, in_head_anything_else, after_head_insertion_mode, after_head_anything_else, ParserState.insert_an_html_element, ParserState.insert_foreign_element, ParserState.insert_create_an_element_for_the_token_result, create_an_element_for_the_token, create_element, ParserState.new_node, Arena.new_node, Arena.append_child, Arena.get?, Arena.dataOf?, Arena.last_child, Arena.isTextId, Arena.extend_text, ParserState.insert_character, ParserState.appropriate_place_for_inserting_a_node, ParserState.popExpect, ParserState.current_node_id?, ParserState.current_node?, ParserState.current_element?, ParserState.add_attribute_to_element, ParserState.insert_a_comment, ParserState.reconstruct_the_active_formatting_elements, isTreeWhitespace, chars.CHARACTER_TABULATION, chars.LINE_FEED, chars.FORM_FEED, chars.CARRIAGE_RETURN, chars.SPACE, chars.NULL, TagToken.new, HTML_NAMESPACE, IN_HEAD_DELEGATED, Acknowledgement.no, Acknowledgement.yes, TagTokenType.self_closing, TagTokenType.tag_name, DefaultParseErrorHandler.error_emitted, ParserState.handle_error, Bind.bind, Except.bind, Pure.pure, Except.pure, Except.map]
  all_goals decide

theorem c1_step0 : step 299 ['<', 'p', '>', '1', '<', 'b', '>', '2', '<', 'i', '>', '3', '<', '/', 'p', '>', '4', '<', '/', 'i', '>', '5', '<', '/', 'b', '>'] TokState.initial =
    Except.ok { state := Racoon.TokenizerState.TagOpen, return_state := none, temporary_buffer := [], pos := 1, parser := { insertion_mode := Racoon.InsertionMode.Initial, template_insertion_modes := [], original_insertion_mode := none, open_elements := [], context_element := none, arena := { nodes := [{ data := Racoon.NodeData.document, children := [] }] }, root_node := some 0, foster_parenting := false, frameset_ok := true, active_formatting_elements := [], head_element_pointer := none, form_element_pointer := none, minorLog := [] }, comment_token := none, doctype_token := none, tag_token := none, attribute_name := none, character_reference_code := 0, last_emitted_start_tag := none } := by rfl

theorem c1_step1 : step 298 ['<', 'p', '>', '1', '<', 'b', '>', '2', '<', 'i', '>', '3', '<', '/', 'p', '>', '4', '<', '/', 'i', '>', '5', '<', '/', 'b', '>'] { state := Racoon.TokenizerState.TagOpen, return_state := none, temporary_buffer := [], pos := 1, parser := { insertion_mode := Racoon.InsertionMode.Initial, template_insertion_modes := [], original_insertion_mode := none, open_elements := [], context_element := none, arena := { nodes := [{ data := Racoon.NodeData.document, children := [] }] }, root_node := some 0, foster_parenting := false, frameset_ok := true, active_formatting_elements := [], head_element_pointer := none, form_element_pointer := none, minorLog := [] }, comment_token := none, doctype_token := none, tag_token := none, attribute_name := none, character_reference_code := 0, last_emitted_start_tag := none } =
    Except.ok { state := Racoon.TokenizerState.TagName, return_state := none, temporary_buffer := [], pos := 2, parser := { insertion_mode := Racoon.InsertionMode.Initial, template_insertion_modes := [], original_insertion_mode := none, open_elements := [], context_element := none, arena := { nodes := [{ data := Racoon.NodeData.document, children := [] }] }, root_node := some 0, foster_parenting := false, frameset_ok := true, active_formatting_elements := [], head_element_pointer := none, form_element_pointer := none, minorLog := [] }, comment_token := none, doctype_token := none, tag_token := some (Racoon.TagTokenType.StartTag { tag_name := "p", self_closing := false, attributes := [] }), attribute_name := none, character_reference_code := 0, last_emitted_start_tag := none } := by rfl

theorem c1_step2 : step 297 ['<', 'p', '>', '1', '<', 'b', '>', '2', '<', 'i', '>', '3', '<', '/', 'p', '>', '4', '<', '/', 'i', '>', '5', '<', '/', 'b', '>'] { state := Racoon.TokenizerState.TagName, return_state := none, temporary_buffer := [], pos := 2, parser := { insertion_mode := Racoon.InsertionMode.Initial, template_insertion_modes := [], original_insertion_mode := none, open_elements := [], context_element := none, arena := { nodes := [{ data := Racoon.NodeData.document, children := [] }] }, root_node := some 0, foster_parenting := false, frameset_ok := true, active_formatting_elements := [], head_element_pointer := none, form_element_pointer := none, minorLog := [] }, comment_token := none, doctype_token := none, tag_token := some (Racoon.TagTokenType.StartTag { tag_name := "p", self_closing := false, attributes := [] }), attribute_name := none, character_reference_code := 0, last_emitted_start_tag := none } =
    Except.ok { state := Racoon.TokenizerState.Data, return_state := none, temporary_buffer := [], pos := 3, parser := { insertion_mode := Racoon.InsertionMode.InBody, template_insertion_modes := [], original_insertion_mode := none, open_elements := [1, 3, 4], context_element := none, arena := { nodes := [{ data := Racoon.NodeData.document, children := [1] }, { data := Racoon.NodeData.element "html" none, children := [2, 3] }, { data := Racoon.NodeData.element "head" none, children := [] }, { data := Racoon.NodeData.element "body" none, children := [4] }, { data := Racoon.NodeData.element "p" none, children := [] }] }, root_node := some 0, foster_parenting := false, frameset_ok := true, active_formatting_elements := [], head_element_pointer := some 2, form_element_pointer := none, minorLog := [] }, comment_token := none, doctype_token := none, tag_token := none, attribute_name := none, character_reference_code := 0, last_emitted_start_tag := some { tag_name := "p", self_closing := false, attributes := [] } } := by
  rw [step.eq_def]
  simp [c1_hop0, data_state, tag_open_state, end_tag_open_state, tag_name_state, before_attribute_name_state, attribute_name_state, after_attribute_name_state, before_attribute_value_state, attribute_value_double_quoted_state, attribute_value_single_quoted_state, attribute_value_unquoted_state, after_attribute_value_quoted_state, self_closing_start_tag_state, emit, emit_current_tag_token, TokState.with_tag_token, TokState.set_self_closing, TokState.push_char_to_tag_name, TokState.handle_error, TokState.charref_in_attribute, cursorNext, cursorCurrent, cursorPeek, cursorPrev, cursorNextAdd, chars.NULL, DefaultTokenizerErrorHandler.error_emitted, Bind.bind, Except.bind, Pure.pure, Except.pure, Except.map]
  all_goals decide

theorem c1_step3 : step 296 ['<', 'p', '>', '1', '<', 'b', '>', '2', '<', 'i', '>', '3', '<', '/', 'p', '>', '4', '<', '/', 'i', '>', '5', '<', '/', 'b', '>'] { state := Racoon.TokenizerState.Data, return_state := none, temporary_buffer := [], pos := 3, parser := { insertion_mode := Racoon.InsertionMode.InBody, template_insertion_modes := [], original_insertion_mode := none, open_elements := [1, 3, 4], context_element := none, arena := { nodes := [{ data := Racoon.NodeData.document, children := [1] }, { data := Racoon.NodeData.element "html" none, children := [2, 3] }, { data := Racoon.NodeData.element "head" none, children := [] }, { data := Racoon.NodeData.element "body" none, children := [4] }, { data := Racoon.NodeData.element "p" none, children := [] }] }, root_node := some 0, foster_parenting := false, frameset_ok := true, active_formatting_elements := [], head_element_pointer := some 2, form_element_pointer := none, minorLog := [] }, comment_token := none, doctype_token := none, tag_token := none, attribute_name := none, character_reference_code := 0, last_emitted_start_tag := some { tag_name := "p", self_closing := false, attributes := [] } } =
    Except.ok { state := Racoon.TokenizerState.Data, return_state := none, temporary_buffer := [], pos := 4, parser := { insertion_mode := Racoon.InsertionMode.InBody, template_insertion_modes := [], original_insertion_mode := none, open_elements := [1, 3, 4], context_element := none, arena := { nodes := [{ data := Racoon.NodeData.document, children := [1] }, { data := Racoon.NodeData.element "html" none, children := [2, 3] }, { data := Racoon.NodeData.element "head" none, children := [] }, { data := Racoon.NodeData.element "body" none, children := [4] }, { data := Racoon.NodeData.element "p" none, children := [5] }, { data := Racoon.NodeData.text "1", children := [] }] }, root_node := some 0, foster_parenting := false, frameset_ok := false, active_formatting_elements := [], head_element_pointer := some 2, form_element_pointer := none, minorLog := [] }, comment_token := none, doctype_token := none, tag_token := none, attribute_name := none, character_reference_code := 0, last_emitted_start_tag := some { tag_name := "p", self_closing := false, attributes := [] } } := by rfl

theorem c1_step4 : step 295 ['<', 'p', '>', '1', '<', 'b', '>', '2', '<', 'i', '>', '3', '<', '/', 'p', '>', '4', '<', '/', 'i', '>', '5', '<', '/', 'b', '>'] { state := Racoon.TokenizerState.Data, return_state := none, temporary_buffer := [], pos := 4, parser := { insertion_mode := Racoon.InsertionMode.InBody, template_insertion_modes := [], original_insertion_mode := none, open_elements := [1, 3, 4], context_element := none, arena := { nodes := [{ data := Racoon.NodeData.document, children := [1] }, { data := Racoon.NodeData.element "html" none, children := [2, 3] }, { data := Racoon.NodeData.element "head" none, children := [] }, { data := Racoon.NodeData.element "body" none, children := [4] }, { data := Racoon.NodeData.element "p" none, children := [5] }, { data := Racoon.NodeData.text "1", children := [] }] }, root_node := some 0, foster_parenting := false, frameset_ok := false, active_formatting_elements := [], head_element_pointer := some 2, form_element_pointer := none, minorLog := [] }, comment_token := none, doctype_token := none, tag_token := none, attribute_name := none, character_reference_code := 0, last_emitted_start_tag := some { tag_name := "p", self_closing := false, attributes := [] } } =
    Except.ok { state := Racoon.TokenizerState.TagOpen, return_state := none, temporary_buffer := [], pos := 5, parser := { insertion_mode := Racoon.InsertionMode.InBody, template_insertion_modes := [], original_insertion_mode := none, open_elements := [1, 3, 4], context_element := none, arena := { nodes := [{ data := Racoon.NodeData.document, children := [1] }, { data := Racoon.NodeData.element "html" none, children := [2, 3] }, { data := Racoon.NodeData.element "head" none, children := [] }, { data := Racoon.NodeData.element "body" none, children := [4] }, { data := Racoon.NodeData.element "p" none, children := [5] }, { data := Racoon.NodeData.text "1", children := [] }] }, root_node := some 0, foster_parenting := false, frameset_ok := false, active_formatting_elements := [], head_element_pointer := some 2, form_element_pointer := none, minorLog := [] }, comment_token := none, doctype_token := none, tag_token := none, attribute_name := none, character_reference_code := 0, last_emitted_start_tag := some { tag_name := "p", self_closing := false, attributes := [] } } := by rfl

theorem c1_step5 : step 294 ['<', 'p', '>', '1', '<', 'b', '>', '2', '<', 'i', '>', '3', '<', '/', 'p', '>', '4', '<', '/', 'i', '>', '5', '<', '/', 'b', '>'] { state := Racoon.TokenizerState.TagOpen, return_state := none, temporary_buffer := [], pos := 5, parser := { insertion_mode := Racoon.InsertionMode.InBody, template_insertion_modes := [], original_insertion_mode := none, open_elements := [1, 3, 4], context_element := none, arena := { nodes := [{ data := Racoon.NodeData.document, children := [1] }, { data := Racoon.NodeData.element "html" none, children := [2, 3] }, { data := Racoon.NodeData.element "head" none, children := [] }, { data := Racoon.NodeData.element "body" none, children := [4] }, { data := Racoon.NodeData.element "p" none, children := [5] }, { data := Racoon.NodeData.text "1", children := [] }] }, root_node := some 0, foster_parenting := false, frameset_ok := false, active_formatting_elements := [], head_element_pointer := some 2, form_element_pointer := none, minorLog := [] }, comment_token := none, doctype_token := none, tag_token := none, attribute_name := none, character_reference_code := 0, last_emitted_start_tag := some { tag_name := "p", self_closing := false, attributes := [] } } =
    Except.ok { state := Racoon.TokenizerState.TagName, return_state := none, temporary_buffer := [], pos := 6, parser := { insertion_mode := Racoon.InsertionMode.InBody, template_insertion_modes := [], original_insertion_mode := none, open_elements := [1, 3, 4], context_element := none, arena := { nodes := [{ data := Racoon.NodeData.document, children := [1] }, { data := Racoon.NodeData.element "html" none, children := [2, 3] }, { data := Racoon.NodeData.element "head" none, children := [] }, { data := Racoon.NodeData.element "body" none, children := [4] }, { data := Racoon.NodeData.element "p" none, children := [5] }, { data := Racoon.NodeData.text "1", children := [] }] }, root_node := some 0, foster_parenting := false, frameset_ok := false, active_formatting_elements := [], head_element_pointer := some 2, form_element_pointer := none, minorLog := [] }, comment_token := none, doctype_token := none, tag_token := some (Racoon.TagTokenType.StartTag { tag_name := "b", self_closing := false, attributes := [] }), attribute_name := none, character_reference_code := 0, last_emitted_start_tag := some { tag_name := "p", self_closing := false, attributes := [] } } := by rfl

theorem c1_step6 : step 293 ['<', 'p', '>', '1', '<', 'b', '>', '2', '<', 'i', '>', '3', '<', '/', 'p', '>', '4', '<', '/', 'i', '>', '5', '<', '/', 'b', '>'] { state := Racoon.TokenizerState.TagName, return_state := none, temporary_buffer := [], pos := 6, parser := { insertion_mode := Racoon.InsertionMode.InBody, template_insertion_modes := [], original_insertion_mode := none, open_elements := [1, 3, 4], context_element := none, arena := { nodes := [{ data := Racoon.NodeData.document, children := [1] }, { data := Racoon.NodeData.element "html" none, children := [2, 3] }, { data := Racoon.NodeData.element "head" none, children := [] }, { data := Racoon.NodeData.element "body" none, children := [4] }, { data := Racoon.NodeData.element "p" none, children := [5] }, { data := Racoon.NodeData.text "1", children := [] }] }, root_node := some 0, foster_parenting := false, frameset_ok := false, active_formatting_elements := [], head_element_pointer := some 2, form_element_pointer := none, minorLog := [] }, comment_token := none, doctype_token := none, tag_token := some (Racoon.TagTokenType.StartTag { tag_name := "b", self_closing := false, attributes := [] }), attribute_name := none, character_reference_code := 0, last_emitted_start_tag := some { tag_name := "p", self_closing := false, attributes := [] } } =
    Except.ok { state := Racoon.TokenizerState.Data, return_state := none, temporary_buffer := [], pos := 7, parser := { insertion_mode := Racoon.InsertionMode.InBody, template_insertion_modes := [], original_insertion_mode := none, open_elements := [1, 3, 4], context_element := none, arena := { nodes := [{ data := Racoon.NodeData.document, children := [1] }, { data := Racoon.NodeData.element "html" none, children := [2, 3] }, { data := Racoon.NodeData.element "head" none, children := [] }, { data := Racoon.NodeData.element "body" none, children := [4] }, { data := Racoon.NodeData.element "p" none, children := [5] }, { data := Racoon.NodeData.text "1", children := [] }] }, root_node := some 0, foster_parenting := false, frameset_ok := false, active_formatting_elements := [], head_element_pointer := some 2, form_element_pointer := none, minorLog := ["node is in special category"] }, comment_token := none, doctype_token := none, tag_token := none, attribute_name := none, character_reference_code := 0, last_emitted_start_tag := some { tag_name := "b", self_closing := false, attributes := [] } } := by rfl

theorem c1_step7 : step 292 ['<', 'p', '>', '1', '<', 'b', '>', '2', '<', 'i', '>', '3', '<', '/', 'p', '>', '4', '<', '/', 'i', '>', '5', '<', '/', 'b', '>'] { state := Racoon.TokenizerState.Data, return_state := none, temporary_buffer := [], pos := 7, parser := { insertion_mode := Racoon.InsertionMode.InBody, template_insertion_modes := [], original_insertion_mode := none, open_elements := [1, 3, 4], context_element := none, arena := { nodes := [{ data := Racoon.NodeData.document, children := [1] }, { data := Racoon.NodeData.element "html" none, children := [2, 3] }, { data := Racoon.NodeData.element "head" none, children := [] }, { data := Racoon.NodeData.element "body" none, children := [4] }, { data := Racoon.NodeData.element "p" none, children := [5] }, { data := Racoon.NodeData.text "1", children := [] }] }, root_node := some 0, foster_parenting := false, frameset_ok := false, active_formatting_elements := [], head_element_pointer := some 2, form_element_pointer := none, minorLog := ["node is in special category"] }, comment_token := none, doctype_token := none, tag_token := none, attribute_name := none, character_reference_code := 0, last_emitted_start_tag := some { tag_name := "b", self_closing := false, attributes := [] } } =
    Except.ok { state := Racoon.TokenizerState.Data, return_state := none, temporary_buffer := [], pos := 8, parser := { insertion_mode := Racoon.InsertionMode.InBody, template_insertion_modes := [], original_insertion_mode := none, open_elements := [1, 3, 4], context_element := none, arena := { nodes := [{ data := Racoon.NodeData.document, children := [1] }, { data := Racoon.NodeData.element "html" none, children := [2, 3] }, { data := Racoon.NodeData.element "head" none, children := [] }, { data := Racoon.NodeData.element "body" none, children := [4] }, { data := Racoon.NodeData.element "p" none, children := [5] }, { data := Racoon.NodeData.text "12", children := [] }] }, root_node := some 0, foster_parenting := false, frameset_ok := false, active_formatting_elements := [], head_element_pointer := some 2, form_element_pointer := none, minorLog := ["node is in special category"] }, comment_token := none, doctype_token := none, tag_token := none, attribute_name := none, character_reference_code := 0, last_emitted_start_tag := some { tag_name := "b", self_closing := false, attributes := [] } } := by rfl

theorem c1_step8 : step 291 ['<', 'p', '>', '1', '<', 'b', '>', '2', '<', 'i', '>', '3', '<', '/', 'p', '>', '4', '<', '/', 'i', '>', '5', '<', '/', 'b', '>'] { state := Racoon.TokenizerState.Data, return_state := none, temporary_buffer := [], pos := 8, parser := { insertion_mode := Racoon.InsertionMode.InBody, template_insertion_modes := [], original_insertion_mode := none, open_elements := [1, 3, 4], context_element := none, arena := { nodes := [{ data := Racoon.NodeData.document, children := [1] }, { data := Racoon.NodeData.element "html" none, children := [2, 3] }, { data := Racoon.NodeData.element "head" none, children := [] }, { data := Racoon.NodeData.element "body" none, children := [4] }, { data := Racoon.NodeData.element "p" none, children := [5] }, { data := Racoon.NodeData.text "12", children := [] }] }, root_node := some 0, foster_parenting := false, frameset_ok := false, active_formatting_elements := [], head_element_pointer := some 2, form_element_pointer := none, minorLog := ["node is in special category"] }, comment_token := none, doctype_token := none, tag_token := none, attribute_name := none, character_reference_code := 0, last_emitted_start_tag := some { tag_name := "b", self_closing := false, attributes := [] } } =
    Except.ok { state := Racoon.TokenizerState.TagOpen, return_state := none, temporary_buffer := [], pos := 9, parser := { insertion_mode := Racoon.InsertionMode.InBody, template_insertion_modes := [], original_insertion_mode := none, open_elements := [1, 3, 4], context_element := none, arena := { nodes := [{ data := Racoon.NodeData.document, children := [1] }, { data := Racoon.NodeData.element "html" none, children := [2, 3] }, { data := Racoon.NodeData.element "head" none, children := [] }, { data := Racoon.NodeData.element "body" none, children := [4] }, { data := Racoon.NodeData.element "p" none, children := [5] }, { data := Racoon.NodeData.text "12", children := [] }] }, root_node := some 0, foster_parenting := false, frameset_ok := false, active_formatting_elements := [], head_element_pointer := some 2, form_element_pointer := none, minorLog := ["node is in special category"] }, comment_token := none, doctype_token := none, tag_token := none, attribute_name := none, character_reference_code := 0, last_emitted_start_tag := some { tag_name := "b", self_closing := false, attributes := [] } } := by rfl

theorem c1_step9 : step 290 ['<', 'p', '>', '1', '<', 'b', '>', '2', '<', 'i', '>', '3', '<', '/', 'p', '>', '4', '<', '/', 'i', '>', '5', '<', '/', 'b', '>'] { state := Racoon.TokenizerState.TagOpen, return_state := none, temporary_buffer := [], pos := 9, parser := { insertion_mode := Racoon.InsertionMode.InBody, template_insertion_modes := [], original_insertion_mode := none, open_elements := [1, 3, 4], context_element := none, arena := { nodes := [{ data := Racoon.NodeData.document, children := [1] }, { data := Racoon.NodeData.element "html" none, children := [2, 3] }, { data := Racoon.NodeData.element "head" none, children := [] }, { data := Racoon.NodeData.element "body" none, children := [4] }, { data := Racoon.NodeData.element "p" none, children := [5] }, { data := Racoon.NodeData.text "12", children := [] }] }, root_node := some 0, foster_parenting := false, frameset_ok := false, active_formatting_elements := [], head_element_pointer := some 2, form_element_pointer := none, minorLog := ["node is in special category"] }, comment_token := none, doctype_token := none, tag_token := none, attribute_name := none, character_reference_code := 0, last_emitted_start_tag := some { tag_name := "b", self_closing := false, attributes := [] } } =
    Except.ok { state := Racoon.TokenizerState.TagName, return_state := none, temporary_buffer := [], pos := 10, parser := { insertion_mode := Racoon.InsertionMode.InBody, template_insertion_modes := [], original_insertion_mode := none, open_elements := [1, 3, 4], context_element := none, arena := { nodes := [{ data := Racoon.NodeData.document, children := [1] }, { data := Racoon.NodeData.element "html" none, children := [2, 3] }, { data := Racoon.NodeData.element "head" none, children := [] }, { data := Racoon.NodeData.element "body" none, children := [4] }, { data := Racoon.NodeData.element "p" none, children := [5] }, { data := Racoon.NodeData.text "12", children := [] }] }, root_node := some 0, foster_parenting := false, frameset_ok := false, active_formatting_elements := [], head_element_pointer := some 2, form_element_pointer := none, minorLog := ["node is in special category"] }, comment_token := none, doctype_token := none, tag_token := some (Racoon.TagTokenType.StartTag { tag_name := "i", self_closing := false, attributes := [] }), attribute_name := none, character_reference_code := 0, last_emitted_start_tag := some { tag_name := "b", self_closing := false, attributes := [] } } := by rfl

theorem c1_step10 : step 289 ['<', 'p', '>', '1', '<', 'b', '>', '2', '<', 'i', '>', '3', '<', '/', 'p', '>', '4', '<', '/', 'i', '>', '5', '<', '/', 'b', '>'] { state := Racoon.TokenizerState.TagName, return_state := none, temporary_buffer := [], pos := 10, parser := { insertion_mode := Racoon.InsertionMode.InBody, template_insertion_modes := [], original_insertion_mode := none, open_elements := [1, 3, 4], context_element := none, arena := { nodes := [{ data := Racoon.NodeData.document, children := [1] }, { data := Racoon.NodeData.element "html" none, children := [2, 3] }, { data := Racoon.NodeData.element "head" none, children := [] }, { data := Racoon.NodeData.element "body" none, children := [4] }, { data := Racoon.NodeData.element "p" none, children := [5] }, { data := Racoon.NodeData.text "12", children := [] }] }, root_node := some 0, foster_parenting := false, frameset_ok := false, active_formatting_elements := [], head_element_pointer := some 2, form_element_pointer := none, minorLog := ["node is in special category"] }, comment_token := none, doctype_token := none, tag_token := some (Racoon.TagTokenType.StartTag { tag_name := "i", self_closing := false, attributes := [] }), attribute_name := none, character_reference_code := 0, last_emitted_start_tag := some { tag_name := "b", self_closing := false, attributes := [] } } =
    Except.ok { state := Racoon.TokenizerState.Data, return_state := none, temporary_buffer := [], pos := 11, parser := { insertion_mode := Racoon.InsertionMode.InBody, template_insertion_modes := [], original_insertion_mode := none, open_elements := [1, 3, 4], context_element := none, arena := { nodes := [{ data := Racoon.NodeData.document, children := [1] }, { data := Racoon.NodeData.element "html" none, children := [2, 3] }, { data := Racoon.NodeData.element "head" none, children := [] }, { data := Racoon.NodeData.element "body" none, children := [4] }, { data := Racoon.NodeData.element "p" none, children := [5] }, { data := Racoon.NodeData.text "12", children := [] }] }, root_node := some 0, foster_parenting := false, frameset_ok := false, active_formatting_elements := [], head_element_pointer := some 2, form_element_pointer := none, minorLog := ["node is in special category", "node is in special category"] }, comment_token := none, doctype_token := none, tag_token := none, attribute_name := none, character_reference_code := 0, last_emitted_start_tag := some { tag_name := "i", self_closing := false, attributes := [] } } := by rfl

theorem c1_step11 : step 288 ['<', 'p', '>', '1', '<', 'b', '>', '2', '<', 'i', '>', '3', '<', '/', 'p', '>', '4', '<', '/', 'i', '>', '5', '<', '/', 'b', '>'] { state := Racoon.TokenizerState.Data, return_state := none, temporary_buffer := [], pos := 11, parser := { insertion_mode := Racoon.InsertionMode.InBody, template_insertion_modes := [], original_insertion_mode := none, open_elements := [1, 3, 4], context_element := none, arena := { nodes := [{ data := Racoon.NodeData.document, children := [1] }, { data := Racoon.NodeData.element "html" none, children := [2, 3] }, { data := Racoon.NodeData.element "head" none, children := [] }, { data := Racoon.NodeData.element "body" none, children := [4] }, { data := Racoon.NodeData.element "p" none, children := [5] }, { data := Racoon.NodeData.text "12", children := [] }] }, root_node := some 0, foster_parenting := false, frameset_ok := false, active_formatting_elements := [], head_element_pointer := some 2, form_element_pointer := none, minorLog := ["node is in special category", "node is in special category"] }, comment_token := none, doctype_token := none, tag_token := none, attribute_name := none, character_reference_code := 0, last_emitted_start_tag := some { tag_name := "i", self_closing := false, attributes := [] } } =
    Except.ok { state := Racoon.TokenizerState.Data, return_state := none, temporary_buffer := [], pos := 12, parser := { insertion_mode := Racoon.InsertionMode.InBody, template_insertion_modes := [], original_insertion_mode := none, open_elements := [1, 3, 4], context_element := none, arena := { nodes := [{ data := Racoon.NodeData.document, children := [1] }, { data := Racoon.NodeData.element "html" none, children := [2, 3] }, { data := Racoon.NodeData.element "head" none, children := [] }, { data := Racoon.NodeData.element "body" none, children := [4] }, { data := Racoon.NodeData.element "p" none, children := [5] }, { data := Racoon.NodeData.text "123", children := [] }] }, root_node := some 0, foster_parenting := false, frameset_ok := false, active_formatting_elements := [], head_element_pointer := some 2, form_element_pointer := none, minorLog := ["node is in special category", "node is in special category"] }, comment_token := none, doctype_token := none, tag_token := none, attribute_name := none, character_reference_code := 0, last_emitted_start_tag := some { tag_name := "i", self_closing := false, attributes := [] } } := by rfl

theorem c1_step12 : step 287 ['<', 'p', '>', '1', '<', 'b', '>', '2', '<', 'i', '>', '3', '<', '/', 'p', '>', '4', '<', '/', 'i', '>', '5', '<', '/', 'b', '>'] { state := Racoon.TokenizerState.Data, return_state := none, temporary_buffer := [], pos := 12, parser := { insertion_mode := Racoon.InsertionMode.InBody, template_insertion_modes := [], original_insertion_mode := none, open_elements := [1, 3, 4], context_element := none, arena := { nodes := [{ data := Racoon.NodeData.document, children := [1] }, { data := Racoon.NodeData.element "html" none, children := [2, 3] }, { data := Racoon.NodeData.element "head" none, children := [] }, { data := Racoon.NodeData.element "body" none, children := [4] }, { data := Racoon.NodeData.element "p" none, children := [5] }, { data := Racoon.NodeData.text "123", children := [] }] }, root_node := some 0, foster_parenting := false, frameset_ok := false, active_formatting_elements := [], head_element_pointer := some 2, form_element_pointer := none, minorLog := ["node is in special category", "node is in special category"] }, comment_token := none, doctype_token := none, tag_token := none, attribute_name := none, character_reference_code := 0, last_emitted_start_tag := some { tag_name := "i", self_closing := false, attributes := [] } } =
    Except.ok { state := Racoon.TokenizerState.TagOpen, return_state := none, temporary_buffer := [], pos := 13, parser := { insertion_mode := Racoon.InsertionMode.InBody, template_insertion_modes := [], original_insertion_mode := none, open_elements := [1, 3, 4], context_element := none, arena := { nodes := [{ data := Racoon.NodeData.document, children := [1] }, { data := Racoon.NodeData.element "html" none, children := [2, 3] }, { data := Racoon.NodeData.element "head" none, children := [] }, { data := Racoon.NodeData.element "body" none, children := [4] }, { data := Racoon.NodeData.element "p" none, children := [5] }, { data := Racoon.NodeData.text "123", children := [] }] }, root_node := some 0, foster_parenting := false, frameset_ok := false, active_formatting_elements := [], head_element_pointer := some 2, form_element_pointer := none, minorLog := ["node is in special category", "node is in special category"] }, comment_token := none, doctype_token := none, tag_token := none, attribute_name := none, character_reference_code := 0, last_emitted_start_tag := some { tag_name := "i", self_closing := false, attributes := [] } } := by rfl

theorem c1_step13 : step 286 ['<', 'p', '>', '1', '<', 'b', '>', '2', '<', 'i', '>', '3', '<', '/', 'p', '>', '4', '<', '/', 'i', '>', '5', '<', '/', 'b', '>'] { state := Racoon.TokenizerState.TagOpen, return_state := none, temporary_buffer := [], pos := 13, parser := { insertion_mode := Racoon.InsertionMode.InBody, template_insertion_modes := [], original_insertion_mode := none, open_elements := [1, 3, 4], context_element := none, arena := { nodes := [{ data := Racoon.NodeData.document, children := [1] }, { data := Racoon.NodeData.element "html" none, children := [2, 3] }, { data := Racoon.NodeData.element "head" none, children := [] }, { data := Racoon.NodeData.element "body" none, children := [4] }, { data := Racoon.NodeData.element "p" none, children := [5] }, { data := Racoon.NodeData.text "123", children := [] }] }, root_node := some 0, foster_parenting := false, frameset_ok := false, active_formatting_elements := [], head_element_pointer := some 2, form_element_pointer := none, minorLog := ["node is in special category", "node is in special category"] }, comment_token := none, doctype_token := none, tag_token := none, attribute_name := none, character_reference_code := 0, last_emitted_start_tag := some { tag_name := "i", self_closing := false, attributes := [] } } =
    Except.ok { state := Racoon.TokenizerState.EndTagOpen, return_state := none, temporary_buffer := [], pos := 14, parser := { insertion_mode := Racoon.InsertionMode.InBody, template_insertion_modes := [], original_insertion_mode := none, open_elements := [1, 3, 4], context_element := none, arena := { nodes := [{ data := Racoon.NodeData.document, children := [1] }, { data := Racoon.NodeData.element "html" none, children := [2, 3] }, { data := Racoon.NodeData.element "head" none, children := [] }, { data := Racoon.NodeData.element "body" none, children := [4] }, { data := Racoon.NodeData.element "p" none, children := [5] }, { data := Racoon.NodeData.text "123", children := [] }] }, root_node := some 0, foster_parenting := false, frameset_ok := false, active_formatting_elements := [], head_element_pointer := some 2, form_element_pointer := none, minorLog := ["node is in special category", "node is in special category"] }, comment_token := none, doctype_token := none, tag_token := none, attribute_name := none, character_reference_code := 0, last_emitted_start_tag := some { tag_name := "i", self_closing := false, attributes := [] } } := by rfl

theorem c1_step14 : step 285 ['<', 'p', '>', '1', '<', 'b', '>', '2', '<', 'i', '>', '3', '<', '/', 'p', '>', '4', '<', '/', 'i', '>', '5', '<', '/', 'b', '>'] { state := Racoon.TokenizerState.EndTagOpen, return_state := none, temporary_buffer := [], pos := 14, parser := { insertion_mode := Racoon.InsertionMode.InBody, template_insertion_modes := [], original_insertion_mode := none, open_elements := [1, 3, 4], context_element := none, arena := { nodes := [{ data := Racoon.NodeData.document, children := [1] }, { data := Racoon.NodeData.element "html" none, children := [2, 3] }, { data := Racoon.NodeData.element "head" none, children := [] }, { data := Racoon.NodeData.element "body" none, children := [4] }, { data := Racoon.NodeData.element "p" none, children := [5] }, { data := Racoon.NodeData.text "123", children := [] }] }, root_node := some 0, foster_parenting := false, frameset_ok := false, active_formatting_elements := [], head_element_pointer := some 2, form_element_pointer := none, minorLog := ["node is in special category", "node is in special category"] }, comment_token := none, doctype_token := none, tag_token := none, attribute_name := none, character_reference_code := 0, last_emitted_start_tag := some { tag_name := "i", self_closing := false, attributes := [] } } =
    Except.ok { state := Racoon.TokenizerState.TagName, return_state := none, temporary_buffer := [], pos := 15, parser := { insertion_mode := Racoon.InsertionMode.InBody, template_insertion_modes := [], original_insertion_mode := none, open_elements := [1, 3, 4], context_element := none, arena := { nodes := [{ data := Racoon.NodeData.document, children := [1] }, { data := Racoon.NodeData.element "html" none, children := [2, 3] }, { data := Racoon.NodeData.element "head" none, children := [] }, { data := Racoon.NodeData.element "body" none, children := [4] }, { data := Racoon.NodeData.element "p" none, children := [5] }, { data := Racoon.NodeData.text "123", children := [] }] }, root_node := some 0, foster_parenting := false, frameset_ok := false, active_formatting_elements := [], head_element_pointer := some 2, form_element_pointer := none, minorLog := ["node is in special category", "node is in special category"] }, comment_token := none, doctype_token := none, tag_token := some (Racoon.TagTokenType.EndTag { tag_name := "p", self_closing := false, attributes := [] }), attribute_name := none, character_reference_code := 0, last_emitted_start_tag := some { tag_name := "i", self_closing := false, attributes := [] } } := by rfl

theorem c1_step15 : step 284 ['<', 'p', '>', '1', '<', 'b', '>', '2', '<', 'i', '>', '3', '<', '/', 'p', '>', '4', '<', '/', 'i', '>', '5', '<', '/', 'b', '>'] { state := Racoon.TokenizerState.TagName, return_state := none, temporary_buffer := [], pos := 15, parser := { insertion_mode := Racoon.InsertionMode.InBody, template_insertion_modes := [], original_insertion_mode := none, open_elements := [1, 3, 4], context_element := none, arena := { nodes := [{ data := Racoon.NodeData.document, children := [1] }, { data := Racoon.NodeData.element "html" none, children := [2, 3] }, { data := Racoon.NodeData.element "head" none, children := [] }, { data := Racoon.NodeData.element "body" none, children := [4] }, { data := Racoon.NodeData.element "p" none, children := [5] }, { data := Racoon.NodeData.text "123", children := [] }] }, root_node := some 0, foster_parenting := false, frameset_ok := false, active_formatting_elements := [], head_element_pointer := some 2, form_element_pointer := none, minorLog := ["node is in special category", "node is in special category"] }, comment_token := none, doctype_token := none, tag_token := some (Racoon.TagTokenType.EndTag { tag_name := "p", self_closing := false, attributes := [] }), attribute_name := none, character_reference_code := 0, last_emitted_start_tag := some { tag_name := "i", self_closing := false, attributes := [] } } =
    Except.ok { state := Racoon.TokenizerState.Data, return_state := none, temporary_buffer := [], pos := 16, parser := { insertion_mode := Racoon.InsertionMode.InBody, template_insertion_modes := [], original_insertion_mode := none, open_elements := [1, 3], context_element := none, arena := { nodes := [{ data := Racoon.NodeData.document, children := [1] }, { data := Racoon.NodeData.element "html" none, children := [2, 3] }, { data := Racoon.NodeData.element "head" none, children := [] }, { data := Racoon.NodeData.element "body" none, children := [4] }, { data := Racoon.NodeData.element "p" none, children := [5] }, { data := Racoon.NodeData.text "123", children := [] }] }, root_node := some 0, foster_parenting := false, frameset_ok := false, active_formatting_elements := [], head_element_pointer := some 2, form_element_pointer := none, minorLog := ["node is in special category", "node is in special category"] }, comment_token := none, doctype_token := none, tag_token := none, attribute_name := none, character_reference_code := 0, last_emitted_start_tag := some { tag_name := "i", self_closing := false, attributes := [] } } := by rfl

theorem c1_step16 : step 283 ['<', 'p', '>', '1', '<', 'b', '>', '2', '<', 'i', '>', '3', '<', '/', 'p', '>', '4', '<', '/', 'i', '>', '5', '<', '/', 'b', '>'] { state := Racoon.TokenizerState.Data, return_state := none, temporary_buffer := [], pos := 16, parser := { insertion_mode := Racoon.InsertionMode.InBody, template_insertion_modes := [], original_insertion_mode := none, open_elements := [1, 3], context_element := none, arena := { nodes := [{ data := Racoon.NodeData.document, children := [1] }, { data := Racoon.NodeData.element "html" none, children := [2, 3] }, { data := Racoon.NodeData.element "head" none, children := [] }, { data := Racoon.NodeData.element "body" none, children := [4] }, { data := Racoon.NodeData.element "p" none, children := [5] }, { data := Racoon.NodeData.text "123", children := [] }] }, root_node := some 0, foster_parenting := false, frameset_ok := false, active_formatting_elements := [], head_element_pointer := some 2, form_element_pointer := none, minorLog := ["node is in special category", "node is in special category"] }, comment_token := none, doctype_token := none, tag_token := none, attribute_name := none, character_reference_code := 0, last_emitted_start_tag := some { tag_name := "i", self_closing := false, attributes := [] } } =
    Except.ok { state := Racoon.TokenizerState.Data, return_state := none, temporary_buffer := [], pos := 17, parser := { insertion_mode := Racoon.InsertionMode.InBody, template_insertion_modes := [], original_insertion_mode := none, open_elements := [1, 3], context_element := none, arena := { nodes := [{ data := Racoon.NodeData.document, children := [1] }, { data := Racoon.NodeData.element "html" none, children := [2, 3] }, { data := Racoon.NodeData.element "head" none, children := [] }, { data := Racoon.NodeData.element "body" none, children := [4, 6] }, { data := Racoon.NodeData.element "p" none, children := [5] }, { data := Racoon.NodeData.text "123", children := [] }, { data := Racoon.NodeData.text "4", children := [] }] }, root_node := some 0, foster_parenting := false, frameset_ok := false, active_formatting_elements := [], head_element_pointer := some 2, form_element_pointer := none, minorLog := ["node is in special category", "node is in special category"] }, comment_token := none, doctype_token := none, tag_token := none, attribute_name := none, character_reference_code := 0, last_emitted_start_tag := some { tag_name := "i", self_closing := false, attributes := [] } } := by rfl

theorem c1_step17 : step 282 ['<', 'p', '>', '1', '<', 'b', '>', '2', '<', 'i', '>', '3', '<', '/', 'p', '>', '4', '<', '/', 'i', '>', '5', '<', '/', 'b', '>'] { state := Racoon.TokenizerState.Data, return_state := none, temporary_buffer := [], pos := 17, parser := { insertion_mode := Racoon.InsertionMode.InBody, template_insertion_modes := [], original_insertion_mode := none, open_elements := [1, 3], context_element := none, arena := { nodes := [{ data := Racoon.NodeData.document, children := [1] }, { data := Racoon.NodeData.element "html" none, children := [2, 3] }, { data := Racoon.NodeData.element "head" none, children := [] }, { data := Racoon.NodeData.element "body" none, children := [4, 6] }, { data := Racoon.NodeData.element "p" none, children := [5] }, { data := Racoon.NodeData.text "123", children := [] }, { data := Racoon.NodeData.text "4", children := [] }] }, root_node := some 0, foster_parenting := false, frameset_ok := false, active_formatting_elements := [], head_element_pointer := some 2, form_element_pointer := none, minorLog := ["node is in special category", "node is in special category"] }, comment_token := none, doctype_token := none, tag_token := none, attribute_name := none, character_reference_code := 0, last_emitted_start_tag := some { tag_name := "i", self_closing := false, attributes := [] } } =
    Except.ok { state := Racoon.TokenizerState.TagOpen, return_state := none, temporary_buffer := [], pos := 18, parser := { insertion_mode := Racoon.InsertionMode.InBody, template_insertion_modes := [], original_insertion_mode := none, open_elements := [1, 3], context_element := none, arena := { nodes := [{ data := Racoon.NodeData.document, children := [1] }, { data := Racoon.NodeData.element "html" none, children := [2, 3] }, { data := Racoon.NodeData.element "head" none, children := [] }, { data := Racoon.NodeData.element "body" none, children := [4, 6] }, { data := Racoon.NodeData.element "p" none, children := [5] }, { data := Racoon.NodeData.text "123", children := [] }, { data := Racoon.NodeData.text "4", children := [] }] }, root_node := some 0, foster_parenting := false, frameset_ok := false, active_formatting_elements := [], head_element_pointer := some 2, form_element_pointer := none, minorLog := ["node is in special category", "node is in special category"] }, comment_token := none, doctype_token := none, tag_token := none, attribute_name := none, character_reference_code := 0, last_emitted_start_tag := some { tag_name := "i", self_closing := false, attributes := [] } } := by rfl

theorem c1_step18 : step 281 ['<', 'p', '>', '1', '<', 'b', '>', '2', '<', 'i', '>', '3', '<', '/', 'p', '>', '4', '<', '/', 'i', '>', '5', '<', '/', 'b', '>'] { state := Racoon.TokenizerState.TagOpen, return_state := none, temporary_buffer := [], pos := 18, parser := { insertion_mode := Racoon.InsertionMode.InBody, template_insertion_modes := [], original_insertion_mode := none, open_elements := [1, 3], context_element := none, arena := { nodes := [{ data := Racoon.NodeData.document, children := [1] }, { data := Racoon.NodeData.element "html" none, children := [2, 3] }, { data := Racoon.NodeData.element "head" none, children := [] }, { data := Racoon.NodeData.element "body" none, children := [4, 6] }, { data := Racoon.NodeData.element "p" none, children := [5] }, { data := Racoon.NodeData.text "123", children := [] }, { data := Racoon.NodeData.text "4", children := [] }] }, root_node := some 0, foster_parenting := false, frameset_ok := false, active_formatting_elements := [], head_element_pointer := some 2, form_element_pointer := none, minorLog := ["node is in special category", "node is in special category"] }, comment_token := none, doctype_token := none, tag_token := none, attribute_name := none, character_reference_code := 0, last_emitted_start_tag := some { tag_name := "i", self_closing := false, attributes := [] } } =
    Except.ok { state := Racoon.TokenizerState.EndTagOpen, return_state := none, temporary_buffer := [], pos := 19, parser := { insertion_mode := Racoon.InsertionMode.InBody, template_insertion_modes := [], original_insertion_mode := none, open_elements := [1, 3], context_element := none, arena := { nodes := [{ data := Racoon.NodeData.document, children := [1] }, { data := Racoon.NodeData.element "html" none, children := [2, 3] }, { data := Racoon.NodeData.element "head" none, children := [] }, { data := Racoon.NodeData.element "body" none, children := [4, 6] }, { data := Racoon.NodeData.element "p" none, children := [5] }, { data := Racoon.NodeData.text "123", children := [] }, { data := Racoon.NodeData.text "4", children := [] }] }, root_node := some 0, foster_parenting := false, frameset_ok := false, active_formatting_elements := [], head_element_pointer := some 2, form_element_pointer := none, minorLog := ["node is in special category", "node is in special category"] }, comment_token := none, doctype_token := none, tag_token := none, attribute_name := none, character_reference_code := 0, last_emitted_start_tag := some { tag_name := "i", self_closing := false, attributes := [] } } := by rfl

theorem c1_step19 : step 280 ['<', 'p', '>', '1', '<', 'b', '>', '2', '<', 'i', '>', '3', '<', '/', 'p', '>', '4', '<', '/', 'i', '>', '5', '<', '/', 'b', '>'] { state := Racoon.TokenizerState.EndTagOpen, return_state := none, temporary_buffer := [], pos := 19, parser := { insertion_mode := Racoon.InsertionMode.InBody, template_insertion_modes := [], original_insertion_mode := none, open_elements := [1, 3], context_element := none, arena := { nodes := [{ data := Racoon.NodeData.document, children := [1] }, { data := Racoon.NodeData.element "html" none, children := [2, 3] }, { data := Racoon.NodeData.element "head" none, children := [] }, { data := Racoon.NodeData.element "body" none, children := [4, 6] }, { data := Racoon.NodeData.element "p" none, children := [5] }, { data := Racoon.NodeData.text "123", children := [] }, { data := Racoon.NodeData.text "4", children := [] }] }, root_node := some 0, foster_parenting := false, frameset_ok := false, active_formatting_elements := [], head_element_pointer := some 2, form_element_pointer := none, minorLog := ["node is in special category", "node is in special category"] }, comment_token := none, doctype_token := none, tag_token := none, attribute_name := none, character_reference_code := 0, last_emitted_start_tag := some { tag_name := "i", self_closing := false, attributes := [] } } =
    Except.ok { state := Racoon.TokenizerState.TagName, return_state := none, temporary_buffer := [], pos := 20, parser := { insertion_mode := Racoon.InsertionMode.InBody, template_insertion_modes := [], original_insertion_mode := none, open_elements := [1, 3], context_element := none, arena := { nodes := [{ data := Racoon.NodeData.document, children := [1] }, { data := Racoon.NodeData.element "html" none, children := [2, 3] }, { data := Racoon.NodeData.element "head" none, children := [] }, { data := Racoon.NodeData.element "body" none, children := [4, 6] }, { data := Racoon.NodeData.element "p" none, children := [5] }, { data := Racoon.NodeData.text "123", children := [] }, { data := Racoon.NodeData.text "4", children := [] }] }, root_node := some 0, foster_parenting := false, frameset_ok := false, active_formatting_elements := [], head_element_pointer := some 2, form_element_pointer := none, minorLog := ["node is in special category", "node is in special category"] }, comment_token := none, doctype_token := none, tag_token := some (Racoon.TagTokenType.EndTag { tag_name := "i", self_closing := false, attributes := [] }), attribute_name := none, character_reference_code := 0, last_emitted_start_tag := some { tag_name := "i", self_closing := false, attributes := [] } } := by rfl

theorem c1_step20 : step 279 ['<', 'p', '>', '1', '<', 'b', '>', '2', '<', 'i', '>', '3', '<', '/', 'p', '>', '4', '<', '/', 'i', '>', '5', '<', '/', 'b', '>'] { state := Racoon.TokenizerState.TagName, return_state := none, temporary_buffer := [], pos := 20, parser := { insertion_mode := Racoon.InsertionMode.InBody, template_insertion_modes := [], original_insertion_mode := none, open_elements := [1, 3], context_element := none, arena := { nodes := [{ data := Racoon.NodeData.document, children := [1] }, { data := Racoon.NodeData.element "html" none, children := [2, 3] }, { data := Racoon.NodeData.element "head" none, children := [] }, { data := Racoon.NodeData.element "body" none, children := [4, 6] }, { data := Racoon.NodeData.element "p" none, children := [5] }, { data := Racoon.NodeData.text "123", children := [] }, { data := Racoon.NodeData.text "4", children := [] }] }, root_node := some 0, foster_parenting := false, frameset_ok := false, active_formatting_elements := [], head_element_pointer := some 2, form_element_pointer := none, minorLog := ["node is in special category", "node is in special category"] }, comment_token := none, doctype_token := none, tag_token := some (Racoon.TagTokenType.EndTag { tag_name := "i", self_closing := false, attributes := [] }), attribute_name := none, character_reference_code := 0, last_emitted_start_tag := some { tag_name := "i", self_closing := false, attributes := [] } } =
    Except.ok { state := Racoon.TokenizerState.Data, return_state := none, temporary_buffer := [], pos := 21, parser := { insertion_mode := Racoon.InsertionMode.InBody, template_insertion_modes := [], original_insertion_mode := none, open_elements := [1, 3], context_element := none, arena := { nodes := [{ data := Racoon.NodeData.document, children := [1] }, { data := Racoon.NodeData.element "html" none, children := [2, 3] }, { data := Racoon.NodeData.element "head" none, children := [] }, { data := Racoon.NodeData.element "body" none, children := [4, 6] }, { data := Racoon.NodeData.element "p" none, children := [5] }, { data := Racoon.NodeData.text "123", children := [] }, { data := Racoon.NodeData.text "4", children := [] }] }, root_node := some 0, foster_parenting := false, frameset_ok := false, active_formatting_elements := [], head_element_pointer := some 2, form_element_pointer := none, minorLog := ["node is in special category", "node is in special category", "node is in special category"] }, comment_token := none, doctype_token := none, tag_token := none, attribute_name := none, character_reference_code := 0, last_emitted_start_tag := some { tag_name := "i", self_closing := false, attributes := [] } } := by rfl

theorem c1_step21 : step 278 ['<', 'p', '>', '1', '<', 'b', '>', '2', '<', 'i', '>', '3', '<', '/', 'p', '>', '4', '<', '/', 'i', '>', '5', '<', '/', 'b', '>'] { state := Racoon.TokenizerState.Data, return_state := none, temporary_buffer := [], pos := 21, parser := { insertion_mode := Racoon.InsertionMode.InBody, template_insertion_modes := [], original_insertion_mode := none, open_elements := [1, 3], context_element := none, arena := { nodes := [{ data := Racoon.NodeData.document, children := [1] }, { data := Racoon.NodeData.element "html" none, children := [2, 3] }, { data := Racoon.NodeData.element "head" none, children := [] }, { data := Racoon.NodeData.element "body" none, children := [4, 6] }, { data := Racoon.NodeData.element "p" none, children := [5] }, { data := Racoon.NodeData.text "123", children := [] }, { data := Racoon.NodeData.text "4", children := [] }] }, root_node := some 0, foster_parenting := false, frameset_ok := false, active_formatting_elements := [], head_element_pointer := some 2, form_element_pointer := none, minorLog := ["node is in special category", "node is in special category", "node is in special category"] }, comment_token := none, doctype_token := none, tag_token := none, attribute_name := none, character_reference_code := 0, last_emitted_start_tag := some { tag_name := "i", self_closing := false, attributes := [] } } =
    Except.ok { state := Racoon.TokenizerState.Data, return_state := none, temporary_buffer := [], pos := 22, parser := { insertion_mode := Racoon.InsertionMode.InBody, template_insertion_modes := [], original_insertion_mode := none, open_elements := [1, 3], context_element := none, arena := { nodes := [{ data := Racoon.NodeData.document, children := [1] }, { data := Racoon.NodeData.element "html" none, children := [2, 3] }, { data := Racoon.NodeData.element "head" none, children := [] }, { data := Racoon.NodeData.element "body" none, children := [4, 6] }, { data := Racoon.NodeData.element "p" none, children := [5] }, { data := Racoon.NodeData.text "123", children := [] }, { data := Racoon.NodeData.text "45", children := [] }] }, root_node := some 0, foster_parenting := false, frameset_ok := false, active_formatting_elements := [], head_element_pointer := some 2, form_element_pointer := none, minorLog := ["node is in special category", "node is in special category", "node is in special category"] }, comment_token := none, doctype_token := none, tag_token := none, attribute_name := none, character_reference_code := 0, last_emitted_start_tag := some { tag_name := "i", self_closing := false, attributes := [] } } := by rfl

theorem c1_step22 : step 277 ['<', 'p', '>', '1', '<', 'b', '>', '2', '<', 'i', '>', '3', '<', '/', 'p', '>', '4', '<', '/', 'i', '>', '5', '<', '/', 'b', '>'] { state := Racoon.TokenizerState.Data, return_state := none, temporary_buffer := [], pos := 22, parser := { insertion_mode := Racoon.InsertionMode.InBody, template_insertion_modes := [], original_insertion_mode := none, open_elements := [1, 3], context_element := none, arena := { nodes := [{ data := Racoon.NodeData.document, children := [1] }, { data := Racoon.NodeData.element "html" none, children := [2, 3] }, { data := Racoon.NodeData.element "head" none, children := [] }, { data := Racoon.NodeData.element "body" none, children := [4, 6] }, { data := Racoon.NodeData.element "p" none, children := [5] }, { data := Racoon.NodeData.text "123", children := [] }, { data := Racoon.NodeData.text "45", children := [] }] }, root_node := some 0, foster_parenting := false, frameset_ok := false, active_formatting_elements := [], head_element_pointer := some 2, form_element_pointer := none, minorLog := ["node is in special category", "node is in special category", "node is in special category"] }, comment_token := none, doctype_token := none, tag_token := none, attribute_name := none, character_reference_code := 0, last_emitted_start_tag := some { tag_name := "i", self_closing := false, attributes := [] } } =
    Except.ok { state := Racoon.TokenizerState.TagOpen, return_state := none, temporary_buffer := [], pos := 23, parser := { insertion_mode := Racoon.InsertionMode.InBody, template_insertion_modes := [], original_insertion_mode := none, open_elements := [1, 3], context_element := none, arena := { nodes := [{ data := Racoon.NodeData.document, children := [1] }, { data := Racoon.NodeData.element "html" none, children := [2, 3] }, { data := Racoon.NodeData.element "head" none, children := [] }, { data := Racoon.NodeData.element "body" none, children := [4, 6] }, { data := Racoon.NodeData.element "p" none, children := [5] }, { data := Racoon.NodeData.text "123", children := [] }, { data := Racoon.NodeData.text "45", children := [] }] }, root_node := some 0, foster_parenting := false, frameset_ok := false, active_formatting_elements := [], head_element_pointer := some 2, form_element_pointer := none, minorLog := ["node is in special category", "node is in special category", "node is in special category"] }, comment_token := none, doctype_token := none, tag_token := none, attribute_name := none, character_reference_code := 0, last_emitted_start_tag := some { tag_name := "i", self_closing := false, attributes := [] } } := by rfl

theorem c1_step23 : step 276 ['<', 'p', '>', '1', '<', 'b', '>', '2', '<', 'i', '>', '3', '<', '/', 'p', '>', '4', '<', '/', 'i', '>', '5', '<', '/', 'b', '>'] { state := Racoon.TokenizerState.TagOpen, return_state := none, temporary_buffer := [], pos := 23, parser := { insertion_mode := Racoon.InsertionMode.InBody, template_insertion_modes := [], original_insertion_mode := none, open_elements := [1, 3], context_element := none, arena := { nodes := [{ data := Racoon.NodeData.document, children := [1] }, { data := Racoon.NodeData.element "html" none, children := [2, 3] }, { data := Racoon.NodeData.element "head" none, children := [] }, { data := Racoon.NodeData.element "body" none, children := [4, 6] }, { data := Racoon.NodeData.element "p" none, children := [5] }, { data := Racoon.NodeData.text "123", children := [] }, { data := Racoon.NodeData.text "45", children := [] }] }, root_node := some 0, foster_parenting := false, frameset_ok := false, active_formatting_elements := [], head_element_pointer := some 2, form_element_pointer := none, minorLog := ["node is in special category", "node is in special category", "node is in special category"] }, comment_token := none, doctype_token := none, tag_token := none, attribute_name := none, character_reference_code := 0, last_emitted_start_tag := some { tag_name := "i", self_closing := false, attributes := [] } } =
    Except.ok { state := Racoon.TokenizerState.EndTagOpen, return_state := none, temporary_buffer := [], pos := 24, parser := { insertion_mode := Racoon.InsertionMode.InBody, template_insertion_modes := [], original_insertion_mode := none, open_elements := [1, 3], context_element := none, arena := { nodes := [{ data := Racoon.NodeData.document, children := [1] }, { data := Racoon.NodeData.element "html" none, children := [2, 3] }, { data := Racoon.NodeData.element "head" none, children := [] }, { data := Racoon.NodeData.element "body" none, children := [4, 6] }, { data := Racoon.NodeData.element "p" none, children := [5] }, { data := Racoon.NodeData.text "123", children := [] }, { data := Racoon.NodeData.text "45", children := [] }] }, root_node := some 0, foster_parenting := false, frameset_ok := false, active_formatting_elements := [], head_element_pointer := some 2, form_element_pointer := none, minorLog := ["node is in special category", "node is in special category", "node is in special category"] }, comment_token := none, doctype_token := none, tag_token := none, attribute_name := none, character_reference_code := 0, last_emitted_start_tag := some { tag_name := "i", self_closing := false, attributes := [] } } := by rfl

theorem c1_step24 : step 275 ['<', 'p', '>', '1', '<', 'b', '>', '2', '<', 'i', '>', '3', '<', '/', 'p', '>', '4', '<', '/', 'i', '>', '5', '<', '/', 'b', '>'] { state := Racoon.TokenizerState.EndTagOpen, return_state := none, temporary_buffer := [], pos := 24, parser := { insertion_mode := Racoon.InsertionMode.InBody, template_insertion_modes := [], original_insertion_mode := none, open_elements := [1, 3], context_element := none, arena := { nodes := [{ data := Racoon.NodeData.document, children := [1] }, { data := Racoon.NodeData.element "html" none, children := [2, 3] }, { data := Racoon.NodeData.element "head" none, children := [] }, { data := Racoon.NodeData.element "body" none, children := [4, 6] }, { data := Racoon.NodeData.element "p" none, children := [5] }, { data := Racoon.NodeData.text "123", children := [] }, { data := Racoon.NodeData.text "45", children := [] }] }, root_node := some 0, foster_parenting := false, frameset_ok := false, active_formatting_elements := [], head_element_pointer := some 2, form_element_pointer := none, minorLog := ["node is in special category", "node is in special category", "node is in special category"] }, comment_token := none, doctype_token := none, tag_token := none, attribute_name := none, character_reference_code := 0, last_emitted_start_tag := some { tag_name := "i", self_closing := false, attributes := [] } } =
    Except.ok { state := Racoon.TokenizerState.TagName, return_state := none, temporary_buffer := [], pos := 25, parser := { insertion_mode := Racoon.InsertionMode.InBody, template_insertion_modes := [], original_insertion_mode := none, open_elements := [1, 3], context_element := none, arena := { nodes := [{ data := Racoon.NodeData.document, children := [1] }, { data := Racoon.NodeData.element "html" none, children := [2, 3] }, { data := Racoon.NodeData.element "head" none, children := [] }, { data := Racoon.NodeData.element "body" none, children := [4, 6] }, { data := Racoon.NodeData.element "p" none, children := [5] }, { data := Racoon.NodeData.text "123", children := [] }, { data := Racoon.NodeData.text "45", children := [] }] }, root_node := some 0, foster_parenting := false, frameset_ok := false, active_formatting_elements := [], head_element_pointer := some 2, form_element_pointer := none, minorLog := ["node is in special category", "node is in special category", "node is in special category"] }, comment_token := none, doctype_token := none, tag_token := some (Racoon.TagTokenType.EndTag { tag_name := "b", self_closing := false, attributes := [] }), attribute_name := none, character_reference_code := 0, last_emitted_start_tag := some { tag_name := "i", self_closing := false, attributes := [] } } := by rfl

theorem c1_step25 : step 274 ['<', 'p', '>', '1', '<', 'b', '>', '2', '<', 'i', '>', '3', '<', '/', 'p', '>', '4', '<', '/', 'i', '>', '5', '<', '/', 'b', '>'] { state := Racoon.TokenizerState.TagName, return_state := none, temporary_buffer := [], pos := 25, parser := { insertion_mode := Racoon.InsertionMode.InBody, template_insertion_modes := [], original_insertion_mode := none, open_elements := [1, 3], context_element := none, arena := { nodes := [{ data := Racoon.NodeData.document, children := [1] }, { data := Racoon.NodeData.element "html" none, children := [2, 3] }, { data := Racoon.NodeData.element "head" none, children := [] }, { data := Racoon.NodeData.element "body" none, children := [4, 6] }, { data := Racoon.NodeData.element "p" none, children := [5] }, { data := Racoon.NodeData.text "123", children := [] }, { data := Racoon.NodeData.text "45", children := [] }] }, root_node := some 0, foster_parenting := false, frameset_ok := false, active_formatting_elements := [], head_element_pointer := some 2, form_element_pointer := none, minorLog := ["node is in special category", "node is in special category", "node is in special category"] }, comment_token := none, doctype_token := none, tag_token := some (Racoon.TagTokenType.EndTag { tag_name := "b", self_closing := false, attributes := [] }), attribute_name := none, character_reference_code := 0, last_emitted_start_tag := some { tag_name := "i", self_closing := false, attributes := [] } } =
    Except.ok { state := Racoon.TokenizerState.Data, return_state := none, temporary_buffer := [], pos := 26, parser := { insertion_mode := Racoon.InsertionMode.InBody, template_insertion_modes := [], original_insertion_mode := none, open_elements := [1, 3], context_element := none, arena := { nodes := [{ data := Racoon.NodeData.document, children := [1] }, { data := Racoon.NodeData.element "html" none, children := [2, 3] }, { data := Racoon.NodeData.element "head" none, children := [] }, { data := Racoon.NodeData.element "body" none, children := [4, 6] }, { data := Racoon.NodeData.element "p" none, children := [5] }, { data := Racoon.NodeData.text "123", children := [] }, { data := Racoon.NodeData.text "45", children := [] }] }, root_node := some 0, foster_parenting := false, frameset_ok := false, active_formatting_elements := [], head_element_pointer := some 2, form_element_pointer := none, minorLog := ["node is in special category", "node is in special category", "node is in special category", "node is in special category"] }, comment_token := none, doctype_token := none, tag_token := none, attribute_name := none, character_reference_code := 0, last_emitted_start_tag := some { tag_name := "i", self_closing := false, attributes := [] } } := by rfl

theorem c1_run : tokenizer_run 300 ['<', 'p', '>', '1', '<', 'b', '>', '2', '<', 'i', '>', '3', '<', '/', 'p', '>', '4', '<', '/', 'i', '>', '5', '<', '/', 'b', '>'] TokState.initial =
    Except.ok { state := Racoon.TokenizerState.Data, return_state := none, temporary_buffer := [], pos := 26, parser := { insertion_mode := Racoon.InsertionMode.InBody, template_insertion_modes := [], original_insertion_mode := none, open_elements := [1, 3], context_element := none, arena := { nodes := [{ data := Racoon.NodeData.document, children := [1] }, { data := Racoon.NodeData.element "html" none, children := [2, 3] }, { data := Racoon.NodeData.element "head" none, children := [] }, { data := Racoon.NodeData.element "body" none, children := [4, 6] }, { data := Racoon.NodeData.element "p" none, children := [5] }, { data := Racoon.NodeData.text "123", children := [] }, { data := Racoon.NodeData.text "45", children := [] }] }, root_node := some 0, foster_parenting := false, frameset_ok := false, active_formatting_elements := [], head_element_pointer := some 2, form_element_pointer := none, minorLog := ["node is in special category", "node is in special category", "node is in special category", "node is in special category"] }, comment_token := none, doctype_token := none, tag_token := none, attribute_name := none, character_reference_code := 0, last_emitted_start_tag := some { tag_name := "i", self_closing := false, attributes := [] } } := by
  rw [tokenizer_run_step_ok 299 (by decide) c1_step0]
  rw [tokenizer_run_step_ok 298 (by decide) c1_step1]
  rw [tokenizer_run_step_ok 297 (by decide) c1_step2]
  rw [tokenizer_run_step_ok 296 (by decide) c1_step3]
  rw [tokenizer_run_step_ok 295 (by decide) c1_step4]
  rw [tokenizer_run_step_ok 294 (by decide) c1_step5]
  rw [tokenizer_run_step_ok 293 (by decide) c1_step6]
  rw [tokenizer_run_step_ok 292 (by decide) c1_step7]
  rw [tokenizer_run_step_ok 291 (by decide) c1_step8]
  rw [tokenizer_run_step_ok 290 (by decide) c1_step9]
  rw [tokenizer_run_step_ok 289 (by decide) c1_step10]
  rw [tokenizer_run_step_ok 288 (by decide) c1_step11]
  rw [tokenizer_run_step_ok 287 (by decide) c1_step12]
  rw [tokenizer_run_step_ok 286 (by decide) c1_step13]
  rw [tokenizer_run_step_ok 285 (by decide) c1_step14]
  rw [tokenizer_run_step_ok 284 (by decide) c1_step15]
  rw [tokenizer_run_step_ok 283 (by decide) c1_step16]
  rw [tokenizer_run_step_ok 282 (by decide) c1_step17]
  rw [tokenizer_run_step_ok 281 (by decide) c1_step18]
  rw [tokenizer_run_step_ok 280 (by decide) c1_step19]
  rw [tokenizer_run_step_ok 279 (by decide) c1_step20]
  rw [tokenizer_run_step_ok 278 (by decide) c1_step21]
  rw [tokenizer_run_step_ok 277 (by decide) c1_step22]
  rw [tokenizer_run_step_ok 276 (by decide) c1_step23]
  rw [tokenizer_run_step_ok 275 (by decide) c1_step24]
  rw [tokenizer_run_step_ok 274 (by decide) c1_step25]
  rw [tokenizer_run_done 273 (by decide)]


/-! ### Staged evaluation lemmas: run `c6amp` -/

theorem c6amp_hop5 : token_emitted 262 { insertion_mode := Racoon.InsertionMode.InBody, template_insertion_modes := [], original_insertion_mode := none, open_elements := [1, 3], context_element := none, arena := { nodes := [{ data := Racoon.NodeData.document, children := [1] }, { data := Racoon.NodeData.element "html" none, children := [2, 3] }, { data := Racoon.NodeData.element "head" none, children := [] }, { data := Racoon.NodeData.element "body" none, children := [] }] }, root_node := some 0, foster_parenting := false, frameset_ok := true, active_formatting_elements := [], head_element_pointer := some 2, form_element_pointer := none, minorLog := [] } (Racoon.HtmlToken.TagTok (Racoon.TagTokenType.StartTag { tag_name := "a", self_closing := false, attributes := [{ name := "href", value := "?a=1&b=2" }] })) =
    Except.ok ({ insertion_mode := Racoon.InsertionMode.InBody, template_insertion_modes := [], original_insertion_mode := none, open_elements := [1, 3, 4], context_element := none, arena := { nodes := [{ data := Racoon.NodeData.document, children := [1] }, { data := Racoon.NodeData.element "html" none, children := [2, 3] }, { data := Racoon.NodeData.element "head" none, children := [] }, { data := Racoon.NodeData.element "body" none, children := [4] }, { data := Racoon.NodeData.element "a" none, children := [5] }, { data := Racoon.NodeData.attributeNode "href" "?a=1&b=2", children := [] }] }, root_node := some 0, foster_parenting := false, frameset_ok := true, active_formatting_elements := [Racoon.NodeOrMarker.Node 4 { tag_name := "a", self_closing := false, attributes := [{ name := "href", value := "?a=1&b=2" }] }], head_element_pointer := some 2, form_element_pointer := none, minorLog := [] }, { self_closed := false, tokenizer_state := none }) := by rfl

theorem c6amp_hop4 : token_emitted 265 { insertion_mode := Racoon.InsertionMode.AfterHead, template_insertion_modes := [], original_insertion_mode := none, open_elements := [1], context_element := none, arena := { nodes := [{ data := Racoon.NodeData.document, children := [1] }, { data := Racoon.NodeData.element "html" none, children := [2] }, { data := Racoon.NodeData.element "head" none, children := [] }] }, root_node := some 0, foster_parenting := false, frameset_ok := true, active_formatting_elements := [], head_element_pointer := some 2, form_element_pointer := none, minorLog := [] } (Racoon.HtmlToken.TagTok (Racoon.TagTokenType.StartTag { tag_name := "a", self_closing := false, attributes := [{ name := "href", value := "?a=1&b=2" }] })) =
    Except.ok ({ insertion_mode := Racoon.InsertionMode.InBody, template_insertion_modes := [], original_insertion_mode := none, open_elements := [1, 3, 4], context_element := none, arena := { nodes := [{ data := Racoon.NodeData.document, children := [1] }, { data := Racoon.NodeData.element "html" none, children := [2, 3] }, { data := Racoon.NodeData.element "head" none, children := [] }, { data := Racoon.NodeData.element "body" none, children := [4] }, { data := Racoon.NodeData.element "a" none, children := [5] }, { data := Racoon.NodeData.attributeNode "href" "?a=1&b=2", children := [] }] }, root_node := some 0, foster_parenting := false, frameset_ok := true, active_formatting_elements := [Racoon.NodeOrMarker.Node 4 { tag_name := "a", self_closing := false, attributes := [{ name := "href", value := "?a=1&b=2" }] }], head_element_pointer := some 2, form_element_pointer := none, minorLog := [] }, { self_closed := false, tokenizer_state := none }) := by
  rw [token_emitted.eq_def]
  simp [c6amp_hop5, initial_insertion_mode, before_html_insertion_mode, before_html_anything_else, before_head_insertion_mode, before_head_anything_else, in_head_insertion_mode, in_head_anything_else, after_head_insertion_mode, after_head_anything_else, ParserState.insert_an_html_element, ParserState.insert_foreign_element, ParserState.insert_create_an_element_for_the_token_result, create_an_element_for_the_token, create_element, ParserState.new_node, Arena.new_node, Arena.append_child, Arena.get?, Arena.dataOf?, Arena.last_child, Arena.isTextId, Arena.extend_text, ParserState.insert_character, ParserState.appropriate_place_for_inserting_a_node, ParserState.popExpect, ParserState.current_node_id?, ParserState.current_node?, ParserState.current_element?, ParserState.add_attribute_to_element, ParserState.insert_a_comment, ParserState.reconstruct_the_active_formatting_elements, isTreeWhitespace, chars.CHARACTER_TABULATION, chars.LINE_FEED, chars.FORM_FEED, chars.CARRIAGE_RETURN, chars.SPACE, chars.NULL, TagToken.new, HTML_NAMESPACE, IN_HEAD_DELEGATED, Acknowledgement.no, Acknowledgement.yes, TagTokenType.self_closing, TagTokenType.tag_name, DefaultParseErrorHandler.error_emitted, ParserState.handle_error, Bind.bind, Except.bind, Pure.pure, Except.pure, Except.map]
  all_goals decide

theorem c6amp_hop3 : token_emitted 268 { insertion_mode := Racoon.InsertionMode.InHead, template_insertion_modes := [], original_insertion_mode := none, open_elements := [1, 2], context_element := none, arena := { nodes := [{ data := Racoon.NodeData.document, children := [1] }, { data := Racoon.NodeData.element "html" none, children := [2] }, { data := Racoon.NodeData.element "head" none, children := [] }] }, root_node := some 0, foster_parenting := false, frameset_ok := true, active_formatting_elements := [], head_element_pointer := some 2, form_element_pointer := none, minorLog := [] } (Racoon.HtmlToken.TagTok (Racoon.TagTokenType.StartTag { tag_name := "a", self_closing := false, attributes := [{ name := "href", value := "?a=1&b=2" }] })) =
    Except.ok ({ insertion_mode := Racoon.InsertionMode.InBody, template_insertion_modes := [], original_insertion_mode := none, open_elements := [1, 3, 4], context_element := none, arena := { nodes := [{ data := Racoon.NodeData.document, children := [1] }, { data := Racoon.NodeData.element "html" none, children := [2, 3] }, { data := Racoon.NodeData.element "head" none, children := [] }, { data := Racoon.NodeData.element "body" none, children := [4] }, { data := Racoon.NodeData.element "a" none, children := [5] }, { data := Racoon.NodeData.attributeNode "href" "?a=1&b=2", children := [] }] }, root_node := some 0, foster_parenting := false, frameset_ok := true, active_formatting_elements := [Racoon.NodeOrMarker.Node 4 { tag_name := "a", self_closing := false, attributes := [{ name := "href", value := "?a=1&b=2" }] }], head_element_pointer := some 2, form_element_pointer := none, minorLog := [] }, { self_closed := false, tokenizer_state := none }) := by
  rw [token_emitted.eq_def]
  simp [c6amp_hop4, initial_insertion_mode, before_html_insertion_mode, before_html_anything_else, before_head_insertion_mode, before_head_anything_else, in_head_insertion_mode, in_head_anything_else, after_head_insertion_mode, after_head_anything_else, ParserState.insert_an_html_element, ParserState.insert_foreign_element, ParserState.insert_create_an_element_for_the_token_result, create_an_element_for_the_token, create_element, ParserState.new_node, Arena.new_node, Arena.append_child, Arena.get?, Arena.dataOf?, Arena.last_child, Arena.isTextId, Arena.extend_text, ParserState.insert_character, ParserState.appropriate_place_for_inserting_a_node, ParserState.popExpect, ParserState.current_node_id?, ParserState.current_node?, ParserState.current_element?, ParserState.add_attribute_to_element, ParserState.insert_a_comment, ParserState.reconstruct_the_active_formatting_elements, isTreeWhitespace, chars.CHARACTER_TABULATION, chars.LINE_FEED, chars.FORM_FEED, chars.CARRIAGE_RETURN, chars.SPACE, chars.NULL, TagToken.new, HTML_NAMESPACE, IN_HEAD_DELEGATED, Acknowledgement.no, Acknowledgement.yes, TagTokenType.self_closing, TagTokenType.tag_name, DefaultParseErrorHandler.error_emitted, ParserState.handle_error, Bind.bind, Except.bind, Pure.pure, Except.pure, Except.map]
  all_goals decide

theorem c6amp_hop2 : token_emitted 271 { insertion_mode := Racoon.InsertionMode.BeforeHead, template_insertion_modes := [], original_insertion_mode := none, open_elements := [1], context_element := none, arena := { nodes := [{ data := Racoon.NodeData.document, children := [1] }, { data := Racoon.NodeData.element "html" none, children := [] }] }, root_node := some 0, foster_parenting := false, frameset_ok := true, active_formatting_elements := [], head_element_pointer := none, form_element_pointer := none, minorLog := [] } (Racoon.HtmlToken.TagTok (Racoon.TagTokenType.StartTag { tag_name := "a", self_closing := false, attributes := [{ name := "href", value := "?a=1&b=2" }] })) =
    Except.ok ({ insertion_mode := Racoon.InsertionMode.InBody, template_insertion_modes := [], original_insertion_mode := none, open_elements := [1, 3, 4], context_element := none, arena := { nodes := [{ data := Racoon.NodeData.document, children := [1] }, { data := Racoon.NodeData.element "html" none, children := [2, 3] }, { data := Racoon.NodeData.element "head" none, children := [] }, { data := Racoon.NodeData.element "body" none, children := [4] }, { data := Racoon.NodeData.element "a" none, children := [5] }, { data := Racoon.NodeData.attributeNode "href" "?a=1&b=2", children := [] }] }, root_node := some 0, foster_parenting := false, frameset_ok := true, active_formatting_elements := [Racoon.NodeOrMarker.Node 4 { tag_name := "a", self_closing := false, attributes := [{ name := "href", value := "?a=1&b=2" }] }], head_element_pointer := some 2, form_element_pointer := none, minorLog := [] }, { self_closed := false, tokenizer_state := none }) := by
  rw [token_emitted.eq_def]
  simp [c6amp_hop3, initial_insertion_mode, before_html_insertion_mode, before_html_anything_else, before_head_insertion_mode, before_head_anything_else, in_head_insertion_mode, in_head_anything_else, after_head_insertion_mode, after_head_anything_else, ParserState.insert_an_html_element, ParserState.insert_foreign_element, ParserState.insert_create_an_element_for_the_token_result, create_an_element_for_the_token, create_element, ParserState.new_node, Arena.new_node, Arena.append_child, Arena.get?, Arena.dataOf?, Arena.last_child, Arena.isTextId, Arena.extend_text, ParserState.insert_character, ParserState.appropriate_place_for_inserting_a_node, ParserState.popExpect, ParserState.current_node_id?, ParserState.current_node?, ParserState.current_element?, ParserState.add_attribute_to_element, ParserState.insert_a_comment, ParserState.reconstruct_the_active_formatting_elements, isTreeWhitespace, chars.CHARACTER_TABULATION, chars.LINE_FEED, chars.FORM_FEED, chars.CARRIAGE_RETURN, chars.SPACE, chars.NULL, TagToken.new, HTML_NAMESPACE, IN_HEAD_DELEGATED, Acknowledgement.no, Acknowledgement.yes, TagTokenType.self_closing, TagTokenType.tag_name, DefaultParseErrorHandler.error_emitted, ParserState.handle_error, Bind.bind, Except.bind, Pure.pure, Except.pure, Except.map]
  all_goals decide

theorem c6amp_hop1 : token_emitted 274 { insertion_mode := Racoon.InsertionMode.BeforeHtml, template_insertion_modes := [], original_insertion_mode := none, open_elements := [], context_element := none, arena := { nodes := [{ data := Racoon.NodeData.document, children := [] }] }, root_node := some 0, foster_parenting := false, frameset_ok := true, active_formatting_elements := [], head_element_pointer := none, form_element_pointer := none, minorLog := [] } (Racoon.HtmlToken.TagTok (Racoon.TagTokenType.StartTag { tag_name := "a", self_closing := false, attributes := [{ name := "href", value := "?a=1&b=2" }] })) =
    Except.ok ({ insertion_mode := Racoon.InsertionMode.InBody, template_insertion_modes := [], original_insertion_mode := none, open_elements := [1, 3, 4], context_element := none, arena := { nodes := [{ data := Racoon.NodeData.document, children := [1] }, { data := Racoon.NodeData.element "html" none, children := [2, 3] }, { data := Racoon.NodeData.element "head" none, children := [] }, { data := Racoon.NodeData.element "body" none, children := [4] }, { data := Racoon.NodeData.element "a" none, children := [5] }, { data := Racoon.NodeData.attributeNode "href" "?a=1&b=2", children := [] }] }, root_node := some 0, foster_parenting := false, frameset_ok := true, active_formatting_elements := [Racoon.NodeOrMarker.Node 4 { tag_name := "a", self_closing := false, attributes := [{ name := "href", value := "?a=1&b=2" }] }], head_element_pointer := some 2, form_element_pointer := none, minorLog := [] }, { self_closed := false, tokenizer_state := none }) := by
  rw [token_emitted.eq_def]
  simp [c6amp_hop2, initial_insertion_mode, before_html_insertion_mode, before_html_anything_else, before_head_insertion_mode, before_head_anything_else, in_head_insertion_mode, in_head_anything_else, after_head_insertion_mode, after_head_anything_else, ParserState.insert_an_html_element, ParserState.insert_foreign_element, ParserState.insert_create_an_element_for_the_token_result, create_an_element_for_the_token, create_element, ParserState.new_node, Arena.new_node, Arena.append_child, Arena.get?, Arena.dataOf?, Arena.last_child, Arena.isTextId, Arena.extend_text, ParserState.insert_character, ParserState.appropriate_place_for_inserting_a_node, ParserState.popExpect, ParserState.current_node_id?, ParserState.current_node?, ParserState.current_element?, ParserState.add_attribute_to_element, ParserState.insert_a_comment, ParserState.reconstruct_the_active_formatting_elements, isTreeWhitespace, chars.CHARACTER_TABULATION, chars.LINE_FEED, chars.FORM_FEED, chars.CARRIAGE_RETURN, chars.SPACE, chars.NULL, TagToken.new, HTML_NAMESPACE, IN_HEAD_DELEGATED, Acknowledgement.no, Acknowledgement.yes, TagTokenType.self_closing, TagTokenType.tag_name, DefaultParseErrorHandler.error_emitted, ParserState.handle_error, Bind.bind, Except.bind, Pure.pure, Except.pure, Except.map]
  all_goals decide

theorem c6amp_hop0 : token_emitted 276 { insertion_mode := Racoon.InsertionMode.Initial, template_insertion_modes := [], original_insertion_mode := none, open_elements := [], context_element := none, arena := { nodes := [{ data := Racoon.NodeData.document, children := [] }] }, root_node := some 0, foster_parenting := false, frameset_ok := true, active_formatting_elements := [], head_element_pointer := none, form_element_pointer := none, minorLog := [] } (Racoon.HtmlToken.TagTok (Racoon.TagTokenType.StartTag { tag_name := "a", self_closing := false, attributes := [{ name := "href", value := "?a=1&b=2" }] })) =
    Except.ok ({ insertion_mode := Racoon.InsertionMode.InBody, template_insertion_modes := [], original_insertion_mode := none, open_elements := [1, 3, 4], context_element := none, arena := { nodes := [{ data := Racoon.NodeData.document, children := [1] }, { data := Racoon.NodeData.element "html" none, children := [2, 3] }, { data := Racoon.NodeData.element "head" none, children := [] }, { data := Racoon.NodeData.element "body" none, children := [4] }, { data := Racoon.NodeData.element "a" none, children := [5] }, { data := Racoon.NodeData.attributeNode "href" "?a=1&b=2", children := [] }] }, root_node := some 0, foster_parenting := false, frameset_ok := true, active_formatting_elements := [Racoon.NodeOrMarker.Node 4 { tag_name := "a", self_closing := false, attributes := [{ name := "href", value := "?a=1&b=2" }] }], head_element_pointer := some 2, form_element_pointer := none, minorLog := [] }, { self_closed := false, tokenizer_state := none }) := by
  rw [token_emitted.eq_def]
  simp [c6amp_hop1, initial_insertion_mode, before_html_insertion_mode, before_html_anything_else, before_head_insertion_mode, before_head_anything_else, in_head_insertion_mode, in_head_anything_else, after_head_insertion_mode, after_head_anything_else, ParserState.insert_an_html_element, ParserState.insert_foreign_element, ParserState.insert_create_an_element_for_the_token_result, create_an_element_for_the_token, create_element, ParserState.new_node, Arena.new_node, Arena.append_child, Arena.get?, Arena.dataOf?, Arena.last_child, Arena.isTextId, Arena.extend_text, ParserState.insert_character, ParserState.appropriate_place_for_inserting_a_node, ParserState.popExpect, ParserState.current_node_id?, ParserState.current_node?, ParserState.current_element?, ParserState.add_attribute_to_element, ParserState.insert_a_comment, ParserState.reconstruct_the_active_formatting_elements, isTreeWhitespace, chars.CHARACTER_TABULATION, chars.LINE_FEED, chars.FORM_FEED, chars.CARRIAGE_RETURN, chars.SPACE, chars.NULL, TagToken.new, HTML_NAMESPACE, IN_HEAD_DELEGATED, Acknowledgement.no, Acknowledgement.yes, TagTokenType.self_closing, TagTokenType.tag_name, DefaultParseErrorHandler.error_emitted, ParserState.handle_error, Bind.bind, Except.bind, Pure.pure, Except.pure, Except.map]
  all_goals decide

theorem c6amp_step0 : step 299 ['<', 'a', ' ', 'h', 'r', 'e', 'f', '=', '"', '?', 'a', '=', '1', '&', 'a', 'm', 'p', ';', 'b', '=', '2', '"', '>', '<', '/', 'a', '>'] TokState.initial =
    Except.ok { state := Racoon.TokenizerState.TagOpen, return_state := none, temporary_buffer := [], pos := 1, parser := { insertion_mode := Racoon.InsertionMode.Initial, template_insertion_modes := [], original_insertion_mode := none, open_elements := [], context_element := none, arena := { nodes := [{ data := Racoon.NodeData.document, children := [] }] }, root_node := some 0, foster_parenting := false, frameset_ok := true, active_formatting_elements := [], head_element_pointer := none, form_element_pointer := none, minorLog := [] }, comment_token := none, doctype_token := none, tag_token := none, attribute_name := none, character_reference_code := 0, last_emitted_start_tag := none } := by rfl

theorem c6amp_step1 : step 298 ['<', 'a', ' ', 'h', 'r', 'e', 'f', '=', '"', '?', 'a', '=', '1', '&', 'a', 'm', 'p', ';', 'b', '=', '2', '"', '>', '<', '/', 'a', '>'] { state := Racoon.TokenizerState.TagOpen, return_state := none, temporary_buffer := [], pos := 1, parser := { insertion_mode := Racoon.InsertionMode.Initial, template_insertion_modes := [], original_insertion_mode := none, open_elements := [], context_element := none, arena := { nodes := [{ data := Racoon.NodeData.document, children := [] }] }, root_node := some 0, foster_parenting := false, frameset_ok := true, active_formatting_elements := [], head_element_pointer := none, form_element_pointer := none, minorLog := [] }, comment_token := none, doctype_token := none, tag_token := none, attribute_name := none, character_reference_code := 0, last_emitted_start_tag := none } =
    Except.ok { state := Racoon.TokenizerState.TagName, return_state := none, temporary_buffer := [], pos := 2, parser := { insertion_mode := Racoon.InsertionMode.Initial, template_insertion_modes := [], original_insertion_mode := none, open_elements := [], context_element := none, arena := { nodes := [{ data := Racoon.NodeData.document, children := [] }] }, root_node := some 0, foster_parenting := false, frameset_ok := true, active_formatting_elements := [], head_element_pointer := none, form_element_pointer := none, minorLog := [] }, comment_token := none, doctype_token := none, tag_token := some (Racoon.TagTokenType.StartTag { tag_name := "a", self_closing := false, attributes := [] }), attribute_name := none, character_reference_code := 0, last_emitted_start_tag := none } := by rfl

theorem c6amp_step2 : step 297 ['<', 'a', ' ', 'h', 'r', 'e', 'f', '=', '"', '?', 'a', '=', '1', '&', 'a', 'm', 'p', ';', 'b', '=', '2', '"', '>', '<', '/', 'a', '>'] { state := Racoon.TokenizerState.TagName, return_state := none, temporary_buffer := [], pos := 2, parser := { insertion_mode := Racoon.InsertionMode.Initial, template_insertion_modes := [], original_insertion_mode := none, open_elements := [], context_element := none, arena := { nodes := [{ data := Racoon.NodeData.document, children := [] }] }, root_node := some 0, foster_parenting := false, frameset_ok := true, active_formatting_elements := [], head_element_pointer := none, form_element_pointer := none, minorLog := [] }, comment_token := none, doctype_token := none, tag_token := some (Racoon.TagTokenType.StartTag { tag_name := "a", self_closing := false, attributes := [] }), attribute_name := none, character_reference_code := 0, last_emitted_start_tag := none } =
    Except.ok { state := Racoon.TokenizerState.BeforeAttributeName, return_state := none, temporary_buffer := [], pos := 3, parser := { insertion_mode := Racoon.InsertionMode.Initial, template_insertion_modes := [], original_insertion_mode := none, open_elements := [], context_element := none, arena := { nodes := [{ data := Racoon.NodeData.document, children := [] }] }, root_node := some 0, foster_parenting := false, frameset_ok := true, active_formatting_elements := [], head_element_pointer := none, form_element_pointer := none, minorLog := [] }, comment_token := none, doctype_token := none, tag_token := some (Racoon.TagTokenType.StartTag { tag_name := "a", self_closing := false, attributes := [] }), attribute_name := none, character_reference_code := 0, last_emitted_start_tag := none } := by rfl

theorem c6amp_step3 : step 296 ['<', 'a', ' ', 'h', 'r', 'e', 'f', '=', '"', '?', 'a', '=', '1', '&', 'a', 'm', 'p', ';', 'b', '=', '2', '"', '>', '<', '/', 'a', '>'] { state := Racoon.TokenizerState.BeforeAttributeName, return_state := none, temporary_buffer := [], pos := 3, parser := { insertion_mode := Racoon.InsertionMode.Initial, template_insertion_modes := [], original_insertion_mode := none, open_elements := [], context_element := none, arena := { nodes := [{ data := Racoon.NodeData.document, children := [] }] }, root_node := some 0, foster_parenting := false, frameset_ok := true, active_formatting_elements := [], head_element_pointer := none, form_element_pointer := none, minorLog := [] }, comment_token := none, doctype_token := none, tag_token := some (Racoon.TagTokenType.StartTag { tag_name := "a", self_closing := false, attributes := [] }), attribute_name := none, character_reference_code := 0, last_emitted_start_tag := none } =
    Except.ok { state := Racoon.TokenizerState.AttributeName, return_state := none, temporary_buffer := [], pos := 4, parser := { insertion_mode := Racoon.InsertionMode.Initial, template_insertion_modes := [], original_insertion_mode := none, open_elements := [], context_element := none, arena := { nodes := [{ data := Racoon.NodeData.document, children := [] }] }, root_node := some 0, foster_parenting := false, frameset_ok := true, active_formatting_elements := [], head_element_pointer := none, form_element_pointer := none, minorLog := [] }, comment_token := none, doctype_token := none, tag_token := some (Racoon.TagTokenType.StartTag { tag_name := "a", self_closing := false, attributes := [{ name := "h", value := "" }] }), attribute_name := some "h", character_reference_code := 0, last_emitted_start_tag := none } := by rfl

theorem c6amp_step4 : step 295 ['<', 'a', ' ', 'h', 'r', 'e', 'f', '=', '"', '?', 'a', '=', '1', '&', 'a', 'm', 'p', ';', 'b', '=', '2', '"', '>', '<', '/', 'a', '>'] { state := Racoon.TokenizerState.AttributeName, return_state := none, temporary_buffer := [], pos := 4, parser := { insertion_mode := Racoon.InsertionMode.Initial, template_insertion_modes := [], original_insertion_mode := none, open_elements := [], context_element := none, arena := { nodes := [{ data := Racoon.NodeData.document, children := [] }] }, root_node := some 0, foster_parenting := false, frameset_ok := true, active_formatting_elements := [], head_element_pointer := none, form_element_pointer := none, minorLog := [] }, comment_token := none, doctype_token := none, tag_token := some (Racoon.TagTokenType.StartTag { tag_name := "a", self_closing := false, attributes := [{ name := "h", value := "" }] }), attribute_name := some "h", character_reference_code := 0, last_emitted_start_tag := none } =
    Except.ok { state := Racoon.TokenizerState.AttributeName, return_state := none, temporary_buffer := [], pos := 5, parser := { insertion_mode := Racoon.InsertionMode.Initial, template_insertion_modes := [], original_insertion_mode := none, open_elements := [], context_element := none, arena := { nodes := [{ data := Racoon.NodeData.document, children := [] }] }, root_node := some 0, foster_parenting := false, frameset_ok := true, active_formatting_elements := [], head_element_pointer := none, form_element_pointer := none, minorLog := [] }, comment_token := none, doctype_token := none, tag_token := some (Racoon.TagTokenType.StartTag { tag_name := "a", self_closing := false, attributes := [{ name := "hr", value := "" }] }), attribute_name := some "hr", character_reference_code := 0, last_emitted_start_tag := none } := by rfl

theorem c6amp_step5 : step 294 ['<', 'a', ' ', 'h', 'r', 'e', 'f', '=', '"', '?', 'a', '=', '1', '&', 'a', 'm', 'p', ';', 'b', '=', '2', '"', '>', '<', '/', 'a', '>'] { state := Racoon.TokenizerState.AttributeName, return_state := none, temporary_buffer := [], pos := 5, parser := { insertion_mode := Racoon.InsertionMode.Initial, template_insertion_modes := [], original_insertion_mode := none, open_elements := [], context_element := none, arena := { nodes := [{ data := Racoon.NodeData.document, children := [] }] }, root_node := some 0, foster_parenting := false, frameset_ok := true, active_formatting_elements := [], head_element_pointer := none, form_element_pointer := none, minorLog := [] }, comment_token := none, doctype_token := none, tag_token := some (Racoon.TagTokenType.StartTag { tag_name := "a", self_closing := false, attributes := [{ name := "hr", value := "" }] }), attribute_name := some "hr", character_reference_code := 0, last_emitted_start_tag := none } =
    Except.ok { state := Racoon.TokenizerState.AttributeName, return_state := none, temporary_buffer := [], pos := 6, parser := { insertion_mode := Racoon.InsertionMode.Initial, template_insertion_modes := [], original_insertion_mode := none, open_elements := [], context_element := none, arena := { nodes := [{ data := Racoon.NodeData.document, children := [] }] }, root_node := some 0, foster_parenting := false, frameset_ok := true, active_formatting_elements := [], head_element_pointer := none, form_element_pointer := none, minorLog := [] }, comment_token := none, doctype_token := none, tag_token := some (Racoon.TagTokenType.StartTag { tag_name := "a", self_closing := false, attributes := [{ name := "hre", value := "" }] }), attribute_name := some "hre", character_reference_code := 0, last_emitted_start_tag := none } := by rfl

theorem c6amp_step6 : step 293 ['<', 'a', ' ', 'h', 'r', 'e', 'f', '=', '"', '?', 'a', '=', '1', '&', 'a', 'm', 'p', ';', 'b', '=', '2', '"', '>', '<', '/', 'a', '>'] { state := Racoon.TokenizerState.AttributeName, return_state := none, temporary_buffer := [], pos := 6, parser := { insertion_mode := Racoon.InsertionMode.Initial, template_insertion_modes := [], original_insertion_mode := none, open_elements := [], context_element := none, arena := { nodes := [{ data := Racoon.NodeData.document, children := [] }] }, root_node := some 0, foster_parenting := false, frameset_ok := true, active_formatting_elements := [], head_element_pointer := none, form_element_pointer := none, minorLog := [] }, comment_token := none, doctype_token := none, tag_token := some (Racoon.TagTokenType.StartTag { tag_name := "a", self_closing := false, attributes := [{ name := "hre", value := "" }] }), attribute_name := some "hre", character_reference_code := 0, last_emitted_start_tag := none } =
    Except.ok { state := Racoon.TokenizerState.AttributeName, return_state := none, temporary_buffer := [], pos := 7, parser := { insertion_mode := Racoon.InsertionMode.Initial, template_insertion_modes := [], original_insertion_mode := none, open_elements := [], context_element := none, arena := { nodes := [{ data := Racoon.NodeData.document, children := [] }] }, root_node := some 0, foster_parenting := false, frameset_ok := true, active_formatting_elements := [], head_element_pointer := none, form_element_pointer := none, minorLog := [] }, comment_token := none, doctype_token := none, tag_token := some (Racoon.TagTokenType.StartTag { tag_name := "a", self_closing := false, attributes := [{ name := "href", value := "" }] }), attribute_name := some "href", character_reference_code := 0, last_emitted_start_tag := none } := by rfl

theorem c6amp_step7 : step 292 ['<', 'a', ' ', 'h', 'r', 'e', 'f', '=', '"', '?', 'a', '=', '1', '&', 'a', 'm', 'p', ';', 'b', '=', '2', '"', '>', '<', '/', 'a', '>'] { state := Racoon.TokenizerState.AttributeName, return_state := none, temporary_buffer := [], pos := 7, parser := { insertion_mode := Racoon.InsertionMode.Initial, template_insertion_modes := [], original_insertion_mode := none, open_elements := [], context_element := none, arena := { nodes := [{ data := Racoon.NodeData.document, children := [] }] }, root_node := some 0, foster_parenting := false, frameset_ok := true, active_formatting_elements := [], head_element_pointer := none, form_element_pointer := none, minorLog := [] }, comment_token := none, doctype_token := none, tag_token := some (Racoon.TagTokenType.StartTag { tag_name := "a", self_closing := false, attributes := [{ name := "href", value := "" }] }), attribute_name := some "href", character_reference_code := 0, last_emitted_start_tag := none } =
    Except.ok { state := Racoon.TokenizerState.BeforeAttributeValue, return_state := none, temporary_buffer := [], pos := 8, parser := { insertion_mode := Racoon.InsertionMode.Initial, template_insertion_modes := [], original_insertion_mode := none, open_elements := [], context_element := none, arena := { nodes := [{ data := Racoon.NodeData.document, children := [] }] }, root_node := some 0, foster_parenting := false, frameset_ok := true, active_formatting_elements := [], head_element_pointer := none, form_element_pointer := none, minorLog := [] }, comment_token := none, doctype_token := none, tag_token := some (Racoon.TagTokenType.StartTag { tag_name := "a", self_closing := false, attributes := [{ name := "href", value := "" }] }), attribute_name := some "href", character_reference_code := 0, last_emitted_start_tag := none } := by rfl

theorem c6amp_step8 : step 291 ['<', 'a', ' ', 'h', 'r', 'e', 'f', '=', '"', '?', 'a', '=', '1', '&', 'a', 'm', 'p', ';', 'b', '=', '2', '"', '>', '<', '/', 'a', '>'] { state := Racoon.TokenizerState.BeforeAttributeValue, return_state := none, temporary_buffer := [], pos := 8, parser := { insertion_mode := Racoon.InsertionMode.Initial, template_insertion_modes := [], original_insertion_mode := none, open_elements := [], context_element := none, arena := { nodes := [{ data := Racoon.NodeData.document, children := [] }] }, root_node := some 0, foster_parenting := false, frameset_ok := true, active_formatting_elements := [], head_element_pointer := none, form_element_pointer := none, minorLog := [] }, comment_token := none, doctype_token := none, tag_token := some (Racoon.TagTokenType.StartTag { tag_name := "a", self_closing := false, attributes := [{ name := "href", value := "" }] }), attribute_name := some "href", character_reference_code := 0, last_emitted_start_tag := none } =
    Except.ok { state := Racoon.TokenizerState.AttributeValueDoubleQuoted, return_state := none, temporary_buffer := [], pos := 9, parser := { insertion_mode := Racoon.InsertionMode.Initial, template_insertion_modes := [], original_insertion_mode := none, open_elements := [], context_element := none, arena := { nodes := [{ data := Racoon.NodeData.document, children := [] }] }, root_node := some 0, foster_parenting := false, frameset_ok := true, active_formatting_elements := [], head_element_pointer := none, form_element_pointer := none, minorLog := [] }, comment_token := none, doctype_token := none, tag_token := some (Racoon.TagTokenType.StartTag { tag_name := "a", self_closing := false, attributes := [{ name := "href", value := "" }] }), attribute_name := some "href", character_reference_code := 0, last_emitted_start_tag := none } := by rfl

theorem c6amp_step9 : step 290 ['<', 'a', ' ', 'h', 'r', 'e', 'f', '=', '"', '?', 'a', '=', '1', '&', 'a', 'm', 'p', ';', 'b', '=', '2', '"', '>', '<', '/', 'a', '>'] { state := Racoon.TokenizerState.AttributeValueDoubleQuoted, return_state := none, temporary_buffer := [], pos := 9, parser := { insertion_mode := Racoon.InsertionMode.Initial, template_insertion_modes := [], original_insertion_mode := none, open_elements := [], context_element := none, arena := { nodes := [{ data := Racoon.NodeData.document, children := [] }] }, root_node := some 0, foster_parenting := false, frameset_ok := true, active_formatting_elements := [], head_element_pointer := none, form_element_pointer := none, minorLog := [] }, comment_token := none, doctype_token := none, tag_token := some (Racoon.TagTokenType.StartTag { tag_name := "a", self_closing := false, attributes := [{ name := "href", value := "" }] }), attribute_name := some "href", character_reference_code := 0, last_emitted_start_tag := none } =
    Except.ok { state := Racoon.TokenizerState.AttributeValueDoubleQuoted, return_state := none, temporary_buffer := [], pos := 10, parser := { insertion_mode := Racoon.InsertionMode.Initial, template_insertion_modes := [], original_insertion_mode := none, open_elements := [], context_element := none, arena := { nodes := [{ data := Racoon.NodeData.document, children := [] }] }, root_node := some 0, foster_parenting := false, frameset_ok := true, active_formatting_elements := [], head_element_pointer := none, form_element_pointer := none, minorLog := [] }, comment_token := none, doctype_token := none, tag_token := some (Racoon.TagTokenType.StartTag { tag_name := "a", self_closing := false, attributes := [{ name := "href", value := "?" }] }), attribute_name := some "href", character_reference_code := 0, last_emitted_start_tag := none } := by rfl

theorem c6amp_step10 : step 289 ['<', 'a', ' ', 'h', 'r', 'e', 'f', '=', '"', '?', 'a', '=', '1', '&', 'a', 'm', 'p', ';', 'b', '=', '2', '"', '>', '<', '/', 'a', '>'] { state := Racoon.TokenizerState.AttributeValueDoubleQuoted, return_state := none, temporary_buffer := [], pos := 10, parser := { insertion_mode := Racoon.InsertionMode.Initial, template_insertion_modes := [], original_insertion_mode := none, open_elements := [], context_element := none, arena := { nodes := [{ data := Racoon.NodeData.document, children := [] }] }, root_node := some 0, foster_parenting := false, frameset_ok := true, active_formatting_elements := [], head_element_pointer := none, form_element_pointer := none, minorLog := [] }, comment_token := none, doctype_token := none, tag_token := some (Racoon.TagTokenType.StartTag { tag_name := "a", self_closing := false, attributes := [{ name := "href", value := "?" }] }), attribute_name := some "href", character_reference_code := 0, last_emitted_start_tag := none } =
    Except.ok { state := Racoon.TokenizerState.AttributeValueDoubleQuoted, return_state := none, temporary_buffer := [], pos := 11, parser := { insertion_mode := Racoon.InsertionMode.Initial, template_insertion_modes := [], original_insertion_mode := none, open_elements := [], context_element := none, arena := { nodes := [{ data := Racoon.NodeData.document, children := [] }] }, root_node := some 0, foster_parenting := false, frameset_ok := true, active_formatting_elements := [], head_element_pointer := none, form_element_pointer := none, minorLog := [] }, comment_token := none, doctype_token := none, tag_token := some (Racoon.TagTokenType.StartTag { tag_name := "a", self_closing := false, attributes := [{ name := "href", value := "?a" }] }), attribute_name := some "href", character_reference_code := 0, last_emitted_start_tag := none } := by rfl

theorem c6amp_step11 : step 288 ['<', 'a', ' ', 'h', 'r', 'e', 'f', '=', '"', '?', 'a', '=', '1', '&', 'a', 'm', 'p', ';', 'b', '=', '2', '"', '>', '<', '/', 'a', '>'] { state := Racoon.TokenizerState.AttributeValueDoubleQuoted, return_state := none, temporary_buffer := [], pos := 11, parser := { insertion_mode := Racoon.InsertionMode.Initial, template_insertion_modes := [], original_insertion_mode := none, open_elements := [], context_element := none, arena := { nodes := [{ data := Racoon.NodeData.document, children := [] }] }, root_node := some 0, foster_parenting := false, frameset_ok := true, active_formatting_elements := [], head_element_pointer := none, form_element_pointer := none, minorLog := [] }, comment_token := none, doctype_token := none, tag_token := some (Racoon.TagTokenType.StartTag { tag_name := "a", self_closing := false, attributes := [{ name := "href", value := "?a" }] }), attribute_name := some "href", character_reference_code := 0, last_emitted_start_tag := none } =
    Except.ok { state := Racoon.TokenizerState.AttributeValueDoubleQuoted, return_state := none, temporary_buffer := [], pos := 12, parser := { insertion_mode := Racoon.InsertionMode.Initial, template_insertion_modes := [], original_insertion_mode := none, open_elements := [], context_element := none, arena := { nodes := [{ data := Racoon.NodeData.document, children := [] }] }, root_node := some 0, foster_parenting := false, frameset_ok := true, active_formatting_elements := [], head_element_pointer := none, form_element_pointer := none, minorLog := [] }, comment_token := none, doctype_token := none, tag_token := some (Racoon.TagTokenType.StartTag { tag_name := "a", self_closing := false, attributes := [{ name := "href", value := "?a=" }] }), attribute_name := some "href", character_reference_code := 0, last_emitted_start_tag := none } := by rfl

theorem c6amp_step12 : step 287 ['<', 'a', ' ', 'h', 'r', 'e', 'f', '=', '"', '?', 'a', '=', '1', '&', 'a', 'm', 'p', ';', 'b', '=', '2', '"', '>', '<', '/', 'a', '>'] { state := Racoon.TokenizerState.AttributeValueDoubleQuoted, return_state := none, temporary_buffer := [], pos := 12, parser := { insertion_mode := Racoon.InsertionMode.Initial, template_insertion_modes := [], original_insertion_mode := none, open_elements := [], context_element := none, arena := { nodes := [{ data := Racoon.NodeData.document, children := [] }] }, root_node := some 0, foster_parenting := false, frameset_ok := true, active_formatting_elements := [], head_element_pointer := none, form_element_pointer := none, minorLog := [] }, comment_token := none, doctype_token := none, tag_token := some (Racoon.TagTokenType.StartTag { tag_name := "a", self_closing := false, attributes := [{ name := "href", value := "?a=" }] }), attribute_name := some "href", character_reference_code := 0, last_emitted_start_tag := none } =
    Except.ok { state := Racoon.TokenizerState.AttributeValueDoubleQuoted, return_state := none, temporary_buffer := [], pos := 13, parser := { insertion_mode := Racoon.InsertionMode.Initial, template_insertion_modes := [], original_insertion_mode := none, open_elements := [], context_element := none, arena := { nodes := [{ data := Racoon.NodeData.document, children := [] }] }, root_node := some 0, foster_parenting := false, frameset_ok := true, active_formatting_elements := [], head_element_pointer := none, form_element_pointer := none, minorLog := [] }, comment_token := none, doctype_token := none, tag_token := some (Racoon.TagTokenType.StartTag { tag_name := "a", self_closing := false, attributes := [{ name := "href", value := "?a=1" }] }), attribute_name := some "href", character_reference_code := 0, last_emitted_start_tag := none } := by rfl

theorem c6amp_step13 : step 286 ['<', 'a', ' ', 'h', 'r', 'e', 'f', '=', '"', '?', 'a', '=', '1', '&', 'a', 'm', 'p', ';', 'b', '=', '2', '"', '>', '<', '/', 'a', '>'] { state := Racoon.TokenizerState.AttributeValueDoubleQuoted, return_state := none, temporary_buffer := [], pos := 13, parser := { insertion_mode := Racoon.InsertionMode.Initial, template_insertion_modes := [], original_insertion_mode := none, open_elements := [], context_element := none, arena := { nodes := [{ data := Racoon.NodeData.document, children := [] }] }, root_node := some 0, foster_parenting := false, frameset_ok := true, active_formatting_elements := [], head_element_pointer := none, form_element_pointer := none, minorLog := [] }, comment_token := none, doctype_token := none, tag_token := some (Racoon.TagTokenType.StartTag { tag_name := "a", self_closing := false, attributes := [{ name := "href", value := "?a=1" }] }), attribute_name := some "href", character_reference_code := 0, last_emitted_start_tag := none } =
    Except.ok { state := Racoon.TokenizerState.CharacterReference, return_state := some (Racoon.TokenizerState.AttributeValueDoubleQuoted), temporary_buffer := [], pos := 14, parser := { insertion_mode := Racoon.InsertionMode.Initial, template_insertion_modes := [], original_insertion_mode := none, open_elements := [], context_element := none, arena := { nodes := [{ data := Racoon.NodeData.document, children := [] }] }, root_node := some 0, foster_parenting := false, frameset_ok := true, active_formatting_elements := [], head_element_pointer := none, form_element_pointer := none, minorLog := [] }, comment_token := none, doctype_token := none, tag_token := some (Racoon.TagTokenType.StartTag { tag_name := "a", self_closing := false, attributes := [{ name := "href", value := "?a=1" }] }), attribute_name := some "href", character_reference_code := 0, last_emitted_start_tag := none } := by rfl

theorem c6amp_step14 : step 285 ['<', 'a', ' ', 'h', 'r', 'e', 'f', '=', '"', '?', 'a', '=', '1', '&', 'a', 'm', 'p', ';', 'b', '=', '2', '"', '>', '<', '/', 'a', '>'] { state := Racoon.TokenizerState.CharacterReference, return_state := some (Racoon.TokenizerState.AttributeValueDoubleQuoted), temporary_buffer := [], pos := 14, parser := { insertion_mode := Racoon.InsertionMode.Initial, template_insertion_modes := [], original_insertion_mode := none, open_elements := [], context_element := none, arena := { nodes := [{ data := Racoon.NodeData.document, children := [] }] }, root_node := some 0, foster_parenting := false, frameset_ok := true, active_formatting_elements := [], head_element_pointer := none, form_element_pointer := none, minorLog := [] }, comment_token := none, doctype_token := none, tag_token := some (Racoon.TagTokenType.StartTag { tag_name := "a", self_closing := false, attributes := [{ name := "href", value := "?a=1" }] }), attribute_name := some "href", character_reference_code := 0, last_emitted_start_tag := none } =
    Except.ok { state := Racoon.TokenizerState.AttributeValueDoubleQuoted, return_state := some (Racoon.TokenizerState.AttributeValueDoubleQuoted), temporary_buffer := [], pos := 18, parser := { insertion_mode := Racoon.InsertionMode.Initial, template_insertion_modes := [], original_insertion_mode := none, open_elements := [], context_element := none, arena := { nodes := [{ data := Racoon.NodeData.document, children := [] }] }, root_node := some 0, foster_parenting := false, frameset_ok := true, active_formatting_elements := [], head_element_pointer := none, form_element_pointer := none, minorLog := [] }, comment_token := none, doctype_token := none, tag_token := some (Racoon.TagTokenType.StartTag { tag_name := "a", self_closing := false, attributes := [{ name := "href", value := "?a=1&" }] }), attribute_name := some "href", character_reference_code := 0, last_emitted_start_tag := none } := by rfl

theorem c6amp_step15 : step 284 ['<', 'a', ' ', 'h', 'r', 'e', 'f', '=', '"', '?', 'a', '=', '1', '&', 'a', 'm', 'p', ';', 'b', '=', '2', '"', '>', '<', '/', 'a', '>'] { state := Racoon.TokenizerState.AttributeValueDoubleQuoted, return_state := some (Racoon.TokenizerState.AttributeValueDoubleQuoted), temporary_buffer := [], pos := 18, parser := { insertion_mode := Racoon.InsertionMode.Initial, template_insertion_modes := [], original_insertion_mode := none, open_elements := [], context_element := none, arena := { nodes := [{ data := Racoon.NodeData.document, children := [] }] }, root_node := some 0, foster_parenting := false, frameset_ok := true, active_formatting_elements := [], head_element_pointer := none, form_element_pointer := none, minorLog := [] }, comment_token := none, doctype_token := none, tag_token := some (Racoon.TagTokenType.StartTag { tag_name := "a", self_closing := false, attributes := [{ name := "href", value := "?a=1&" }] }), attribute_name := some "href", character_reference_code := 0, last_emitted_start_tag := none } =
    Except.ok { state := Racoon.TokenizerState.AttributeValueDoubleQuoted, return_state := some (Racoon.TokenizerState.AttributeValueDoubleQuoted), temporary_buffer := [], pos := 19, parser := { insertion_mode := Racoon.InsertionMode.Initial, template_insertion_modes := [], original_insertion_mode := none, open_elements := [], context_element := none, arena := { nodes := [{ data := Racoon.NodeData.document, children := [] }] }, root_node := some 0, foster_parenting := false, frameset_ok := true, active_formatting_elements := [], head_element_pointer := none, form_element_pointer := none, minorLog := [] }, comment_token := none, doctype_token := none, tag_token := some (Racoon.TagTokenType.StartTag { tag_name := "a", self_closing := false, attributes := [{ name := "href", value := "?a=1&b" }] }), attribute_name := some "href", character_reference_code := 0, last_emitted_start_tag := none } := by rfl

theorem c6amp_step16 : step 283 ['<', 'a', ' ', 'h', 'r', 'e', 'f', '=', '"', '?', 'a', '=', '1', '&', 'a', 'm', 'p', ';', 'b', '=', '2', '"', '>', '<', '/', 'a', '>'] { state := Racoon.TokenizerState.AttributeValueDoubleQuoted, return_state := some (Racoon.TokenizerState.AttributeValueDoubleQuoted), temporary_buffer := [], pos := 19, parser := { insertion_mode := Racoon.InsertionMode.Initial, template_insertion_modes := [], original_insertion_mode := none, open_elements := [], context_element := none, arena := { nodes := [{ data := Racoon.NodeData.document, children := [] }] }, root_node := some 0, foster_parenting := false, frameset_ok := true, active_formatting_elements := [], head_element_pointer := none, form_element_pointer := none, minorLog := [] }, comment_token := none, doctype_token := none, tag_token := some (Racoon.TagTokenType.StartTag { tag_name := "a", self_closing := false, attributes := [{ name := "href", value := "?a=1&b" }] }), attribute_name := some "href", character_reference_code := 0, last_emitted_start_tag := none } =
    Except.ok { state := Racoon.TokenizerState.AttributeValueDoubleQuoted, return_state := some (Racoon.TokenizerState.AttributeValueDoubleQuoted), temporary_buffer := [], pos := 20, parser := { insertion_mode := Racoon.InsertionMode.Initial, template_insertion_modes := [], original_insertion_mode := none, open_elements := [], context_element := none, arena := { nodes := [{ data := Racoon.NodeData.document, children := [] }] }, root_node := some 0, foster_parenting := false, frameset_ok := true, active_formatting_elements := [], head_element_pointer := none, form_element_pointer := none, minorLog := [] }, comment_token := none, doctype_token := none, tag_token := some (Racoon.TagTokenType.StartTag { tag_name := "a", self_closing := false, attributes := [{ name := "href", value := "?a=1&b=" }] }), attribute_name := some "href", character_reference_code := 0, last_emitted_start_tag := none } := by rfl

theorem c6amp_step17 : step 282 ['<', 'a', ' ', 'h', 'r', 'e', 'f', '=', '"', '?', 'a', '=', '1', '&', 'a', 'm', 'p', ';', 'b', '=', '2', '"', '>', '<', '/', 'a', '>'] { state := Racoon.TokenizerState.AttributeValueDoubleQuoted, return_state := some (Racoon.TokenizerState.AttributeValueDoubleQuoted), temporary_buffer := [], pos := 20, parser := { insertion_mode := Racoon.InsertionMode.Initial, template_insertion_modes := [], original_insertion_mode := none, open_elements := [], context_element := none, arena := { nodes := [{ data := Racoon.NodeData.document, children := [] }] }, root_node := some 0, foster_parenting := false, frameset_ok := true, active_formatting_elements := [], head_element_pointer := none, form_element_pointer := none, minorLog := [] }, comment_token := none, doctype_token := none, tag_token := some (Racoon.TagTokenType.StartTag { tag_name := "a", self_closing := false, attributes := [{ name := "href", value := "?a=1&b=" }] }), attribute_name := some "href", character_reference_code := 0, last_emitted_start_tag := none } =
    Except.ok { state := Racoon.TokenizerState.AttributeValueDoubleQuoted, return_state := some (Racoon.TokenizerState.AttributeValueDoubleQuoted), temporary_buffer := [], pos := 21, parser := { insertion_mode := Racoon.InsertionMode.Initial, template_insertion_modes := [], original_insertion_mode := none, open_elements := [], context_element := none, arena := { nodes := [{ data := Racoon.NodeData.document, children := [] }] }, root_node := some 0, foster_parenting := false, frameset_ok := true, active_formatting_elements := [], head_element_pointer := none, form_element_pointer := none, minorLog := [] }, comment_token := none, doctype_token := none, tag_token := some (Racoon.TagTokenType.StartTag { tag_name := "a", self_closing := false, attributes := [{ name := "href", value := "?a=1&b=2" }] }), attribute_name := some "href", character_reference_code := 0, last_emitted_start_tag := none } := by rfl

theorem c6amp_step18 : step 281 ['<', 'a', ' ', 'h', 'r', 'e', 'f', '=', '"', '?', 'a', '=', '1', '&', 'a', 'm', 'p', ';', 'b', '=', '2', '"', '>', '<', '/', 'a', '>'] { state := Racoon.TokenizerState.AttributeValueDoubleQuoted, return_state := some (Racoon.TokenizerState.AttributeValueDoubleQuoted), temporary_buffer := [], pos := 21, parser := { insertion_mode := Racoon.InsertionMode.Initial, template_insertion_modes := [], original_insertion_mode := none, open_elements := [], context_element := none, arena := { nodes := [{ data := Racoon.NodeData.document, children := [] }] }, root_node := some 0, foster_parenting := false, frameset_ok := true, active_formatting_elements := [], head_element_pointer := none, form_element_pointer := none, minorLog := [] }, comment_token := none, doctype_token := none, tag_token := some (Racoon.TagTokenType.StartTag { tag_name := "a", self_closing := false, attributes := [{ name := "href", value := "?a=1&b=2" }] }), attribute_name := some "href", character_reference_code := 0, last_emitted_start_tag := none } =
    Except.ok { state := Racoon.TokenizerState.AfterAttributeValueQuoted, return_state := some (Racoon.TokenizerState.AttributeValueDoubleQuoted), temporary_buffer := [], pos := 22, parser := { insertion_mode := Racoon.InsertionMode.Initial, template_insertion_modes := [], original_insertion_mode := none, open_elements := [], context_element := none, arena := { nodes := [{ data := Racoon.NodeData.document, children := [] }] }, root_node := some 0, foster_parenting := false, frameset_ok := true, active_formatting_elements := [], head_element_pointer := none, form_element_pointer := none, minorLog := [] }, comment_token := none, doctype_token := none, tag_token := some (Racoon.TagTokenType.StartTag { tag_name := "a", self_closing := false, attributes := [{ name := "href", value := "?a=1&b=2" }] }), attribute_name := some "href", character_reference_code := 0, last_emitted_start_tag := none } := by rfl

theorem c6amp_step19 : step 280 ['<', 'a', ' ', 'h', 'r', 'e', 'f', '=', '"', '?', 'a', '=', '1', '&', 'a', 'm', 'p', ';', 'b', '=', '2', '"', '>', '<', '/', 'a', '>'] { state := Racoon.TokenizerState.AfterAttributeValueQuoted, return_state := some (Racoon.TokenizerState.AttributeValueDoubleQuoted), temporary_buffer := [], pos := 22, parser := { insertion_mode := Racoon.InsertionMode.Initial, template_insertion_modes := [], original_insertion_mode := none, open_elements := [], context_element := none, arena := { nodes := [{ data := Racoon.NodeData.document, children := [] }] }, root_node := some 0, foster_parenting := false, frameset_ok := true, active_formatting_elements := [], head_element_pointer := none, form_element_pointer := none, minorLog := [] }, comment_token := none, doctype_token := none, tag_token := some (Racoon.TagTokenType.StartTag { tag_name := "a", self_closing := false, attributes := [{ name := "href", value := "?a=1&b=2" }] }), attribute_name := some "href", character_reference_code := 0, last_emitted_start_tag := none } =
    Except.ok { state := Racoon.TokenizerState.Data, return_state := some (Racoon.TokenizerState.AttributeValueDoubleQuoted), temporary_buffer := [], pos := 23, parser := { insertion_mode := Racoon.InsertionMode.InBody, template_insertion_modes := [], original_insertion_mode := none, open_elements := [1, 3, 4], context_element := none, arena := { nodes := [{ data := Racoon.NodeData.document, children := [1] }, { data := Racoon.NodeData.element "html" none, children := [2, 3] }, { data := Racoon.NodeData.element "head" none, children := [] }, { data := Racoon.NodeData.element "body" none, children := [4] }, { data := Racoon.NodeData.element "a" none, children := [5] }, { data := Racoon.NodeData.attributeNode "href" "?a=1&b=2", children := [] }] }, root_node := some 0, foster_parenting := false, frameset_ok := true, active_formatting_elements := [Racoon.NodeOrMarker.Node 4 { tag_name := "a", self_closing := false, attributes := [{ name := "href", value := "?a=1&b=2" }] }], head_element_pointer := some 2, form_element_pointer := none, minorLog := [] }, comment_token := none, doctype_token := none, tag_token := none, attribute_name := some "href", character_reference_code := 0, last_emitted_start_tag := some { tag_name := "a", self_closing := false, attributes := [{ name := "href", value := "?a=1&b=2" }] } } := by
  rw [step.eq_def]
  simp [c6amp_hop0, data_state, tag_open_state, end_tag_open_state, tag_name_state, before_attribute_name_state, attribute_name_state, after_attribute_name_state, before_attribute_value_state, attribute_value_double_quoted_state, attribute_value_single_quoted_state, attribute_value_unquoted_state, after_attribute_value_quoted_state, self_closing_start_tag_state, emit, emit_current_tag_token, TokState.with_tag_token, TokState.set_self_closing, TokState.push_char_to_tag_name, TokState.handle_error, TokState.charref_in_attribute, cursorNext, cursorCurrent, cursorPeek, cursorPrev, cursorNextAdd, chars.NULL, DefaultTokenizerErrorHandler.error_emitted, Bind.bind, Except.bind, Pure.pure, Except.pure, Except.map]
  all_goals decide

theorem c6amp_step20 : step 279 ['<', 'a', ' ', 'h', 'r', 'e', 'f', '=', '"', '?', 'a', '=', '1', '&', 'a', 'm', 'p', ';', 'b', '=', '2', '"', '>', '<', '/', 'a', '>'] { state := Racoon.TokenizerState.Data, return_state := some (Racoon.TokenizerState.AttributeValueDoubleQuoted), temporary_buffer := [], pos := 23, parser := { insertion_mode := Racoon.InsertionMode.InBody, template_insertion_modes := [], original_insertion_mode := none, open_elements := [1, 3, 4], context_element := none, arena := { nodes := [{ data := Racoon.NodeData.document, children := [1] }, { data := Racoon.NodeData.element "html" none, children := [2, 3] }, { data := Racoon.NodeData.element "head" none, children := [] }, { data := Racoon.NodeData.element "body" none, children := [4] }, { data := Racoon.NodeData.element "a" none, children := [5] }, { data := Racoon.NodeData.attributeNode "href" "?a=1&b=2", children := [] }] }, root_node := some 0, foster_parenting := false, frameset_ok := true, active_formatting_elements := [Racoon.NodeOrMarker.Node 4 { tag_name := "a", self_closing := false, attributes := [{ name := "href", value := "?a=1&b=2" }] }], head_element_pointer := some 2, form_element_pointer := none, minorLog := [] }, comment_token := none, doctype_token := none, tag_token := none, attribute_name := some "href", character_reference_code := 0, last_emitted_start_tag := some { tag_name := "a", self_closing := false, attributes := [{ name := "href", value := "?a=1&b=2" }] } } =
    Except.ok { state := Racoon.TokenizerState.TagOpen, return_state := some (Racoon.TokenizerState.AttributeValueDoubleQuoted), temporary_buffer := [], pos := 24, parser := { insertion_mode := Racoon.InsertionMode.InBody, template_insertion_modes := [], original_insertion_mode := none, open_elements := [1, 3, 4], context_element := none, arena := { nodes := [{ data := Racoon.NodeData.document, children := [1] }, { data := Racoon.NodeData.element "html" none, children := [2, 3] }, { data := Racoon.NodeData.element "head" none, children := [] }, { data := Racoon.NodeData.element "body" none, children := [4] }, { data := Racoon.NodeData.element "a" none, children := [5] }, { data := Racoon.NodeData.attributeNode "href" "?a=1&b=2", children := [] }] }, root_node := some 0, foster_parenting := false, frameset_ok := true, active_formatting_elements := [Racoon.NodeOrMarker.Node 4 { tag_name := "a", self_closing := false, attributes := [{ name := "href", value := "?a=1&b=2" }] }], head_element_pointer := some 2, form_element_pointer := none, minorLog := [] }, comment_token := none, doctype_token := none, tag_token := none, attribute_name := some "href", character_reference_code := 0, last_emitted_start_tag := some { tag_name := "a", self_closing := false, attributes := [{ name := "href", value := "?a=1&b=2" }] } } := by rfl

theorem c6amp_step21 : step 278 ['<', 'a', ' ', 'h', 'r', 'e', 'f', '=', '"', '?', 'a', '=', '1', '&', 'a', 'm', 'p', ';', 'b', '=', '2', '"', '>', '<', '/', 'a', '>'] { state := Racoon.TokenizerState.TagOpen, return_state := some (Racoon.TokenizerState.AttributeValueDoubleQuoted), temporary_buffer := [], pos := 24, parser := { insertion_mode := Racoon.InsertionMode.InBody, template_insertion_modes := [], original_insertion_mode := none, open_elements := [1, 3, 4], context_element := none, arena := { nodes := [{ data := Racoon.NodeData.document, children := [1] }, { data := Racoon.NodeData.element "html" none, children := [2, 3] }, { data := Racoon.NodeData.element "head" none, children := [] }, { data := Racoon.NodeData.element "body" none, children := [4] }, { data := Racoon.NodeData.element "a" none, children := [5] }, { data := Racoon.NodeData.attributeNode "href" "?a=1&b=2", children := [] }] }, root_node := some 0, foster_parenting := false, frameset_ok := true, active_formatting_elements := [Racoon.NodeOrMarker.Node 4 { tag_name := "a", self_closing := false, attributes := [{ name := "href", value := "?a=1&b=2" }] }], head_element_pointer := some 2, form_element_pointer := none, minorLog := [] }, comment_token := none, doctype_token := none, tag_token := none, attribute_name := some "href", character_reference_code := 0, last_emitted_start_tag := some { tag_name := "a", self_closing := false, attributes := [{ name := "href", value := "?a=1&b=2" }] } } =
    Except.ok { state := Racoon.TokenizerState.EndTagOpen, return_state := some (Racoon.TokenizerState.AttributeValueDoubleQuoted), temporary_buffer := [], pos := 25, parser := { insertion_mode := Racoon.InsertionMode.InBody, template_insertion_modes := [], original_insertion_mode := none, open_elements := [1, 3, 4], context_element := none, arena := { nodes := [{ data := Racoon.NodeData.document, children := [1] }, { data := Racoon.NodeData.element "html" none, children := [2, 3] }, { data := Racoon.NodeData.element "head" none, children := [] }, { data := Racoon.NodeData.element "body" none, children := [4] }, { data := Racoon.NodeData.element "a" none, children := [5] }, { data := Racoon.NodeData.attributeNode "href" "?a=1&b=2", children := [] }] }, root_node := some 0, foster_parenting := false, frameset_ok := true, active_formatting_elements := [Racoon.NodeOrMarker.Node 4 { tag_name := "a", self_closing := false, attributes := [{ name := "href", value := "?a=1&b=2" }] }], head_element_pointer := some 2, form_element_pointer := none, minorLog := [] }, comment_token := none, doctype_token := none, tag_token := none, attribute_name := some "href", character_reference_code := 0, last_emitted_start_tag := some { tag_name := "a", self_closing := false, attributes := [{ name := "href", value := "?a=1&b=2" }] } } := by rfl

theorem c6amp_step22 : step 277 ['<', 'a', ' ', 'h', 'r', 'e', 'f', '=', '"', '?', 'a', '=', '1', '&', 'a', 'm', 'p', ';', 'b', '=', '2', '"', '>', '<', '/', 'a', '>'] { state := Racoon.TokenizerState.EndTagOpen, return_state := some (Racoon.TokenizerState.AttributeValueDoubleQuoted), temporary_buffer := [], pos := 25, parser := { insertion_mode := Racoon.InsertionMode.InBody, template_insertion_modes := [], original_insertion_mode := none, open_elements := [1, 3, 4], context_element := none, arena := { nodes := [{ data := Racoon.NodeData.document, children := [1] }, { data := Racoon.NodeData.element "html" none, children := [2, 3] }, { data := Racoon.NodeData.element "head" none, children := [] }, { data := Racoon.NodeData.element "body" none, children := [4] }, { data := Racoon.NodeData.element "a" none, children := [5] }, { data := Racoon.NodeData.attributeNode "href" "?a=1&b=2", children := [] }] }, root_node := some 0, foster_parenting := false, frameset_ok := true, active_formatting_elements := [Racoon.NodeOrMarker.Node 4 { tag_name := "a", self_closing := false, attributes := [{ name := "href", value := "?a=1&b=2" }] }], head_element_pointer := some 2, form_element_pointer := none, minorLog := [] }, comment_token := none, doctype_token := none, tag_token := none, attribute_name := some "href", character_reference_code := 0, last_emitted_start_tag := some { tag_name := "a", self_closing := false, attributes := [{ name := "href", value := "?a=1&b=2" }] } } =
    Except.ok { state := Racoon.TokenizerState.TagName, return_state := some (Racoon.TokenizerState.AttributeValueDoubleQuoted), temporary_buffer := [], pos := 26, parser := { insertion_mode := Racoon.InsertionMode.InBody, template_insertion_modes := [], original_insertion_mode := none, open_elements := [1, 3, 4], context_element := none, arena := { nodes := [{ data := Racoon.NodeData.document, children := [1] }, { data := Racoon.NodeData.element "html" none, children := [2, 3] }, { data := Racoon.NodeData.element "head" none, children := [] }, { data := Racoon.NodeData.element "body" none, children := [4] }, { data := Racoon.NodeData.element "a" none, children := [5] }, { data := Racoon.NodeData.attributeNode "href" "?a=1&b=2", children := [] }] }, root_node := some 0, foster_parenting := false, frameset_ok := true, active_formatting_elements := [Racoon.NodeOrMarker.Node 4 { tag_name := "a", self_closing := false, attributes := [{ name := "href", value := "?a=1&b=2" }] }], head_element_pointer := some 2, form_element_pointer := none, minorLog := [] }, comment_token := none, doctype_token := none, tag_token := some (Racoon.TagTokenType.EndTag { tag_name := "a", self_closing := false, attributes := [] }), attribute_name := some "href", character_reference_code := 0, last_emitted_start_tag := some { tag_name := "a", self_closing := false, attributes := [{ name := "href", value := "?a=1&b=2" }] } } := by rfl

theorem c6amp_step23 : step 276 ['<', 'a', ' ', 'h', 'r', 'e', 'f', '=', '"', '?', 'a', '=', '1', '&', 'a', 'm', 'p', ';', 'b', '=', '2', '"', '>', '<', '/', 'a', '>'] { state := Racoon.TokenizerState.TagName, return_state := some (Racoon.TokenizerState.AttributeValueDoubleQuoted), temporary_buffer := [], pos := 26, parser := { insertion_mode := Racoon.InsertionMode.InBody, template_insertion_modes := [], original_insertion_mode := none, open_elements := [1, 3, 4], context_element := none, arena := { nodes := [{ data := Racoon.NodeData.document, children := [1] }, { data := Racoon.NodeData.element "html" none, children := [2, 3] }, { data := Racoon.NodeData.element "head" none, children := [] }, { data := Racoon.NodeData.element "body" none, children := [4] }, { data := Racoon.NodeData.element "a" none, children := [5] }, { data := Racoon.NodeData.attributeNode "href" "?a=1&b=2", children := [] }] }, root_node := some 0, foster_parenting := false, frameset_ok := true, active_formatting_elements := [Racoon.NodeOrMarker.Node 4 { tag_name := "a", self_closing := false, attributes := [{ name := "href", value := "?a=1&b=2" }] }], head_element_pointer := some 2, form_element_pointer := none, minorLog := [] }, comment_token := none, doctype_token := none, tag_token := some (Racoon.TagTokenType.EndTag { tag_name := "a", self_closing := false, attributes := [] }), attribute_name := some "href", character_reference_code := 0, last_emitted_start_tag := some { tag_name := "a", self_closing := false, attributes := [{ name := "href", value := "?a=1&b=2" }] } } =
    Except.ok { state := Racoon.TokenizerState.Data, return_state := some (Racoon.TokenizerState.AttributeValueDoubleQuoted), temporary_buffer := [], pos := 27, parser := { insertion_mode := Racoon.InsertionMode.InBody, template_insertion_modes := [], original_insertion_mode := none, open_elements := [1, 3], context_element := none, arena := { nodes := [{ data := Racoon.NodeData.document, children := [1] }, { data := Racoon.NodeData.element "html" none, children := [2, 3] }, { data := Racoon.NodeData.element "head" none, children := [] }, { data := Racoon.NodeData.element "body" none, children := [4] }, { data := Racoon.NodeData.element "a" none, children := [5] }, { data := Racoon.NodeData.attributeNode "href" "?a=1&b=2", children := [] }] }, root_node := some 0, foster_parenting := false, frameset_ok := true, active_formatting_elements := [Racoon.NodeOrMarker.Node 4 { tag_name := "a", self_closing := false, attributes := [{ name := "href", value := "?a=1&b=2" }] }], head_element_pointer := some 2, form_element_pointer := none, minorLog := [] }, comment_token := none, doctype_token := none, tag_token := none, attribute_name := some "href", character_reference_code := 0, last_emitted_start_tag := some { tag_name := "a", self_closing := false, attributes := [{ name := "href", value := "?a=1&b=2" }] } } := by rfl

theorem c6amp_run : tokenizer_run 300 ['<', 'a', ' ', 'h', 'r', 'e', 'f', '=', '"', '?', 'a', '=', '1', '&', 'a', 'm', 'p', ';', 'b', '=', '2', '"', '>', '<', '/', 'a', '>'] TokState.initial =
    Except.ok { state := Racoon.TokenizerState.Data, return_state := some (Racoon.TokenizerState.AttributeValueDoubleQuoted), temporary_buffer := [], pos := 27, parser := { insertion_mode := Racoon.InsertionMode.InBody, template_insertion_modes := [], original_insertion_mode := none, open_elements := [1, 3], context_element := none, arena := { nodes := [{ data := Racoon.NodeData.document, children := [1] }, { data := Racoon.NodeData.element "html" none, children := [2, 3] }, { data := Racoon.NodeData.element "head" none, children := [] }, { data := Racoon.NodeData.element "body" none, children := [4] }, { data := Racoon.NodeData.element "a" none, children := [5] }, { data := Racoon.NodeData.attributeNode "href" "?a=1&b=2", children := [] }] }, root_node := some 0, foster_parenting := false, frameset_ok := true, active_formatting_elements := [Racoon.NodeOrMarker.Node 4 { tag_name := "a", self_closing := false, attributes := [{ name := "href", value := "?a=1&b=2" }] }], head_element_pointer := some 2, form_element_pointer := none, minorLog := [] }, comment_token := none, doctype_token := none, tag_token := none, attribute_name := some "href", character_reference_code := 0, last_emitted_start_tag := some { tag_name := "a", self_closing := false, attributes := [{ name := "href", value := "?a=1&b=2" }] } } := by
  rw [tokenizer_run_step_ok 299 (by decide) c6amp_step0]
  rw [tokenizer_run_step_ok 298 (by decide) c6amp_step1]
  rw [tokenizer_run_step_ok 297 (by decide) c6amp_step2]
  rw [tokenizer_run_step_ok 296 (by decide) c6amp_step3]
  rw [tokenizer_run_step_ok 295 (by decide) c6amp_step4]
  rw [tokenizer_run_step_ok 294 (by decide) c6amp_step5]
  rw [tokenizer_run_step_ok 293 (by decide) c6amp_step6]
  rw [tokenizer_run_step_ok 292 (by decide) c6amp_step7]
  rw [tokenizer_run_step_ok 291 (by decide) c6amp_step8]
  rw [tokenizer_run_step_ok 290 (by decide) c6amp_step9]
  rw [tokenizer_run_step_ok 289 (by decide) c6amp_step10]
  rw [tokenizer_run_step_ok 288 (by decide) c6amp_step11]
  rw [tokenizer_run_step_ok 287 (by decide) c6amp_step12]
  rw [tokenizer_run_step_ok 286 (by decide) c6amp_step13]
  rw [tokenizer_run_step_ok 285 (by decide) c6amp_step14]
  rw [tokenizer_run_step_ok 284 (by decide) c6amp_step15]
  rw [tokenizer_run_step_ok 283 (by decide) c6amp_step16]
  rw [tokenizer_run_step_ok 282 (by decide) c6amp_step17]
  rw [tokenizer_run_step_ok 281 (by decide) c6amp_step18]
  rw [tokenizer_run_step_ok 280 (by decide) c6amp_step19]
  rw [tokenizer_run_step_ok 279 (by decide) c6amp_step20]
  rw [tokenizer_run_step_ok 278 (by decide) c6amp_step21]
  rw [tokenizer_run_step_ok 277 (by decide) c6amp_step22]
  rw [tokenizer_run_step_ok 276 (by decide) c6amp_step23]
  rw [tokenizer_run_done 275 (by decide)]


/-! ### Staged evaluation lemmas: run `c6cex` -/

theorem c6cex_hop5 : token_emitted 267 { insertion_mode := Racoon.InsertionMode.InBody, template_insertion_modes := [], original_insertion_mode := none, open_elements := [1, 3], context_element := none, arena := { nodes := [{ data := Racoon.NodeData.document, children := [1] }, { data := Racoon.NodeData.element "html" none, children := [2, 3] }, { data := Racoon.NodeData.element "head" none, children := [] }, { data := Racoon.NodeData.element "body" none, children := [] }] }, root_node := some 0, foster_parenting := false, frameset_ok := true, active_formatting_elements := [], head_element_pointer := some 2, form_element_pointer := none, minorLog := [] } (Racoon.HtmlToken.TagTok (Racoon.TagTokenType.StartTag { tag_name := "a", self_closing := false, attributes := [{ name := "href", value := "&&ampbc" }] })) =
    Except.ok ({ insertion_mode := Racoon.InsertionMode.InBody, template_insertion_modes := [], original_insertion_mode := none, open_elements := [1, 3, 4], context_element := none, arena := { nodes := [{ data := Racoon.NodeData.document, children := [1] }, { data := Racoon.NodeData.element "html" none, children := [2, 3] }, { data := Racoon.NodeData.element "head" none, children := [] }, { data := Racoon.NodeData.element "body" none, children := [4] }, { data := Racoon.NodeData.element "a" none, children := [5] }, { data := Racoon.NodeData.attributeNode "href" "&&ampbc", children := [] }] }, root_node := some 0, foster_parenting := false, frameset_ok := true, active_formatting_elements := [Racoon.NodeOrMarker.Node 4 { tag_name := "a", self_closing := false, attributes := [{ name := "href", value := "&&ampbc" }] }], head_element_pointer := some 2, form_element_pointer := none, minorLog := [] }, { self_closed := false, tokenizer_state := none }) := by rfl

theorem c6cex_hop4 : token_emitted 270 { insertion_mode := Racoon.InsertionMode.AfterHead, template_insertion_modes := [], original_insertion_mode := none, open_elements := [1], context_element := none, arena := { nodes := [{ data := Racoon.NodeData.document, children := [1] }, { data := Racoon.NodeData.element "html" none, children := [2] }, { data := Racoon.NodeData.element "head" none, children := [] }] }, root_node := some 0, foster_parenting := false, frameset_ok := true, active_formatting_elements := [], head_element_pointer := some 2, form_element_pointer := none, minorLog := [] } (Racoon.HtmlToken.TagTok (Racoon.TagTokenType.StartTag { tag_name := "a", self_closing := false, attributes := [{ name := "href", value := "&&ampbc" }] })) =
    Except.ok ({ insertion_mode := Racoon.InsertionMode.InBody, template_insertion_modes := [], original_insertion_mode := none, open_elements := [1, 3, 4], context_element := none, arena := { nodes := [{ data := Racoon.NodeData.document, children := [1] }, { data := Racoon.NodeData.element "html" none, children := [2, 3] }, { data := Racoon.NodeData.element "head" none, children := [] }, { data := Racoon.NodeData.element "body" none, children := [4] }, { data := Racoon.NodeData.element "a" none, children := [5] }, { data := Racoon.NodeData.attributeNode "href" "&&ampbc", children := [] }] }, root_node := some 0, foster_parenting := false, frameset_ok := true, active_formatting_elements := [Racoon.NodeOrMarker.Node 4 { tag_name := "a", self_closing := false, attributes := [{ name := "href", value := "&&ampbc" }] }], head_element_pointer := some 2, form_element_pointer := none, minorLog := [] }, { self_closed := false, tokenizer_state := none }) := by
  rw [token_emitted.eq_def]
  simp [c6cex_hop5, initial_insertion_mode, before_html_insertion_mode, before_html_anything_else, before_head_insertion_mode, before_head_anything_else, in_head_insertion_mode, in_head_anything_else, after_head_insertion_mode, after_head_anything_else, ParserState.insert_an_html_element, ParserState.insert_foreign_element, ParserState.insert_create_an_element_for_the_token_result, create_an_element_for_the_token, create_element, ParserState.new_node, Arena.new_node, Arena.append_child, Arena.get?, Arena.dataOf?, Arena.last_child, Arena.isTextId, Arena.extend_text, ParserState.insert_character, ParserState.appropriate_place_for_inserting_a_node, ParserState.popExpect, ParserState.current_node_id?, ParserState.current_node?, ParserState.current_element?, ParserState.add_attribute_to_element, ParserState.insert_a_comment, ParserState.reconstruct_the_active_formatting_elements, isTreeWhitespace, chars.CHARACTER_TABULATION, chars.LINE_FEED, chars.FORM_FEED, chars.CARRIAGE_RETURN, chars.SPACE, chars.NULL, TagToken.new, HTML_NAMESPACE, IN_HEAD_DELEGATED, Acknowledgement.no, Acknowledgement.yes, TagTokenType.self_closing, TagTokenType.tag_name, DefaultParseErrorHandler.error_emitted, ParserState.handle_error, Bind.bind, Except.bind, Pure.pure, Except.pure, Except.map]
  all_goals decide

theorem c6cex_hop3 : token_emitted 273 { insertion_mode := Racoon.InsertionMode.InHead, template_insertion_modes := [], original_insertion_mode := none, open_elements := [1, 2], context_element := none, arena := { nodes := [{ data := Racoon.NodeData.document, children := [1] }, { data := Racoon.NodeData.element "html" none, children := [2] }, { data := Racoon.NodeData.element "head" none, children := [] }] }, root_node := some 0, foster_parenting := false, frameset_ok := true, active_formatting_elements := [], head_element_pointer := some 2, form_element_pointer := none, minorLog := [] } (Racoon.HtmlToken.TagTok (Racoon.TagTokenType.StartTag { tag_name := "a", self_closing := false, attributes := [{ name := "href", value := "&&ampbc" }] })) =
    Except.ok ({ insertion_mode := Racoon.InsertionMode.InBody, template_insertion_modes := [], original_insertion_mode := none, open_elements := [1, 3, 4], context_element := none, arena := { nodes := [{ data := Racoon.NodeData.document, children := [1] }, { data := Racoon.NodeData.element "html" none, children := [2, 3] }, { data := Racoon.NodeData.element "head" none, children := [] }, { data := Racoon.NodeData.element "body" none, children := [4] }, { data := Racoon.NodeData.element "a" none, children := [5] }, { data := Racoon.NodeData.attributeNode "href" "&&ampbc", children := [] }] }, root_node := some 0, foster_parenting := false, frameset_ok := true, active_formatting_elements := [Racoon.NodeOrMarker.Node 4 { tag_name := "a", self_closing := false, attributes := [{ name := "href", value := "&&ampbc" }] }], head_element_pointer := some 2, form_element_pointer := none, minorLog := [] }, { self_closed := false, tokenizer_state := none }) := by
  rw [token_emitted.eq_def]
  simp [c6cex_hop4, initial_insertion_mode, before_html_insertion_mode, before_html_anything_else, before_head_insertion_mode, before_head_anything_else, in_head_insertion_mode, in_head_anything_else, after_head_insertion_mode, after_head_anything_else, ParserState.insert_an_html_element, ParserState.insert_foreign_element, ParserState.insert_create_an_element_for_the_token_result, create_an_element_for_the_token, create_element, ParserState.new_node, Arena.new_node, Arena.append_child, Arena.get?, Arena.dataOf?, Arena.last_child, Arena.isTextId, Arena.extend_text, ParserState.insert_character, ParserState.appropriate_place_for_inserting_a_node, ParserState.popExpect, ParserState.current_node_id?, ParserState.current_node?, ParserState.current_element?, ParserState.add_attribute_to_element, ParserState.insert_a_comment, ParserState.reconstruct_the_active_formatting_elements, isTreeWhitespace, chars.CHARACTER_TABULATION, chars.LINE_FEED, chars.FORM_FEED, chars.CARRIAGE_RETURN, chars.SPACE, chars.NULL, TagToken.new, HTML_NAMESPACE, IN_HEAD_DELEGATED, Acknowledgement.no, Acknowledgement.yes, TagTokenType.self_closing, TagTokenType.tag_name, DefaultParseErrorHandler.error_emitted, ParserState.handle_error, Bind.bind, Except.bind, Pure.pure, Except.pure, Except.map]
  all_goals decide

theorem c6cex_hop2 : token_emitted 276 { insertion_mode := Racoon.InsertionMode.BeforeHead, template_insertion_modes := [], original_insertion_mode := none, open_elements := [1], context_element := none, arena := { nodes := [{ data := Racoon.NodeData.document, children := [1] }, { data := Racoon.NodeData.element "html" none, children := [] }] }, root_node := some 0, foster_parenting := false, frameset_ok := true, active_formatting_elements := [], head_element_pointer := none, form_element_pointer := none, minorLog := [] } (Racoon.HtmlToken.TagTok (Racoon.TagTokenType.StartTag { tag_name := "a", self_closing := false, attributes := [{ name := "href", value := "&&ampbc" }] })) =
    Except.ok ({ insertion_mode := Racoon.InsertionMode.InBody, template_insertion_modes := [], original_insertion_mode := none, open_elements := [1, 3, 4], context_element := none, arena := { nodes := [{ data := Racoon.NodeData.document, children := [1] }, { data := Racoon.NodeData.element "html" none, children := [2, 3] }, { data := Racoon.NodeData.element "head" none, children := [] }, { data := Racoon.NodeData.element "body" none, children := [4] }, { data := Racoon.NodeData.element "a" none, children := [5] }, { data := Racoon.NodeData.attributeNode "href" "&&ampbc", children := [] }] }, root_node := some 0, foster_parenting := false, frameset_ok := true, active_formatting_elements := [Racoon.NodeOrMarker.Node 4 { tag_name := "a", self_closing := false, attributes := [{ name := "href", value := "&&ampbc" }] }], head_element_pointer := some 2, form_element_pointer := none, minorLog := [] }, { self_closed := false, tokenizer_state := none }) := by
  rw [token_emitted.eq_def]
  simp [c6cex_hop3, initial_insertion_mode, before_html_insertion_mode, before_html_anything_else, before_head_insertion_mode, before_head_anything_else, in_head_insertion_mode, in_head_anything_else, after_head_insertion_mode, after_head_anything_else, ParserState.insert_an_html_element, ParserState.insert_foreign_element, ParserState.insert_create_an_element_for_the_token_result, create_an_element_for_the_token, create_element, ParserState.new_node, Arena.new_node, Arena.append_child, Arena.get?, Arena.dataOf?, Arena.last_child, Arena.isTextId, Arena.extend_text, ParserState.insert_character, ParserState.appropriate_place_for_inserting_a_node, ParserState.popExpect, ParserState.current_node_id?, ParserState.current_node?, ParserState.current_element?, ParserState.add_attribute_to_element, ParserState.insert_a_comment, ParserState.reconstruct_the_active_formatting_elements, isTreeWhitespace, chars.CHARACTER_TABULATION, chars.LINE_FEED, chars.FORM_FEED, chars.CARRIAGE_RETURN, chars.SPACE, chars.NULL, TagToken.new, HTML_NAMESPACE, IN_HEAD_DELEGATED, Acknowledgement.no, Acknowledgement.yes, TagTokenType.self_closing, TagTokenType.tag_name, DefaultParseErrorHandler.error_emitted, ParserState.handle_error, Bind.bind, Except.bind, Pure.pure, Except.pure, Except.map]
  all_goals decide

theorem c6cex_hop1 : token_emitted 279 { insertion_mode := Racoon.InsertionMode.BeforeHtml, template_insertion_modes := [], original_insertion_mode := none, open_elements := [], context_element := none, arena := { nodes := [{ data := Racoon.NodeData.document, children := [] }] }, root_node := some 0, foster_parenting := false, frameset_ok := true, active_formatting_elements := [], head_element_pointer := none, form_element_pointer := none, minorLog := [] } (Racoon.HtmlToken.TagTok (Racoon.TagTokenType.StartTag { tag_name := "a", self_closing := false, attributes := [{ name := "href", value := "&&ampbc" }] })) =
    Except.ok ({ insertion_mode := Racoon.InsertionMode.InBody, template_insertion_modes := [], original_insertion_mode := none, open_elements := [1, 3, 4], context_element := none, arena := { nodes := [{ data := Racoon.NodeData.document, children := [1] }, { data := Racoon.NodeData.element "html" none, children := [2, 3] }, { data := Racoon.NodeData.element "head" none, children := [] }, { data := Racoon.NodeData.element "body" none, children := [4] }, { data := Racoon.NodeData.element "a" none, children := [5] }, { data := Racoon.NodeData.attributeNode "href" "&&ampbc", children := [] }] }, root_node := some 0, foster_parenting := false, frameset_ok := true, active_formatting_elements := [Racoon.NodeOrMarker.Node 4 { tag_name := "a", self_closing := false, attributes := [{ name := "href", value := "&&ampbc" }] }], head_element_pointer := some 2, form_element_pointer := none, minorLog := [] }, { self_closed := false, tokenizer_state := none }) := by
  rw [token_emitted.eq_def]
  simp [c6cex_hop2, initial_insertion_mode, before_html_insertion_mode, before_html_anything_else, before_head_insertion_mode, before_head_anything_else, in_head_insertion_mode, in_head_anything_else, after_head_insertion_mode, after_head_anything_else, ParserState.insert_an_html_element, ParserState.insert_foreign_element, ParserState.insert_create_an_element_for_the_token_result, create_an_element_for_the_token, create_element, ParserState.new_node, Arena.new_node, Arena.append_child, Arena.get?, Arena.dataOf?, Arena.last_child, Arena.isTextId, Arena.extend_text, ParserState.insert_character, ParserState.appropriate_place_for_inserting_a_node, ParserState.popExpect, ParserState.current_node_id?, ParserState.current_node?, ParserState.current_element?, ParserState.add_attribute_to_element, ParserState.insert_a_comment, ParserState.reconstruct_the_active_formatting_elements, isTreeWhitespace, chars.CHARACTER_TABULATION, chars.LINE_FEED, chars.FORM_FEED, chars.CARRIAGE_RETURN, chars.SPACE, chars.NULL, TagToken.new, HTML_NAMESPACE, IN_HEAD_DELEGATED, Acknowledgement.no, Acknowledgement.yes, TagTokenType.self_closing, TagTokenType.tag_name, DefaultParseErrorHandler.error_emitted, ParserState.handle_error, Bind.bind, Except.bind, Pure.pure, Except.pure, Except.map]
  all_goals decide

theorem c6cex_hop0 : token_emitted 281 { insertion_mode := Racoon.InsertionMode.Initial, template_insertion_modes := [], original_insertion_mode := none, open_elements := [], context_element := none, arena := { nodes := [{ data := Racoon.NodeData.document, children := [] }] }, root_node := some 0, foster_parenting := false, frameset_ok := true, active_formatting_elements := [], head_element_pointer := none, form_element_pointer := none, minorLog := [] } (Racoon.HtmlToken.TagTok (Racoon.TagTokenType.StartTag { tag_name := "a", self_closing := false, attributes := [{ name := "href", value := "&&ampbc" }] })) =
    Except.ok ({ insertion_mode := Racoon.InsertionMode.InBody, template_insertion_modes := [], original_insertion_mode := none, open_elements := [1, 3, 4], context_element := none, arena := { nodes := [{ data := Racoon.NodeData.document, children := [1] }, { data := Racoon.NodeData.element "html" none, children := [2, 3] }, { data := Racoon.NodeData.element "head" none, children := [] }, { data := Racoon.NodeData.element "body" none, children := [4] }, { data := Racoon.NodeData.element "a" none, children := [5] }, { data := Racoon.NodeData.attributeNode "href" "&&ampbc", children := [] }] }, root_node := some 0, foster_parenting := false, frameset_ok := true, active_formatting_elements := [Racoon.NodeOrMarker.Node 4 { tag_name := "a", self_closing := false, attributes := [{ name := "href", value := "&&ampbc" }] }], head_element_pointer := some 2, form_element_pointer := none, minorLog := [] }, { self_closed := false, tokenizer_state := none }) := by
  rw [token_emitted.eq_def]
  simp [c6cex_hop1, initial_insertion_mode, before_html_insertion_mode, before_html_anything_else, before_head_insertion_mode, before_head_anything_else, in_head_insertion_mode, in_head_anything_else, after_head_insertion_mode, after_head_anything_else, ParserState.insert_an_html_element, ParserState.insert_foreign_element, ParserState.insert_create_an_element_for_the_token_result, create_an_element_for_the_token, create_element, ParserState.new_node, Arena.new_node, Arena.append_child, Arena.get?, Arena.dataOf?, Arena.last_child, Arena.isTextId, Arena.extend_text, ParserState.insert_character, ParserState.appropriate_place_for_inserting_a_node, ParserState.popExpect, ParserState.current_node_id?, ParserState.current_node?, ParserState.current_element?, ParserState.add_attribute_to_element, ParserState.insert_a_comment, ParserState.reconstruct_the_active_formatting_elements, isTreeWhitespace, chars.CHARACTER_TABULATION, chars.LINE_FEED, chars.FORM_FEED, chars.CARRIAGE_RETURN, chars.SPACE, chars.NULL, TagToken.new, HTML_NAMESPACE, IN_HEAD_DELEGATED, Acknowledgement.no, Acknowledgement.yes, TagTokenType.self_closing, TagTokenType.tag_name, DefaultParseErrorHandler.error_emitted, ParserState.handle_error, Bind.bind, Except.bind, Pure.pure, Except.pure, Except.map]
  all_goals decide

theorem c6cex_step0 : step 299 ['<', 'a', ' ', 'h', 'r', 'e', 'f', '=', '"', '&', 'a', 'm', 'p', 'b', 'c', '"', '>', '<', '/', 'a', '>'] TokState.initial =
    Except.ok { state := Racoon.TokenizerState.TagOpen, return_state := none, temporary_buffer := [], pos := 1, parser := { insertion_mode := Racoon.InsertionMode.Initial, template_insertion_modes := [], original_insertion_mode := none, open_elements := [], context_element := none, arena := { nodes := [{ data := Racoon.NodeData.document, children := [] }] }, root_node := some 0, foster_parenting := false, frameset_ok := true, active_formatting_elements := [], head_element_pointer := none, form_element_pointer := none, minorLog := [] }, comment_token := none, doctype_token := none, tag_token := none, attribute_name := none, character_reference_code := 0, last_emitted_start_tag := none } := by rfl

theorem c6cex_step1 : step 298 ['<', 'a', ' ', 'h', 'r', 'e', 'f', '=', '"', '&', 'a', 'm', 'p', 'b', 'c', '"', '>', '<', '/', 'a', '>'] { state := Racoon.TokenizerState.TagOpen, return_state := none, temporary_buffer := [], pos := 1, parser := { insertion_mode := Racoon.InsertionMode.Initial, template_insertion_modes := [], original_insertion_mode := none, open_elements := [], context_element := none, arena := { nodes := [{ data := Racoon.NodeData.document, children := [] }] }, root_node := some 0, foster_parenting := false, frameset_ok := true, active_formatting_elements := [], head_element_pointer := none, form_element_pointer := none, minorLog := [] }, comment_token := none, doctype_token := none, tag_token := none, attribute_name := none, character_reference_code := 0, last_emitted_start_tag := none } =
    Except.ok { state := Racoon.TokenizerState.TagName, return_state := none, temporary_buffer := [], pos := 2, parser := { insertion_mode := Racoon.InsertionMode.Initial, template_insertion_modes := [], original_insertion_mode := none, open_elements := [], context_element := none, arena := { nodes := [{ data := Racoon.NodeData.document, children := [] }] }, root_node := some 0, foster_parenting := false, frameset_ok := true, active_formatting_elements := [], head_element_pointer := none, form_element_pointer := none, minorLog := [] }, comment_token := none, doctype_token := none, tag_token := some (Racoon.TagTokenType.StartTag { tag_name := "a", self_closing := false, attributes := [] }), attribute_name := none, character_reference_code := 0, last_emitted_start_tag := none } := by rfl

theorem c6cex_step2 : step 297 ['<', 'a', ' ', 'h', 'r', 'e', 'f', '=', '"', '&', 'a', 'm', 'p', 'b', 'c', '"', '>', '<', '/', 'a', '>'] { state := Racoon.TokenizerState.TagName, return_state := none, temporary_buffer := [], pos := 2, parser := { insertion_mode := Racoon.InsertionMode.Initial, template_insertion_modes := [], original_insertion_mode := none, open_elements := [], context_element := none, arena := { nodes := [{ data := Racoon.NodeData.document, children := [] }] }, root_node := some 0, foster_parenting := false, frameset_ok := true, active_formatting_elements := [], head_element_pointer := none, form_element_pointer := none, minorLog := [] }, comment_token := none, doctype_token := none, tag_token := some (Racoon.TagTokenType.StartTag { tag_name := "a", self_closing := false, attributes := [] }), attribute_name := none, character_reference_code := 0, last_emitted_start_tag := none } =
    Except.ok { state := Racoon.TokenizerState.BeforeAttributeName, return_state := none, temporary_buffer := [], pos := 3, parser := { insertion_mode := Racoon.InsertionMode.Initial, template_insertion_modes := [], original_insertion_mode := none, open_elements := [], context_element := none, arena := { nodes := [{ data := Racoon.NodeData.document, children := [] }] }, root_node := some 0, foster_parenting := false, frameset_ok := true, active_formatting_elements := [], head_element_pointer := none, form_element_pointer := none, minorLog := [] }, comment_token := none, doctype_token := none, tag_token := some (Racoon.TagTokenType.StartTag { tag_name := "a", self_closing := false, attributes := [] }), attribute_name := none, character_reference_code := 0, last_emitted_start_tag := none } := by rfl

theorem c6cex_step3 : step 296 ['<', 'a', ' ', 'h', 'r', 'e', 'f', '=', '"', '&', 'a', 'm', 'p', 'b', 'c', '"', '>', '<', '/', 'a', '>'] { state := Racoon.TokenizerState.BeforeAttributeName, return_state := none, temporary_buffer := [], pos := 3, parser := { insertion_mode := Racoon.InsertionMode.Initial, template_insertion_modes := [], original_insertion_mode := none, open_elements := [], context_element := none, arena := { nodes := [{ data := Racoon.NodeData.document, children := [] }] }, root_node := some 0, foster_parenting := false, frameset_ok := true, active_formatting_elements := [], head_element_pointer := none, form_element_pointer := none, minorLog := [] }, comment_token := none, doctype_token := none, tag_token := some (Racoon.TagTokenType.StartTag { tag_name := "a", self_closing := false, attributes := [] }), attribute_name := none, character_reference_code := 0, last_emitted_start_tag := none } =
    Except.ok { state := Racoon.TokenizerState.AttributeName, return_state := none, temporary_buffer := [], pos := 4, parser := { insertion_mode := Racoon.InsertionMode.Initial, template_insertion_modes := [], original_insertion_mode := none, open_elements := [], context_element := none, arena := { nodes := [{ data := Racoon.NodeData.document, children := [] }] }, root_node := some 0, foster_parenting := false, frameset_ok := true, active_formatting_elements := [], head_element_pointer := none, form_element_pointer := none, minorLog := [] }, comment_token := none, doctype_token := none, tag_token := some (Racoon.TagTokenType.StartTag { tag_name := "a", self_closing := false, attributes := [{ name := "h", value := "" }] }), attribute_name := some "h", character_reference_code := 0, last_emitted_start_tag := none } := by rfl

theorem c6cex_step4 : step 295 ['<', 'a', ' ', 'h', 'r', 'e', 'f', '=', '"', '&', 'a', 'm', 'p', 'b', 'c', '"', '>', '<', '/', 'a', '>'] { state := Racoon.TokenizerState.AttributeName, return_state := none, temporary_buffer := [], pos := 4, parser := { insertion_mode := Racoon.InsertionMode.Initial, template_insertion_modes := [], original_insertion_mode := none, open_elements := [], context_element := none, arena := { nodes := [{ data := Racoon.NodeData.document, children := [] }] }, root_node := some 0, foster_parenting := false, frameset_ok := true, active_formatting_elements := [], head_element_pointer := none, form_element_pointer := none, minorLog := [] }, comment_token := none, doctype_token := none, tag_token := some (Racoon.TagTokenType.StartTag { tag_name := "a", self_closing := false, attributes := [{ name := "h", value := "" }] }), attribute_name := some "h", character_reference_code := 0, last_emitted_start_tag := none } =
    Except.ok { state := Racoon.TokenizerState.AttributeName, return_state := none, temporary_buffer := [], pos := 5, parser := { insertion_mode := Racoon.InsertionMode.Initial, template_insertion_modes := [], original_insertion_mode := none, open_elements := [], context_element := none, arena := { nodes := [{ data := Racoon.NodeData.document, children := [] }] }, root_node := some 0, foster_parenting := false, frameset_ok := true, active_formatting_elements := [], head_element_pointer := none, form_element_pointer := none, minorLog := [] }, comment_token := none, doctype_token := none, tag_token := some (Racoon.TagTokenType.StartTag { tag_name := "a", self_closing := false, attributes := [{ name := "hr", value := "" }] }), attribute_name := some "hr", character_reference_code := 0, last_emitted_start_tag := none } := by rfl

theorem c6cex_step5 : step 294 ['<', 'a', ' ', 'h', 'r', 'e', 'f', '=', '"', '&', 'a', 'm', 'p', 'b', 'c', '"', '>', '<', '/', 'a', '>'] { state := Racoon.TokenizerState.AttributeName, return_state := none, temporary_buffer := [], pos := 5, parser := { insertion_mode := Racoon.InsertionMode.Initial, template_insertion_modes := [], original_insertion_mode := none, open_elements := [], context_element := none, arena := { nodes := [{ data := Racoon.NodeData.document, children := [] }] }, root_node := some 0, foster_parenting := false, frameset_ok := true, active_formatting_elements := [], head_element_pointer := none, form_element_pointer := none, minorLog := [] }, comment_token := none, doctype_token := none, tag_token := some (Racoon.TagTokenType.StartTag { tag_name := "a", self_closing := false, attributes := [{ name := "hr", value := "" }] }), attribute_name := some "hr", character_reference_code := 0, last_emitted_start_tag := none } =
    Except.ok { state := Racoon.TokenizerState.AttributeName, return_state := none, temporary_buffer := [], pos := 6, parser := { insertion_mode := Racoon.InsertionMode.Initial, template_insertion_modes := [], original_insertion_mode := none, open_elements := [], context_element := none, arena := { nodes := [{ data := Racoon.NodeData.document, children := [] }] }, root_node := some 0, foster_parenting := false, frameset_ok := true, active_formatting_elements := [], head_element_pointer := none, form_element_pointer := none, minorLog := [] }, comment_token := none, doctype_token := none, tag_token := some (Racoon.TagTokenType.StartTag { tag_name := "a", self_closing := false, attributes := [{ name := "hre", value := "" }] }), attribute_name := some "hre", character_reference_code := 0, last_emitted_start_tag := none } := by rfl

theorem c6cex_step6 : step 293 ['<', 'a', ' ', 'h', 'r', 'e', 'f', '=', '"', '&', 'a', 'm', 'p', 'b', 'c', '"', '>', '<', '/', 'a', '>'] { state := Racoon.TokenizerState.AttributeName, return_state := none, temporary_buffer := [], pos := 6, parser := { insertion_mode := Racoon.InsertionMode.Initial, template_insertion_modes := [], original_insertion_mode := none, open_elements := [], context_element := none, arena := { nodes := [{ data := Racoon.NodeData.document, children := [] }] }, root_node := some 0, foster_parenting := false, frameset_ok := true, active_formatting_elements := [], head_element_pointer := none, form_element_pointer := none, minorLog := [] }, comment_token := none, doctype_token := none, tag_token := some (Racoon.TagTokenType.StartTag { tag_name := "a", self_closing := false, attributes := [{ name := "hre", value := "" }] }), attribute_name := some "hre", character_reference_code := 0, last_emitted_start_tag := none } =
    Except.ok { state := Racoon.TokenizerState.AttributeName, return_state := none, temporary_buffer := [], pos := 7, parser := { insertion_mode := Racoon.InsertionMode.Initial, template_insertion_modes := [], original_insertion_mode := none, open_elements := [], context_element := none, arena := { nodes := [{ data := Racoon.NodeData.document, children := [] }] }, root_node := some 0, foster_parenting := false, frameset_ok := true, active_formatting_elements := [], head_element_pointer := none, form_element_pointer := none, minorLog := [] }, comment_token := none, doctype_token := none, tag_token := some (Racoon.TagTokenType.StartTag { tag_name := "a", self_closing := false, attributes := [{ name := "href", value := "" }] }), attribute_name := some "href", character_reference_code := 0, last_emitted_start_tag := none } := by rfl

theorem c6cex_step7 : step 292 ['<', 'a', ' ', 'h', 'r', 'e', 'f', '=', '"', '&', 'a', 'm', 'p', 'b', 'c', '"', '>', '<', '/', 'a', '>'] { state := Racoon.TokenizerState.AttributeName, return_state := none, temporary_buffer := [], pos := 7, parser := { insertion_mode := Racoon.InsertionMode.Initial, template_insertion_modes := [], original_insertion_mode := none, open_elements := [], context_element := none, arena := { nodes := [{ data := Racoon.NodeData.document, children := [] }] }, root_node := some 0, foster_parenting := false, frameset_ok := true, active_formatting_elements := [], head_element_pointer := none, form_element_pointer := none, minorLog := [] }, comment_token := none, doctype_token := none, tag_token := some (Racoon.TagTokenType.StartTag { tag_name := "a", self_closing := false, attributes := [{ name := "href", value := "" }] }), attribute_name := some "href", character_reference_code := 0, last_emitted_start_tag := none } =
    Except.ok { state := Racoon.TokenizerState.BeforeAttributeValue, return_state := none, temporary_buffer := [], pos := 8, parser := { insertion_mode := Racoon.InsertionMode.Initial, template_insertion_modes := [], original_insertion_mode := none, open_elements := [], context_element := none, arena := { nodes := [{ data := Racoon.NodeData.document, children := [] }] }, root_node := some 0, foster_parenting := false, frameset_ok := true, active_formatting_elements := [], head_element_pointer := none, form_element_pointer := none, minorLog := [] }, comment_token := none, doctype_token := none, tag_token := some (Racoon.TagTokenType.StartTag { tag_name := "a", self_closing := false, attributes := [{ name := "href", value := "" }] }), attribute_name := some "href", character_reference_code := 0, last_emitted_start_tag := none } := by rfl

theorem c6cex_step8 : step 291 ['<', 'a', ' ', 'h', 'r', 'e', 'f', '=', '"', '&', 'a', 'm', 'p', 'b', 'c', '"', '>', '<', '/', 'a', '>'] { state := Racoon.TokenizerState.BeforeAttributeValue, return_state := none, temporary_buffer := [], pos := 8, parser := { insertion_mode := Racoon.InsertionMode.Initial, template_insertion_modes := [], original_insertion_mode := none, open_elements := [], context_element := none, arena := { nodes := [{ data := Racoon.NodeData.document, children := [] }] }, root_node := some 0, foster_parenting := false, frameset_ok := true, active_formatting_elements := [], head_element_pointer := none, form_element_pointer := none, minorLog := [] }, comment_token := none, doctype_token := none, tag_token := some (Racoon.TagTokenType.StartTag { tag_name := "a", self_closing := false, attributes := [{ name := "href", value := "" }] }), attribute_name := some "href", character_reference_code := 0, last_emitted_start_tag := none } =
    Except.ok { state := Racoon.TokenizerState.AttributeValueDoubleQuoted, return_state := none, temporary_buffer := [], pos := 9, parser := { insertion_mode := Racoon.InsertionMode.Initial, template_insertion_modes := [], original_insertion_mode := none, open_elements := [], context_element := none, arena := { nodes := [{ data := Racoon.NodeData.document, children := [] }] }, root_node := some 0, foster_parenting := false, frameset_ok := true, active_formatting_elements := [], head_element_pointer := none, form_element_pointer := none, minorLog := [] }, comment_token := none, doctype_token := none, tag_token := some (Racoon.TagTokenType.StartTag { tag_name := "a", self_closing := false, attributes := [{ name := "href", value := "" }] }), attribute_name := some "href", character_reference_code := 0, last_emitted_start_tag := none } := by rfl

theorem c6cex_step9 : step 290 ['<', 'a', ' ', 'h', 'r', 'e', 'f', '=', '"', '&', 'a', 'm', 'p', 'b', 'c', '"', '>', '<', '/', 'a', '>'] { state := Racoon.TokenizerState.AttributeValueDoubleQuoted, return_state := none, temporary_buffer := [], pos := 9, parser := { insertion_mode := Racoon.InsertionMode.Initial, template_insertion_modes := [], original_insertion_mode := none, open_elements := [], context_element := none, arena := { nodes := [{ data := Racoon.NodeData.document, children := [] }] }, root_node := some 0, foster_parenting := false, frameset_ok := true, active_formatting_elements := [], head_element_pointer := none, form_element_pointer := none, minorLog := [] }, comment_token := none, doctype_token := none, tag_token := some (Racoon.TagTokenType.StartTag { tag_name := "a", self_closing := false, attributes := [{ name := "href", value := "" }] }), attribute_name := some "href", character_reference_code := 0, last_emitted_start_tag := none } =
    Except.ok { state := Racoon.TokenizerState.CharacterReference, return_state := some (Racoon.TokenizerState.AttributeValueDoubleQuoted), temporary_buffer := [], pos := 10, parser := { insertion_mode := Racoon.InsertionMode.Initial, template_insertion_modes := [], original_insertion_mode := none, open_elements := [], context_element := none, arena := { nodes := [{ data := Racoon.NodeData.document, children := [] }] }, root_node := some 0, foster_parenting := false, frameset_ok := true, active_formatting_elements := [], head_element_pointer := none, form_element_pointer := none, minorLog := [] }, comment_token := none, doctype_token := none, tag_token := some (Racoon.TagTokenType.StartTag { tag_name := "a", self_closing := false, attributes := [{ name := "href", value := "" }] }), attribute_name := some "href", character_reference_code := 0, last_emitted_start_tag := none } := by rfl

theorem c6cex_step10 : step 289 ['<', 'a', ' ', 'h', 'r', 'e', 'f', '=', '"', '&', 'a', 'm', 'p', 'b', 'c', '"', '>', '<', '/', 'a', '>'] { state := Racoon.TokenizerState.CharacterReference, return_state := some (Racoon.TokenizerState.AttributeValueDoubleQuoted), temporary_buffer := [], pos := 10, parser := { insertion_mode := Racoon.InsertionMode.Initial, template_insertion_modes := [], original_insertion_mode := none, open_elements := [], context_element := none, arena := { nodes := [{ data := Racoon.NodeData.document, children := [] }] }, root_node := some 0, foster_parenting := false, frameset_ok := true, active_formatting_elements := [], head_element_pointer := none, form_element_pointer := none, minorLog := [] }, comment_token := none, doctype_token := none, tag_token := some (Racoon.TagTokenType.StartTag { tag_name := "a", self_closing := false, attributes := [{ name := "href", value := "" }] }), attribute_name := some "href", character_reference_code := 0, last_emitted_start_tag := none } =
    Except.ok { state := Racoon.TokenizerState.AttributeValueDoubleQuoted, return_state := some (Racoon.TokenizerState.AttributeValueDoubleQuoted), temporary_buffer := [], pos := 13, parser := { insertion_mode := Racoon.InsertionMode.Initial, template_insertion_modes := [], original_insertion_mode := none, open_elements := [], context_element := none, arena := { nodes := [{ data := Racoon.NodeData.document, children := [] }] }, root_node := some 0, foster_parenting := false, frameset_ok := true, active_formatting_elements := [], head_element_pointer := none, form_element_pointer := none, minorLog := [] }, comment_token := none, doctype_token := none, tag_token := some (Racoon.TagTokenType.StartTag { tag_name := "a", self_closing := false, attributes := [{ name := "href", value := "&&amp" }] }), attribute_name := some "href", character_reference_code := 0, last_emitted_start_tag := none } := by rfl

theorem c6cex_step11 : step 288 ['<', 'a', ' ', 'h', 'r', 'e', 'f', '=', '"', '&', 'a', 'm', 'p', 'b', 'c', '"', '>', '<', '/', 'a', '>'] { state := Racoon.TokenizerState.AttributeValueDoubleQuoted, return_state := some (Racoon.TokenizerState.AttributeValueDoubleQuoted), temporary_buffer := [], pos := 13, parser := { insertion_mode := Racoon.InsertionMode.Initial, template_insertion_modes := [], original_insertion_mode := none, open_elements := [], context_element := none, arena := { nodes := [{ data := Racoon.NodeData.document, children := [] }] }, root_node := some 0, foster_parenting := false, frameset_ok := true, active_formatting_elements := [], head_element_pointer := none, form_element_pointer := none, minorLog := [] }, comment_token := none, doctype_token := none, tag_token := some (Racoon.TagTokenType.StartTag { tag_name := "a", self_closing := false, attributes := [{ name := "href", value := "&&amp" }] }), attribute_name := some "href", character_reference_code := 0, last_emitted_start_tag := none } =
    Except.ok { state := Racoon.TokenizerState.AttributeValueDoubleQuoted, return_state := some (Racoon.TokenizerState.AttributeValueDoubleQuoted), temporary_buffer := [], pos := 14, parser := { insertion_mode := Racoon.InsertionMode.Initial, template_insertion_modes := [], original_insertion_mode := none, open_elements := [], context_element := none, arena := { nodes := [{ data := Racoon.NodeData.document, children := [] }] }, root_node := some 0, foster_parenting := false, frameset_ok := true, active_formatting_elements := [], head_element_pointer := none, form_element_pointer := none, minorLog := [] }, comment_token := none, doctype_token := none, tag_token := some (Racoon.TagTokenType.StartTag { tag_name := "a", self_closing := false, attributes := [{ name := "href", value := "&&ampb" }] }), attribute_name := some "href", character_reference_code := 0, last_emitted_start_tag := none } := by rfl

theorem c6cex_step12 : step 287 ['<', 'a', ' ', 'h', 'r', 'e', 'f', '=', '"', '&', 'a', 'm', 'p', 'b', 'c', '"', '>', '<', '/', 'a', '>'] { state := Racoon.TokenizerState.AttributeValueDoubleQuoted, return_state := some (Racoon.TokenizerState.AttributeValueDoubleQuoted), temporary_buffer := [], pos := 14, parser := { insertion_mode := Racoon.InsertionMode.Initial, template_insertion_modes := [], original_insertion_mode := none, open_elements := [], context_element := none, arena := { nodes := [{ data := Racoon.NodeData.document, children := [] }] }, root_node := some 0, foster_parenting := false, frameset_ok := true, active_formatting_elements := [], head_element_pointer := none, form_element_pointer := none, minorLog := [] }, comment_token := none, doctype_token := none, tag_token := some (Racoon.TagTokenType.StartTag { tag_name := "a", self_closing := false, attributes := [{ name := "href", value := "&&ampb" }] }), attribute_name := some "href", character_reference_code := 0, last_emitted_start_tag := none } =
    Except.ok { state := Racoon.TokenizerState.AttributeValueDoubleQuoted, return_state := some (Racoon.TokenizerState.AttributeValueDoubleQuoted), temporary_buffer := [], pos := 15, parser := { insertion_mode := Racoon.InsertionMode.Initial, template_insertion_modes := [], original_insertion_mode := none, open_elements := [], context_element := none, arena := { nodes := [{ data := Racoon.NodeData.document, children := [] }] }, root_node := some 0, foster_parenting := false, frameset_ok := true, active_formatting_elements := [], head_element_pointer := none, form_element_pointer := none, minorLog := [] }, comment_token := none, doctype_token := none, tag_token := some (Racoon.TagTokenType.StartTag { tag_name := "a", self_closing := false, attributes := [{ name := "href", value := "&&ampbc" }] }), attribute_name := some "href", character_reference_code := 0, last_emitted_start_tag := none } := by rfl

theorem c6cex_step13 : step 286 ['<', 'a', ' ', 'h', 'r', 'e', 'f', '=', '"', '&', 'a', 'm', 'p', 'b', 'c', '"', '>', '<', '/', 'a', '>'] { state := Racoon.TokenizerState.AttributeValueDoubleQuoted, return_state := some (Racoon.TokenizerState.AttributeValueDoubleQuoted), temporary_buffer := [], pos := 15, parser := { insertion_mode := Racoon.InsertionMode.Initial, template_insertion_modes := [], original_insertion_mode := none, open_elements := [], context_element := none, arena := { nodes := [{ data := Racoon.NodeData.document, children := [] }] }, root_node := some 0, foster_parenting := false, frameset_ok := true, active_formatting_elements := [], head_element_pointer := none, form_element_pointer := none, minorLog := [] }, comment_token := none, doctype_token := none, tag_token := some (Racoon.TagTokenType.StartTag { tag_name := "a", self_closing := false, attributes := [{ name := "href", value := "&&ampbc" }] }), attribute_name := some "href", character_reference_code := 0, last_emitted_start_tag := none } =
    Except.ok { state := Racoon.TokenizerState.AfterAttributeValueQuoted, return_state := some (Racoon.TokenizerState.AttributeValueDoubleQuoted), temporary_buffer := [], pos := 16, parser := { insertion_mode := Racoon.InsertionMode.Initial, template_insertion_modes := [], original_insertion_mode := none, open_elements := [], context_element := none, arena := { nodes := [{ data := Racoon.NodeData.document, children := [] }] }, root_node := some 0, foster_parenting := false, frameset_ok := true, active_formatting_elements := [], head_element_pointer := none, form_element_pointer := none, minorLog := [] }, comment_token := none, doctype_token := none, tag_token := some (Racoon.TagTokenType.StartTag { tag_name := "a", self_closing := false, attributes := [{ name := "href", value := "&&ampbc" }] }), attribute_name := some "href", character_reference_code := 0, last_emitted_start_tag := none } := by rfl

theorem c6cex_step14 : step 285 ['<', 'a', ' ', 'h', 'r', 'e', 'f', '=', '"', '&', 'a', 'm', 'p', 'b', 'c', '"', '>', '<', '/', 'a', '>'] { state := Racoon.TokenizerState.AfterAttributeValueQuoted, return_state := some (Racoon.TokenizerState.AttributeValueDoubleQuoted), temporary_buffer := [], pos := 16, parser := { insertion_mode := Racoon.InsertionMode.Initial, template_insertion_modes := [], original_insertion_mode := none, open_elements := [], context_element := none, arena := { nodes := [{ data := Racoon.NodeData.document, children := [] }] }, root_node := some 0, foster_parenting := false, frameset_ok := true, active_formatting_elements := [], head_element_pointer := none, form_element_pointer := none, minorLog := [] }, comment_token := none, doctype_token := none, tag_token := some (Racoon.TagTokenType.StartTag { tag_name := "a", self_closing := false, attributes := [{ name := "href", value := "&&ampbc" }] }), attribute_name := some "href", character_reference_code := 0, last_emitted_start_tag := none } =
    Except.ok { state := Racoon.TokenizerState.Data, return_state := some (Racoon.TokenizerState.AttributeValueDoubleQuoted), temporary_buffer := [], pos := 17, parser := { insertion_mode := Racoon.InsertionMode.InBody, template_insertion_modes := [], original_insertion_mode := none, open_elements := [1, 3, 4], context_element := none, arena := { nodes := [{ data := Racoon.NodeData.document, children := [1] }, { data := Racoon.NodeData.element "html" none, children := [2, 3] }, { data := Racoon.NodeData.element "head" none, children := [] }, { data := Racoon.NodeData.element "body" none, children := [4] }, { data := Racoon.NodeData.element "a" none, children := [5] }, { data := Racoon.NodeData.attributeNode "href" "&&ampbc", children := [] }] }, root_node := some 0, foster_parenting := false, frameset_ok := true, active_formatting_elements := [Racoon.NodeOrMarker.Node 4 { tag_name := "a", self_closing := false, attributes := [{ name := "href", value := "&&ampbc" }] }], head_element_pointer := some 2, form_element_pointer := none, minorLog := [] }, comment_token := none, doctype_token := none, tag_token := none, attribute_name := some "href", character_reference_code := 0, last_emitted_start_tag := some { tag_name := "a", self_closing := false, attributes := [{ name := "href", value := "&&ampbc" }] } } := by
  rw [step.eq_def]
  simp [c6cex_hop0, data_state, tag_open_state, end_tag_open_state, tag_name_state, before_attribute_name_state, attribute_name_state, after_attribute_name_state, before_attribute_value_state, attribute_value_double_quoted_state, attribute_value_single_quoted_state, attribute_value_unquoted_state, after_attribute_value_quoted_state, self_closing_start_tag_state, emit, emit_current_tag_token, TokState.with_tag_token, TokState.set_self_closing, TokState.push_char_to_tag_name, TokState.handle_error, TokState.charref_in_attribute, cursorNext, cursorCurrent, cursorPeek, cursorPrev, cursorNextAdd, chars.NULL, DefaultTokenizerErrorHandler.error_emitted, Bind.bind, Except.bind, Pure.pure, Except.pure, Except.map]
  all_goals decide

theorem c6cex_step15 : step 284 ['<', 'a', ' ', 'h', 'r', 'e', 'f', '=', '"', '&', 'a', 'm', 'p', 'b', 'c', '"', '>', '<', '/', 'a', '>'] { state := Racoon.TokenizerState.Data, return_state := some (Racoon.TokenizerState.AttributeValueDoubleQuoted), temporary_buffer := [], pos := 17, parser := { insertion_mode := Racoon.InsertionMode.InBody, template_insertion_modes := [], original_insertion_mode := none, open_elements := [1, 3, 4], context_element := none, arena := { nodes := [{ data := Racoon.NodeData.document, children := [1] }, { data := Racoon.NodeData.element "html" none, children := [2, 3] }, { data := Racoon.NodeData.element "head" none, children := [] }, { data := Racoon.NodeData.element "body" none, children := [4] }, { data := Racoon.NodeData.element "a" none, children := [5] }, { data := Racoon.NodeData.attributeNode "href" "&&ampbc", children := [] }] }, root_node := some 0, foster_parenting := false, frameset_ok := true, active_formatting_elements := [Racoon.NodeOrMarker.Node 4 { tag_name := "a", self_closing := false, attributes := [{ name := "href", value := "&&ampbc" }] }], head_element_pointer := some 2, form_element_pointer := none, minorLog := [] }, comment_token := none, doctype_token := none, tag_token := none, attribute_name := some "href", character_reference_code := 0, last_emitted_start_tag := some { tag_name := "a", self_closing := false, attributes := [{ name := "href", value := "&&ampbc" }] } } =
    Except.ok { state := Racoon.TokenizerState.TagOpen, return_state := some (Racoon.TokenizerState.AttributeValueDoubleQuoted), temporary_buffer := [], pos := 18, parser := { insertion_mode := Racoon.InsertionMode.InBody, template_insertion_modes := [], original_insertion_mode := none, open_elements := [1, 3, 4], context_element := none, arena := { nodes := [{ data := Racoon.NodeData.document, children := [1] }, { data := Racoon.NodeData.element "html" none, children := [2, 3] }, { data := Racoon.NodeData.element "head" none, children := [] }, { data := Racoon.NodeData.element "body" none, children := [4] }, { data := Racoon.NodeData.element "a" none, children := [5] }, { data := Racoon.NodeData.attributeNode "href" "&&ampbc", children := [] }] }, root_node := some 0, foster_parenting := false, frameset_ok := true, active_formatting_elements := [Racoon.NodeOrMarker.Node 4 { tag_name := "a", self_closing := false, attributes := [{ name := "href", value := "&&ampbc" }] }], head_element_pointer := some 2, form_element_pointer := none, minorLog := [] }, comment_token := none, doctype_token := none, tag_token := none, attribute_name := some "href", character_reference_code := 0, last_emitted_start_tag := some { tag_name := "a", self_closing := false, attributes := [{ name := "href", value := "&&ampbc" }] } } := by rfl

theorem c6cex_step16 : step 283 ['<', 'a', ' ', 'h', 'r', 'e', 'f', '=', '"', '&', 'a', 'm', 'p', 'b', 'c', '"', '>', '<', '/', 'a', '>'] { state := Racoon.TokenizerState.TagOpen, return_state := some (Racoon.TokenizerState.AttributeValueDoubleQuoted), temporary_buffer := [], pos := 18, parser := { insertion_mode := Racoon.InsertionMode.InBody, template_insertion_modes := [], original_insertion_mode := none, open_elements := [1, 3, 4], context_element := none, arena := { nodes := [{ data := Racoon.NodeData.document, children := [1] }, { data := Racoon.NodeData.element "html" none, children := [2, 3] }, { data := Racoon.NodeData.element "head" none, children := [] }, { data := Racoon.NodeData.element "body" none, children := [4] }, { data := Racoon.NodeData.element "a" none, children := [5] }, { data := Racoon.NodeData.attributeNode "href" "&&ampbc", children := [] }] }, root_node := some 0, foster_parenting := false, frameset_ok := true, active_formatting_elements := [Racoon.NodeOrMarker.Node 4 { tag_name := "a", self_closing := false, attributes := [{ name := "href", value := "&&ampbc" }] }], head_element_pointer := some 2, form_element_pointer := none, minorLog := [] }, comment_token := none, doctype_token := none, tag_token := none, attribute_name := some "href", character_reference_code := 0, last_emitted_start_tag := some { tag_name := "a", self_closing := false, attributes := [{ name := "href", value := "&&ampbc" }] } } =
    Except.ok { state := Racoon.TokenizerState.EndTagOpen, return_state := some (Racoon.TokenizerState.AttributeValueDoubleQuoted), temporary_buffer := [], pos := 19, parser := { insertion_mode := Racoon.InsertionMode.InBody, template_insertion_modes := [], original_insertion_mode := none, open_elements := [1, 3, 4], context_element := none, arena := { nodes := [{ data := Racoon.NodeData.document, children := [1] }, { data := Racoon.NodeData.element "html" none, children := [2, 3] }, { data := Racoon.NodeData.element "head" none, children := [] }, { data := Racoon.NodeData.element "body" none, children := [4] }, { data := Racoon.NodeData.element "a" none, children := [5] }, { data := Racoon.NodeData.attributeNode "href" "&&ampbc", children := [] }] }, root_node := some 0, foster_parenting := false, frameset_ok := true, active_formatting_elements := [Racoon.NodeOrMarker.Node 4 { tag_name := "a", self_closing := false, attributes := [{ name := "href", value := "&&ampbc" }] }], head_element_pointer := some 2, form_element_pointer := none, minorLog := [] }, comment_token := none, doctype_token := none, tag_token := none, attribute_name := some "href", character_reference_code := 0, last_emitted_start_tag := some { tag_name := "a", self_closing := false, attributes := [{ name := "href", value := "&&ampbc" }] } } := by rfl

theorem c6cex_step17 : step 282 ['<', 'a', ' ', 'h', 'r', 'e', 'f', '=', '"', '&', 'a', 'm', 'p', 'b', 'c', '"', '>', '<', '/', 'a', '>'] { state := Racoon.TokenizerState.EndTagOpen, return_state := some (Racoon.TokenizerState.AttributeValueDoubleQuoted), temporary_buffer := [], pos := 19, parser := { insertion_mode := Racoon.InsertionMode.InBody, template_insertion_modes := [], original_insertion_mode := none, open_elements := [1, 3, 4], context_element := none, arena := { nodes := [{ data := Racoon.NodeData.document, children := [1] }, { data := Racoon.NodeData.element "html" none, children := [2, 3] }, { data := Racoon.NodeData.element "head" none, children := [] }, { data := Racoon.NodeData.element "body" none, children := [4] }, { data := Racoon.NodeData.element "a" none, children := [5] }, { data := Racoon.NodeData.attributeNode "href" "&&ampbc", children := [] }] }, root_node := some 0, foster_parenting := false, frameset_ok := true, active_formatting_elements := [Racoon.NodeOrMarker.Node 4 { tag_name := "a", self_closing := false, attributes := [{ name := "href", value := "&&ampbc" }] }], head_element_pointer := some 2, form_element_pointer := none, minorLog := [] }, comment_token := none, doctype_token := none, tag_token := none, attribute_name := some "href", character_reference_code := 0, last_emitted_start_tag := some { tag_name := "a", self_closing := false, attributes := [{ name := "href", value := "&&ampbc" }] } } =
    Except.ok { state := Racoon.TokenizerState.TagName, return_state := some (Racoon.TokenizerState.AttributeValueDoubleQuoted), temporary_buffer := [], pos := 20, parser := { insertion_mode := Racoon.InsertionMode.InBody, template_insertion_modes := [], original_insertion_mode := none, open_elements := [1, 3, 4], context_element := none, arena := { nodes := [{ data := Racoon.NodeData.document, children := [1] }, { data := Racoon.NodeData.element "html" none, children := [2, 3] }, { data := Racoon.NodeData.element "head" none, children := [] }, { data := Racoon.NodeData.element "body" none, children := [4] }, { data := Racoon.NodeData.element "a" none, children := [5] }, { data := Racoon.NodeData.attributeNode "href" "&&ampbc", children := [] }] }, root_node := some 0, foster_parenting := false, frameset_ok := true, active_formatting_elements := [Racoon.NodeOrMarker.Node 4 { tag_name := "a", self_closing := false, attributes := [{ name := "href", value := "&&ampbc" }] }], head_element_pointer := some 2, form_element_pointer := none, minorLog := [] }, comment_token := none, doctype_token := none, tag_token := some (Racoon.TagTokenType.EndTag { tag_name := "a", self_closing := false, attributes := [] }), attribute_name := some "href", character_reference_code := 0, last_emitted_start_tag := some { tag_name := "a", self_closing := false, attributes := [{ name := "href", value := "&&ampbc" }] } } := by rfl

theorem c6cex_step18 : step 281 ['<', 'a', ' ', 'h', 'r', 'e', 'f', '=', '"', '&', 'a', 'm', 'p', 'b', 'c', '"', '>', '<', '/', 'a', '>'] { state := Racoon.TokenizerState.TagName, return_state := some (Racoon.TokenizerState.AttributeValueDoubleQuoted), temporary_buffer := [], pos := 20, parser := { insertion_mode := Racoon.InsertionMode.InBody, template_insertion_modes := [], original_insertion_mode := none, open_elements := [1, 3, 4], context_element := none, arena := { nodes := [{ data := Racoon.NodeData.document, children := [1] }, { data := Racoon.NodeData.element "html" none, children := [2, 3] }, { data := Racoon.NodeData.element "head" none, children := [] }, { data := Racoon.NodeData.element "body" none, children := [4] }, { data := Racoon.NodeData.element "a" none, children := [5] }, { data := Racoon.NodeData.attributeNode "href" "&&ampbc", children := [] }] }, root_node := some 0, foster_parenting := false, frameset_ok := true, active_formatting_elements := [Racoon.NodeOrMarker.Node 4 { tag_name := "a", self_closing := false, attributes := [{ name := "href", value := "&&ampbc" }] }], head_element_pointer := some 2, form_element_pointer := none, minorLog := [] }, comment_token := none, doctype_token := none, tag_token := some (Racoon.TagTokenType.EndTag { tag_name := "a", self_closing := false, attributes := [] }), attribute_name := some "href", character_reference_code := 0, last_emitted_start_tag := some { tag_name := "a", self_closing := false, attributes := [{ name := "href", value := "&&ampbc" }] } } =
    Except.ok { state := Racoon.TokenizerState.Data, return_state := some (Racoon.TokenizerState.AttributeValueDoubleQuoted), temporary_buffer := [], pos := 21, parser := { insertion_mode := Racoon.InsertionMode.InBody, template_insertion_modes := [], original_insertion_mode := none, open_elements := [1, 3], context_element := none, arena := { nodes := [{ data := Racoon.NodeData.document, children := [1] }, { data := Racoon.NodeData.element "html" none, children := [2, 3] }, { data := Racoon.NodeData.element "head" none, children := [] }, { data := Racoon.NodeData.element "body" none, children := [4] }, { data := Racoon.NodeData.element "a" none, children := [5] }, { data := Racoon.NodeData.attributeNode "href" "&&ampbc", children := [] }] }, root_node := some 0, foster_parenting := false, frameset_ok := true, active_formatting_elements := [Racoon.NodeOrMarker.Node 4 { tag_name := "a", self_closing := false, attributes := [{ name := "href", value := "&&ampbc" }] }], head_element_pointer := some 2, form_element_pointer := none, minorLog := [] }, comment_token := none, doctype_token := none, tag_token := none, attribute_name := some "href", character_reference_code := 0, last_emitted_start_tag := some { tag_name := "a", self_closing := false, attributes := [{ name := "href", value := "&&ampbc" }] } } := by rfl

theorem c6cex_run : tokenizer_run 300 ['<', 'a', ' ', 'h', 'r', 'e', 'f', '=', '"', '&', 'a', 'm', 'p', 'b', 'c', '"', '>', '<', '/', 'a', '>'] TokState.initial =
    Except.ok { state := Racoon.TokenizerState.Data, return_state := some (Racoon.TokenizerState.AttributeValueDoubleQuoted), temporary_buffer := [], pos := 21, parser := { insertion_mode := Racoon.InsertionMode.InBody, template_insertion_modes := [], original_insertion_mode := none, open_elements := [1, 3], context_element := none, arena := { nodes := [{ data := Racoon.NodeData.document, children := [1] }, { data := Racoon.NodeData.element "html" none, children := [2, 3] }, { data := Racoon.NodeData.element "head" none, children := [] }, { data := Racoon.NodeData.element "body" none, children := [4] }, { data := Racoon.NodeData.element "a" none, children := [5] }, { data := Racoon.NodeData.attributeNode "href" "&&ampbc", children := [] }] }, root_node := some 0, foster_parenting := false, frameset_ok := true, active_formatting_elements := [Racoon.NodeOrMarker.Node 4 { tag_name := "a", self_closing := false, attributes := [{ name := "href", value := "&&ampbc" }] }], head_element_pointer := some 2, form_element_pointer := none, minorLog := [] }, comment_token := none, doctype_token := none, tag_token := none, attribute_name := some "href", character_reference_code := 0, last_emitted_start_tag := some { tag_name := "a", self_closing := false, attributes := [{ name := "href", value := "&&ampbc" }] } } := by
  rw [tokenizer_run_step_ok 299 (by decide) c6cex_step0]
  rw [tokenizer_run_step_ok 298 (by decide) c6cex_step1]
  rw [tokenizer_run_step_ok 297 (by decide) c6cex_step2]
  rw [tokenizer_run_step_ok 296 (by decide) c6cex_step3]
  rw [tokenizer_run_step_ok 295 (by decide) c6cex_step4]
  rw [tokenizer_run_step_ok 294 (by decide) c6cex_step5]
  rw [tokenizer_run_step_ok 293 (by decide) c6cex_step6]
  rw [tokenizer_run_step_ok 292 (by decide) c6cex_step7]
  rw [tokenizer_run_step_ok 291 (by decide) c6cex_step8]
  rw [tokenizer_run_step_ok 290 (by decide) c6cex_step9]
  rw [tokenizer_run_step_ok 289 (by decide) c6cex_step10]
  rw [tokenizer_run_step_ok 288 (by decide) c6cex_step11]
  rw [tokenizer_run_step_ok 287 (by decide) c6cex_step12]
  rw [tokenizer_run_step_ok 286 (by decide) c6cex_step13]
  rw [tokenizer_run_step_ok 285 (by decide) c6cex_step14]
  rw [tokenizer_run_step_ok 284 (by decide) c6cex_step15]
  rw [tokenizer_run_step_ok 283 (by decide) c6cex_step16]
  rw [tokenizer_run_step_ok 282 (by decide) c6cex_step17]
  rw [tokenizer_run_step_ok 281 (by decide) c6cex_step18]
  rw [tokenizer_run_done 280 (by decide)]


/-! ### Staged evaluation lemmas: run `c7hex` -/

theorem c7hex_step0 : step 299 ['&', '#', 'x', '4', '1', ';'] TokState.initial =
    Except.ok { state := Racoon.TokenizerState.CharacterReference, return_state := some (Racoon.TokenizerState.Data), temporary_buffer := [], pos := 1, parser := { insertion_mode := Racoon.InsertionMode.Initial, template_insertion_modes := [], original_insertion_mode := none, open_elements := [], context_element := none, arena := { nodes := [{ data := Racoon.NodeData.document, children := [] }] }, root_node := some 0, foster_parenting := false, frameset_ok := true, active_formatting_elements := [], head_element_pointer := none, form_element_pointer := none, minorLog := [] }, comment_token := none, doctype_token := none, tag_token := none, attribute_name := none, character_reference_code := 0, last_emitted_start_tag := none } := by rfl

theorem c7hex_step1 : step 298 ['&', '#', 'x', '4', '1', ';'] { state := Racoon.TokenizerState.CharacterReference, return_state := some (Racoon.TokenizerState.Data), temporary_buffer := [], pos := 1, parser := { insertion_mode := Racoon.InsertionMode.Initial, template_insertion_modes := [], original_insertion_mode := none, open_elements := [], context_element := none, arena := { nodes := [{ data := Racoon.NodeData.document, children := [] }] }, root_node := some 0, foster_parenting := false, frameset_ok := true, active_formatting_elements := [], head_element_pointer := none, form_element_pointer := none, minorLog := [] }, comment_token := none, doctype_token := none, tag_token := none, attribute_name := none, character_reference_code := 0, last_emitted_start_tag := none } =
    Except.ok { state := Racoon.TokenizerState.NumericCharacterReference, return_state := some (Racoon.TokenizerState.Data), temporary_buffer := ['&', '#'], pos := 2, parser := { insertion_mode := Racoon.InsertionMode.Initial, template_insertion_modes := [], original_insertion_mode := none, open_elements := [], context_element := none, arena := { nodes := [{ data := Racoon.NodeData.document, children := [] }] }, root_node := some 0, foster_parenting := false, frameset_ok := true, active_formatting_elements := [], head_element_pointer := none, form_element_pointer := none, minorLog := [] }, comment_token := none, doctype_token := none, tag_token := none, attribute_name := none, character_reference_code := 0, last_emitted_start_tag := none } := by rfl

theorem c7hex_step2 : step 297 ['&', '#', 'x', '4', '1', ';'] { state := Racoon.TokenizerState.NumericCharacterReference, return_state := some (Racoon.TokenizerState.Data), temporary_buffer := ['&', '#'], pos := 2, parser := { insertion_mode := Racoon.InsertionMode.Initial, template_insertion_modes := [], original_insertion_mode := none, open_elements := [], context_element := none, arena := { nodes := [{ data := Racoon.NodeData.document, children := [] }] }, root_node := some 0, foster_parenting := false, frameset_ok := true, active_formatting_elements := [], head_element_pointer := none, form_element_pointer := none, minorLog := [] }, comment_token := none, doctype_token := none, tag_token := none, attribute_name := none, character_reference_code := 0, last_emitted_start_tag := none } =
    Except.ok { state := Racoon.TokenizerState.HexadecimalCharacterReferenceStart, return_state := some (Racoon.TokenizerState.Data), temporary_buffer := ['&', '#', 'x'], pos := 3, parser := { insertion_mode := Racoon.InsertionMode.Initial, template_insertion_modes := [], original_insertion_mode := none, open_elements := [], context_element := none, arena := { nodes := [{ data := Racoon.NodeData.document, children := [] }] }, root_node := some 0, foster_parenting := false, frameset_ok := true, active_formatting_elements := [], head_element_pointer := none, form_element_pointer := none, minorLog := [] }, comment_token := none, doctype_token := none, tag_token := none, attribute_name := none, character_reference_code := 0, last_emitted_start_tag := none } := by rfl

theorem c7hex_step3 : step 296 ['&', '#', 'x', '4', '1', ';'] { state := Racoon.TokenizerState.HexadecimalCharacterReferenceStart, return_state := some (Racoon.TokenizerState.Data), temporary_buffer := ['&', '#', 'x'], pos := 3, parser := { insertion_mode := Racoon.InsertionMode.Initial, template_insertion_modes := [], original_insertion_mode := none, open_elements := [], context_element := none, arena := { nodes := [{ data := Racoon.NodeData.document, children := [] }] }, root_node := some 0, foster_parenting := false, frameset_ok := true, active_formatting_elements := [], head_element_pointer := none, form_element_pointer := none, minorLog := [] }, comment_token := none, doctype_token := none, tag_token := none, attribute_name := none, character_reference_code := 0, last_emitted_start_tag := none } =
    Except.error (Racoon.Halt.panicked) := by rfl

theorem c7hex_run : tokenizer_run 300 ['&', '#', 'x', '4', '1', ';'] TokState.initial =
    Except.error (Racoon.Halt.panicked) := by
  rw [tokenizer_run_step_ok 299 (by decide) c7hex_step0]
  rw [tokenizer_run_step_ok 298 (by decide) c7hex_step1]
  rw [tokenizer_run_step_ok 297 (by decide) c7hex_step2]
  rw [tokenizer_run_step_err 296 (by decide) c7hex_step3]


/-! ### Staged evaluation lemmas: run `c7dec` -/

theorem c7dec_hop5 : token_emitted 275 { insertion_mode := Racoon.InsertionMode.InBody, template_insertion_modes := [], original_insertion_mode := none, open_elements := [1, 3], context_element := none, arena := { nodes := [{ data := Racoon.NodeData.document, children := [1] }, { data := Racoon.NodeData.element "html" none, children := [2, 3] }, { data := Racoon.NodeData.element "head" none, children := [] }, { data := Racoon.NodeData.element "body" none, children := [] }] }, root_node := some 0, foster_parenting := false, frameset_ok := true, active_formatting_elements := [], head_element_pointer := some 2, form_element_pointer := none, minorLog := [] } (Racoon.HtmlToken.Character 'A') =
    Except.ok ({ insertion_mode := Racoon.InsertionMode.InBody, template_insertion_modes := [], original_insertion_mode := none, open_elements := [1, 3], context_element := none, arena := { nodes := [{ data := Racoon.NodeData.document, children := [1] }, { data := Racoon.NodeData.element "html" none, children := [2, 3] }, { data := Racoon.NodeData.element "head" none, children := [] }, { data := Racoon.NodeData.element "body" none, children := [4] }, { data := Racoon.NodeData.text "A", children := [] }] }, root_node := some 0, foster_parenting := false, frameset_ok := false, active_formatting_elements := [], head_element_pointer := some 2, form_element_pointer := none, minorLog := [] }, { self_closed := false, tokenizer_state := none }) := by rfl

theorem c7dec_hop4 : token_emitted 278 { insertion_mode := Racoon.InsertionMode.AfterHead, template_insertion_modes := [], original_insertion_mode := none, open_elements := [1], context_element := none, arena := { nodes := [{ data := Racoon.NodeData.document, children := [1] }, { data := Racoon.NodeData.element "html" none, children := [2] }, { data := Racoon.NodeData.element "head" none, children := [] }] }, root_node := some 0, foster_parenting := false, frameset_ok := true, active_formatting_elements := [], head_element_pointer := some 2, form_element_pointer := none, minorLog := [] } (Racoon.HtmlToken.Character 'A') =
    Except.ok ({ insertion_mode := Racoon.InsertionMode.InBody, template_insertion_modes := [], original_insertion_mode := none, open_elements := [1, 3], context_element := none, arena := { nodes := [{ data := Racoon.NodeData.document, children := [1] }, { data := Racoon.NodeData.element "html" none, children := [2, 3] }, { data := Racoon.NodeData.element "head" none, children := [] }, { data := Racoon.NodeData.element "body" none, children := [4] }, { data := Racoon.NodeData.text "A", children := [] }] }, root_node := some 0, foster_parenting := false, frameset_ok := false, active_formatting_elements := [], head_element_pointer := some 2, form_element_pointer := none, minorLog := [] }, { self_closed := false, tokenizer_state := none }) := by
  rw [token_emitted.eq_def]
  simp [c7dec_hop5, initial_insertion_mode, before_html_insertion_mode, before_html_anything_else, before_head_insertion_mode, before_head_anything_else, in_head_insertion_mode, in_head_anything_else, after_head_insertion_mode, after_head_anything_else, ParserState.insert_an_html_element, ParserState.insert_foreign_element, ParserState.insert_create_an_element_for_the_token_result, create_an_element_for_the_token, create_element, ParserState.new_node, Arena.new_node, Arena.append_child, Arena.get?, Arena.dataOf?, Arena.last_child, Arena.isTextId, Arena.extend_text, ParserState.insert_character, ParserState.appropriate_place_for_inserting_a_node, ParserState.popExpect, ParserState.current_node_id?, ParserState.current_node?, ParserState.current_element?, ParserState.add_attribute_to_element, ParserState.insert_a_comment, ParserState.reconstruct_the_active_formatting_elements, isTreeWhitespace, chars.CHARACTER_TABULATION, chars.LINE_FEED, chars.FORM_FEED, chars.CARRIAGE_RETURN, chars.SPACE, chars.NULL, TagToken.new, HTML_NAMESPACE, IN_HEAD_DELEGATED, Acknowledgement.no, Acknowledgement.yes, TagTokenType.self_closing, TagTokenType.tag_name, DefaultParseErrorHandler.error_emitted, ParserState.handle_error, Bind.bind, Except.bind, Pure.pure, Except.pure, Except.map]
  all_goals decide

theorem c7dec_hop3 : token_emitted 281 { insertion_mode := Racoon.InsertionMode.InHead, template_insertion_modes := [], original_insertion_mode := none, open_elements := [1, 2], context_element := none, arena := { nodes := [{ data := Racoon.NodeData.document, children := [1] }, { data := Racoon.NodeData.element "html" none, children := [2] }, { data := Racoon.NodeData.element "head" none, children := [] }] }, root_node := some 0, foster_parenting := false, frameset_ok := true, active_formatting_elements := [], head_element_pointer := some 2, form_element_pointer := none, minorLog := [] } (Racoon.HtmlToken.Character 'A') =
    Except.ok ({ insertion_mode := Racoon.InsertionMode.InBody, template_insertion_modes := [], original_insertion_mode := none, open_elements := [1, 3], context_element := none, arena := { nodes := [{ data := Racoon.NodeData.document, children := [1] }, { data := Racoon.NodeData.element "html" none, children := [2, 3] }, { data := Racoon.NodeData.element "head" none, children := [] }, { data := Racoon.NodeData.element "body" none, children := [4] }, { data := Racoon.NodeData.text "A", children := [] }] }, root_node := some 0, foster_parenting := false, frameset_ok := false, active_formatting_elements := [], head_element_pointer := some 2, form_element_pointer := none, minorLog := [] }, { self_closed := false, tokenizer_state := none }) := by
  rw [token_emitted.eq_def]
  simp [c7dec_hop4, initial_insertion_mode, before_html_insertion_mode, before_html_anything_else, before_head_insertion_mode, before_head_anything_else, in_head_insertion_mode, in_head_anything_else, after_head_insertion_mode, after_head_anything_else, ParserState.insert_an_html_element, ParserState.insert_foreign_element, ParserState.insert_create_an_element_for_the_token_result, create_an_element_for_the_token, create_element, ParserState.new_node, Arena.new_node, Arena.append_child, Arena.get?, Arena.dataOf?, Arena.last_child, Arena.isTextId, Arena.extend_text, ParserState.insert_character, ParserState.appropriate_place_for_inserting_a_node, ParserState.popExpect, ParserState.current_node_id?, ParserState.current_node?, ParserState.current_element?, ParserState.add_attribute_to_element, ParserState.insert_a_comment, ParserState.reconstruct_the_active_formatting_elements, isTreeWhitespace, chars.CHARACTER_TABULATION, chars.LINE_FEED, chars.FORM_FEED, chars.CARRIAGE_RETURN, chars.SPACE, chars.NULL, TagToken.new, HTML_NAMESPACE, IN_HEAD_DELEGATED, Acknowledgement.no, Acknowledgement.yes, TagTokenType.self_closing, TagTokenType.tag_name, DefaultParseErrorHandler.error_emitted, ParserState.handle_error, Bind.bind, Except.bind, Pure.pure, Except.pure, Except.map]
  all_goals decide

theorem c7dec_hop2 : token_emitted 284 { insertion_mode := Racoon.InsertionMode.BeforeHead, template_insertion_modes := [], original_insertion_mode := none, open_elements := [1], context_element := none, arena := { nodes := [{ data := Racoon.NodeData.document, children := [1] }, { data := Racoon.NodeData.element "html" none, children := [] }] }, root_node := some 0, foster_parenting := false, frameset_ok := true, active_formatting_elements := [], head_element_pointer := none, form_element_pointer := none, minorLog := [] } (Racoon.HtmlToken.Character 'A') =
    Except.ok ({ insertion_mode := Racoon.InsertionMode.InBody, template_insertion_modes := [], original_insertion_mode := none, open_elements := [1, 3], context_element := none, arena := { nodes := [{ data := Racoon.NodeData.document, children := [1] }, { data := Racoon.NodeData.element "html" none, children := [2, 3] }, { data := Racoon.NodeData.element "head" none, children := [] }, { data := Racoon.NodeData.element "body" none, children := [4] }, { data := Racoon.NodeData.text "A", children := [] }] }, root_node := some 0, foster_parenting := false, frameset_ok := false, active_formatting_elements := [], head_element_pointer := some 2, form_element_pointer := none, minorLog := [] }, { self_closed := false, tokenizer_state := none }) := by
  rw [token_emitted.eq_def]
  simp [c7dec_hop3, initial_insertion_mode, before_html_insertion_mode, before_html_anything_else, before_head_insertion_mode, before_head_anything_else, in_head_insertion_mode, in_head_anything_else, after_head_insertion_mode, after_head_anything_else, ParserState.insert_an_html_element, ParserState.insert_foreign_element, ParserState.insert_create_an_element_for_the_token_result, create_an_element_for_the_token, create_element, ParserState.new_node, Arena.new_node, Arena.append_child, Arena.get?, Arena.dataOf?, Arena.last_child, Arena.isTextId, Arena.extend_text, ParserState.insert_character, ParserState.appropriate_place_for_inserting_a_node, ParserState.popExpect, ParserState.current_node_id?, ParserState.current_node?, ParserState.current_element?, ParserState.add_attribute_to_element, ParserState.insert_a_comment, ParserState.reconstruct_the_active_formatting_elements, isTreeWhitespace, chars.CHARACTER_TABULATION, chars.LINE_FEED, chars.FORM_FEED, chars.CARRIAGE_RETURN, chars.SPACE, chars.NULL, TagToken.new, HTML_NAMESPACE, IN_HEAD_DELEGATED, Acknowledgement.no, Acknowledgement.yes, TagTokenType.self_closing, TagTokenType.tag_name, DefaultParseErrorHandler.error_emitted, ParserState.handle_error, Bind.bind, Except.bind, Pure.pure, Except.pure, Except.map]
  all_goals decide

theorem c7dec_hop1 : token_emitted 287 { insertion_mode := Racoon.InsertionMode.BeforeHtml, template_insertion_modes := [], original_insertion_mode := none, open_elements := [], context_element := none, arena := { nodes := [{ data := Racoon.NodeData.document, children := [] }] }, root_node := some 0, foster_parenting := false, frameset_ok := true, active_formatting_elements := [], head_element_pointer := none, form_element_pointer := none, minorLog := [] } (Racoon.HtmlToken.Character 'A') =
    Except.ok ({ insertion_mode := Racoon.InsertionMode.InBody, template_insertion_modes := [], original_insertion_mode := none, open_elements := [1, 3], context_element := none, arena := { nodes := [{ data := Racoon.NodeData.document, children := [1] }, { data := Racoon.NodeData.element "html" none, children := [2, 3] }, { data := Racoon.NodeData.element "head" none, children := [] }, { data := Racoon.NodeData.element "body" none, children := [4] }, { data := Racoon.NodeData.text "A", children := [] }] }, root_node := some 0, foster_parenting := false, frameset_ok := false, active_formatting_elements := [], head_element_pointer := some 2, form_element_pointer := none, minorLog := [] }, { self_closed := false, tokenizer_state := none }) := by
  rw [token_emitted.eq_def]
  simp [c7dec_hop2, initial_insertion_mode, before_html_insertion_mode, before_html_anything_else, before_head_insertion_mode, before_head_anything_else, in_head_insertion_mode, in_head_anything_else, after_head_insertion_mode, after_head_anything_else, ParserState.insert_an_html_element, ParserState.insert_foreign_element, ParserState.insert_create_an_element_for_the_token_result, create_an_element_for_the_token, create_element, ParserState.new_node, Arena.new_node, Arena.append_child, Arena.get?, Arena.dataOf?, Arena.last_child, Arena.isTextId, Arena.extend_text, ParserState.insert_character, ParserState.appropriate_place_for_inserting_a_node, ParserState.popExpect, ParserState.current_node_id?, ParserState.current_node?, ParserState.current_element?, ParserState.add_attribute_to_element, ParserState.insert_a_comment, ParserState.reconstruct_the_active_formatting_elements, isTreeWhitespace, chars.CHARACTER_TABULATION, chars.LINE_FEED, chars.FORM_FEED, chars.CARRIAGE_RETURN, chars.SPACE, chars.NULL, TagToken.new, HTML_NAMESPACE, IN_HEAD_DELEGATED, Acknowledgement.no, Acknowledgement.yes, TagTokenType.self_closing, TagTokenType.tag_name, DefaultParseErrorHandler.error_emitted, ParserState.handle_error, Bind.bind, Except.bind, Pure.pure, Except.pure, Except.map]
  all_goals decide

theorem c7dec_hop0 : token_emitted 289 { insertion_mode := Racoon.InsertionMode.Initial, template_insertion_modes := [], original_insertion_mode := none, open_elements := [], context_element := none, arena := { nodes := [{ data := Racoon.NodeData.document, children := [] }] }, root_node := some 0, foster_parenting := false, frameset_ok := true, active_formatting_elements := [], head_element_pointer := none, form_element_pointer := none, minorLog := [] } (Racoon.HtmlToken.Character 'A') =
    Except.ok ({ insertion_mode := Racoon.InsertionMode.InBody, template_insertion_modes := [], original_insertion_mode := none, open_elements := [1, 3], context_element := none, arena := { nodes := [{ data := Racoon.NodeData.document, children := [1] }, { data := Racoon.NodeData.element "html" none, children := [2, 3] }, { data := Racoon.NodeData.element "head" none, children := [] }, { data := Racoon.NodeData.element "body" none, children := [4] }, { data := Racoon.NodeData.text "A", children := [] }] }, root_node := some 0, foster_parenting := false, frameset_ok := false, active_formatting_elements := [], head_element_pointer := some 2, form_element_pointer := none, minorLog := [] }, { self_closed := false, tokenizer_state := none }) := by
  rw [token_emitted.eq_def]
  simp [c7dec_hop1, initial_insertion_mode, before_html_insertion_mode, before_html_anything_else, before_head_insertion_mode, before_head_anything_else, in_head_insertion_mode, in_head_anything_else, after_head_insertion_mode, after_head_anything_else, ParserState.insert_an_html_element, ParserState.insert_foreign_element, ParserState.insert_create_an_element_for_the_token_result, create_an_element_for_the_token, create_element, ParserState.new_node, Arena.new_node, Arena.append_child, Arena.get?, Arena.dataOf?, Arena.last_child, Arena.isTextId, Arena.extend_text, ParserState.insert_character, ParserState.appropriate_place_for_inserting_a_node, ParserState.popExpect, ParserState.current_node_id?, ParserState.current_node?, ParserState.current_element?, ParserState.add_attribute_to_element, ParserState.insert_a_comment, ParserState.reconstruct_the_active_formatting_elements, isTreeWhitespace, chars.CHARACTER_TABULATION, chars.LINE_FEED, chars.FORM_FEED, chars.CARRIAGE_RETURN, chars.SPACE, chars.NULL, TagToken.new, HTML_NAMESPACE, IN_HEAD_DELEGATED, Acknowledgement.no, Acknowledgement.yes, TagTokenType.self_closing, TagTokenType.tag_name, DefaultParseErrorHandler.error_emitted, ParserState.handle_error, Bind.bind, Except.bind, Pure.pure, Except.pure, Except.map]
  all_goals decide

theorem c7dec_step0 : step 299 ['&', '#', '6', '5', ';', 'x'] TokState.initial =
    Except.ok { state := Racoon.TokenizerState.CharacterReference, return_state := some (Racoon.TokenizerState.Data), temporary_buffer := [], pos := 1, parser := { insertion_mode := Racoon.InsertionMode.Initial, template_insertion_modes := [], original_insertion_mode := none, open_elements := [], context_element := none, arena := { nodes := [{ data := Racoon.NodeData.document, children := [] }] }, root_node := some 0, foster_parenting := false, frameset_ok := true, active_formatting_elements := [], head_element_pointer := none, form_element_pointer := none, minorLog := [] }, comment_token := none, doctype_token := none, tag_token := none, attribute_name := none, character_reference_code := 0, last_emitted_start_tag := none } := by rfl

theorem c7dec_step1 : step 298 ['&', '#', '6', '5', ';', 'x'] { state := Racoon.TokenizerState.CharacterReference, return_state := some (Racoon.TokenizerState.Data), temporary_buffer := [], pos := 1, parser := { insertion_mode := Racoon.InsertionMode.Initial, template_insertion_modes := [], original_insertion_mode := none, open_elements := [], context_element := none, arena := { nodes := [{ data := Racoon.NodeData.document, children := [] }] }, root_node := some 0, foster_parenting := false, frameset_ok := true, active_formatting_elements := [], head_element_pointer := none, form_element_pointer := none, minorLog := [] }, comment_token := none, doctype_token := none, tag_token := none, attribute_name := none, character_reference_code := 0, last_emitted_start_tag := none } =
    Except.ok { state := Racoon.TokenizerState.NumericCharacterReference, return_state := some (Racoon.TokenizerState.Data), temporary_buffer := ['&', '#'], pos := 2, parser := { insertion_mode := Racoon.InsertionMode.Initial, template_insertion_modes := [], original_insertion_mode := none, open_elements := [], context_element := none, arena := { nodes := [{ data := Racoon.NodeData.document, children := [] }] }, root_node := some 0, foster_parenting := false, frameset_ok := true, active_formatting_elements := [], head_element_pointer := none, form_element_pointer := none, minorLog := [] }, comment_token := none, doctype_token := none, tag_token := none, attribute_name := none, character_reference_code := 0, last_emitted_start_tag := none } := by rfl

theorem c7dec_step2 : step 297 ['&', '#', '6', '5', ';', 'x'] { state := Racoon.TokenizerState.NumericCharacterReference, return_state := some (Racoon.TokenizerState.Data), temporary_buffer := ['&', '#'], pos := 2, parser := { insertion_mode := Racoon.InsertionMode.Initial, template_insertion_modes := [], original_insertion_mode := none, open_elements := [], context_element := none, arena := { nodes := [{ data := Racoon.NodeData.document, children := [] }] }, root_node := some 0, foster_parenting := false, frameset_ok := true, active_formatting_elements := [], head_element_pointer := none, form_element_pointer := none, minorLog := [] }, comment_token := none, doctype_token := none, tag_token := none, attribute_name := none, character_reference_code := 0, last_emitted_start_tag := none } =
    Except.ok { state := Racoon.TokenizerState.DecimalCharacterReference, return_state := some (Racoon.TokenizerState.Data), temporary_buffer := ['&', '#'], pos := 3, parser := { insertion_mode := Racoon.InsertionMode.Initial, template_insertion_modes := [], original_insertion_mode := none, open_elements := [], context_element := none, arena := { nodes := [{ data := Racoon.NodeData.document, children := [] }] }, root_node := some 0, foster_parenting := false, frameset_ok := true, active_formatting_elements := [], head_element_pointer := none, form_element_pointer := none, minorLog := [] }, comment_token := none, doctype_token := none, tag_token := none, attribute_name := none, character_reference_code := 6, last_emitted_start_tag := none } := by rfl

theorem c7dec_step3 : step 296 ['&', '#', '6', '5', ';', 'x'] { state := Racoon.TokenizerState.DecimalCharacterReference, return_state := some (Racoon.TokenizerState.Data), temporary_buffer := ['&', '#'], pos := 3, parser := { insertion_mode := Racoon.InsertionMode.Initial, template_insertion_modes := [], original_insertion_mode := none, open_elements := [], context_element := none, arena := { nodes := [{ data := Racoon.NodeData.document, children := [] }] }, root_node := some 0, foster_parenting := false, frameset_ok := true, active_formatting_elements := [], head_element_pointer := none, form_element_pointer := none, minorLog := [] }, comment_token := none, doctype_token := none, tag_token := none, attribute_name := none, character_reference_code := 6, last_emitted_start_tag := none } =
    Except.ok { state := Racoon.TokenizerState.DecimalCharacterReference, return_state := some (Racoon.TokenizerState.Data), temporary_buffer := ['&', '#'], pos := 4, parser := { insertion_mode := Racoon.InsertionMode.Initial, template_insertion_modes := [], original_insertion_mode := none, open_elements := [], context_element := none, arena := { nodes := [{ data := Racoon.NodeData.document, children := [] }] }, root_node := some 0, foster_parenting := false, frameset_ok := true, active_formatting_elements := [], head_element_pointer := none, form_element_pointer := none, minorLog := [] }, comment_token := none, doctype_token := none, tag_token := none, attribute_name := none, character_reference_code := 65, last_emitted_start_tag := none } := by rfl

theorem c7dec_step4 : step 295 ['&', '#', '6', '5', ';', 'x'] { state := Racoon.TokenizerState.DecimalCharacterReference, return_state := some (Racoon.TokenizerState.Data), temporary_buffer := ['&', '#'], pos := 4, parser := { insertion_mode := Racoon.InsertionMode.Initial, template_insertion_modes := [], original_insertion_mode := none, open_elements := [], context_element := none, arena := { nodes := [{ data := Racoon.NodeData.document, children := [] }] }, root_node := some 0, foster_parenting := false, frameset_ok := true, active_formatting_elements := [], head_element_pointer := none, form_element_pointer := none, minorLog := [] }, comment_token := none, doctype_token := none, tag_token := none, attribute_name := none, character_reference_code := 65, last_emitted_start_tag := none } =
    Except.ok { state := Racoon.TokenizerState.NumericCharacterReferenceEnd, return_state := some (Racoon.TokenizerState.Data), temporary_buffer := ['&', '#'], pos := 5, parser := { insertion_mode := Racoon.InsertionMode.Initial, template_insertion_modes := [], original_insertion_mode := none, open_elements := [], context_element := none, arena := { nodes := [{ data := Racoon.NodeData.document, children := [] }] }, root_node := some 0, foster_parenting := false, frameset_ok := true, active_formatting_elements := [], head_element_pointer := none, form_element_pointer := none, minorLog := [] }, comment_token := none, doctype_token := none, tag_token := none, attribute_name := none, character_reference_code := 65, last_emitted_start_tag := none } := by rfl

theorem c7dec_step5 : step 294 ['&', '#', '6', '5', ';', 'x'] { state := Racoon.TokenizerState.NumericCharacterReferenceEnd, return_state := some (Racoon.TokenizerState.Data), temporary_buffer := ['&', '#'], pos := 5, parser := { insertion_mode := Racoon.InsertionMode.Initial, template_insertion_modes := [], original_insertion_mode := none, open_elements := [], context_element := none, arena := { nodes := [{ data := Racoon.NodeData.document, children := [] }] }, root_node := some 0, foster_parenting := false, frameset_ok := true, active_formatting_elements := [], head_element_pointer := none, form_element_pointer := none, minorLog := [] }, comment_token := none, doctype_token := none, tag_token := none, attribute_name := none, character_reference_code := 65, last_emitted_start_tag := none } =
    Except.ok { state := Racoon.TokenizerState.Data, return_state := some (Racoon.TokenizerState.Data), temporary_buffer := [], pos := 5, parser := { insertion_mode := Racoon.InsertionMode.InBody, template_insertion_modes := [], original_insertion_mode := none, open_elements := [1, 3], context_element := none, arena := { nodes := [{ data := Racoon.NodeData.document, children := [1] }, { data := Racoon.NodeData.element "html" none, children := [2, 3] }, { data := Racoon.NodeData.element "head" none, children := [] }, { data := Racoon.NodeData.element "body" none, children := [4] }, { data := Racoon.NodeData.text "A", children := [] }] }, root_node := some 0, foster_parenting := false, frameset_ok := false, active_formatting_elements := [], head_element_pointer := some 2, form_element_pointer := none, minorLog := [] }, comment_token := none, doctype_token := none, tag_token := none, attribute_name := none, character_reference_code := 65, last_emitted_start_tag := none } := by
  rw [step.eq_def]
  simp [c7dec_hop0, data_state, tag_open_state, end_tag_open_state, tag_name_state, before_attribute_name_state, attribute_name_state, after_attribute_name_state, before_attribute_value_state, attribute_value_double_quoted_state, attribute_value_single_quoted_state, attribute_value_unquoted_state, after_attribute_value_quoted_state, self_closing_start_tag_state, emit, emit_current_tag_token, TokState.with_tag_token, TokState.set_self_closing, TokState.push_char_to_tag_name, TokState.handle_error, TokState.charref_in_attribute, cursorNext, cursorCurrent, cursorPeek, cursorPrev, cursorNextAdd, chars.NULL, DefaultTokenizerErrorHandler.error_emitted, character_reference_state, named_character_reference_state, ambiguous_ampersand_state, numeric_character_reference_state, decimal_character_reference_start_state, decimal_character_reference_state, numeric_character_reference_end_state, flush_code_points, flush_chars, TokState.current_return_state, TokState.push_char_to_attribute_value, TokState.with_current_attribute, TokState.create_new_attribute, TokState.push_char_to_attribute_name, longestMatchingRef, namedRefReplacement, NAMED_CHARACTER_REFS, NAMED_CHARACTER_REFS_MAX_LENGTH, cursorPeekMultiple, is_surrogate, is_noncharacter, is_control, is_ascii_whitespace_code, numericRefEndLookup, NUMERIC_CHARACTER_REF_END_TABLE, Bind.bind, Except.bind, Pure.pure, Except.pure, Except.map]
  all_goals decide

theorem c7dec_step6 : step 293 ['&', '#', '6', '5', ';', 'x'] { state := Racoon.TokenizerState.Data, return_state := some (Racoon.TokenizerState.Data), temporary_buffer := [], pos := 5, parser := { insertion_mode := Racoon.InsertionMode.InBody, template_insertion_modes := [], original_insertion_mode := none, open_elements := [1, 3], context_element := none, arena := { nodes := [{ data := Racoon.NodeData.document, children := [1] }, { data := Racoon.NodeData.element "html" none, children := [2, 3] }, { data := Racoon.NodeData.element "head" none, children := [] }, { data := Racoon.NodeData.element "body" none, children := [4] }, { data := Racoon.NodeData.text "A", children := [] }] }, root_node := some 0, foster_parenting := false, frameset_ok := false, active_formatting_elements := [], head_element_pointer := some 2, form_element_pointer := none, minorLog := [] }, comment_token := none, doctype_token := none, tag_token := none, attribute_name := none, character_reference_code := 65, last_emitted_start_tag := none } =
    Except.ok { state := Racoon.TokenizerState.Data, return_state := some (Racoon.TokenizerState.Data), temporary_buffer := [], pos := 6, parser := { insertion_mode := Racoon.InsertionMode.InBody, template_insertion_modes := [], original_insertion_mode := none, open_elements := [1, 3], context_element := none, arena := { nodes := [{ data := Racoon.NodeData.document, children := [1] }, { data := Racoon.NodeData.element "html" none, children := [2, 3] }, { data := Racoon.NodeData.element "head" none, children := [] }, { data := Racoon.NodeData.element "body" none, children := [4] }, { data := Racoon.NodeData.text "Ax", children := [] }] }, root_node := some 0, foster_parenting := false, frameset_ok := false, active_formatting_elements := [], head_element_pointer := some 2, form_element_pointer := none, minorLog := [] }, comment_token := none, doctype_token := none, tag_token := none, attribute_name := none, character_reference_code := 65, last_emitted_start_tag := none } := by rfl

theorem c7dec_run : tokenizer_run 300 ['&', '#', '6', '5', ';', 'x'] TokState.initial =
    Except.ok { state := Racoon.TokenizerState.Data, return_state := some (Racoon.TokenizerState.Data), temporary_buffer := [], pos := 6, parser := { insertion_mode := Racoon.InsertionMode.InBody, template_insertion_modes := [], original_insertion_mode := none, open_elements := [1, 3], context_element := none, arena := { nodes := [{ data := Racoon.NodeData.document, children := [1] }, { data := Racoon.NodeData.element "html" none, children := [2, 3] }, { data := Racoon.NodeData.element "head" none, children := [] }, { data := Racoon.NodeData.element "body" none, children := [4] }, { data := Racoon.NodeData.text "Ax", children := [] }] }, root_node := some 0, foster_parenting := false, frameset_ok := false, active_formatting_elements := [], head_element_pointer := some 2, form_element_pointer := none, minorLog := [] }, comment_token := none, doctype_token := none, tag_token := none, attribute_name := none, character_reference_code := 65, last_emitted_start_tag := none } := by
  rw [tokenizer_run_step_ok 299 (by decide) c7dec_step0]
  rw [tokenizer_run_step_ok 298 (by decide) c7dec_step1]
  rw [tokenizer_run_step_ok 297 (by decide) c7dec_step2]
  rw [tokenizer_run_step_ok 296 (by decide) c7dec_step3]
  rw [tokenizer_run_step_ok 295 (by decide) c7dec_step4]
  rw [tokenizer_run_step_ok 294 (by decide) c7dec_step5]
  rw [tokenizer_run_step_ok 293 (by decide) c7dec_step6]
  rw [tokenizer_run_done 292 (by decide)]


/-! ### Concrete-run claim theorems -/

/-- Helper: the stale-variable pop loop of the adoption agency never
terminates when the captured current node differs from the formatting
element: both loop variables are fixed before the loop, so the condition
never changes. -/
theorem aaPopWhile_stale (cur fid : Nat) (h : ¬ cur = fid) :
    ∀ (fuel : Nat) (stack : List Nat), aaPopWhile fuel cur fid stack = .error .noFuel := by
  intro fuel
  induction fuel with
  | zero => intro stack; unfold aaPopWhile; rw [if_neg h]
  | succ f ih => intro stack; unfold aaPopWhile; rw [if_neg h]; exact ih _

/-- The tree-builder state reached by parsing `<a><span>`: open elements
`html, body, a, span` (ids 1, 3, 4, 5) and `a` on the active formatting
list. -/
def c2P : ParserState := { insertion_mode := Racoon.InsertionMode.InBody, template_insertion_modes := [], original_insertion_mode := none, open_elements := [1, 3, 4, 5], context_element := none, arena := { nodes := [{ data := Racoon.NodeData.document, children := [1] }, { data := Racoon.NodeData.element "html" none, children := [2, 3] }, { data := Racoon.NodeData.element "head" none, children := [] }, { data := Racoon.NodeData.element "body" none, children := [4] }, { data := Racoon.NodeData.element "a" none, children := [5] }, { data := Racoon.NodeData.element "span" none, children := [] }] }, root_node := some 0, foster_parenting := false, frameset_ok := true, active_formatting_elements := [Racoon.NodeOrMarker.Node 4 { tag_name := "a", self_closing := false, attributes := [] }], head_element_pointer := some 2, form_element_pointer := none, minorLog := [] }

/-- From the state reached by `<a><span>`, handling the `</a>` end tag runs
the adoption agency into its stale pop loop: no amount of fuel completes
it. -/
theorem c2_aa_noFuel : ∀ fuel : Nat,
    adoption_agency_algorithm fuel c2P (TagToken.new "a") = .error .noFuel := by
  intro fuel
  match fuel with
  | 0 => rfl
  | 1 => rfl
  | (g+2) =>
    show Except.bind (aaPopWhile g 5 4 [1, 3, 4, 5]) _ = Except.error Halt.noFuel
    rw [aaPopWhile_stale 5 4 (by decide) g]
    rfl

/-- C2, code_bug.  The adoption agency algorithm does not terminate on a
reachable state: parsing `<a><span>` succeeds and leaves `a` in the active
formatting list with `span` as the current node; handling the subsequent
`</a>` end tag enters the no-furthest-block pop loop whose condition
compares two variables fixed before the loop (`current_node_id` against the
formatting element's id), so no fuel bound suffices — refuting the claim
that every invocation terminates after bounded work and that the
no-furthest-block case pops down to the formatting element and returns. -/
theorem c2_adoption_agency_pop_loop_diverges :
    ∃ ts : TokState, parse 300 "<a><span>" = .ok ts ∧
      ∀ fuel : Nat, adoption_agency_algorithm fuel ts.parser (TagToken.new "a") =
        .error .noFuel := by
  refine ⟨{ state := Racoon.TokenizerState.Data, return_state := none, temporary_buffer := [], pos := 9, parser := { insertion_mode := Racoon.InsertionMode.InBody, template_insertion_modes := [], original_insertion_mode := none, open_elements := [1, 3, 4, 5], context_element := none, arena := { nodes := [{ data := Racoon.NodeData.document, children := [1] }, { data := Racoon.NodeData.element "html" none, children := [2, 3] }, { data := Racoon.NodeData.element "head" none, children := [] }, { data := Racoon.NodeData.element "body" none, children := [4] }, { data := Racoon.NodeData.element "a" none, children := [5] }, { data := Racoon.NodeData.element "span" none, children := [] }] }, root_node := some 0, foster_parenting := false, frameset_ok := true, active_formatting_elements := [Racoon.NodeOrMarker.Node 4 { tag_name := "a", self_closing := false, attributes := [] }], head_element_pointer := some 2, form_element_pointer := none, minorLog := [] }, comment_token := none, doctype_token := none, tag_token := none, attribute_name := none, character_reference_code := 0, last_emitted_start_tag := some { tag_name := "span", self_closing := false, attributes := [] } }, ?_, ?_⟩
  · unfold parse
    rw [show ("<a><span>" : String).data = ['<', 'a', '>', '<', 's', 'p', 'a', 'n', '>'] from rfl]
    exact c2_run
  · exact c2_aa_noFuel

/-- C1, code_bug.  Parsing the canonical adoption-agency input
`<p>1<b>2<i>3</p>4</i>5</b>` does not produce the repaired tree the claim
describes (`p` holding `1`, a `b` holding `2`, an `i` holding `3`, then an
`i` holding `4` and a `b` holding `5` outside the `p`): the whole run
flattens the formatting, yielding a `p` whose only child is the text `123`
and a sibling text `45`, with no `b` or `i` element anywhere in the
document. -/
theorem c1_adoption_agency_seed_parse_flattens_formatting :
    (parse 300 "<p>1<b>2<i>3</p>4</i>5</b>").map (fun ts => renderDocument ts.parser) =
      .ok (some (DomShape.doc [DomShape.el "html" [DomShape.el "head" [],
        DomShape.el "body" [DomShape.el "p" [DomShape.txt "123"],
          DomShape.txt "45"]]])) ∧
    (parse 300 "<p>1<b>2<i>3</p>4</i>5</b>").map (fun ts => renderDocument ts.parser) ≠
      .ok (some (DomShape.doc [DomShape.el "html" [DomShape.el "head" [],
        DomShape.el "body" [DomShape.el "p" [DomShape.txt "1",
            DomShape.el "b" [DomShape.txt "2", DomShape.el "i" [DomShape.txt "3"]]],
          DomShape.el "i" [DomShape.txt "4"], DomShape.el "b" [DomShape.txt "5"]]]])) := by
  have hrun : (parse 300 "<p>1<b>2<i>3</p>4</i>5</b>").map (fun ts => renderDocument ts.parser) =
      .ok (some (DomShape.doc [DomShape.el "html" [DomShape.el "head" [],
        DomShape.el "body" [DomShape.el "p" [DomShape.txt "123"],
          DomShape.txt "45"]]])) := by
    unfold parse
    rw [show ("<p>1<b>2<i>3</p>4</i>5</b>" : String).data =
      ['<', 'p', '>', '1', '<', 'b', '>', '2', '<', 'i', '>', '3', '<', '/', 'p', '>', '4', '<', '/', 'i', '>', '5', '<', '/', 'b', '>'] from rfl]
    rw [c1_run]
    rfl
  refine ⟨hrun, ?_⟩
  rw [hrun]
  simp

/-- C4, code_bug.  Against the claim that every self-closing start tag of a
non-void element leads to exactly one of acknowledgement or a
`NonVoidHtmlElementStartTagWithTrailingSolidus` error: processing the
non-void self-closing `<table/>` reaches the `todo!()` of the `table` arm
and panics, so neither happens; and the re-dispatch machinery discards
acknowledgements: for `<br/>` the `InBody` handler acknowledges the flag
(third conjunct) yet the intermediate-mode wrappers return a fresh
unacknowledged result, so the full parse still delivers the error and
aborts (second conjunct). -/
theorem c4_self_closing_acknowledgement_not_exactly_once :
    parse 300 "<table/>" = .error .panicked ∧
    parse 300 "<br/>" =
      .error (.fatalTree .NonVoidHtmlElementStartTagWithTrailingSolidus) ∧
    ∃ r : ParserState × Acknowledgement,
      token_emitted 277 { insertion_mode := Racoon.InsertionMode.InBody, template_insertion_modes := [], original_insertion_mode := none, open_elements := [1, 3], context_element := none, arena := { nodes := [{ data := Racoon.NodeData.document, children := [1] }, { data := Racoon.NodeData.element "html" none, children := [2, 3] }, { data := Racoon.NodeData.element "head" none, children := [] }, { data := Racoon.NodeData.element "body" none, children := [] }] }, root_node := some 0, foster_parenting := false, frameset_ok := true, active_formatting_elements := [], head_element_pointer := some 2, form_element_pointer := none, minorLog := [] } (Racoon.HtmlToken.TagTok (Racoon.TagTokenType.StartTag { tag_name := "br", self_closing := true, attributes := [] })) = .ok r ∧ r.2.self_closed = true := by
  refine ⟨?_, ?_, ?_⟩
  · unfold parse
    rw [show ("<table/>" : String).data = ['<', 't', 'a', 'b', 'l', 'e', '/', '>'] from rfl]
    exact c4tbl_run
  · unfold parse
    rw [show ("<br/>" : String).data = ['<', 'b', 'r', '/', '>'] from rfl]
    exact c4_run
  · exact ⟨_, c4_hop5, rfl⟩

/-- C6, counterexample.  Inside the attribute value `"&ampbc"` the longest
table match is `&amp` (no semicolon) and the next character `b` is
alphanumeric, so the legacy rule suppresses expansion; but instead of the
consumed characters appearing literally (`&ampbc`), the attribute receives
a doubled ampersand (`&&ampbc`): the temporary buffer already holds the
`&` that entered the character-reference state and the matched table key
carries its own leading `&`. -/
theorem c6_counterexample_suppression_doubles_ampersand :
    (parse 300 "<a href=\"&ampbc\"></a>").map (fun ts => renderDocument ts.parser) =
      .ok (some (DomShape.doc [DomShape.el "html" [DomShape.el "head" [],
        DomShape.el "body" [DomShape.el "a" [DomShape.attr "href" "&&ampbc"]]]])) ∧
    ("&&ampbc" : String) ≠ "&ampbc" := by
  constructor
  · unfold parse
    rw [show ("<a href=\"&ampbc\"></a>" : String).data =
      ['<', 'a', ' ', 'h', 'r', 'e', 'f', '=', '"', '&', 'a', 'm', 'p', 'b', 'c', '"', '>', '<', '/', 'a', '>'] from rfl]
    rw [c6cex_run]
    rfl
  · decide

/-- C6, corrected.  The seed test holds: `<a href="?a=1&amp;b=2"></a>`
yields an `a` element whose single `href` attribute is exactly `?a=1&b=2`
(the `&amp;` match ends in `;`, so it expands).  When the legacy rule
suppresses expansion (match without `;`, next character `=` or
alphanumeric), the consumed characters are not appended literally: the
attribute receives the temporary buffer's `&` followed by the matched key
(which itself starts with `&`), doubling the ampersand — `"&ampbc"`
becomes `&&ampbc`. -/
theorem c6_charref_in_attribute_behaviour :
    (parse 300 "<a href=\"?a=1&amp;b=2\"></a>").map (fun ts => renderDocument ts.parser) =
      .ok (some (DomShape.doc [DomShape.el "html" [DomShape.el "head" [],
        DomShape.el "body" [DomShape.el "a" [DomShape.attr "href" "?a=1&b=2"]]]])) ∧
    (parse 300 "<a href=\"&ampbc\"></a>").map (fun ts => renderDocument ts.parser) =
      .ok (some (DomShape.doc [DomShape.el "html" [DomShape.el "head" [],
        DomShape.el "body" [DomShape.el "a" [DomShape.attr "href" "&&ampbc"]]]])) := by
  constructor
  · unfold parse
    rw [show ("<a href=\"?a=1&amp;b=2\"></a>" : String).data =
      ['<', 'a', ' ', 'h', 'r', 'e', 'f', '=', '"', '?', 'a', '=', '1', '&', 'a', 'm', 'p', ';', 'b', '=', '2', '"', '>', '<', '/', 'a', '>'] from rfl]
    rw [c6amp_run]
    rfl
  · unfold parse
    rw [show ("<a href=\"&ampbc\"></a>" : String).data =
      ['<', 'a', ' ', 'h', 'r', 'e', 'f', '=', '"', '&', 'a', 'm', 'p', 'b', 'c', '"', '>', '<', '/', 'a', '>'] from rfl]
    rw [c6cex_run]
    rfl

/-- A tokenizer state about to run the numeric-character-reference-end
state with an accumulated code point (as after `&#128;`), used to exhibit
the end state's behaviour under the default error handler. -/
def c7T80 : TokState :=
  { state := .NumericCharacterReferenceEnd, return_state := some .Data,
    temporary_buffer := ['&', '#'], pos := 0, parser := ParserState.initial,
    comment_token := none, doctype_token := none, tag_token := none,
    attribute_name := none, character_reference_code := 0x80,
    last_emitted_start_tag := none }

/-- C7, code_bug.  Hexadecimal numeric references panic (`&#x41;` reaches
the `todo!()` hexadecimal start state), so the claimed remap-and-emit never
happens for them; the decimal pipeline works (`&#65;x` parses to the text
`Ax`); and with the default error handler installed by `parse`, the C1
remap itself is unreachable: an accumulated `0x80` aborts with
`ControlCharacterReference` before the 27-entry table (whose first entry
maps `0x80` to `0x20AC`) is consulted, a surrogate aborts with
`SurrogateCharacterReference` instead of becoming U+FFFD, and a value above
`0x10FFFF` aborts with `CharacterReferenceOutsideUnicodeRange`. -/
theorem c7_numeric_reference_end_behaviour :
    parse 300 "&#x41;" = .error .panicked ∧
    (parse 300 "&#65;x").map (fun ts => renderDocument ts.parser) =
      .ok (some (DomShape.doc [DomShape.el "html" [DomShape.el "head" [],
        DomShape.el "body" [DomShape.txt "Ax"]]])) ∧
    numeric_character_reference_end_state 50 [] c7T80 =
      .error (.fatalTok .ControlCharacterReference) ∧
    numeric_character_reference_end_state 50 []
        { c7T80 with character_reference_code := 0xD800 } =
      .error (.fatalTok .SurrogateCharacterReference) ∧
    numeric_character_reference_end_state 50 []
        { c7T80 with character_reference_code := 0x110000 } =
      .error (.fatalTok .CharacterReferenceOutsideUnicodeRange) ∧
    numericRefEndLookup 0x80 = some 0x20AC := by
  refine ⟨?_, ?_, rfl, rfl, rfl, rfl⟩
  · unfold parse
    rw [show ("&#x41;" : String).data = ['&', '#', 'x', '4', '1', ';'] from rfl]
    exact c7hex_run
  · unfold parse
    rw [show ("&#65;x" : String).data = ['&', '#', '6', '5', ';', 'x'] from rfl]
    rw [c7dec_run]
    rfl

/-! ### Script handling and close_a_p_element -/

/-- Number of `p` elements on a stack of node ids (a measuring device for
stating that an operation removes no `p` element). -/
def countPOnStack (a : Arena) (stack : List Nat) : Nat :=
  (stack.filter (fun id =>
    match a.dataOf? id with
    | some (.element n _) => n == "p"
    | _ => false)).length

/-- The pop loop of `generate_implied_end_tags` with `p` excluded never
pops a `p` element: the walk stops at the excluded name, so the number of
`p` elements on the stack is unchanged. -/
theorem impliedWalk_excluded_count (a : Arena) :
    ∀ l : List Nat, countPOnStack a (impliedWalk a (some "p") l) = countPOnStack a l := by
  intro l
  induction l with
  | nil => rfl
  | cons id rest ih =>
    unfold impliedWalk
    cases hd : a.dataOf? id with
    | none => simpa [countPOnStack, hd] using ih
    | some d =>
      cases d with
      | element n ns =>
        by_cases he : (some "p" : Option String) = some n
        · simp [hd, he]
        · simp only [hd, he, if_false]
          by_cases hg : n ∈ GENERATE_IMPLIED_END_TAG_TYPES
          · have hnp : (n == "p") = false := by
              simp only [Option.some.injEq] at he
              simp [beq_eq_false_iff_ne]
              intro hEq; exact he hEq.symm
            simp only [hg, not_true_eq_false, if_false]
            simp [countPOnStack, hd, hnp] at ih ⊢
            exact ih
          · simp [hg]
      | document => simpa [countPOnStack, hd] using ih
      | attributeNode an av => simpa [countPOnStack, hd] using ih
      | text t => simpa [countPOnStack, hd] using ih
      | comment c => simpa [countPOnStack, hd] using ih

/-- Reversal preserves the `p` count of a stack. -/
theorem countPOnStack_reverse (a : Arena) (l : List Nat) :
    countPOnStack a l.reverse = countPOnStack a l := by
  simp [countPOnStack, List.filter_reverse]

/-- C10, confirmed.  When, after generating implied end tags excluding
`p`, the current node is an element whose name is not `p`,
`close_a_p_element` records the minor (recoverable) parse error and returns
at once: the resulting state is the implied-end-tags state with only the
error logged, and in particular the number of `p` elements on the stack of
open elements is exactly that of the starting state — none is removed. -/
theorem c10_close_a_p_element_minor_error_early_return
    (s : ParserState) (n : String) (ns : Option String)
    (h : (s.generate_implied_end_tags (some "p")).current_node? = some (.element n ns))
    (hn : ¬ n = "p") :
    ParserState.close_a_p_element s =
      .ok { s.generate_implied_end_tags (some "p") with
            minorLog := (s.generate_implied_end_tags (some "p")).minorLog ++
              ["closing a p element that is not the current node"] } ∧
    countPOnStack s.arena (s.generate_implied_end_tags (some "p")).open_elements =
      countPOnStack s.arena s.open_elements := by
  constructor
  · simp [ParserState.close_a_p_element, h, hn, ParserState.handle_error]
  · show countPOnStack s.arena
        ((impliedWalk s.arena (some "p") s.open_elements.reverse).reverse) = _
    rw [countPOnStack_reverse, impliedWalk_excluded_count, countPOnStack_reverse]

/-- A concrete state for the early-return path: `div` is the current node
and a `p` sits below it on the stack. -/
def c10W : ParserState :=
  { insertion_mode := .InBody, template_insertion_modes := [],
    original_insertion_mode := none, open_elements := [1, 2], context_element := none,
    arena := { nodes := [{ data := NodeData.document, children := [1] },
                         { data := NodeData.element "p" none, children := [2] },
                         { data := NodeData.element "div" none, children := [] }] },
    root_node := some 0, foster_parenting := false, frameset_ok := true,
    active_formatting_elements := [], head_element_pointer := none,
    form_element_pointer := none, minorLog := [] }

/-- Witness for C10 at the concrete state `c10W`. -/
theorem c10_close_a_p_element_early_return_witness :
    ParserState.close_a_p_element c10W =
      .ok { c10W.generate_implied_end_tags (some "p") with
            minorLog := (c10W.generate_implied_end_tags (some "p")).minorLog ++
              ["closing a p element that is not the current node"] } ∧
    countPOnStack c10W.arena (c10W.generate_implied_end_tags (some "p")).open_elements =
      countPOnStack c10W.arena c10W.open_elements :=
  c10_close_a_p_element_minor_error_early_return c10W "div" none (by rfl) (by decide)

/-- The tree-builder state with `html, head` open in the `InHead` mode that
a `<script>` start tag meets. -/
def c9P3 : ParserState :=
  { insertion_mode := .InHead, template_insertion_modes := [],
    original_insertion_mode := none, open_elements := [1, 2], context_element := none,
    arena := { nodes := [{ data := NodeData.document, children := [1] },
                         { data := NodeData.element "html" none, children := [2] },
                         { data := NodeData.element "head" none, children := [] }] },
    root_node := some 0, foster_parenting := false, frameset_ok := true,
    active_formatting_elements := [], head_element_pointer := some 2,
    form_element_pointer := none, minorLog := [] }

/-- The state the `<script>` start tag produces: the new script element
(id 3) occurs twice on the stack of open elements, the mode is `Text` and
the original mode `InHead`. -/
def c9PT : ParserState :=
  { insertion_mode := .Text, template_insertion_modes := [],
    original_insertion_mode := some .InHead, open_elements := [1, 2, 3, 3],
    context_element := none,
    arena := { nodes := [{ data := NodeData.document, children := [1] },
                         { data := NodeData.element "html" none, children := [2] },
                         { data := NodeData.element "head" none, children := [3] },
                         { data := NodeData.element "script" none, children := [] }] },
    root_node := some 0, foster_parenting := false, frameset_ok := true,
    active_formatting_elements := [], head_element_pointer := some 2,
    form_element_pointer := none, minorLog := [] }

/-- C9, confirmed.  Handling a `<script>` start tag in the `InHead` mode
pushes the new script element's id twice onto the stack of open elements
(`insert_an_html_element` pushes it and the handler pushes it again) and
switches to the `Text` mode; the matching `</script>` end tag handled in
the `Text` mode performs a single pop, leaving one occurrence of the
script element on the stack. -/
theorem c9_script_double_push_single_pop :
    (token_emitted 50 c9P3 (.TagTok (.StartTag
        { tag_name := "script", self_closing := false, attributes := [] }))).map
      (fun r => (r.1.open_elements, r.1.insertion_mode)) =
      .ok ([1, 2, 3, 3], .Text) ∧
    (token_emitted 50 c9PT (.TagTok (.EndTag
        { tag_name := "script", self_closing := false, attributes := [] }))).map
      (fun r => (r.1.open_elements, r.1.insertion_mode)) =
      .ok ([1, 2, 3], .InHead) := by
  constructor
  · rfl
  · rfl


end Racoon
